import Mathlib

/-!
# Frame lifecycle of the Axe engine

A shallow embedding of `axe_window`, `axe_swap_chain` and `axe_renderer`, and of
`AxeBuffer::GetAlignment`, `AxeModel::Data::LoadModel` and `PointLightSystem::Render`.

* Vulkan handles are natural numbers handed out by a counter kept in `AxeDevice`:
  every `vkCreate*` / `vkAllocate*` call returns a handle no other object has.
* Every Vulkan and GLFW call the embedded code makes is appended to `AxeDevice.calls`
  (oldest first), so ordering properties are statements about that list.
* Whatever the driver or the window system decides (result codes, the acquired image
  index, resize callbacks, surface capabilities) is an explicit `...Env` argument.
* A member function returns the state it leaves behind together with an `Outcome`:
  it returned a value, or it ended in a `Fault` (failed `assert` of a debug build,
  thrown `std::runtime_error`, a wait that never ends, a null dereference).
* `assert` is active, as in a debug build. A `vkWaitForFences` or `vkDeviceWaitIdle` returns:
  the source waits without a timeout and relies on the device finishing its work. The time
  line of the GPU is not part of the embedding; what is proved about fences is which waits
  the code makes and where.
* Clear colours, viewport depths and the aspect ratio are floating point and are left out.
* Where `LoadModel` and `Render` compare `float` values, the embedding is over a component
  type `F` that stands for the floats without NaN, read up to `==`; `Render` orders them by a
  linear order and its arithmetic is whatever `F` provides.
-/

namespace Axe

/-! ## Vulkan vocabulary -/

abbrev Handle := Nat
abbrev VkFence := Handle
abbrev VkSemaphore := Handle
abbrev VkCommandBuffer := Handle
abbrev VkImage := Handle
abbrev VkImageView := Handle
abbrev VkDeviceMemory := Handle
abbrev VkFramebuffer := Handle
abbrev VkRenderPass := Handle
abbrev VkSwapchainKHR := Handle

abbrev VkResult := Int
abbrev VK_SUCCESS : VkResult := 0
abbrev VK_SUBOPTIMAL_KHR : VkResult := 1000001003
abbrev VK_ERROR_OUT_OF_DATE_KHR : VkResult := -1000001004
abbrev VK_ERROR_DEVICE_LOST : VkResult := -4
abbrev VK_ERROR_SURFACE_LOST_KHR : VkResult := -1000000000

abbrev VkFormat := Nat
abbrev VK_FORMAT_B8G8R8A8_SRGB : VkFormat := 50
abbrev VK_FORMAT_D32_SFLOAT : VkFormat := 126
abbrev VK_FORMAT_D24_UNORM_S8_UINT : VkFormat := 129

abbrev VkColorSpaceKHR := Nat
abbrev VK_COLOR_SPACE_SRGB_NONLINEAR_KHR : VkColorSpaceKHR := 0

abbrev VkPresentModeKHR := Nat
abbrev VK_PRESENT_MODE_IMMEDIATE_KHR : VkPresentModeKHR := 0
abbrev VK_PRESENT_MODE_MAILBOX_KHR : VkPresentModeKHR := 1
abbrev VK_PRESENT_MODE_FIFO_KHR : VkPresentModeKHR := 2

/-- The largest `uint32_t`, `std::numeric_limits<uint32_t>::max()`. -/
abbrev UINT32_MAX : Nat := 2 ^ 32 - 1

structure VkExtent2D where
  width : Nat
  height : Nat
deriving DecidableEq, Repr

structure VkSurfaceFormatKHR where
  format : VkFormat
  colorSpace : VkColorSpaceKHR
deriving DecidableEq, Repr

structure VkSurfaceCapabilitiesKHR where
  minImageCount : Nat
  maxImageCount : Nat
  currentExtent : VkExtent2D
  minImageExtent : VkExtent2D
  maxImageExtent : VkExtent2D
deriving DecidableEq, Repr

structure SwapChainSupportDetails where
  capabilities : VkSurfaceCapabilitiesKHR
  formats : List VkSurfaceFormatKHR
  presentModes : List VkPresentModeKHR
deriving DecidableEq, Repr

/-- One call into Vulkan or GLFW, with the arguments the code passes. -/
inductive VkCall where
  | glfwWaitEvents
  | vkDeviceWaitIdle
  | vkWaitForFences (fence : VkFence)
  | vkResetFences (fence : VkFence)
  | vkAcquireNextImageKHR (swapChain : VkSwapchainKHR) (semaphore : VkSemaphore)
  | vkQueueSubmit (commandBuffer : VkCommandBuffer) (waitSemaphore signalSemaphore : VkSemaphore)
      (fence : VkFence)
  | vkQueuePresentKHR (swapChain : VkSwapchainKHR) (imageIndex : Nat) (waitSemaphore : VkSemaphore)
  | vkAllocateCommandBuffers (commandBuffers : List VkCommandBuffer)
  | vkBeginCommandBuffer (commandBuffer : VkCommandBuffer)
  | vkEndCommandBuffer (commandBuffer : VkCommandBuffer)
  | vkCmdBeginRenderPass (commandBuffer : VkCommandBuffer) (renderPass : VkRenderPass)
      (framebuffer : VkFramebuffer) (extent : VkExtent2D)
  | vkCmdSetViewport (commandBuffer : VkCommandBuffer) (extent : VkExtent2D)
  | vkCmdSetScissor (commandBuffer : VkCommandBuffer) (extent : VkExtent2D)
  | vkCmdEndRenderPass (commandBuffer : VkCommandBuffer)
  | vkCreateSwapchainKHR (swapChain : VkSwapchainKHR) (minImageCount : Nat)
      (surfaceFormat : VkSurfaceFormatKHR) (extent : VkExtent2D) (presentMode : VkPresentModeKHR)
      (oldSwapchain : Option VkSwapchainKHR)
  | vkCreateImageView (view : VkImageView) (image : VkImage)
  | vkCreateRenderPass (renderPass : VkRenderPass) (colorFormat depthFormat : VkFormat)
  | vkCreateImage (image : VkImage)
  | vkAllocateMemory (memory : VkDeviceMemory)
  | vkBindImageMemory (image : VkImage) (memory : VkDeviceMemory)
  | vkCreateFramebuffer (framebuffer : VkFramebuffer) (renderPass : VkRenderPass)
      (colorView depthView : VkImageView)
  | vkCreateSemaphore (semaphore : VkSemaphore)
  /-- The flag is `VK_FENCE_CREATE_SIGNALED_BIT`. -/
  | vkCreateFence (fence : VkFence) (signaled : Bool)
  | vkDestroyImageView (view : VkImageView)
  | vkDestroySwapchainKHR (swapChain : VkSwapchainKHR)
  | vkDestroyImage (image : VkImage)
  | vkFreeMemory (memory : VkDeviceMemory)
  | vkDestroyFramebuffer (framebuffer : VkFramebuffer)
  | vkDestroyRenderPass (renderPass : VkRenderPass)
  | vkDestroySemaphore (semaphore : VkSemaphore)
  | vkDestroyFence (fence : VkFence)
deriving DecidableEq, Repr

/-- How a call can end without returning. -/
inductive Fault where
  /-- An `assert` failed: a caller contract violation (debug build). -/
  | aborted (assertion : String)
  /-- A `std::runtime_error` was thrown. -/
  | threw (what : String)
  /-- The call blocks for ever (no further window event arrives). -/
  | hung
  /-- A null pointer (`axeSwapChain`, `pointLight`) was dereferenced. -/
  | undefined
deriving DecidableEq, Repr

inductive Outcome (α : Type) where
  | returned (value : α)
  | failed (fault : Fault)
deriving DecidableEq, Repr

/-! ## The device: handle counter and call record -/

structure AxeDevice where
  nextHandle : Nat
  calls : List VkCall
deriving DecidableEq, Repr

/-- Append one call to the record. -/
def AxeDevice.record (device : AxeDevice) (call : VkCall) : AxeDevice :=
  { device with calls := device.calls ++ [call] }

/-- Append several calls to the record, in order. -/
def AxeDevice.recordAll (device : AxeDevice) (calls : List VkCall) : AxeDevice :=
  { device with calls := device.calls ++ calls }

/-- Reserve `count` unused handles. -/
def AxeDevice.reserve (device : AxeDevice) (count : Nat) : AxeDevice :=
  { device with nextHandle := device.nextHandle + count }

/-! ## axe_window -/

structure AxeWindow where
  width : Int
  height : Int
  framebufferResized : Bool
deriving DecidableEq, Repr

namespace AxeWindow

/-- The two `static_cast<uint32_t>` of `GetExtent`. -/
def GetExtent (window : AxeWindow) : VkExtent2D :=
  { width := (window.width % 2 ^ 32).toNat, height := (window.height % 2 ^ 32).toNat }

def WasWindowResized (window : AxeWindow) : Bool := window.framebufferResized

def ResetWindowResizedFlag (window : AxeWindow) : AxeWindow :=
  { window with framebufferResized := false }

def FramebufferResizedCallback (_window : AxeWindow) (width height : Int) : AxeWindow :=
  { framebufferResized := true, width := width, height := height }

/-- The framebuffer-size callbacks delivered while GLFW processes events once
(`glfwPollEvents` or `glfwWaitEvents`), oldest first. -/
def deliver (window : AxeWindow) : List (Int × Int) → AxeWindow
  | [] => window
  | (width, height) :: rest => (window.FramebufferResizedCallback width height).deliver rest

end AxeWindow

/-! ## axe_swap_chain -/

/-- `AxeSwapChain::MAX_FRAMES_IN_FLIGHT`. -/
abbrev MAX_FRAMES_IN_FLIGHT : Nat := 2

structure AxeSwapChain where
  swapChainImageFormat : VkFormat
  swapChainDepthFormat : VkFormat
  swapChainExtent : VkExtent2D
  swapChainFramebuffers : List VkFramebuffer
  renderPass : VkRenderPass
  depthImages : List VkImage
  depthImageMemoryHandles : List VkDeviceMemory
  depthImageViews : List VkImageView
  swapChainImages : List VkImage
  swapChainImageViews : List VkImageView
  windowExtent : VkExtent2D
  /-- The raw swap chain handle; `none` is the null handle. -/
  swapChain : Option VkSwapchainKHR
  imageAvailableForRenderingSemaphores : List VkSemaphore
  renderFinishedSemaphores : List VkSemaphore
  inFlightFences : List VkFence
  /-- One marker per image; `none` is `VK_NULL_HANDLE`. -/
  imagesInFlight : List (Option VkFence)
  currentFrame : Nat
deriving DecidableEq, Repr

/-- The throw sites reachable from `AxeSwapChain::Init`. -/
inductive ThrowSite where
  | createSwapchain
  | createImageView
  | findDepthFormat
  | createRenderPass
  | createImage
  | allocateMemory
  | bindImageMemory
  | createDepthImageView
  | createFramebuffer
  | createSyncObjects
deriving DecidableEq, Repr

/-- The message of the `std::runtime_error` thrown at a site. -/
def ThrowSite.what : ThrowSite → String
  | .createSwapchain => "Failed to create swap chain"
  | .createImageView => "Failed to create texture image view"
  | .findDepthFormat => "Failed to find supported format"
  | .createRenderPass => "Failed to create render pass"
  | .createImage => "Failed to create image"
  | .allocateMemory => "Failed to allocate image memory"
  | .bindImageMemory => "Failed to bind image memory"
  | .createDepthImageView => "Failed to create depth texture image view"
  | .createFramebuffer => "Failed to create framebuffer"
  | .createSyncObjects => "Failed to create synchronization objects for a frame"

/-- The step of `Init` a site belongs to: 0 `CreateSwapChain`, 1 `CreateImageViews`,
2 `CreateRenderPass`, 3 `CreateDepthResources`, 4 `CreateFramebuffers`, 5 `CreateSyncObjects`. -/
def ThrowSite.step : ThrowSite → Nat
  | .createSwapchain => 0
  | .createImageView => 1
  | .findDepthFormat => 2
  | .createRenderPass => 2
  | .createImage => 3
  | .allocateMemory => 3
  | .bindImageMemory => 3
  | .createDepthImageView => 3
  | .createFramebuffer => 4
  | .createSyncObjects => 5

/-- Sites inside a loop over the images: unreachable when there is no image. -/
def ThrowSite.perImage : ThrowSite → Bool
  | .createImageView => true
  | .createImage => true
  | .allocateMemory => true
  | .bindImageMemory => true
  | .createDepthImageView => true
  | .createFramebuffer => true
  | _ => false

/-- What the device answers while one swap chain is constructed. -/
structure SwapChainEnv where
  /-- The result of `device.GetSwapChainSupport()`. -/
  support : SwapChainSupportDetails
  /-- The result of `device.FindSupportedFormat` inside `FindDepthFormat`. -/
  depthFormat : VkFormat
  /-- The number of images `vkGetSwapchainImagesKHR` reports. -/
  imageCount : Nat
  /-- The first creation call the device rejects, if any. A step that throws is recorded
  as a whole by its exception: the calls it made before throwing are not recorded. -/
  failure : Option ThrowSite
deriving DecidableEq, Repr

namespace AxeSwapChain

/-- The object before `Init` runs: the default member initialisers. -/
def blank (windowExtent : VkExtent2D) : AxeSwapChain :=
  { swapChainImageFormat := 0
    swapChainDepthFormat := 0
    swapChainExtent := { width := 0, height := 0 }
    swapChainFramebuffers := []
    renderPass := 0
    depthImages := []
    depthImageMemoryHandles := []
    depthImageViews := []
    swapChainImages := []
    swapChainImageViews := []
    windowExtent := windowExtent
    swapChain := none
    imageAvailableForRenderingSemaphores := []
    renderFinishedSemaphores := []
    inFlightFences := []
    imagesInFlight := []
    currentFrame := 0 }

def ImageCount (sc : AxeSwapChain) : Nat := sc.swapChainImages.length

def GetSwapChainImageFormat (sc : AxeSwapChain) : VkFormat := sc.swapChainImageFormat

def GetSwapChainExtent (sc : AxeSwapChain) : VkExtent2D := sc.swapChainExtent

def GetRenderPass (sc : AxeSwapChain) : VkRenderPass := sc.renderPass

/-- The `operator[]` of `swapChainFramebuffers`; an index past the end (undefined in the
source) reads handle 0. -/
def GetFrameBuffer (sc : AxeSwapChain) (index : Nat) : VkFramebuffer :=
  sc.swapChainFramebuffers.getD index 0

def AreSwapChainFormatsEqual (sc otherSwapChain : AxeSwapChain) : Bool :=
  otherSwapChain.swapChainImageFormat == sc.swapChainImageFormat &&
    otherSwapChain.swapChainDepthFormat == sc.swapChainDepthFormat

/-- The first `B8G8R8A8_SRGB` / `SRGB_NONLINEAR` entry, else entry 0. Entry 0 of an empty
vector (undefined in the source) reads as the all-zero format. -/
def ChooseSwapSurfaceFormat (availableFormats : List VkSurfaceFormatKHR) : VkSurfaceFormatKHR :=
  match availableFormats.find? (fun availableFormat =>
      availableFormat.format == VK_FORMAT_B8G8R8A8_SRGB &&
        availableFormat.colorSpace == VK_COLOR_SPACE_SRGB_NONLINEAR_KHR) with
  | some availableFormat => availableFormat
  | none => availableFormats.headD { format := 0, colorSpace := 0 }

def ChooseSwapPresentMode (availablePresentModes : List VkPresentModeKHR) : VkPresentModeKHR :=
  match availablePresentModes.find? (fun availablePresentMode =>
      availablePresentMode == VK_PRESENT_MODE_MAILBOX_KHR) with
  | some availablePresentMode => availablePresentMode
  | none => VK_PRESENT_MODE_FIFO_KHR

/-- The result of `std::clamp<uint32_t>( v, lo, hi )`. -/
def clamp (v lo hi : Nat) : Nat :=
  if v < lo then lo else if hi < v then hi else v

def ChooseSwapExtent (sc : AxeSwapChain) (capabilities : VkSurfaceCapabilitiesKHR) : VkExtent2D :=
  if capabilities.currentExtent.width ≠ UINT32_MAX then
    capabilities.currentExtent
  else
    { width := clamp sc.windowExtent.width capabilities.minImageExtent.width
        capabilities.maxImageExtent.width
      height := clamp sc.windowExtent.height capabilities.minImageExtent.height
        capabilities.maxImageExtent.height }

/-- The `imageCount` that `CreateSwapChain` puts into `createInfo.minImageCount`
(`uint32_t` arithmetic). -/
def requestedImageCount (capabilities : VkSurfaceCapabilitiesKHR) : Nat :=
  let imageCount := (capabilities.minImageCount + 1) % 2 ^ 32
  if capabilities.maxImageCount > 0 ∧ imageCount > capabilities.maxImageCount then
    capabilities.maxImageCount
  else
    imageCount

def CreateSwapChain (sc : AxeSwapChain) (device : AxeDevice) (oldSwapChain : Option AxeSwapChain)
    (env : SwapChainEnv) : AxeSwapChain × AxeDevice :=
  let surfaceFormat := ChooseSwapSurfaceFormat env.support.formats
  let presentMode := ChooseSwapPresentMode env.support.presentModes
  let extent := sc.ChooseSwapExtent env.support.capabilities
  let imageCount := requestedImageCount env.support.capabilities
  let handle := device.nextHandle
  let oldHandle : Option VkSwapchainKHR :=
    match oldSwapChain with
    | none => none
    | some old => old.swapChain
  let device := (device.reserve (1 + env.imageCount)).record
    (.vkCreateSwapchainKHR handle imageCount surfaceFormat extent presentMode oldHandle)
  ({ sc with
      swapChain := some handle
      swapChainImages := (List.range env.imageCount).map (fun i => handle + 1 + i)
      swapChainImageFormat := surfaceFormat.format
      swapChainExtent := extent }, device)

def CreateImageViews (sc : AxeSwapChain) (device : AxeDevice) : AxeSwapChain × AxeDevice :=
  let base := device.nextHandle
  let views := (List.range sc.swapChainImages.length).map (fun i => base + i)
  let device := (device.reserve sc.swapChainImages.length).recordAll
    ((List.range sc.swapChainImages.length).map
      (fun i => .vkCreateImageView (base + i) (sc.swapChainImages.getD i 0)))
  ({ sc with swapChainImageViews := views }, device)

def CreateRenderPass (sc : AxeSwapChain) (device : AxeDevice) (env : SwapChainEnv) :
    AxeSwapChain × AxeDevice :=
  let handle := device.nextHandle
  let device := (device.reserve 1).record
    (.vkCreateRenderPass handle sc.GetSwapChainImageFormat env.depthFormat)
  ({ sc with renderPass := handle }, device)

def CreateDepthResources (sc : AxeSwapChain) (device : AxeDevice) (env : SwapChainEnv) :
    AxeSwapChain × AxeDevice :=
  let base := device.nextHandle
  let count := sc.ImageCount
  let device := (device.reserve (3 * count)).recordAll
    ((List.range count).flatMap (fun i =>
      [ .vkCreateImage (base + 3 * i),
        .vkAllocateMemory (base + 3 * i + 1),
        .vkBindImageMemory (base + 3 * i) (base + 3 * i + 1),
        .vkCreateImageView (base + 3 * i + 2) (base + 3 * i) ]))
  ({ sc with
      swapChainDepthFormat := env.depthFormat
      depthImages := (List.range count).map (fun i => base + 3 * i)
      depthImageMemoryHandles := (List.range count).map (fun i => base + 3 * i + 1)
      depthImageViews := (List.range count).map (fun i => base + 3 * i + 2) }, device)

def CreateFramebuffers (sc : AxeSwapChain) (device : AxeDevice) : AxeSwapChain × AxeDevice :=
  let base := device.nextHandle
  let count := sc.ImageCount
  let device := (device.reserve count).recordAll
    ((List.range count).map (fun i =>
      .vkCreateFramebuffer (base + i) sc.renderPass (sc.swapChainImageViews.getD i 0)
        (sc.depthImageViews.getD i 0)))
  ({ sc with swapChainFramebuffers := (List.range count).map (fun i => base + i) }, device)

def CreateSyncObjects (sc : AxeSwapChain) (device : AxeDevice) : AxeSwapChain × AxeDevice :=
  let base := device.nextHandle
  let device := (device.reserve (3 * MAX_FRAMES_IN_FLIGHT)).recordAll
    ((List.range MAX_FRAMES_IN_FLIGHT).flatMap (fun i =>
      [ .vkCreateSemaphore (base + 3 * i),
        .vkCreateSemaphore (base + 3 * i + 1),
        .vkCreateFence (base + 3 * i + 2) true ]))
  ({ sc with
      imageAvailableForRenderingSemaphores :=
        (List.range MAX_FRAMES_IN_FLIGHT).map (fun i => base + 3 * i)
      renderFinishedSemaphores := (List.range MAX_FRAMES_IN_FLIGHT).map (fun i => base + 3 * i + 1)
      inFlightFences := (List.range MAX_FRAMES_IN_FLIGHT).map (fun i => base + 3 * i + 2)
      imagesInFlight := List.replicate sc.ImageCount none }, device)

/-- Whether `Init` throws in the given step. -/
def throwsIn (env : SwapChainEnv) (step : Nat) : Option ThrowSite :=
  match env.failure with
  | none => none
  | some site =>
    if site.step = step ∧ (site.perImage = false ∨ 0 < env.imageCount) then some site else none

/-- Both constructors: the member initialisers followed by `Init` (the second constructor then
drops its reference to the previous swap chain, which changes nothing that is kept here). -/
def Init (device : AxeDevice) (extent : VkExtent2D) (oldSwapChain : Option AxeSwapChain)
    (env : SwapChainEnv) : AxeDevice × Outcome AxeSwapChain :=
  match throwsIn env 0 with
  | some site => (device, .failed (.threw site.what))
  | none =>
  let s0 := (blank extent).CreateSwapChain device oldSwapChain env
  match throwsIn env 1 with
  | some site => (s0.2, .failed (.threw site.what))
  | none =>
  let s1 := s0.1.CreateImageViews s0.2
  match throwsIn env 2 with
  | some site => (s1.2, .failed (.threw site.what))
  | none =>
  let s2 := s1.1.CreateRenderPass s1.2 env
  match throwsIn env 3 with
  | some site => (s2.2, .failed (.threw site.what))
  | none =>
  let s3 := s2.1.CreateDepthResources s2.2 env
  match throwsIn env 4 with
  | some site => (s3.2, .failed (.threw site.what))
  | none =>
  let s4 := s3.1.CreateFramebuffers s3.2
  match throwsIn env 5 with
  | some site => (s4.2, .failed (.threw site.what))
  | none =>
  let s5 := s4.1.CreateSyncObjects s4.2
  (s5.2, .returned s5.1)

/-- The destructor `~AxeSwapChain`: the calls it makes, in its order. -/
def destroyCalls (sc : AxeSwapChain) : List VkCall :=
  sc.swapChainImageViews.map (fun imageView => .vkDestroyImageView imageView) ++
  (match sc.swapChain with
    | some handle => [.vkDestroySwapchainKHR handle]
    | none => []) ++
  (List.range sc.depthImages.length).flatMap (fun i =>
    [ .vkDestroyImageView (sc.depthImageViews.getD i 0),
      .vkDestroyImage (sc.depthImages.getD i 0),
      .vkFreeMemory (sc.depthImageMemoryHandles.getD i 0) ]) ++
  sc.swapChainFramebuffers.map (fun framebuffer => .vkDestroyFramebuffer framebuffer) ++
  [.vkDestroyRenderPass sc.renderPass] ++
  (List.range MAX_FRAMES_IN_FLIGHT).flatMap (fun i =>
    [ .vkDestroySemaphore (sc.renderFinishedSemaphores.getD i 0),
      .vkDestroySemaphore (sc.imageAvailableForRenderingSemaphores.getD i 0),
      .vkDestroyFence (sc.inFlightFences.getD i 0) ])

/-- What the driver decides in `vkAcquireNextImageKHR`. -/
structure AcquireEnv where
  result : VkResult
  imageIndex : Nat
deriving DecidableEq, Repr

/-- The member `AcquireNextImage( &imageIndex )`; the third component is the value left in
`*imageIndex`, which the driver writes only when it hands out an image. -/
def AcquireNextImage (sc : AxeSwapChain) (device : AxeDevice) (imageIndex : Nat)
    (env : AcquireEnv) : AxeDevice × VkResult × Nat :=
  let device := device.record (.vkWaitForFences (sc.inFlightFences.getD sc.currentFrame 0))
  let device := device.record (.vkAcquireNextImageKHR (sc.swapChain.getD 0)
    (sc.imageAvailableForRenderingSemaphores.getD sc.currentFrame 0))
  (device, env.result,
    if env.result = VK_SUCCESS ∨ env.result = VK_SUBOPTIMAL_KHR then env.imageIndex
    else imageIndex)

/-- What the driver decides in `vkQueueSubmit` and `vkQueuePresentKHR`. -/
structure SubmitEnv where
  submitResult : VkResult
  presentResult : VkResult
deriving DecidableEq, Repr

def SubmitCommandBuffers (sc : AxeSwapChain) (device : AxeDevice) (buffer : VkCommandBuffer)
    (imageIndex : Nat) (env : SubmitEnv) : AxeSwapChain × AxeDevice × Outcome VkResult :=
  let device :=
    match sc.imagesInFlight.getD imageIndex none with
    | some marker => device.record (.vkWaitForFences marker)
    | none => device
  let sc := { sc with
    imagesInFlight := sc.imagesInFlight.set imageIndex
      (some (sc.inFlightFences.getD sc.currentFrame 0)) }
  let waitSemaphore := sc.imageAvailableForRenderingSemaphores.getD sc.currentFrame 0
  let signalSemaphore := sc.renderFinishedSemaphores.getD sc.currentFrame 0
  let device := device.record (.vkResetFences (sc.inFlightFences.getD sc.currentFrame 0))
  let device := device.record (.vkQueueSubmit buffer waitSemaphore signalSemaphore
    (sc.inFlightFences.getD sc.currentFrame 0))
  if env.submitResult ≠ VK_SUCCESS then
    (sc, device, .failed (.threw "Failed to submit draw command buffer"))
  else
    let device := device.record (.vkQueuePresentKHR (sc.swapChain.getD 0) imageIndex
      signalSemaphore)
    ({ sc with currentFrame := (sc.currentFrame + 1) % MAX_FRAMES_IN_FLIGHT }, device,
      .returned env.presentResult)

end AxeSwapChain

/-! ## axe_renderer -/

/-- The renderer together with the window and the device it holds references to. -/
structure AxeRenderer where
  axeWindow : AxeWindow
  axeDevice : AxeDevice
  /-- The `std::unique_ptr<AxeSwapChain>`; `none` is the null pointer. -/
  axeSwapChain : Option AxeSwapChain
  commandBuffers : List VkCommandBuffer
  currentImageIndex : Nat
  currentFrameIndex : Nat
  isFrameStarted : Bool
deriving DecidableEq, Repr

/-- What happens around one `RecreateSwapChain`. -/
structure RecreateEnv where
  /-- For each successive `glfwWaitEvents()` that returns, the framebuffer-size callbacks
  (width, height) it delivers; after the last entry no event arrives any more. -/
  events : List (List (Int × Int))
  swapChain : SwapChainEnv
deriving DecidableEq, Repr

structure BeginFrameEnv where
  acquire : AxeSwapChain.AcquireEnv
  /-- The result of `vkBeginCommandBuffer`. -/
  beginResult : VkResult
  recreate : RecreateEnv
deriving DecidableEq, Repr

structure EndFrameEnv where
  /-- The result of `vkEndCommandBuffer`. -/
  endResult : VkResult
  submit : AxeSwapChain.SubmitEnv
  recreate : RecreateEnv
deriving DecidableEq, Repr

structure ConstructEnv where
  recreate : RecreateEnv
  /-- The result of `vkAllocateCommandBuffers`. -/
  allocateResult : VkResult
deriving DecidableEq, Repr

namespace AxeRenderer

def IsFrameInProgress (r : AxeRenderer) : Bool := r.isFrameStarted

/-- The `operator[]` of `commandBuffers`; an index past the end (undefined in the source)
reads handle 0. -/
def GetCurrentCommandBuffer (r : AxeRenderer) : Outcome VkCommandBuffer :=
  if r.isFrameStarted then
    .returned (r.commandBuffers.getD r.currentFrameIndex 0)
  else
    .failed (.aborted "Cannot get command buffer when frame is not in progress")

def GetFrameIndex (r : AxeRenderer) : Outcome Nat :=
  if r.isFrameStarted then
    .returned r.currentFrameIndex
  else
    .failed (.aborted "Cannot get frame index when frame is not in progress")

/-- The loop `while ( extent.width == 0 || extent.height == 0 )` of `RecreateSwapChain`:
each round reads the extent and then waits for events. The result is the extent the loop
leaves with, or `none` when a `glfwWaitEvents()` never returns. -/
def waitForExtent (window : AxeWindow) (device : AxeDevice) (extent : VkExtent2D) :
    List (List (Int × Int)) → AxeWindow × AxeDevice × Option VkExtent2D
  | [] =>
    if extent.width = 0 ∨ extent.height = 0 then
      (window, device.record .glfwWaitEvents, none)
    else
      (window, device, some extent)
  | callbacks :: later =>
    if extent.width = 0 ∨ extent.height = 0 then
      waitForExtent (window.deliver callbacks) (device.record .glfwWaitEvents) window.GetExtent
        later
    else
      (window, device, some extent)

def RecreateSwapChain (r : AxeRenderer) (env : RecreateEnv) : AxeRenderer × Outcome Unit :=
  match waitForExtent r.axeWindow r.axeDevice r.axeWindow.GetExtent env.events with
  | (window, device, none) =>
    ({ r with axeWindow := window, axeDevice := device }, .failed .hung)
  | (window, device, some extent) =>
    let device := device.record .vkDeviceWaitIdle
    match r.axeSwapChain with
    | none =>
      match AxeSwapChain.Init device extent none env.swapChain with
      | (device, .failed fault) =>
        ({ r with axeWindow := window, axeDevice := device }, .failed fault)
      | (device, .returned swapChain) =>
        ({ r with axeWindow := window, axeDevice := device, axeSwapChain := some swapChain },
          .returned ())
    | some oldSwapChain =>
      match AxeSwapChain.Init device extent (some oldSwapChain) env.swapChain with
      | (device, .failed fault) =>
        ({ r with
            axeWindow := window
            axeDevice := device.recordAll oldSwapChain.destroyCalls
            axeSwapChain := none }, .failed fault)
      | (device, .returned swapChain) =>
        if !oldSwapChain.AreSwapChainFormatsEqual swapChain then
          ({ r with
              axeWindow := window
              axeDevice := device.recordAll oldSwapChain.destroyCalls
              axeSwapChain := some swapChain },
            .failed (.threw "Swap chain image (or depth) format has changed"))
        else
          ({ r with
              axeWindow := window
              axeDevice := device.recordAll oldSwapChain.destroyCalls
              axeSwapChain := some swapChain }, .returned ())

def CreateCommandBuffers (r : AxeRenderer) (allocateResult : VkResult) :
    AxeRenderer × Outcome Unit :=
  let base := r.axeDevice.nextHandle
  let handles := (List.range MAX_FRAMES_IN_FLIGHT).map (fun i => base + i)
  if allocateResult ≠ VK_SUCCESS then
    ({ r with
        commandBuffers := List.replicate MAX_FRAMES_IN_FLIGHT 0
        axeDevice := r.axeDevice.record (.vkAllocateCommandBuffers []) },
      .failed (.threw "Failed to allocate command buffers"))
  else
    ({ r with
        commandBuffers := handles
        axeDevice := (r.axeDevice.reserve MAX_FRAMES_IN_FLIGHT).record
          (.vkAllocateCommandBuffers handles) }, .returned ())

/-- The constructor `AxeRenderer( window, device )`. -/
def construct (window : AxeWindow) (device : AxeDevice) (env : ConstructEnv) :
    AxeRenderer × Outcome Unit :=
  let r : AxeRenderer :=
    { axeWindow := window
      axeDevice := device
      axeSwapChain := none
      commandBuffers := []
      currentImageIndex := 0
      currentFrameIndex := 0
      isFrameStarted := false }
  match r.RecreateSwapChain env.recreate with
  | (r, .failed fault) => (r, .failed fault)
  | (r, .returned ()) => r.CreateCommandBuffers env.allocateResult

def BeginFrame (r : AxeRenderer) (env : BeginFrameEnv) :
    AxeRenderer × Outcome (Option VkCommandBuffer) :=
  if r.isFrameStarted then
    (r, .failed (.aborted "Cannot call BeginFrame() while frame is already in progress"))
  else
    match r.axeSwapChain with
    | none => (r, .failed .undefined)
    | some swapChain =>
      match swapChain.AcquireNextImage r.axeDevice r.currentImageIndex env.acquire with
      | (device, result, imageIndex) =>
        let r := { r with axeDevice := device, currentImageIndex := imageIndex }
        if result = VK_ERROR_OUT_OF_DATE_KHR then
          match r.RecreateSwapChain env.recreate with
          | (r, .failed fault) => (r, .failed fault)
          | (r, .returned ()) => (r, .returned none)
        else if result ≠ VK_SUCCESS ∧ result ≠ VK_SUBOPTIMAL_KHR then
          (r, .failed (.threw "Failed to aquire next swap chain image"))
        else
          let r := { r with isFrameStarted := true }
          match r.GetCurrentCommandBuffer with
          | .failed fault => (r, .failed fault)
          | .returned commandBuffer =>
            let r := { r with axeDevice := r.axeDevice.record (.vkBeginCommandBuffer commandBuffer) }
            if env.beginResult ≠ VK_SUCCESS then
              (r, .failed (.threw "Failed to begin recording command buffer"))
            else
              (r, .returned (some commandBuffer))

def EndFrame (r : AxeRenderer) (env : EndFrameEnv) : AxeRenderer × Outcome Unit :=
  if !r.isFrameStarted then
    (r, .failed (.aborted "Cannot call EndFrame() while frame is not in progress"))
  else
    match r.GetCurrentCommandBuffer with
    | .failed fault => (r, .failed fault)
    | .returned commandBuffer =>
      let r := { r with axeDevice := r.axeDevice.record (.vkEndCommandBuffer commandBuffer) }
      if env.endResult ≠ VK_SUCCESS then
        (r, .failed (.threw "Failed to end recording command buffer"))
      else
        match r.axeSwapChain with
        | none => (r, .failed .undefined)
        | some swapChain =>
          match swapChain.SubmitCommandBuffers r.axeDevice commandBuffer r.currentImageIndex
              env.submit with
          | (swapChain, device, .failed fault) =>
            ({ r with axeSwapChain := some swapChain, axeDevice := device }, .failed fault)
          | (swapChain, device, .returned result) =>
            let r := { r with axeSwapChain := some swapChain, axeDevice := device }
            if result = VK_ERROR_OUT_OF_DATE_KHR ∨ result = VK_SUBOPTIMAL_KHR ∨
                r.axeWindow.WasWindowResized = true then
              let r := { r with axeWindow := r.axeWindow.ResetWindowResizedFlag }
              match r.RecreateSwapChain env.recreate with
              | (r, .failed fault) => (r, .failed fault)
              | (r, .returned ()) =>
                ({ r with
                    isFrameStarted := false
                    currentFrameIndex := (r.currentFrameIndex + 1) % MAX_FRAMES_IN_FLIGHT },
                  .returned ())
            else if result ≠ VK_SUCCESS then
              (r, .failed (.threw "Failed to present swap chain image"))
            else
              ({ r with
                  isFrameStarted := false
                  currentFrameIndex := (r.currentFrameIndex + 1) % MAX_FRAMES_IN_FLIGHT },
                .returned ())

def BeginSwapChainRenderPass (r : AxeRenderer) (commandBuffer : VkCommandBuffer) :
    AxeRenderer × Outcome Unit :=
  if !r.isFrameStarted then
    (r, .failed (.aborted
      "Cannot call BeginSwapChainRenderPass() while frame is not in progress"))
  else
    match r.GetCurrentCommandBuffer with
    | .failed fault => (r, .failed fault)
    | .returned current =>
      if commandBuffer ≠ current then
        (r, .failed (.aborted
          "Cannot begin render pass on a command buffer from a different frame"))
      else
        match r.axeSwapChain with
        | none => (r, .failed .undefined)
        | some swapChain =>
          let recorded : List VkCall :=
            [ .vkCmdBeginRenderPass commandBuffer swapChain.GetRenderPass
                (swapChain.GetFrameBuffer r.currentImageIndex) swapChain.GetSwapChainExtent,
              .vkCmdSetViewport commandBuffer swapChain.GetSwapChainExtent,
              .vkCmdSetScissor commandBuffer swapChain.GetSwapChainExtent ]
          ({ r with axeDevice := r.axeDevice.recordAll recorded }, .returned ())

def EndSwapChainRenderPass (r : AxeRenderer) (commandBuffer : VkCommandBuffer) :
    AxeRenderer × Outcome Unit :=
  if !r.isFrameStarted then
    (r, .failed (.aborted
      "Cannot call EndSwapChainRenderPass() while frame is not in progress"))
  else
    match r.GetCurrentCommandBuffer with
    | .failed fault => (r, .failed fault)
    | .returned current =>
      if commandBuffer ≠ current then
        (r, .failed (.aborted
          "Cannot end render pass on a command buffer from a different frame"))
      else
        ({ r with axeDevice := r.axeDevice.record (.vkCmdEndRenderPass commandBuffer) },
          .returned ())

end AxeRenderer

/-! ## Runs: what a caller does with the renderer -/

/-- One thing the frame loop of `App::Run` does. -/
inductive Call where
  /-- `glfwPollEvents()`, delivering the given framebuffer-size callbacks. -/
  | glfwPollEvents (callbacks : List (Int × Int))
  | BeginFrame (env : BeginFrameEnv)
  | EndFrame (env : EndFrameEnv)
  | BeginSwapChainRenderPass (commandBuffer : VkCommandBuffer)
  | EndSwapChainRenderPass (commandBuffer : VkCommandBuffer)
deriving DecidableEq, Repr

/-- Make one call; the value `BeginFrame` returns is dropped. -/
def Call.make (r : AxeRenderer) : Call → AxeRenderer × Outcome Unit
  | .glfwPollEvents callbacks =>
    ({ r with axeWindow := r.axeWindow.deliver callbacks }, .returned ())
  | .BeginFrame env =>
    match r.BeginFrame env with
    | (r, .returned _) => (r, .returned ())
    | (r, .failed fault) => (r, .failed fault)
  | .EndFrame env => r.EndFrame env
  | .BeginSwapChainRenderPass commandBuffer => r.BeginSwapChainRenderPass commandBuffer
  | .EndSwapChainRenderPass commandBuffer => r.EndSwapChainRenderPass commandBuffer

/-- Make the calls in order. A fault ends the run: the process aborts on a failed assertion
and `main` exits on an exception. -/
def run (r : AxeRenderer) : List Call → AxeRenderer × Outcome Unit
  | [] => (r, .returned ())
  | call :: later =>
    match call.make r with
    | (r, .returned ()) => run r later
    | (r, .failed fault) => (r, .failed fault)

/-! ## Reading the call record -/

/-- Creation and destruction calls. -/
def VkCall.isLifetime : VkCall → Bool
  | .vkCreateSwapchainKHR .. => true
  | .vkCreateImageView .. => true
  | .vkCreateRenderPass .. => true
  | .vkCreateImage .. => true
  | .vkAllocateMemory .. => true
  | .vkBindImageMemory .. => true
  | .vkCreateFramebuffer .. => true
  | .vkCreateSemaphore .. => true
  | .vkCreateFence .. => true
  | .vkDestroyImageView .. => true
  | .vkDestroySwapchainKHR .. => true
  | .vkDestroyImage .. => true
  | .vkFreeMemory .. => true
  | .vkDestroyFramebuffer .. => true
  | .vkDestroyRenderPass .. => true
  | .vkDestroySemaphore .. => true
  | .vkDestroyFence .. => true
  | _ => false

def VkCall.isCreateSwapchain : VkCall → Bool
  | .vkCreateSwapchainKHR .. => true
  | _ => false

/-- The calls a rebuild may make. -/
def VkCall.isRebuild (c : VkCall) : Prop :=
  c = .glfwWaitEvents ∨ c = .vkDeviceWaitIdle ∨ c.isLifetime = true

/-- The calls made after `before` was the state of the device. -/
def callsSince (before after : AxeDevice) : List VkCall :=
  after.calls.drop before.calls.length

/-- A swap chain was built between the two device states. -/
def rebuilt (before after : AxeDevice) : Bool :=
  (callsSince before after).any VkCall.isCreateSwapchain

/-- The record of `after` is the record of `before` followed by calls that all satisfy `P`. -/
def Appends (P : VkCall → Prop) (before after : AxeDevice) : Prop :=
  ∃ es, after.calls = before.calls ++ es ∧ ∀ c ∈ es, P c

/-! ## The states inside `BeginFrame` and `EndFrame` -/

/-- The renderer as `BeginFrame` leaves it right after its `AcquireNextImage`. -/
def AxeRenderer.acquired (r : AxeRenderer) (swapChain : AxeSwapChain)
    (env : AxeSwapChain.AcquireEnv) : AxeRenderer :=
  { r with
    axeDevice := (swapChain.AcquireNextImage r.axeDevice r.currentImageIndex env).1
    currentImageIndex := (swapChain.AcquireNextImage r.axeDevice r.currentImageIndex env).2.2 }

/-- The renderer as `BeginFrame` leaves it once it has called `vkBeginCommandBuffer`. -/
def AxeRenderer.started (r : AxeRenderer) (swapChain : AxeSwapChain)
    (env : AxeSwapChain.AcquireEnv) : AxeRenderer :=
  { r.acquired swapChain env with
    isFrameStarted := true
    axeDevice := (r.acquired swapChain env).axeDevice.record
      (.vkBeginCommandBuffer (r.commandBuffers.getD r.currentFrameIndex 0)) }

/-- The renderer as `EndFrame` leaves it right after a `SubmitCommandBuffers` that got as far
as presenting. -/
def AxeRenderer.submitted (r : AxeRenderer) (swapChain : AxeSwapChain)
    (env : AxeSwapChain.SubmitEnv) : AxeRenderer :=
  { r with
    axeSwapChain := some (swapChain.SubmitCommandBuffers
      (r.axeDevice.record (.vkEndCommandBuffer (r.commandBuffers.getD r.currentFrameIndex 0)))
      (r.commandBuffers.getD r.currentFrameIndex 0) r.currentImageIndex env).1
    axeDevice := (swapChain.SubmitCommandBuffers
      (r.axeDevice.record (.vkEndCommandBuffer (r.commandBuffers.getD r.currentFrameIndex 0)))
      (r.commandBuffers.getD r.currentFrameIndex 0) r.currentImageIndex env).2.1 }

/-- The renderer as `EndFrame` hands it to `RecreateSwapChain`. -/
def AxeRenderer.presentedStale (r : AxeRenderer) (swapChain : AxeSwapChain)
    (env : AxeSwapChain.SubmitEnv) : AxeRenderer :=
  { r.submitted swapChain env with axeWindow := r.axeWindow.ResetWindowResizedFlag }

/-- The last two assignments of `EndFrame`. -/
def AxeRenderer.closed (r : AxeRenderer) : AxeRenderer :=
  { r with
    isFrameStarted := false
    currentFrameIndex := (r.currentFrameIndex + 1) % MAX_FRAMES_IN_FLIGHT }

/-- A value-less outcome seen as the outcome of a call that returns `none` on success. -/
def Outcome.asNone : Outcome Unit → Outcome (Option VkCommandBuffer)
  | .returned () => .returned none
  | .failed fault => .failed fault

/-! ## Runs of frames and of swap chain calls -/

def Call.isEndFrame : Call → Bool
  | .EndFrame _ => true
  | _ => false

/-- Whether some `EndFrame` of the run returned. -/
def endFrameCompleted (r : AxeRenderer) : List Call → Bool
  | [] => false
  | call :: later =>
    match call.make r with
    | (r', .returned ()) => call.isEndFrame || endFrameCompleted r' later
    | (_, .failed _) => false

/-- The calls of a run of frames: one `BeginFrame` / `EndFrame` pair per entry. -/
def framePairs (frames : List (BeginFrameEnv × EndFrameEnv)) : List Call :=
  frames.flatMap (fun frame => [.BeginFrame frame.1, .EndFrame frame.2])

/-- Every Vulkan call of the frame returns `VK_SUCCESS`. -/
def FrameOk (frame : BeginFrameEnv × EndFrameEnv) : Prop :=
  frame.1.acquire.result = VK_SUCCESS ∧ frame.1.beginResult = VK_SUCCESS ∧
    frame.2.endResult = VK_SUCCESS ∧ frame.2.submit.submitResult = VK_SUCCESS ∧
    frame.2.submit.presentResult = VK_SUCCESS

/-- Between frames of a run without resize: Idle, flag clear, and the renderer and its swap
chain both at slot `j % 2`. -/
def InStep (r : AxeRenderer) (j : Nat) : Prop :=
  r.isFrameStarted = false ∧ r.currentFrameIndex = j % 2 ∧
    r.axeWindow.framebufferResized = false ∧
    ∃ sc, r.axeSwapChain = some sc ∧ sc.currentFrame = j % 2

/-- One call a user of the swap chain makes. -/
inductive SwapChainCall where
  | AcquireNextImage (env : AxeSwapChain.AcquireEnv)
  | SubmitCommandBuffers (buffer : VkCommandBuffer) (imageIndex : Nat)
      (env : AxeSwapChain.SubmitEnv)
deriving DecidableEq, Repr

/-- The call is a submission for image `imageIndex`. -/
def SwapChainCall.writes (imageIndex : Nat) : SwapChainCall → Bool
  | .SubmitCommandBuffers _ index _ => index == imageIndex
  | .AcquireNextImage _ => false

/-- Make one call on a swap chain and its device; the returned status is dropped. -/
def SwapChainCall.make (s : AxeSwapChain × AxeDevice) :
    SwapChainCall → (AxeSwapChain × AxeDevice) × Outcome Unit
  | .AcquireNextImage env => ((s.1, (s.1.AcquireNextImage s.2 0 env).1), .returned ())
  | .SubmitCommandBuffers buffer imageIndex env =>
    match s.1.SubmitCommandBuffers s.2 buffer imageIndex env with
    | (sc, device, .returned _) => ((sc, device), .returned ())
    | (sc, device, .failed fault) => ((sc, device), .failed fault)

/-- Make the calls in order; a fault ends the run. -/
def runSwapChain (s : AxeSwapChain × AxeDevice) :
    List SwapChainCall → (AxeSwapChain × AxeDevice) × Outcome Unit
  | [] => (s, .returned ())
  | call :: later =>
    match call.make s with
    | (s', .returned ()) => runSwapChain s' later
    | (s', .failed fault) => (s', .failed fault)

/-! ## What is owed on a command buffer -/

/-- One step of the monitor `owed`. -/
def owedStep (commandBuffer : VkCommandBuffer) (owed : Option VkFence) : VkCall → Option VkFence
  | .vkQueueSubmit buffer _ _ fence => if buffer = commandBuffer then some fence else owed
  | .vkWaitForFences fence => if owed = some fence then none else owed
  | .vkDeviceWaitIdle => none
  | _ => owed

/-- The fence that the latest `vkQueueSubmit` of `commandBuffer` in the record was given,
as long as no later call has waited on that fence or for the device to be idle. -/
def owed (commandBuffer : VkCommandBuffer) (calls : List VkCall) : Option VkFence :=
  calls.foldl (owedStep commandBuffer) none

/-- Every `vkBeginCommandBuffer` of the record is made with nothing owed on its target. -/
def RecordsSafely (calls : List VkCall) : Prop :=
  ∀ before after commandBuffer,
    calls = before ++ VkCall.vkBeginCommandBuffer commandBuffer :: after →
    owed commandBuffer before = none

/-- The renderer between calls of a run: its record is safe, and whatever is still owed on one
of its two command buffers is the fence of the slot that the swap chain will be at when the
renderer comes back to that command buffer. -/
def Paired (r : AxeRenderer) : Prop :=
  RecordsSafely r.axeDevice.calls ∧
    ∃ sc a b, r.axeSwapChain = some sc ∧ r.commandBuffers = [a, b] ∧ a ≠ b ∧
      r.currentFrameIndex < 2 ∧ sc.currentFrame < 2 ∧
      (∀ fence, owed a r.axeDevice.calls = some fence →
        fence = sc.inFlightFences.getD ((sc.currentFrame + r.currentFrameIndex) % 2) 0) ∧
      (∀ fence, owed b r.axeDevice.calls = some fence →
        fence = sc.inFlightFences.getD ((sc.currentFrame + r.currentFrameIndex + 1) % 2) 0)

/-! ## Concrete inputs -/

def sampleSupport : SwapChainSupportDetails :=
  { capabilities :=
      { minImageCount := 2, maxImageCount := 0, currentExtent := ⟨800, 600⟩,
        minImageExtent := ⟨1, 1⟩, maxImageExtent := ⟨4096, 4096⟩ }
    formats := [⟨VK_FORMAT_B8G8R8A8_SRGB, VK_COLOR_SPACE_SRGB_NONLINEAR_KHR⟩]
    presentModes := [VK_PRESENT_MODE_FIFO_KHR] }

def sampleSwapChainEnv : SwapChainEnv :=
  { support := sampleSupport, depthFormat := VK_FORMAT_D32_SFLOAT, imageCount := 3,
    failure := none }

def sampleRecreate : RecreateEnv := { events := [], swapChain := sampleSwapChainEnv }

def sampleWindow : AxeWindow := { width := 800, height := 600, framebufferResized := false }

def sampleConstruct : ConstructEnv := { recreate := sampleRecreate, allocateResult := VK_SUCCESS }

/-- An acquire that hands out image `imageIndex` with status `result`. -/
def sampleBegin (result : VkResult) (imageIndex : Nat) : BeginFrameEnv :=
  { acquire := { result := result, imageIndex := imageIndex }, beginResult := VK_SUCCESS,
    recreate := sampleRecreate }

/-- An `EndFrame` whose present returns `presentResult`. -/
def sampleEnd (presentResult : VkResult) : EndFrameEnv :=
  { endResult := VK_SUCCESS,
    submit := { submitResult := VK_SUCCESS, presentResult := presentResult },
    recreate := sampleRecreate }

/-- The renderer right after construction over a fresh device. -/
def sampleRenderer : AxeRenderer :=
  (AxeRenderer.construct sampleWindow { nextHandle := 1, calls := [] } sampleConstruct).1

/-- The swap chain of `sampleRenderer`. -/
def sampleSwapChain : AxeSwapChain :=
  sampleRenderer.axeSwapChain.getD (AxeSwapChain.blank { width := 0, height := 0 })

/-- A frame in progress on `sampleRenderer`: image 0 acquired with status `VK_SUCCESS`. -/
def sampleInProgress : AxeRenderer :=
  (sampleRenderer.BeginFrame (sampleBegin VK_SUCCESS 0)).1

/-- The frame loop after a resize event: events are polled, then a frame begins. -/
def sampleResizedInProgress : AxeRenderer :=
  (run sampleRenderer [.glfwPollEvents [(1024, 768)], .BeginFrame (sampleBegin VK_SUCCESS 0)]).1

/-- A frame in progress on `sampleRenderer` whose acquire returned `VK_SUBOPTIMAL_KHR`. -/
def sampleSuboptimalInProgress : AxeRenderer :=
  (sampleRenderer.BeginFrame (sampleBegin VK_SUBOPTIMAL_KHR 0)).1

/-- Two full frames and the start of a third, every call returning `VK_SUCCESS`. -/
def sampleThreeFrames : List Call :=
  [ .BeginFrame (sampleBegin VK_SUCCESS 0), .EndFrame (sampleEnd VK_SUCCESS),
    .BeginFrame (sampleBegin VK_SUCCESS 1), .EndFrame (sampleEnd VK_SUCCESS),
    .BeginFrame (sampleBegin VK_SUCCESS 2) ]

/-- The calls `sampleThreeFrames` makes between the submission of command buffer 27 in the
first frame and the recording on it in the third. -/
def sampleBetween : List VkCall :=
  [ .vkQueuePresentKHR 1 0 22, .vkWaitForFences 26, .vkAcquireNextImageKHR 1 24,
    .vkBeginCommandBuffer 28, .vkEndCommandBuffer 28, .vkResetFences 26,
    .vkQueueSubmit 28 24 25 26, .vkQueuePresentKHR 1 1 25, .vkWaitForFences 23,
    .vkAcquireNextImageKHR 1 21 ]

/-- A rebuild for which the device now reports another depth format. -/
def sampleFormatChange : RecreateEnv :=
  { events := []
    swapChain := { sampleSwapChainEnv with depthFormat := VK_FORMAT_D24_UNORM_S8_UINT } }

/-- The swap chain that `sampleRenderer` holds after a rebuild under `env`. -/
def sampleRebuilt (env : RecreateEnv) : AxeSwapChain :=
  (sampleRenderer.RecreateSwapChain env).1.axeSwapChain.getD
    (AxeSwapChain.blank { width := 0, height := 0 })

/-- The renderer as the `EndFrame` of the first frame hands it to `RecreateSwapChain` after
a present that returned `VK_SUBOPTIMAL_KHR`: the swap chain has moved on to slot 1. -/
def sampleStale : AxeRenderer :=
  sampleInProgress.presentedStale sampleSwapChain (sampleEnd VK_SUBOPTIMAL_KHR).submit

/-- A `vkQueueSubmit` and a `vkQueuePresentKHR` that both return `VK_SUCCESS`. -/
def sampleSubmitOk : AxeSwapChain.SubmitEnv :=
  { submitResult := VK_SUCCESS, presentResult := VK_SUCCESS }

/-- The swap chain of `sampleRenderer` and its device after command buffer 27 was submitted
for image 1 by slot 0 (fence 23) and the next image was acquired: image 1 carries the marker
23 and the swap chain is at slot 1 (fence 26). -/
def sampleMarked : AxeSwapChain × AxeDevice :=
  (runSwapChain (sampleSwapChain, sampleRenderer.axeDevice)
    [ .SubmitCommandBuffers 27 1 sampleSubmitOk,
      .AcquireNextImage { result := VK_SUCCESS, imageIndex := 2 } ]).1

/-! ## The extents `RecreateSwapChain` reads -/

/-- The condition of the loop in `RecreateSwapChain`: the extent has a zero dimension. -/
def VkExtent2D.isZero (extent : VkExtent2D) : Bool :=
  extent.width == 0 || extent.height == 0

/-- The extents the loop in `RecreateSwapChain` would test, round by round, if it kept
running: a round reads the extent, then waits for events, then tests what it read; so there is
one entry per `glfwWaitEvents()` that returns, and it is the extent of the window before that
wait delivers its callbacks. The extent read in a round whose wait never returns is not among
them. -/
def testedInLoop (window : AxeWindow) : List (List (Int × Int)) → List VkExtent2D
  | [] => []
  | callbacks :: later => window.GetExtent :: testedInLoop (window.deliver callbacks) later

/-- The extents that the condition of the loop in `RecreateSwapChain` is or would be
evaluated on: the extent read before the loop, then `testedInLoop`. -/
def testedExtents (window : AxeWindow) (events : List (List (Int × Int))) : List VkExtent2D :=
  window.GetExtent :: testedInLoop window events

/-- The extents the rounds of the loop in `RecreateSwapChain` read, in order, when the loop
is entered with `extent` as the extent read last: a round is run while that extent has a zero
dimension, and it reads the extent of the window before it waits for events, also when that
wait then never returns. -/
def extentsReadInLoop (window : AxeWindow) (extent : VkExtent2D) :
    List (List (Int × Int)) → List VkExtent2D
  | [] =>
    if extent.width = 0 ∨ extent.height = 0 then [window.GetExtent] else []
  | callbacks :: later =>
    if extent.width = 0 ∨ extent.height = 0 then
      window.GetExtent :: extentsReadInLoop (window.deliver callbacks) window.GetExtent later
    else []

/-- Every value a `GetExtent()` call of one `RecreateSwapChain` returns, in order: the read
before the loop and the reads of the rounds. -/
def extentsRead (window : AxeWindow) (events : List (List (Int × Int))) : List VkExtent2D :=
  window.GetExtent :: extentsReadInLoop window window.GetExtent events

/-- A minimised window: both dimensions are zero. -/
def sampleMinimizedWindow : AxeWindow := { width := 0, height := 0, framebufferResized := true }

/-- The renderer `sampleRenderer` after its window was minimised. -/
def sampleMinimized : AxeRenderer := { sampleRenderer with axeWindow := sampleMinimizedWindow }

/-- A rebuild during which the window is restored to 800 x 600 by the first batch of events
and a second batch, with no resize in it, follows. -/
def sampleRestore : RecreateEnv :=
  { events := [[(800, 600)], []], swapChain := sampleSwapChainEnv }

/-- A rebuild during which the window is restored to 800 x 600 by the only batch of events
that ever arrives. -/
def sampleRestoreThenSilence : RecreateEnv :=
  { events := [[(800, 600)]], swapChain := sampleSwapChainEnv }

/-! ## Fences over a run of frames -/

/-- The call takes `fence` out of the signaled state: it resets the fence, or hands it to a
queue submission. -/
def VkCall.unsignals (fence : VkFence) : VkCall → Bool
  | .vkResetFences f => f == fence
  | .vkQueueSubmit _ _ _ f => f == fence
  | _ => false

/-- The fence is in its initial signaled state: the record holds its creation with
`VK_FENCE_CREATE_SIGNALED_BIT` and no call that resets it or hands it to a submission. -/
def initiallySignaled (fence : VkFence) (calls : List VkCall) : Bool :=
  decide (VkCall.vkCreateFence fence true ∈ calls) && !calls.any (VkCall.unsignals fence)

/-- The fence of the first `vkWaitForFences` among the calls. -/
def firstWait : List VkCall → Option VkFence
  | [] => none
  | .vkWaitForFences fence :: _ => some fence
  | _ :: later => firstWait later

/-- The fence handed to the first `vkQueueSubmit` among the calls. -/
def submittedFence : List VkCall → Option VkFence
  | [] => none
  | .vkQueueSubmit _ _ _ fence :: _ => some fence
  | _ :: later => submittedFence later

/-- The renderer before frame `k` of a run of frames (frames are counted from 0). -/
def beforeFrame (r : AxeRenderer) (frames : List (BeginFrameEnv × EndFrameEnv)) (k : Nat) :
    AxeRenderer :=
  (run r (framePairs (frames.take k))).1

/-- The calls that the `BeginFrame` of frame `k` makes. -/
def beginCalls (r : AxeRenderer) (frames : List (BeginFrameEnv × EndFrameEnv)) (k : Nat) :
    List VkCall :=
  match frames[k]? with
  | none => []
  | some frame =>
    callsSince (beforeFrame r frames k).axeDevice
      ((beforeFrame r frames k).BeginFrame frame.1).1.axeDevice

/-- The calls that the `EndFrame` of frame `k` makes. -/
def endCalls (r : AxeRenderer) (frames : List (BeginFrameEnv × EndFrameEnv)) (k : Nat) :
    List VkCall :=
  match frames[k]? with
  | none => []
  | some frame =>
    callsSince ((beforeFrame r frames k).BeginFrame frame.1).1.axeDevice
      (((beforeFrame r frames k).BeginFrame frame.1).1.EndFrame frame.2).1.axeDevice

/-- Between frames of a run without resize and without rebuild: the renderer and the swap
chain are both at slot `j % 2`, the swap chain has the given fences and one marker per image,
and the fences of the slots no frame has used yet are in their initial signaled state. -/
def Steady (fences : List VkFence) (images : Nat) (r : AxeRenderer) (j : Nat) : Prop :=
  r.isFrameStarted = false ∧ r.currentFrameIndex = j % 2 ∧
    r.axeWindow.framebufferResized = false ∧
    (∀ i, j ≤ i → i < 2 → initiallySignaled (fences.getD i 0) r.axeDevice.calls = true) ∧
    ∃ sc, r.axeSwapChain = some sc ∧ sc.currentFrame = j % 2 ∧ sc.inFlightFences = fences ∧
      sc.imagesInFlight.length = images

/-- Ten frames in which every call returns `VK_SUCCESS`; the images come round in turn. -/
def sampleTenFrames : List (BeginFrameEnv × EndFrameEnv) :=
  (List.range 10).map (fun k => (sampleBegin VK_SUCCESS (k % 3), sampleEnd VK_SUCCESS))

/-- Capabilities of a surface whose size is decided by the swap chain: the current extent is
the sentinel `(0xFFFFFFFF, 0xFFFFFFFF)`. -/
def sampleSentinelCapabilities : VkSurfaceCapabilitiesKHR :=
  { minImageCount := 2, maxImageCount := 0, currentExtent := ⟨UINT32_MAX, UINT32_MAX⟩,
    minImageExtent := ⟨1, 1⟩, maxImageExtent := ⟨4096, 4096⟩ }

/-! ## The order of release -/

/-- The call that releases what a creation call created. -/
def VkCall.release : VkCall → Option VkCall
  | .vkCreateSwapchainKHR swapChain _ _ _ _ _ => some (.vkDestroySwapchainKHR swapChain)
  | .vkCreateImageView view _ => some (.vkDestroyImageView view)
  | .vkCreateRenderPass renderPass _ _ => some (.vkDestroyRenderPass renderPass)
  | .vkCreateImage image => some (.vkDestroyImage image)
  | .vkAllocateMemory memory => some (.vkFreeMemory memory)
  | .vkCreateFramebuffer framebuffer _ _ _ => some (.vkDestroyFramebuffer framebuffer)
  | .vkCreateSemaphore semaphore => some (.vkDestroySemaphore semaphore)
  | .vkCreateFence fence _ => some (.vkDestroyFence fence)
  | _ => none

/-- The releases of what the given calls created, latest creation first. -/
def reverseOfCreation (created : List VkCall) : List VkCall :=
  created.reverse.filterMap VkCall.release

/-- Call `a` is made before call `b`. -/
def Precedes (calls : List VkCall) (a b : VkCall) : Prop :=
  ∃ l₁ l₂ l₃, calls = l₁ ++ a :: l₂ ++ b :: l₃

/-- The calls that constructed `sampleSwapChain`. -/
def sampleCreated : List VkCall :=
  callsSince { nextHandle := 1, calls := [] }
    (AxeSwapChain.Init { nextHandle := 1, calls := [] } ⟨800, 600⟩ none sampleSwapChainEnv).1

/-! ## axe_buffer -/

/-- The `VkDeviceSize` fields of an `AxeBuffer` (`uint64_t` values) and its `uint32_t`
instance count. -/
structure AxeBuffer where
  bufferSize : Nat
  instanceCount : Nat
  instanceSize : Nat
  alignmentSize : Nat
deriving DecidableEq, Repr

namespace AxeBuffer

/-- The static `GetAlignment( instanceSize, minOffsetAlignment )`, in `uint64_t` arithmetic:
`~x` is `2^64 - 1 - x`. -/
def GetAlignment (instanceSize minOffsetAlignment : Nat) : Nat :=
  if minOffsetAlignment > 0 then
    ((instanceSize + minOffsetAlignment - 1) % 2 ^ 64) &&&
      (2 ^ 64 - 1 - (minOffsetAlignment - 1) % 2 ^ 64)
  else
    instanceSize

/-- The constructor, as far as the sizes go: the member initialisers and the two assignments
of its body (the multiplication is one of `uint64_t`). -/
def construct (instanceSize instanceCount minOffsetAlignment : Nat) : AxeBuffer :=
  let alignmentSize := GetAlignment instanceSize minOffsetAlignment
  { instanceCount := instanceCount
    instanceSize := instanceSize
    alignmentSize := alignmentSize
    bufferSize := (alignmentSize * instanceCount) % 2 ^ 64 }

end AxeBuffer

/-- A first frame whose present returns `VK_SUBOPTIMAL_KHR`, so that its `EndFrame` rebuilds
the swap chain, and the `BeginFrame` of the frame after it. -/
def sampleRebuildRun : List Call :=
  [ .BeginFrame (sampleBegin VK_SUCCESS 0), .EndFrame (sampleEnd VK_SUBOPTIMAL_KHR),
    .BeginFrame (sampleBegin VK_SUCCESS 0) ]

/-- The renderer `sampleRenderer` after the frame loop has polled a resize event. -/
def sampleResized : AxeRenderer :=
  (run sampleRenderer [.glfwPollEvents [(1024, 768)]]).1

/-- The renderer `sampleResized` after a `BeginFrame` whose acquire returned
`VK_ERROR_OUT_OF_DATE_KHR`. -/
def sampleResizedRebuilt : AxeRenderer :=
  (sampleResized.BeginFrame (sampleBegin VK_ERROR_OUT_OF_DATE_KHR 0)).1

/-- The number of `EndFrame` calls of the run that returned. -/
def framesEnded (r : AxeRenderer) : List Call → Nat
  | [] => 0
  | call :: later =>
    match call.make r with
    | (r', .returned ()) => (if call.isEndFrame then 1 else 0) + framesEnded r' later
    | (_, .failed _) => 0

/-! ## axe_model -/

namespace tinyobj

/-- The three indices of one mesh index entry; a negative index means the attribute is
absent. -/
structure index_t where
  vertex_index : Int
  normal_index : Int
  texcoord_index : Int
deriving DecidableEq, Repr

/-- The attribute arrays of a parsed file, over the component type `F`. -/
structure attrib_t (F : Type) where
  vertices : List F
  normals : List F
  texcoords : List F
  colors : List F
deriving DecidableEq, Repr

structure mesh_t where
  indices : List index_t
deriving DecidableEq, Repr

structure shape_t where
  mesh : mesh_t
deriving DecidableEq, Repr

end tinyobj

namespace AxeModel

/-- The struct `AxeModel::Vertex`. The component type `F` stands for the `float` values
without NaN, read up to `==` (so that `0.0` and `-0.0` are one value): then `==` on components
is equality. -/
structure Vertex (F : Type) where
  position : F × F × F
  color : F × F × F
  normal : F × F × F
  uv : F × F
deriving DecidableEq, Repr

/-- The `operator==` of `Vertex`. -/
def Vertex.eq {F : Type} [DecidableEq F] (vertex other : Vertex F) : Bool :=
  vertex.position == other.position && vertex.color == other.color &&
    vertex.normal == other.normal && vertex.uv == other.uv

structure Data (F : Type) where
  vertices : List (Vertex F)
  /-- The entries are `uint32_t`. -/
  indices : List Nat
deriving DecidableEq, Repr

/-- The `std::unordered_map<Vertex, uint32_t>` of `LoadModel`, as the list of its entries
in the order they were inserted; keys are compared with `operator==` (the hash of a vertex is
taken to agree on equal vertices). -/
abbrev UniqueVertices (F : Type) := List (Vertex F × Nat)

/-- The call `uniqueVertices.contains( vertex )`. -/
def UniqueVertices.contains {F : Type} [DecidableEq F] (uniqueVertices : UniqueVertices F)
    (vertex : Vertex F) : Bool :=
  uniqueVertices.any (fun entry => entry.1.eq vertex)

/-- The read `uniqueVertices[ vertex ]`; for a key that is absent `operator[]` yields the
value-initialized 0. -/
def UniqueVertices.get {F : Type} [DecidableEq F] (uniqueVertices : UniqueVertices F)
    (vertex : Vertex F) : Nat :=
  ((uniqueVertices.find? (fun entry => entry.1.eq vertex)).map (fun entry => entry.2)).getD 0

/-- The vertex that the loop body of `LoadModel` builds from one index entry. Reading an
attribute array past its end (undefined in the source) reads 0. -/
def readVertex {F : Type} [Zero F] (attributes : tinyobj.attrib_t F) (index : tinyobj.index_t) :
    Vertex F :=
  let vertex : Vertex F :=
    { position := (0, 0, 0), color := (0, 0, 0), normal := (0, 0, 0), uv := (0, 0) }
  let vertex :=
    if index.vertex_index ≥ 0 then
      { vertex with
        position :=
          ( attributes.vertices.getD (3 * index.vertex_index.toNat + 0) 0,
            attributes.vertices.getD (3 * index.vertex_index.toNat + 1) 0,
            attributes.vertices.getD (3 * index.vertex_index.toNat + 2) 0 )
        color :=
          ( attributes.colors.getD (3 * index.vertex_index.toNat + 0) 0,
            attributes.colors.getD (3 * index.vertex_index.toNat + 1) 0,
            attributes.colors.getD (3 * index.vertex_index.toNat + 2) 0 ) }
    else vertex
  let vertex :=
    if index.normal_index ≥ 0 then
      { vertex with
        normal :=
          ( attributes.normals.getD (3 * index.normal_index.toNat + 0) 0,
            attributes.normals.getD (3 * index.normal_index.toNat + 1) 0,
            attributes.normals.getD (3 * index.normal_index.toNat + 2) 0 ) }
    else vertex
  if index.texcoord_index ≥ 0 then
    { vertex with
      uv :=
        ( attributes.texcoords.getD (2 * index.texcoord_index.toNat + 0) 0,
          attributes.texcoords.getD (2 * index.texcoord_index.toNat + 1) 0 ) }
  else vertex

/-- The last two statements of the loop body of `LoadModel`: a vertex that the map does not
contain is entered with `static_cast<uint32_t>( vertices.size() )` and pushed, and the map
entry of the vertex is pushed to the indices. -/
def addVertex {F : Type} [DecidableEq F] (state : Data F × UniqueVertices F)
    (vertex : Vertex F) : Data F × UniqueVertices F :=
  let state : Data F × UniqueVertices F :=
    if !state.2.contains vertex then
      ({ state.1 with vertices := state.1.vertices ++ [vertex] },
        state.2 ++ [(vertex, state.1.vertices.length % 2 ^ 32)])
    else state
  ({ state.1 with indices := state.1.indices ++ [state.2.get vertex] }, state.2)

/-- The function `Data::LoadModel`, given what `tinyobj::LoadObj` made of the file: the
attributes and shapes, or the warnings and errors of a failed load. -/
def Data.LoadModel {F : Type} [DecidableEq F] [Zero F] (data : Data F)
    (loaded : Except String (tinyobj.attrib_t F × List tinyobj.shape_t)) :
    Data F × Outcome Unit :=
  match loaded with
  | .error message => (data, .failed (.threw message))
  | .ok (attributes, shapes) =>
    let start : Data F × UniqueVertices F := ({ vertices := [], indices := [] }, [])
    ((shapes.foldl (fun state shape =>
        shape.mesh.indices.foldl
          (fun state index => addVertex state (readVertex attributes index)) state)
      start).1, .returned ())

/-- The index entries of all shapes, in the order the loops of `LoadModel` visit them. -/
def entries (shapes : List tinyobj.shape_t) : List tinyobj.index_t :=
  shapes.flatMap (fun shape => shape.mesh.indices)

/-- What holds of the loop state of `LoadModel` once the vertices `done` have been read. -/
structure LoadInv {F : Type} [DecidableEq F] (done : List (Vertex F))
    (state : Data F × UniqueVertices F) : Prop where
  nodup : state.1.vertices.Nodup
  mem : ∀ v, v ∈ state.1.vertices ↔ v ∈ done
  order : state.1.vertices.Pairwise (fun a b => List.indexOf a done < List.indexOf b done)
  contains : ∀ v, state.2.contains v = decide (v ∈ state.1.vertices)
  get : ∀ v ∈ state.1.vertices, state.2.get v = List.indexOf v state.1.vertices % 2 ^ 32
  indices : state.1.indices =
    done.map (fun v => List.indexOf v state.1.vertices % 2 ^ 32)

end AxeModel

/-- A file with three positions and a shape that names the first of them twice. -/
def sampleAttributes : tinyobj.attrib_t Int :=
  { vertices := [0, 0, 0, 1, 0, 0, 0, 1, 0]
    normals := [0, 0, 1]
    texcoords := []
    colors := [1, 1, 1, 1, 1, 1, 1, 1, 1] }

def sampleShapes : List tinyobj.shape_t :=
  [ { mesh := { indices := [⟨0, 0, -1⟩, ⟨1, 0, -1⟩, ⟨0, 0, -1⟩] } },
    { mesh := { indices := [⟨2, 0, -1⟩, ⟨1, 0, -1⟩] } } ]

/-! ## systems/point_light_system -/

/-- A `glm::vec3` over the component type `F`. -/
abbrev Vec3 (F : Type) := F × F × F

structure TransformComponent (F : Type) where
  translation : Vec3 F
  scale : Vec3 F
  rotation : Vec3 F
deriving DecidableEq, Repr

structure PointLightComponent (F : Type) where
  lightIntensity : F
deriving DecidableEq, Repr

/-- The class `AxeGameObject`, without its `model`. The component type `F` stands for the
`float` values without NaN, read up to `==`, with their order. -/
structure AxeGameObject (F : Type) where
  id : Nat
  color : Vec3 F
  transform : TransformComponent F
  /-- The `std::unique_ptr<PointLightComponent>`; `none` is the null pointer. -/
  pointLight : Option (PointLightComponent F)
deriving DecidableEq, Repr

namespace AxeGameObject

def GetId {F : Type} (gameObject : AxeGameObject F) : Nat := gameObject.id

/-- The `AxeGameObject::Map`, an `std::unordered_map<UID, AxeGameObject>`, as the list of its
entries in the order an iteration visits them. -/
abbrev Map (F : Type) := List (Nat × AxeGameObject F)

/-- The call `gameObjects.at( id )`; `none` when it throws `std::out_of_range`. -/
def Map.at {F : Type} (gameObjects : Map F) (id : Nat) : Option (AxeGameObject F) :=
  (gameObjects.find? (fun entry => entry.1 == id)).map (fun entry => entry.2)

end AxeGameObject

/-- What `PointLightSystem::Render` reads of the `FrameInfo`; `cameraPosition` is
`camera.GetWorldSpacePosition()`. -/
structure FrameInfo (F : Type) where
  commandBuffer : VkCommandBuffer
  cameraPosition : Vec3 F
  globalDescriptorSet : Handle
  gameObjects : AxeGameObject.Map F
deriving DecidableEq, Repr

/-- The struct `PointLightPushConstants`. -/
structure PointLightPushConstants (F : Type) where
  position : F × F × F × F
  color : F × F × F × F
  radius : F
deriving DecidableEq, Repr

/-- One command that `Render` records. -/
inductive RenderCall (F : Type) where
  | vkCmdBindPipeline (commandBuffer : VkCommandBuffer)
  | vkCmdBindDescriptorSets (commandBuffer : VkCommandBuffer) (descriptorSet : Handle)
  | vkCmdPushConstants (commandBuffer : VkCommandBuffer)
      (pushConstants : PointLightPushConstants F)
  | vkCmdDraw (commandBuffer : VkCommandBuffer)
      (vertexCount instanceCount firstVertex firstInstance : Nat)
deriving DecidableEq, Repr

def RenderCall.isDraw {F : Type} : RenderCall F → Bool
  | .vkCmdDraw .. => true
  | _ => false

namespace PointLightSystem

/-- The assignment `sortedLights[ key ] = value` on the `std::map<float, UID>`, kept as the
list of its entries in increasing key order: the entry of an equivalent key keeps its key and
takes the new value. -/
def assign {F : Type} [LinearOrder F] (key : F) (value : Nat) :
    List (F × Nat) → List (F × Nat)
  | [] => [(key, value)]
  | (k, v) :: rest =>
    if key < k then (key, value) :: (k, v) :: rest
    else if k < key then (k, v) :: assign key value rest
    else (k, value) :: rest

/-- The value `glm::dot( offset, offset )` for the offset from the object to the camera. -/
def distanceSquared {F : Type} [Add F] [Sub F] [Mul F] (cameraPosition : Vec3 F)
    (gameObject : AxeGameObject F) : F :=
  let offset : Vec3 F :=
    ( cameraPosition.1 - gameObject.transform.translation.1,
      cameraPosition.2.1 - gameObject.transform.translation.2.1,
      cameraPosition.2.2 - gameObject.transform.translation.2.2 )
  offset.1 * offset.1 + offset.2.1 * offset.2.1 + offset.2.2 * offset.2.2

/-- The first loop of `Render`: the map `sortedLights` it builds. -/
def sortLights {F : Type} [LinearOrder F] [Add F] [Sub F] [Mul F] (frameInfo : FrameInfo F) :
    List (F × Nat) :=
  frameInfo.gameObjects.foldl (fun sortedLights entry =>
    match entry.2.pointLight with
    | none => sortedLights
    | some _ =>
      assign (distanceSquared frameInfo.cameraPosition entry.2) entry.2.GetId sortedLights) []

/-- The push constants of one light. -/
def pushConstants {F : Type} [One F] (gameObject : AxeGameObject F)
    (pointLight : PointLightComponent F) : PointLightPushConstants F :=
  { position := (gameObject.transform.translation.1, gameObject.transform.translation.2.1,
      gameObject.transform.translation.2.2, 1)
    color := (gameObject.color.1, gameObject.color.2.1, gameObject.color.2.2,
      pointLight.lightIntensity)
    radius := gameObject.transform.scale.1 }

/-- The second loop of `Render`, over the entries of `sortedLights` from last to first. -/
def drawLights {F : Type} [One F] (frameInfo : FrameInfo F) :
    List (F × Nat) → List (RenderCall F) × Outcome Unit
  | [] => ([], .returned ())
  | (_, id) :: rest =>
    match frameInfo.gameObjects.at id with
    | none => ([], .failed (.threw "std::out_of_range"))
    | some gameObject =>
      match gameObject.pointLight with
      | none => ([], .failed .undefined)
      | some pointLight =>
        ( [ RenderCall.vkCmdPushConstants frameInfo.commandBuffer
              (pushConstants gameObject pointLight),
            RenderCall.vkCmdDraw frameInfo.commandBuffer 6 1 0 0 ] ++
            (drawLights frameInfo rest).1,
          (drawLights frameInfo rest).2 )

/-- The function `PointLightSystem::Render`: the commands it records, in order. -/
def Render {F : Type} [LinearOrder F] [Add F] [Sub F] [Mul F] [One F]
    (frameInfo : FrameInfo F) : List (RenderCall F) × Outcome Unit :=
  ( [ RenderCall.vkCmdBindPipeline frameInfo.commandBuffer,
      RenderCall.vkCmdBindDescriptorSets frameInfo.commandBuffer
        frameInfo.globalDescriptorSet ] ++
      (drawLights frameInfo (sortLights frameInfo).reverse).1,
    (drawLights frameInfo (sortLights frameInfo).reverse).2 )

/-- The point lights of the frame, in the order the first loop visits them. -/
def lights {F : Type} (frameInfo : FrameInfo F) : List (AxeGameObject F) :=
  (frameInfo.gameObjects.map (fun entry => entry.2)).filter
    (fun gameObject => gameObject.pointLight.isSome)

end PointLightSystem

/-- A game object at `translation`, a point light when `isLight`. -/
def sampleObject (id : Nat) (translation : Vec3 Int) (isLight : Bool) : AxeGameObject Int :=
  { id := id, color := (1, 1, 1)
    transform := { translation := translation, scale := (1, 1, 1), rotation := (0, 0, 0) }
    pointLight := if isLight then some { lightIntensity := 5 } else none }

/-- A frame with the camera at the origin, a vase, and point lights at squared distances
4, 9 and 4. -/
def sampleFrame : FrameInfo Int :=
  { commandBuffer := 27, cameraPosition := (0, 0, 0), globalDescriptorSet := 40
    gameObjects :=
      [ (0, sampleObject 0 (1, 0, 0) false), (1, sampleObject 1 (2, 0, 0) true),
        (2, sampleObject 2 (0, 3, 0) true), (3, sampleObject 3 (0, 0, 2) true) ] }

/-! # Theorems -/

/-! ## The call record only grows -/

theorem Appends.refl (P : VkCall → Prop) (d : AxeDevice) : Appends P d d :=
  ⟨[], by simp, by simp⟩

theorem Appends.trans {P : VkCall → Prop} {a b c : AxeDevice} (h₁ : Appends P a b)
    (h₂ : Appends P b c) : Appends P a c := by
  obtain ⟨e₁, he₁, hp₁⟩ := h₁
  obtain ⟨e₂, he₂, hp₂⟩ := h₂
  refine ⟨e₁ ++ e₂, by rw [he₂, he₁, List.append_assoc], ?_⟩
  intro c hc
  rcases List.mem_append.mp hc with h | h
  · exact hp₁ c h
  · exact hp₂ c h

theorem Appends.mono {P Q : VkCall → Prop} {a b : AxeDevice} (h : Appends P a b)
    (hPQ : ∀ c, P c → Q c) : Appends Q a b := by
  obtain ⟨es, he, hp⟩ := h
  exact ⟨es, he, fun c hc => hPQ c (hp c hc)⟩

theorem Appends.recordAll {P : VkCall → Prop} (d : AxeDevice) (es : List VkCall)
    (h : ∀ c ∈ es, P c) : Appends P d (d.recordAll es) :=
  ⟨es, rfl, h⟩

theorem Appends.record {P : VkCall → Prop} (d : AxeDevice) (c : VkCall) (h : P c) :
    Appends P d (d.record c) :=
  ⟨[c], rfl, by simpa using h⟩

theorem Appends.reserve {P : VkCall → Prop} (d : AxeDevice) (n : Nat) :
    Appends P d (d.reserve n) :=
  ⟨[], by simp [AxeDevice.reserve], by simp⟩

theorem CreateSwapChain_appends (sc : AxeSwapChain) (d : AxeDevice) (old : Option AxeSwapChain)
    (env : SwapChainEnv) :
    Appends (fun c => c.isLifetime = true) d (sc.CreateSwapChain d old env).2 :=
  (Appends.reserve d _).trans (Appends.record _ _ rfl)

theorem CreateImageViews_appends (sc : AxeSwapChain) (d : AxeDevice) :
    Appends (fun c => c.isLifetime = true) d (sc.CreateImageViews d).2 :=
  (Appends.reserve d _).trans (Appends.recordAll _ _ (by simp [VkCall.isLifetime]))

theorem CreateRenderPass_appends (sc : AxeSwapChain) (d : AxeDevice) (env : SwapChainEnv) :
    Appends (fun c => c.isLifetime = true) d (sc.CreateRenderPass d env).2 :=
  (Appends.reserve d _).trans (Appends.record _ _ rfl)

theorem CreateDepthResources_appends (sc : AxeSwapChain) (d : AxeDevice) (env : SwapChainEnv) :
    Appends (fun c => c.isLifetime = true) d (sc.CreateDepthResources d env).2 :=
  (Appends.reserve d _).trans (Appends.recordAll _ _ (by
    intro c hc
    simp only [List.mem_flatMap, List.mem_range] at hc
    obtain ⟨i, _, hi⟩ := hc
    simp at hi
    rcases hi with h | h | h | h <;> subst h <;> rfl))

theorem CreateFramebuffers_appends (sc : AxeSwapChain) (d : AxeDevice) :
    Appends (fun c => c.isLifetime = true) d (sc.CreateFramebuffers d).2 :=
  (Appends.reserve d _).trans (Appends.recordAll _ _ (by simp [VkCall.isLifetime]))

theorem CreateSyncObjects_appends (sc : AxeSwapChain) (d : AxeDevice) :
    Appends (fun c => c.isLifetime = true) d (sc.CreateSyncObjects d).2 :=
  (Appends.reserve d _).trans (Appends.recordAll _ _ (by
    intro c hc
    simp only [List.mem_flatMap, List.mem_range] at hc
    obtain ⟨i, _, hi⟩ := hc
    simp at hi
    rcases hi with h | h | h <;> subst h <;> rfl))

theorem Init_appends (device : AxeDevice) (extent : VkExtent2D) (old : Option AxeSwapChain)
    (env : SwapChainEnv) :
    Appends (fun c => c.isLifetime = true) device (AxeSwapChain.Init device extent old env).1 := by
  unfold AxeSwapChain.Init
  repeat' split
  all_goals
    dsimp only
    repeat
      first
      | exact Appends.refl _ _
      | exact CreateSwapChain_appends _ _ _ _
      | refine Appends.trans ?_ (CreateImageViews_appends _ _)
      | refine Appends.trans ?_ (CreateRenderPass_appends _ _ _)
      | refine Appends.trans ?_ (CreateDepthResources_appends _ _ _)
      | refine Appends.trans ?_ (CreateFramebuffers_appends _ _)
      | refine Appends.trans ?_ (CreateSyncObjects_appends _ _)

theorem ImageCount_CreateSwapChain (sc : AxeSwapChain) (d : AxeDevice)
    (old : Option AxeSwapChain) (env : SwapChainEnv) :
    (sc.CreateSwapChain d old env).1.ImageCount = env.imageCount := by
  simp [AxeSwapChain.CreateSwapChain, AxeSwapChain.ImageCount]

theorem ImageCount_CreateImageViews (sc : AxeSwapChain) (d : AxeDevice) :
    (sc.CreateImageViews d).1.ImageCount = sc.ImageCount := rfl

theorem ImageCount_CreateRenderPass (sc : AxeSwapChain) (d : AxeDevice) (env : SwapChainEnv) :
    (sc.CreateRenderPass d env).1.ImageCount = sc.ImageCount := rfl

theorem ImageCount_CreateDepthResources (sc : AxeSwapChain) (d : AxeDevice)
    (env : SwapChainEnv) : (sc.CreateDepthResources d env).1.ImageCount = sc.ImageCount := rfl

theorem ImageCount_CreateFramebuffers (sc : AxeSwapChain) (d : AxeDevice) :
    (sc.CreateFramebuffers d).1.ImageCount = sc.ImageCount := rfl

theorem ImageCount_CreateSyncObjects (sc : AxeSwapChain) (d : AxeDevice) :
    (sc.CreateSyncObjects d).1.ImageCount = sc.ImageCount := rfl

/-- The first call of a construction that gets past its first step creates the raw swap
chain. -/
theorem CreateSwapChain_calls (sc : AxeSwapChain) (d : AxeDevice) (old : Option AxeSwapChain)
    (env : SwapChainEnv) :
    ∃ c, (sc.CreateSwapChain d old env).2.calls = d.calls ++ [c] ∧
      c.isCreateSwapchain = true :=
  ⟨_, rfl, rfl⟩

theorem exists_of_appends {P : VkCall → Prop} {d d₁ d₂ : AxeDevice} {c : VkCall}
    (h₁ : d₁.calls = d.calls ++ [c]) (hc : c.isCreateSwapchain = true) (h₂ : Appends P d₁ d₂) :
    ∃ c es, c.isCreateSwapchain = true ∧ d₂.calls = d.calls ++ c :: es ∧ ∀ e ∈ es, P e := by
  obtain ⟨es, hes, hP⟩ := h₂
  exact ⟨c, es, hc, by rw [hes, h₁, List.append_assoc]; rfl, hP⟩

/-- A construction that returns starts with the creation of the raw swap chain and leaves
the slot index at 0 and every marker empty. -/
theorem Init_returned {device device' : AxeDevice} {extent : VkExtent2D}
    {old : Option AxeSwapChain} {env : SwapChainEnv} {sc : AxeSwapChain}
    (h : AxeSwapChain.Init device extent old env = (device', .returned sc)) :
    sc.currentFrame = 0 ∧ sc.imagesInFlight = List.replicate sc.ImageCount none ∧
      sc.ImageCount = env.imageCount ∧
      ∃ c es, c.isCreateSwapchain = true ∧ device'.calls = device.calls ++ c :: es ∧
        ∀ e ∈ es, e.isLifetime = true := by
  unfold AxeSwapChain.Init at h
  repeat' split at h
  all_goals first | (simp at h; done) | skip
  simp only [Prod.mk.injEq, Outcome.returned.injEq] at h
  obtain ⟨hd, hs⟩ := h
  subst hd hs
  refine ⟨rfl, rfl, ?_, ?_⟩
  · rw [ImageCount_CreateSyncObjects, ImageCount_CreateFramebuffers,
      ImageCount_CreateDepthResources, ImageCount_CreateRenderPass,
      ImageCount_CreateImageViews, ImageCount_CreateSwapChain]
  · obtain ⟨c, hcalls, hc⟩ := CreateSwapChain_calls (AxeSwapChain.blank extent) device old env
    refine exists_of_appends hcalls hc ?_
    repeat
      first
      | exact CreateImageViews_appends _ _
      | refine Appends.trans ?_ (CreateRenderPass_appends _ _ _)
      | refine Appends.trans ?_ (CreateDepthResources_appends _ _ _)
      | refine Appends.trans ?_ (CreateFramebuffers_appends _ _)
      | refine Appends.trans ?_ (CreateSyncObjects_appends _ _)

/-! ## `RecreateSwapChain` -/

theorem waitForExtent_appends (window : AxeWindow) (device : AxeDevice) (extent : VkExtent2D)
    (events : List (List (Int × Int))) :
    Appends (fun c => c = .glfwWaitEvents) device
      (AxeRenderer.waitForExtent window device extent events).2.1 := by
  induction events generalizing window device extent with
  | nil =>
    unfold AxeRenderer.waitForExtent
    split
    · exact Appends.record _ _ rfl
    · exact Appends.refl _ _
  | cons callbacks later ih =>
    unfold AxeRenderer.waitForExtent
    split
    · refine Appends.trans ?_ (ih _ _ _)
      exact Appends.record _ _ rfl
    · exact Appends.refl _ _

theorem waitForExtent_window (window : AxeWindow) (device : AxeDevice) (extent : VkExtent2D)
    (events : List (List (Int × Int))) (hquiet : ∀ callbacks ∈ events, callbacks = []) :
    (AxeRenderer.waitForExtent window device extent events).1 = window := by
  induction events generalizing window device extent with
  | nil =>
    unfold AxeRenderer.waitForExtent
    split <;> rfl
  | cons callbacks later ih =>
    unfold AxeRenderer.waitForExtent
    split
    · have hc : callbacks = [] := hquiet callbacks (List.mem_cons_self _ _)
      subst hc
      rw [ih _ _ _ (fun c hc => hquiet c (List.mem_cons_of_mem _ hc))]
      rfl
    · rfl

theorem waitForExtent_nonzero (window : AxeWindow) (device : AxeDevice) (extent : VkExtent2D)
    (events : List (List (Int × Int))) (hw : extent.width ≠ 0) (hh : extent.height ≠ 0) :
    AxeRenderer.waitForExtent window device extent events = (window, device, some extent) := by
  cases events <;> simp [AxeRenderer.waitForExtent, hw, hh]

/-- What `RecreateSwapChain` never touches. -/
theorem RecreateSwapChain_fields (r : AxeRenderer) (env : RecreateEnv) :
    (r.RecreateSwapChain env).1.commandBuffers = r.commandBuffers ∧
      (r.RecreateSwapChain env).1.currentImageIndex = r.currentImageIndex ∧
      (r.RecreateSwapChain env).1.currentFrameIndex = r.currentFrameIndex ∧
      (r.RecreateSwapChain env).1.isFrameStarted = r.isFrameStarted := by
  unfold AxeRenderer.RecreateSwapChain
  repeat' first | split | dsimp only
  all_goals exact ⟨rfl, rfl, rfl, rfl⟩

theorem RecreateSwapChain_window (r : AxeRenderer) (env : RecreateEnv)
    (hquiet : ∀ callbacks ∈ env.events, callbacks = []) :
    (r.RecreateSwapChain env).1.axeWindow = r.axeWindow := by
  have hw := waitForExtent_window r.axeWindow r.axeDevice r.axeWindow.GetExtent env.events hquiet
  unfold AxeRenderer.RecreateSwapChain
  split
  · rename_i heq
    rw [heq] at hw
    exact hw
  · rename_i heq
    rw [heq] at hw
    repeat' first | split | dsimp only
    all_goals exact hw

theorem destroyCalls_lifetime (sc : AxeSwapChain) : ∀ c ∈ sc.destroyCalls, c.isLifetime = true := by
  intro c hc
  unfold AxeSwapChain.destroyCalls at hc
  simp only [List.mem_append, List.mem_map, List.mem_flatMap, List.mem_range,
    List.mem_singleton] at hc
  rcases hc with ((((⟨_, _, rfl⟩ | h) | ⟨i, _, h⟩) | ⟨_, _, rfl⟩) | rfl) | ⟨i, _, h⟩
  · rfl
  · split at h
    · simp at h; subst h; rfl
    · simp at h
  · simp at h
    rcases h with h | h | h <;> subst h <;> rfl
  · rfl
  · rfl
  · simp at h
    rcases h with h | h | h <;> subst h <;> rfl

theorem RecreateSwapChain_appends (r : AxeRenderer) (env : RecreateEnv) :
    Appends VkCall.isRebuild r.axeDevice (r.RecreateSwapChain env).1.axeDevice := by
  have hw := (waitForExtent_appends r.axeWindow r.axeDevice r.axeWindow.GetExtent
    env.events).mono (fun c hc => (Or.inl hc : c.isRebuild))
  unfold AxeRenderer.RecreateSwapChain
  split
  · rename_i heq
    rw [heq] at hw
    exact hw
  · rename_i window device extent heq
    rw [heq] at hw
    have hidle : Appends VkCall.isRebuild r.axeDevice (device.record .vkDeviceWaitIdle) :=
      hw.trans (Appends.record _ _ (Or.inr (Or.inl rfl)))
    have hinit : ∀ old, Appends VkCall.isRebuild r.axeDevice
        (AxeSwapChain.Init (device.record .vkDeviceWaitIdle) extent old env.swapChain).1 :=
      fun old => hidle.trans ((Init_appends _ _ _ _).mono (fun c hc => Or.inr (Or.inr hc)))
    have hdestroy : ∀ (old : Option AxeSwapChain) (o : AxeSwapChain),
        Appends VkCall.isRebuild r.axeDevice
          ((AxeSwapChain.Init (device.record .vkDeviceWaitIdle) extent old
            env.swapChain).1.recordAll o.destroyCalls) :=
      fun old o => (hinit old).trans (Appends.recordAll _ _
        (fun c hc => Or.inr (Or.inr (destroyCalls_lifetime o c hc))))
    dsimp only
    split
    · split
      · rename_i heq2
        have := hinit none
        rw [heq2] at this
        exact this
      · rename_i heq2
        have := hinit none
        rw [heq2] at this
        exact this
    · rename_i old _
      split
      · rename_i heq2
        have := hdestroy (some old) old
        rw [heq2] at this
        exact this
      · rename_i heq2
        have := hdestroy (some old) old
        rw [heq2] at this
        split <;> exact this

/-- A rebuild that returns: the swap chain it installs and the calls it made. -/
theorem RecreateSwapChain_returned {r r' : AxeRenderer} {env : RecreateEnv}
    (h : r.RecreateSwapChain env = (r', .returned ())) :
    ∃ sc q₁ c q₂, r'.axeSwapChain = some sc ∧ sc.currentFrame = 0 ∧
      sc.imagesInFlight = List.replicate sc.ImageCount none ∧
      r'.axeDevice.calls = r.axeDevice.calls ++ q₁ ++ VkCall.vkDeviceWaitIdle :: c :: q₂ ∧
      (∀ e ∈ q₁, e = VkCall.glfwWaitEvents) ∧ c.isCreateSwapchain = true ∧
      (∀ e ∈ q₂, e.isLifetime = true) ∧
      ∀ old, r.axeSwapChain = some old → old.AreSwapChainFormatsEqual sc = true := by
  have hw := waitForExtent_appends r.axeWindow r.axeDevice r.axeWindow.GetExtent env.events
  unfold AxeRenderer.RecreateSwapChain at h
  split at h
  · simp at h
  · rename_i window device extent heq
    rw [heq] at hw
    obtain ⟨q₁, hq₁, hq₁P⟩ := hw
    dsimp only at h hq₁
    split at h
    · rename_i hnone
      split at h
      · simp at h
      · rename_i device' sc heq2
        obtain ⟨h1, h2, _, c, es, hc, hcalls, hes⟩ := Init_returned heq2
        simp only [Prod.mk.injEq, and_true] at h
        subst h
        refine ⟨sc, q₁, c, es, rfl, h1, h2, ?_, hq₁P, hc, hes, ?_⟩
        · simp only [hcalls, AxeDevice.record, hq₁, List.append_assoc, List.singleton_append]
        · intro old hold
          rw [hnone] at hold
          cases hold
    · rename_i old hsome
      split at h
      · simp at h
      · rename_i device' sc heq2
        obtain ⟨h1, h2, _, c, es, hc, hcalls, hes⟩ := Init_returned heq2
        split at h
        · simp at h
        · rename_i hfmt
          simp only [Prod.mk.injEq, and_true] at h
          subst h
          refine ⟨sc, q₁, c, es ++ old.destroyCalls, rfl, h1, h2, ?_, hq₁P, hc, ?_, ?_⟩
          · simp only [hcalls, AxeDevice.record, AxeDevice.recordAll, hq₁, List.append_assoc,
              List.singleton_append, List.cons_append, List.nil_append]
          · intro e he
            rcases List.mem_append.mp he with he | he
            · exact hes e he
            · exact destroyCalls_lifetime old e he
          · intro old' hold'
            rw [hsome] at hold'
            cases hold'
            simpa using hfmt

/-! ## `BeginFrame` and `EndFrame`, case by case -/

theorem BeginFrame_in_progress (r : AxeRenderer) (env : BeginFrameEnv)
    (h : r.isFrameStarted = true) :
    r.BeginFrame env =
      (r, .failed (.aborted "Cannot call BeginFrame() while frame is already in progress")) := by
  simp [AxeRenderer.BeginFrame, h]

theorem BeginFrame_outOfDate (r : AxeRenderer) (sc : AxeSwapChain) (env : BeginFrameEnv)
    (hidle : r.isFrameStarted = false) (hsc : r.axeSwapChain = some sc)
    (hres : env.acquire.result = VK_ERROR_OUT_OF_DATE_KHR) :
    r.BeginFrame env = (((r.acquired sc env.acquire).RecreateSwapChain env.recreate).1,
      ((r.acquired sc env.acquire).RecreateSwapChain env.recreate).2.asNone) := by
  unfold AxeRenderer.BeginFrame
  simp only [hidle, hsc, AxeSwapChain.AcquireNextImage, hres, AxeRenderer.acquired]
  simp only [Bool.false_eq_true, ↓reduceIte]
  split <;> rename_i heq <;> simp only [heq, Outcome.asNone]

theorem BeginFrame_acquire_error (r : AxeRenderer) (sc : AxeSwapChain) (env : BeginFrameEnv)
    (hidle : r.isFrameStarted = false) (hsc : r.axeSwapChain = some sc)
    (h₁ : env.acquire.result ≠ VK_ERROR_OUT_OF_DATE_KHR) (h₂ : env.acquire.result ≠ VK_SUCCESS)
    (h₃ : env.acquire.result ≠ VK_SUBOPTIMAL_KHR) :
    r.BeginFrame env = (r.acquired sc env.acquire,
      .failed (.threw "Failed to aquire next swap chain image")) := by
  unfold AxeRenderer.BeginFrame
  simp [hidle, hsc, AxeSwapChain.AcquireNextImage, AxeRenderer.acquired, h₁, h₂, h₃]

theorem BeginFrame_proceeds (r : AxeRenderer) (sc : AxeSwapChain) (env : BeginFrameEnv)
    (hidle : r.isFrameStarted = false) (hsc : r.axeSwapChain = some sc)
    (hres : env.acquire.result = VK_SUCCESS ∨ env.acquire.result = VK_SUBOPTIMAL_KHR) :
    r.BeginFrame env =
      (r.started sc env.acquire,
        if env.beginResult ≠ VK_SUCCESS then
          .failed (.threw "Failed to begin recording command buffer")
        else .returned (some (r.commandBuffers.getD r.currentFrameIndex 0))) := by
  unfold AxeRenderer.BeginFrame
  have h₁ : env.acquire.result ≠ VK_ERROR_OUT_OF_DATE_KHR := by
    rcases hres with h | h <;> rw [h] <;> decide
  have h₂ : ¬ (env.acquire.result ≠ VK_SUCCESS ∧ env.acquire.result ≠ VK_SUBOPTIMAL_KHR) := by
    rcases hres with h | h <;> simp [h]
  simp only [hidle, hsc, AxeSwapChain.AcquireNextImage, AxeRenderer.acquired,
    AxeRenderer.started, h₁, h₂, AxeRenderer.GetCurrentCommandBuffer, Bool.false_eq_true,
    ↓reduceIte]
  split <;> rfl

theorem EndFrame_idle (r : AxeRenderer) (env : EndFrameEnv) (h : r.isFrameStarted = false) :
    r.EndFrame env =
      (r, .failed (.aborted "Cannot call EndFrame() while frame is not in progress")) := by
  simp [AxeRenderer.EndFrame, h]

theorem EndFrame_end_failed (r : AxeRenderer) (env : EndFrameEnv) (h : r.isFrameStarted = true)
    (hend : env.endResult ≠ VK_SUCCESS) :
    r.EndFrame env =
      ({ r with
          axeDevice := (r.axeDevice.record
            (.vkEndCommandBuffer (r.commandBuffers.getD r.currentFrameIndex 0))) },
        .failed (.threw "Failed to end recording command buffer")) := by
  unfold AxeRenderer.EndFrame
  simp only [h, AxeRenderer.GetCurrentCommandBuffer, hend, Bool.not_true, Bool.false_eq_true,
    ↓reduceIte, ne_eq, not_false_eq_true]

theorem EndFrame_submit_failed (r : AxeRenderer) (sc : AxeSwapChain) (env : EndFrameEnv)
    (h : r.isFrameStarted = true) (hsc : r.axeSwapChain = some sc)
    (hend : env.endResult = VK_SUCCESS) (hsub : env.submit.submitResult ≠ VK_SUCCESS) :
    r.EndFrame env =
      (r.submitted sc env.submit, .failed (.threw "Failed to submit draw command buffer")) := by
  unfold AxeRenderer.EndFrame
  simp only [h, AxeRenderer.GetCurrentCommandBuffer, hend, hsc, Bool.not_true,
    Bool.false_eq_true, ↓reduceIte, ne_eq, not_true_eq_false, AxeRenderer.submitted,
    AxeSwapChain.SubmitCommandBuffers, hsub, not_false_eq_true]

theorem EndFrame_rebuilds (r : AxeRenderer) (sc : AxeSwapChain) (env : EndFrameEnv)
    (h : r.isFrameStarted = true) (hsc : r.axeSwapChain = some sc)
    (hend : env.endResult = VK_SUCCESS) (hsub : env.submit.submitResult = VK_SUCCESS)
    (hcond : env.submit.presentResult = VK_ERROR_OUT_OF_DATE_KHR ∨
      env.submit.presentResult = VK_SUBOPTIMAL_KHR ∨ r.axeWindow.framebufferResized = true) :
    r.EndFrame env =
      match (r.presentedStale sc env.submit).RecreateSwapChain env.recreate with
      | (r', .failed fault) => (r', .failed fault)
      | (r', .returned ()) => (r'.closed, .returned ()) := by
  unfold AxeRenderer.EndFrame
  simp only [h, AxeRenderer.GetCurrentCommandBuffer, hend, hsc, Bool.not_true,
    Bool.false_eq_true, ↓reduceIte, ne_eq, not_true_eq_false, AxeRenderer.submitted,
    AxeRenderer.presentedStale, AxeRenderer.closed, AxeWindow.WasWindowResized,
    AxeSwapChain.SubmitCommandBuffers, hsub, hcond]

theorem EndFrame_keeps (r : AxeRenderer) (sc : AxeSwapChain) (env : EndFrameEnv)
    (h : r.isFrameStarted = true) (hsc : r.axeSwapChain = some sc)
    (hend : env.endResult = VK_SUCCESS) (hsub : env.submit.submitResult = VK_SUCCESS)
    (h₁ : env.submit.presentResult ≠ VK_ERROR_OUT_OF_DATE_KHR)
    (h₂ : env.submit.presentResult ≠ VK_SUBOPTIMAL_KHR)
    (h₃ : r.axeWindow.framebufferResized = false) :
    r.EndFrame env =
      if env.submit.presentResult ≠ VK_SUCCESS then
        (r.submitted sc env.submit, .failed (.threw "Failed to present swap chain image"))
      else ((r.submitted sc env.submit).closed, .returned ()) := by
  unfold AxeRenderer.EndFrame
  simp only [h, AxeRenderer.GetCurrentCommandBuffer, hend, hsc, Bool.not_true,
    Bool.false_eq_true, ↓reduceIte, ne_eq, not_true_eq_false, AxeRenderer.submitted,
    AxeRenderer.closed, AxeWindow.WasWindowResized,
    AxeSwapChain.SubmitCommandBuffers, hsub, h₁, h₂, h₃, or_self]

theorem RecreateSwapChain_fields_of_eq {r r' : AxeRenderer} {env : RecreateEnv}
    {out : Outcome Unit} (h : r.RecreateSwapChain env = (r', out)) :
    r'.commandBuffers = r.commandBuffers ∧ r'.currentImageIndex = r.currentImageIndex ∧
      r'.currentFrameIndex = r.currentFrameIndex ∧ r'.isFrameStarted = r.isFrameStarted := by
  have := RecreateSwapChain_fields r env
  rw [h] at this
  exact this

theorem EndFrame_null (r : AxeRenderer) (env : EndFrameEnv) (h : r.isFrameStarted = true)
    (hsc : r.axeSwapChain = none) (hend : env.endResult = VK_SUCCESS) :
    r.EndFrame env =
      ({ r with
          axeDevice := (r.axeDevice.record
            (.vkEndCommandBuffer (r.commandBuffers.getD r.currentFrameIndex 0))) },
        .failed .undefined) := by
  unfold AxeRenderer.EndFrame
  simp only [h, AxeRenderer.GetCurrentCommandBuffer, hend, hsc, Bool.not_true,
    Bool.false_eq_true, ↓reduceIte, ne_eq, not_true_eq_false]

/-- How `EndFrame` leaves the protocol state of a frame in progress: it closes the frame and
advances the frame index exactly when it returns. -/
theorem EndFrame_protocol (r : AxeRenderer) (env : EndFrameEnv) (hprog : r.isFrameStarted = true) :
    (r.EndFrame env).1.commandBuffers = r.commandBuffers ∧
      ((r.EndFrame env).2 = .returned () →
        (r.EndFrame env).1.isFrameStarted = false ∧
        (r.EndFrame env).1.currentFrameIndex = (r.currentFrameIndex + 1) % MAX_FRAMES_IN_FLIGHT) ∧
      (∀ fault, (r.EndFrame env).2 = .failed fault →
        (r.EndFrame env).1.isFrameStarted = true ∧
        (r.EndFrame env).1.currentFrameIndex = r.currentFrameIndex) := by
  by_cases hend : env.endResult = VK_SUCCESS
  swap
  · rw [EndFrame_end_failed r env hprog hend]
    exact ⟨rfl, by simp, fun _ _ => ⟨hprog, rfl⟩⟩
  rcases hsc : r.axeSwapChain with _ | sc
  · rw [EndFrame_null r env hprog hsc hend]
    exact ⟨rfl, by simp, fun _ _ => ⟨hprog, rfl⟩⟩
  by_cases hsub : env.submit.submitResult = VK_SUCCESS
  swap
  · rw [EndFrame_submit_failed r sc env hprog hsc hend hsub]
    exact ⟨rfl, by simp, fun _ _ => ⟨hprog, rfl⟩⟩
  by_cases hcond : env.submit.presentResult = VK_ERROR_OUT_OF_DATE_KHR ∨
      env.submit.presentResult = VK_SUBOPTIMAL_KHR ∨ r.axeWindow.framebufferResized = true
  · rw [EndFrame_rebuilds r sc env hprog hsc hend hsub hcond]
    rcases hrr : (r.presentedStale sc env.submit).RecreateSwapChain env.recreate with ⟨r', _ | f⟩
    · obtain ⟨h1, _, h3, _⟩ := RecreateSwapChain_fields_of_eq hrr
      refine ⟨h1, fun _ => ⟨rfl, ?_⟩, by simp⟩
      show (r'.currentFrameIndex + 1) % MAX_FRAMES_IN_FLIGHT = _
      rw [h3]
      rfl
    · obtain ⟨h1, _, h3, h4⟩ := RecreateSwapChain_fields_of_eq hrr
      exact ⟨h1, by simp, fun _ _ => ⟨h4.trans hprog, h3⟩⟩
  · simp only [not_or] at hcond
    rw [EndFrame_keeps r sc env hprog hsc hend hsub hcond.1 hcond.2.1 (by simpa using hcond.2.2)]
    split
    · exact ⟨rfl, by simp, fun _ _ => ⟨hprog, rfl⟩⟩
    · exact ⟨rfl, fun _ => ⟨rfl, rfl⟩, by simp⟩

theorem BeginSwapChainRenderPass_protocol (r : AxeRenderer) (cb : VkCommandBuffer) :
    (r.BeginSwapChainRenderPass cb).1.isFrameStarted = r.isFrameStarted ∧
      (r.BeginSwapChainRenderPass cb).1.currentFrameIndex = r.currentFrameIndex ∧
      (r.BeginSwapChainRenderPass cb).1.commandBuffers = r.commandBuffers ∧
      (r.BeginSwapChainRenderPass cb).1.axeSwapChain = r.axeSwapChain := by
  unfold AxeRenderer.BeginSwapChainRenderPass
  repeat' first | split | dsimp only
  all_goals exact ⟨rfl, rfl, rfl, rfl⟩

theorem EndSwapChainRenderPass_protocol (r : AxeRenderer) (cb : VkCommandBuffer) :
    (r.EndSwapChainRenderPass cb).1.isFrameStarted = r.isFrameStarted ∧
      (r.EndSwapChainRenderPass cb).1.currentFrameIndex = r.currentFrameIndex ∧
      (r.EndSwapChainRenderPass cb).1.commandBuffers = r.commandBuffers ∧
      (r.EndSwapChainRenderPass cb).1.axeSwapChain = r.axeSwapChain := by
  unfold AxeRenderer.EndSwapChainRenderPass
  repeat' first | split | dsimp only
  all_goals exact ⟨rfl, rfl, rfl, rfl⟩

/-- While no `EndFrame` returns, a frame in progress stays in progress. -/
theorem run_stays_in_progress (r : AxeRenderer) (calls : List Call)
    (hprog : r.isFrameStarted = true) (hno : endFrameCompleted r calls = false) :
    (run r calls).1.isFrameStarted = true := by
  induction calls generalizing r with
  | nil => exact hprog
  | cons call later ih =>
    unfold run
    unfold endFrameCompleted at hno
    rcases hmk : call.make r with ⟨r', _ | f⟩
    · rw [hmk] at hno
      simp only [Bool.or_eq_false_iff] at hno
      have hr' : r'.isFrameStarted = true := by
        cases call with
        | glfwPollEvents callbacks =>
          simp only [Call.make, Prod.mk.injEq] at hmk
          rw [← hmk.1]
          exact hprog
        | BeginFrame env =>
          simp [Call.make, BeginFrame_in_progress r env hprog] at hmk
        | EndFrame env => simp [Call.isEndFrame] at hno
        | BeginSwapChainRenderPass cb =>
          have := (BeginSwapChainRenderPass_protocol r cb).1
          simp only [Call.make] at hmk
          rw [hmk] at this
          exact this.trans hprog
        | EndSwapChainRenderPass cb =>
          have := (EndSwapChainRenderPass_protocol r cb).1
          simp only [Call.make] at hmk
          rw [hmk] at this
          exact this.trans hprog
      exact ih r' hr' hno.2
    · show r'.isFrameStarted = true
      cases call with
      | glfwPollEvents callbacks => simp [Call.make] at hmk
      | BeginFrame env =>
        simp only [Call.make, BeginFrame_in_progress r env hprog, Prod.mk.injEq] at hmk
        rw [← hmk.1]
        exact hprog
      | EndFrame env =>
        simp only [Call.make] at hmk
        have := (EndFrame_protocol r env hprog).2.2 f (by rw [hmk])
        rw [hmk] at this
        exact this.1
      | BeginSwapChainRenderPass cb =>
        have := (BeginSwapChainRenderPass_protocol r cb).1
        simp only [Call.make] at hmk
        rw [hmk] at this
        exact this.trans hprog
      | EndSwapChainRenderPass cb =>
        have := (EndSwapChainRenderPass_protocol r cb).1
        simp only [Call.make] at hmk
        rw [hmk] at this
        exact this.trans hprog

theorem BeginFrame_returned_target {r r₁ : AxeRenderer} {env : BeginFrameEnv}
    {target : VkCommandBuffer} (h : r.BeginFrame env = (r₁, .returned (some target))) :
    r₁.isFrameStarted = true := by
  by_cases hidle : r.isFrameStarted = true
  · rw [BeginFrame_in_progress r env hidle] at h
    simp at h
  have hidle' : r.isFrameStarted = false := by simpa using hidle
  rcases hsc : r.axeSwapChain with _ | sc
  · simp [AxeRenderer.BeginFrame, hidle', hsc] at h
  by_cases h₁ : env.acquire.result = VK_ERROR_OUT_OF_DATE_KHR
  · rw [BeginFrame_outOfDate r sc env hidle' hsc h₁] at h
    rcases hrr : ((r.acquired sc env.acquire).RecreateSwapChain env.recreate).2 with _ | f
    · simp [hrr, Outcome.asNone] at h
    · simp [hrr, Outcome.asNone] at h
  by_cases h₂ : env.acquire.result = VK_SUCCESS ∨ env.acquire.result = VK_SUBOPTIMAL_KHR
  · rw [BeginFrame_proceeds r sc env hidle' hsc h₂] at h
    simp only [Prod.mk.injEq] at h
    rw [← h.1]
    rfl
  · simp only [not_or] at h₂
    rw [BeginFrame_acquire_error r sc env hidle' hsc h₁ h₂.1 h₂.2] at h
    simp at h

theorem callsSince_of_append {before after : AxeDevice} {es : List VkCall}
    (h : after.calls = before.calls ++ es) : callsSince before after = es := by
  simp [callsSince, h]

theorem Appends.callsSince {P : VkCall → Prop} {before after : AxeDevice}
    (h : Appends P before after) : ∀ c ∈ callsSince before after, P c := by
  obtain ⟨es, hes, hP⟩ := h
  rw [callsSince_of_append hes]
  exact hP

/-- The calls of one `SubmitCommandBuffers`, in order. -/
theorem SubmitCommandBuffers_calls (sc : AxeSwapChain) (d : AxeDevice) (cb : VkCommandBuffer)
    (i : Nat) (env : AxeSwapChain.SubmitEnv) :
    (sc.SubmitCommandBuffers d cb i env).2.1.calls =
      d.calls ++ ((sc.imagesInFlight.getD i none).toList.map VkCall.vkWaitForFences ++
        [ VkCall.vkResetFences (sc.inFlightFences.getD sc.currentFrame 0),
          VkCall.vkQueueSubmit cb (sc.imageAvailableForRenderingSemaphores.getD sc.currentFrame 0)
            (sc.renderFinishedSemaphores.getD sc.currentFrame 0)
            (sc.inFlightFences.getD sc.currentFrame 0) ] ++
        if env.submitResult = VK_SUCCESS then
          [VkCall.vkQueuePresentKHR (sc.swapChain.getD 0) i
            (sc.renderFinishedSemaphores.getD sc.currentFrame 0)]
        else []) := by
  unfold AxeSwapChain.SubmitCommandBuffers
  cases hm : sc.imagesInFlight.getD i none <;> by_cases hs : env.submitResult = VK_SUCCESS <;>
    simp [hm, hs, AxeDevice.record]

theorem submitted_calls (r : AxeRenderer) (sc : AxeSwapChain) (env : AxeSwapChain.SubmitEnv) :
    (r.submitted sc env).axeDevice.calls =
      r.axeDevice.calls ++
        (VkCall.vkEndCommandBuffer (r.commandBuffers.getD r.currentFrameIndex 0) ::
          ((sc.imagesInFlight.getD r.currentImageIndex none).toList.map VkCall.vkWaitForFences ++
        [ VkCall.vkResetFences (sc.inFlightFences.getD sc.currentFrame 0),
          VkCall.vkQueueSubmit (r.commandBuffers.getD r.currentFrameIndex 0)
            (sc.imageAvailableForRenderingSemaphores.getD sc.currentFrame 0)
            (sc.renderFinishedSemaphores.getD sc.currentFrame 0)
            (sc.inFlightFences.getD sc.currentFrame 0) ] ++
        if env.submitResult = VK_SUCCESS then
          [VkCall.vkQueuePresentKHR (sc.swapChain.getD 0) r.currentImageIndex
            (sc.renderFinishedSemaphores.getD sc.currentFrame 0)]
        else [])) := by
  unfold AxeRenderer.submitted
  simp only [SubmitCommandBuffers_calls, AxeDevice.record, List.append_assoc,
    List.singleton_append]

theorem submitted_not_rebuilt (r : AxeRenderer) (sc : AxeSwapChain)
    (env : AxeSwapChain.SubmitEnv) :
    ∀ c ∈ callsSince r.axeDevice (r.submitted sc env).axeDevice, c.isCreateSwapchain = false := by
  rw [callsSince_of_append (submitted_calls r sc env)]
  intro c hc
  simp only [List.mem_cons, List.mem_append, List.mem_map, Option.mem_toList,
    List.not_mem_nil, or_false] at hc
  rcases hc with rfl | (⟨_, _, rfl⟩ | rfl | rfl) | h
  · rfl
  · rfl
  · rfl
  · rfl
  · split at h
    · simp only [List.mem_singleton] at h
      subst h
      rfl
    · simp at h

theorem rebuilt_of_calls {before mid after : AxeDevice} {e₁ e₂ : List VkCall}
    (h₁ : mid.calls = before.calls ++ e₁) (h₂ : after.calls = mid.calls ++ e₂)
    (hc : ∃ c ∈ e₂, c.isCreateSwapchain = true) : rebuilt before after = true := by
  have : after.calls = before.calls ++ (e₁ ++ e₂) := by rw [h₂, h₁, List.append_assoc]
  unfold rebuilt
  rw [callsSince_of_append this, List.any_eq_true]
  obtain ⟨c, hc, hcreate⟩ := hc
  exact ⟨c, List.mem_append_right _ hc, hcreate⟩

theorem RecreateSwapChain_window_nonzero (r : AxeRenderer) (env : RecreateEnv)
    (hw : r.axeWindow.GetExtent.width ≠ 0) (hh : r.axeWindow.GetExtent.height ≠ 0) :
    (r.RecreateSwapChain env).1.axeWindow = r.axeWindow := by
  have hwait := waitForExtent_nonzero r.axeWindow r.axeDevice r.axeWindow.GetExtent env.events
    hw hh
  unfold AxeRenderer.RecreateSwapChain
  simp only [hwait]
  repeat' first | split | dsimp only

/-- What an `EndFrame` that returns has done. -/
theorem EndFrame_returned (r r' : AxeRenderer) (env : EndFrameEnv)
    (hprog : r.isFrameStarted = true) (h : r.EndFrame env = (r', .returned ())) :
    (rebuilt r.axeDevice r'.axeDevice = true ↔
      (env.submit.presentResult = VK_ERROR_OUT_OF_DATE_KHR ∨
        env.submit.presentResult = VK_SUBOPTIMAL_KHR ∨ r.axeWindow.framebufferResized = true)) ∧
    (((∀ callbacks ∈ env.recreate.events, callbacks = []) ∨
        (r.axeWindow.GetExtent.width ≠ 0 ∧ r.axeWindow.GetExtent.height ≠ 0)) →
      r'.axeWindow.framebufferResized = false) := by
  by_cases hend : env.endResult = VK_SUCCESS
  swap
  · rw [EndFrame_end_failed r env hprog hend] at h
    simp at h
  rcases hsc : r.axeSwapChain with _ | sc
  · rw [EndFrame_null r env hprog hsc hend] at h
    simp at h
  by_cases hsub : env.submit.submitResult = VK_SUCCESS
  swap
  · rw [EndFrame_submit_failed r sc env hprog hsc hend hsub] at h
    simp at h
  by_cases hcond : env.submit.presentResult = VK_ERROR_OUT_OF_DATE_KHR ∨
      env.submit.presentResult = VK_SUBOPTIMAL_KHR ∨ r.axeWindow.framebufferResized = true
  · rw [EndFrame_rebuilds r sc env hprog hsc hend hsub hcond] at h
    rcases hrr : (r.presentedStale sc env.submit).RecreateSwapChain env.recreate with ⟨r₂, _ | f⟩
    swap
    · simp [hrr] at h
    simp only [hrr, Prod.mk.injEq, and_true] at h
    subst h
    obtain ⟨sc', q₁, c, q₂, _, _, _, hcalls, _, hc, _, _⟩ := RecreateSwapChain_returned hrr
    refine ⟨⟨fun _ => hcond, fun _ => ?_⟩, fun hq => ?_⟩
    · refine rebuilt_of_calls (submitted_calls r sc env.submit)
        (hcalls.trans (List.append_assoc _ _ _)) ⟨c, ?_, hc⟩
      simp
    · show r₂.axeWindow.framebufferResized = false
      have hwin : r₂.axeWindow = (r.presentedStale sc env.submit).axeWindow := by
        rcases hq with hq | hq
        · have := RecreateSwapChain_window (r.presentedStale sc env.submit) env.recreate hq
          rw [hrr] at this
          exact this
        · have := RecreateSwapChain_window_nonzero (r.presentedStale sc env.submit) env.recreate
            hq.1 hq.2
          rw [hrr] at this
          exact this
      rw [hwin]
      rfl
  · have hcond' := hcond
    simp only [not_or] at hcond
    rw [EndFrame_keeps r sc env hprog hsc hend hsub hcond.1 hcond.2.1
      (by simpa using hcond.2.2)] at h
    split at h
    · simp at h
    · simp only [Prod.mk.injEq, and_true] at h
      subst h
      refine ⟨⟨fun hreb => ?_, fun hc => absurd hc hcond'⟩, fun _ => ?_⟩
      · exfalso
        unfold rebuilt at hreb
        rw [List.any_eq_true] at hreb
        obtain ⟨c, hc, hcreate⟩ := hreb
        have := submitted_not_rebuilt r sc env.submit c hc
        rw [this] at hcreate
        cases hcreate
      · show r.axeWindow.framebufferResized = false
        simpa using hcond.2.2

/-! ## The begin/end protocol (C4, C10, C5, C6, C7, C8, C9) -/

theorem BeginFrame_returned_none {r r₁ : AxeRenderer} {env : BeginFrameEnv}
    (h : r.BeginFrame env = (r₁, .returned none)) :
    r₁.isFrameStarted = false := by
  by_cases hidle : r.isFrameStarted = true
  · rw [BeginFrame_in_progress r env hidle] at h
    simp at h
  have hidle' : r.isFrameStarted = false := by simpa using hidle
  rcases hsc : r.axeSwapChain with _ | sc
  · simp [AxeRenderer.BeginFrame, hidle', hsc] at h
  by_cases h₁ : env.acquire.result = VK_ERROR_OUT_OF_DATE_KHR
  · rw [BeginFrame_outOfDate r sc env hidle' hsc h₁] at h
    simp only [Prod.mk.injEq] at h
    rw [← h.1, (RecreateSwapChain_fields _ _).2.2.2]
    exact hidle'
  by_cases h₂ : env.acquire.result = VK_SUCCESS ∨ env.acquire.result = VK_SUBOPTIMAL_KHR
  · rw [BeginFrame_proceeds r sc env hidle' hsc h₂] at h
    simp only [Prod.mk.injEq] at h
    have := h.2
    split at this <;> simp at this
  · simp only [not_or] at h₂
    rw [BeginFrame_acquire_error r sc env hidle' hsc h₁ h₂.1 h₂.2] at h
    simp at h

theorem construct_returned {window : AxeWindow} {device : AxeDevice} {env : ConstructEnv}
    {r : AxeRenderer} (h : AxeRenderer.construct window device env = (r, .returned ())) :
    r.isFrameStarted = false ∧ r.currentFrameIndex = 0 := by
  unfold AxeRenderer.construct at h
  dsimp only at h
  split at h
  · simp at h
  · rename_i heq
    obtain ⟨_, _, h3, h4⟩ := RecreateSwapChain_fields_of_eq heq
    unfold AxeRenderer.CreateCommandBuffers at h
    split at h
    · simp at h
    · simp only [Prod.mk.injEq, and_true] at h
      rw [← h]
      exact ⟨h4, h3⟩

theorem BeginSwapChainRenderPass_idle (r : AxeRenderer) (cb : VkCommandBuffer)
    (h : r.isFrameStarted = false) :
    r.BeginSwapChainRenderPass cb = (r, .failed (.aborted
      "Cannot call BeginSwapChainRenderPass() while frame is not in progress")) := by
  simp [AxeRenderer.BeginSwapChainRenderPass, h]

theorem EndSwapChainRenderPass_idle (r : AxeRenderer) (cb : VkCommandBuffer)
    (h : r.isFrameStarted = false) :
    r.EndSwapChainRenderPass cb = (r, .failed (.aborted
      "Cannot call EndSwapChainRenderPass() while frame is not in progress")) := by
  simp [AxeRenderer.EndSwapChainRenderPass, h]

/-- C4: `BeginFrame` is rejected by its assertion whenever a frame is in progress, in
particular in every state reached from a `BeginFrame` that returned a command target by calls
among which no `EndFrame` returned; the rejected call leaves the whole state as it was
(flag, frame index, image index, and the call record: nothing is acquired). -/
theorem BeginFrame_rejected_while_frame_in_progress (r r₁ : AxeRenderer)
    (env env' : BeginFrameEnv) (target : VkCommandBuffer) (calls : List Call)
    (hbegin : r.BeginFrame env = (r₁, .returned (some target)))
    (hnoEnd : endFrameCompleted r₁ calls = false) :
    (run r₁ calls).1.IsFrameInProgress = true ∧
      (run r₁ calls).1.BeginFrame env' = ((run r₁ calls).1,
        .failed (.aborted "Cannot call BeginFrame() while frame is already in progress")) ∧
      ∀ r₂ : AxeRenderer, r₂.IsFrameInProgress = true →
        r₂.BeginFrame env' = (r₂,
          .failed (.aborted "Cannot call BeginFrame() while frame is already in progress")) := by
  have h := run_stays_in_progress r₁ calls (BeginFrame_returned_target hbegin) hnoEnd
  exact ⟨h, BeginFrame_in_progress _ env' h, fun r₂ h₂ => BeginFrame_in_progress r₂ env' h₂⟩

theorem BeginFrame_rejected_while_frame_in_progress_witness :
    sampleRenderer.BeginFrame (sampleBegin VK_SUCCESS 0) = (sampleInProgress, .returned (some 27)) ∧
      endFrameCompleted sampleInProgress
        [.BeginSwapChainRenderPass 27, .EndSwapChainRenderPass 27, .glfwPollEvents [(640, 480)],
          .EndFrame { sampleEnd VK_SUCCESS with endResult := VK_ERROR_DEVICE_LOST }] = false ∧
      (run sampleInProgress
        [.BeginSwapChainRenderPass 27, .EndSwapChainRenderPass 27, .glfwPollEvents [(640, 480)],
          .EndFrame { sampleEnd VK_SUCCESS with endResult := VK_ERROR_DEVICE_LOST }]).1.BeginFrame
          (sampleBegin VK_SUCCESS 1) =
        ((run sampleInProgress
          [.BeginSwapChainRenderPass 27, .EndSwapChainRenderPass 27, .glfwPollEvents [(640, 480)],
            .EndFrame { sampleEnd VK_SUCCESS with endResult := VK_ERROR_DEVICE_LOST }]).1,
          .failed (.aborted "Cannot call BeginFrame() while frame is already in progress")) :=
  ⟨by rfl, by rfl,
    (BeginFrame_rejected_while_frame_in_progress sampleRenderer sampleInProgress
      (sampleBegin VK_SUCCESS 0) (sampleBegin VK_SUCCESS 1) 27 _ (by rfl) (by rfl)).2.1⟩

/-- C10: in every Idle state of the renderer (right after construction, after an `EndFrame`
that returned, after a `BeginFrame` that returned none) `EndFrame`,
`BeginSwapChainRenderPass` and `EndSwapChainRenderPass` each fail their first assertion and
leave the whole state, call record included, as it was: nothing is submitted or recorded. -/
theorem protocol_calls_rejected_while_idle (r : AxeRenderer)
    (hidle : (∃ window device env, AxeRenderer.construct window device env = (r, .returned ())) ∨
      (∃ r₀ env, AxeRenderer.EndFrame r₀ env = (r, .returned ())) ∨
      (∃ r₀ env, AxeRenderer.BeginFrame r₀ env = (r, .returned none)))
    (env : EndFrameEnv) (commandBuffer : VkCommandBuffer) :
    r.IsFrameInProgress = false ∧
      r.EndFrame env =
        (r, .failed (.aborted "Cannot call EndFrame() while frame is not in progress")) ∧
      r.BeginSwapChainRenderPass commandBuffer = (r, .failed (.aborted
        "Cannot call BeginSwapChainRenderPass() while frame is not in progress")) ∧
      r.EndSwapChainRenderPass commandBuffer = (r, .failed (.aborted
        "Cannot call EndSwapChainRenderPass() while frame is not in progress")) := by
  have h : r.isFrameStarted = false := by
    rcases hidle with ⟨window, device, cenv, hc⟩ | ⟨r₀, env₀, he⟩ | ⟨r₀, env₀, hb⟩
    · exact (construct_returned hc).1
    · by_cases hprog : r₀.isFrameStarted = true
      · have := (EndFrame_protocol r₀ env₀ hprog).2.1 (by rw [he])
        rw [he] at this
        exact this.1
      · rw [EndFrame_idle r₀ env₀ (by simpa using hprog)] at he
        simp at he
    · exact BeginFrame_returned_none hb
  exact ⟨h, EndFrame_idle r env h, BeginSwapChainRenderPass_idle r commandBuffer h,
    EndSwapChainRenderPass_idle r commandBuffer h⟩

theorem protocol_calls_rejected_while_idle_witness :
    AxeRenderer.construct sampleWindow { nextHandle := 1, calls := [] } sampleConstruct =
        (sampleRenderer, .returned ()) ∧
      sampleRenderer.EndFrame (sampleEnd VK_SUCCESS) =
        (sampleRenderer,
          .failed (.aborted "Cannot call EndFrame() while frame is not in progress")) ∧
      sampleRenderer.BeginSwapChainRenderPass 28 = (sampleRenderer, .failed (.aborted
        "Cannot call BeginSwapChainRenderPass() while frame is not in progress")) ∧
      sampleRenderer.EndSwapChainRenderPass 28 = (sampleRenderer, .failed (.aborted
        "Cannot call EndSwapChainRenderPass() while frame is not in progress")) :=
  ⟨by rfl,
    (protocol_calls_rejected_while_idle sampleRenderer
      (Or.inl ⟨sampleWindow, { nextHandle := 1, calls := [] }, sampleConstruct, by rfl⟩)
      (sampleEnd VK_SUCCESS) 28).2⟩

theorem Init_fault (device : AxeDevice) (extent : VkExtent2D) (old : Option AxeSwapChain)
    (env : SwapChainEnv) (fault : Fault)
    (h : (AxeSwapChain.Init device extent old env).2 = .failed fault) :
    ∃ what, fault = .threw what := by
  unfold AxeSwapChain.Init at h
  repeat' first | split at h | dsimp only at h
  all_goals
    first
    | exact ⟨_, (Outcome.failed.inj h).symm⟩
    | cases h

/-- A construction the device rejects nowhere returns, with the formats it was given. -/
theorem Init_of_no_failure (device : AxeDevice) (extent : VkExtent2D)
    (old : Option AxeSwapChain) (env : SwapChainEnv) (hfail : env.failure = none) :
    ∃ device' sc, AxeSwapChain.Init device extent old env = (device', .returned sc) ∧
      sc.swapChainImageFormat =
        (AxeSwapChain.ChooseSwapSurfaceFormat env.support.formats).format ∧
      sc.swapChainDepthFormat = env.depthFormat := by
  have hthrow : ∀ step, AxeSwapChain.throwsIn env step = none := by
    intro step
    simp [AxeSwapChain.throwsIn, hfail]
  unfold AxeSwapChain.Init
  simp only [hthrow]
  exact ⟨_, _, rfl, rfl, rfl⟩

theorem RecreateSwapChain_fault (r : AxeRenderer) (env : RecreateEnv) (fault : Fault)
    (h : (r.RecreateSwapChain env).2 = .failed fault) :
    fault = .hung ∨ ∃ what, fault = .threw what := by
  unfold AxeRenderer.RecreateSwapChain at h
  split at h
  · simp only [Outcome.failed.injEq] at h
    exact Or.inl h.symm
  · dsimp only at h
    split at h
    · split at h
      · rename_i heq
        simp only [Outcome.failed.injEq] at h
        subst h
        exact Or.inr (Init_fault _ _ _ _ _ (by rw [heq]))
      · cases h
    · split at h
      · rename_i heq
        simp only [Outcome.failed.injEq] at h
        subst h
        exact Or.inr (Init_fault _ _ _ _ _ (by rw [heq]))
      · split at h
        · simp only [Outcome.failed.injEq] at h
          exact Or.inr ⟨_, h.symm⟩
        · cases h

/-- A rebuild returns when the window has a nonzero extent, the device rejects nothing, and
the formats of the new swap chain are those of the one it replaces. -/
theorem RecreateSwapChain_completes (r : AxeRenderer) (env : RecreateEnv)
    (hw : r.axeWindow.GetExtent.width ≠ 0) (hh : r.axeWindow.GetExtent.height ≠ 0)
    (hfail : env.swapChain.failure = none)
    (hfmt : ∀ old, r.axeSwapChain = some old →
      (AxeSwapChain.ChooseSwapSurfaceFormat env.swapChain.support.formats).format =
        old.swapChainImageFormat ∧ env.swapChain.depthFormat = old.swapChainDepthFormat) :
    ∃ r', r.RecreateSwapChain env = (r', .returned ()) := by
  have hwait := waitForExtent_nonzero r.axeWindow r.axeDevice r.axeWindow.GetExtent env.events
    hw hh
  unfold AxeRenderer.RecreateSwapChain
  simp only [hwait]
  rcases hsc : r.axeSwapChain with _ | old
  · obtain ⟨d', sc, hinit, _, _⟩ := Init_of_no_failure
      (r.axeDevice.record .vkDeviceWaitIdle) r.axeWindow.GetExtent none env.swapChain hfail
    simp only [hinit]
    exact ⟨_, rfl⟩
  · obtain ⟨d', sc, hinit, h1, h2⟩ := Init_of_no_failure
      (r.axeDevice.record .vkDeviceWaitIdle) r.axeWindow.GetExtent (some old) env.swapChain hfail
    obtain ⟨f1, f2⟩ := hfmt old hsc
    have heq : old.AreSwapChainFormatsEqual sc = true := by
      simp [AxeSwapChain.AreSwapChainFormatsEqual, h1, h2, f1, f2]
    simp only [hinit, heq]
    exact ⟨_, rfl⟩

theorem BeginFrame_idle_not_aborted (r : AxeRenderer) (env : BeginFrameEnv)
    (hidle : r.isFrameStarted = false) (assertion : String) :
    (r.BeginFrame env).2 ≠ .failed (.aborted assertion) := by
  rcases hsc : r.axeSwapChain with _ | sc
  · simp [AxeRenderer.BeginFrame, hidle, hsc]
  by_cases h₁ : env.acquire.result = VK_ERROR_OUT_OF_DATE_KHR
  · rw [BeginFrame_outOfDate r sc env hidle hsc h₁]
    rcases hrr : ((r.acquired sc env.acquire).RecreateSwapChain env.recreate).2 with _ | f
    · simp [Outcome.asNone]
    · rcases RecreateSwapChain_fault _ _ f hrr with rfl | ⟨what, rfl⟩ <;> simp [Outcome.asNone]
  by_cases h₂ : env.acquire.result = VK_SUCCESS ∨ env.acquire.result = VK_SUBOPTIMAL_KHR
  · rw [BeginFrame_proceeds r sc env hidle hsc h₂]
    dsimp only
    split <;> simp
  · simp only [not_or] at h₂
    rw [BeginFrame_acquire_error r sc env hidle hsc h₁ h₂.1 h₂.2]
    simp

theorem acquired_calls (r : AxeRenderer) (sc : AxeSwapChain) (env : AxeSwapChain.AcquireEnv) :
    (r.acquired sc env).axeDevice.calls = r.axeDevice.calls ++
      [ VkCall.vkWaitForFences (sc.inFlightFences.getD sc.currentFrame 0),
        VkCall.vkAcquireNextImageKHR (sc.swapChain.getD 0)
          (sc.imageAvailableForRenderingSemaphores.getD sc.currentFrame 0) ] := by
  simp [AxeRenderer.acquired, AxeSwapChain.AcquireNextImage, AxeDevice.record]

/-- C5: when the acquire inside `BeginFrame` returns `VK_ERROR_OUT_OF_DATE_KHR`, `BeginFrame`
runs `RecreateSwapChain` on the state the acquire left and ends as that rebuild ends; it never
calls `vkBeginCommandBuffer`, leaves the renderer Idle and the frame index unchanged. When
the rebuild returns (which it does when the window extent is nonzero, the device rejects
nothing and the formats are unchanged), `BeginFrame` returns none, a swap chain was built,
`EndFrame` is rejected in the resulting state and `BeginFrame` is not. -/
theorem BeginFrame_outOfDate_abandons_frame (r : AxeRenderer) (sc : AxeSwapChain)
    (env : BeginFrameEnv) (hidle : r.isFrameStarted = false) (hsc : r.axeSwapChain = some sc)
    (hres : env.acquire.result = VK_ERROR_OUT_OF_DATE_KHR) :
    r.BeginFrame env = (((r.acquired sc env.acquire).RecreateSwapChain env.recreate).1,
        ((r.acquired sc env.acquire).RecreateSwapChain env.recreate).2.asNone) ∧
      (∀ c ∈ callsSince r.axeDevice (r.BeginFrame env).1.axeDevice,
        ∀ commandBuffer, c ≠ VkCall.vkBeginCommandBuffer commandBuffer) ∧
      (r.BeginFrame env).1.IsFrameInProgress = false ∧
      (r.BeginFrame env).1.currentFrameIndex = r.currentFrameIndex ∧
      (∀ r', (r.acquired sc env.acquire).RecreateSwapChain env.recreate = (r', .returned ()) →
        r.BeginFrame env = (r', .returned none) ∧
        rebuilt r.axeDevice r'.axeDevice = true ∧
        (∀ env', r'.EndFrame env' =
          (r', .failed (.aborted "Cannot call EndFrame() while frame is not in progress"))) ∧
        ∀ env' assertion, (r'.BeginFrame env').2 ≠ .failed (.aborted assertion)) ∧
      (r.axeWindow.GetExtent.width ≠ 0 → r.axeWindow.GetExtent.height ≠ 0 →
        env.recreate.swapChain.failure = none →
        (AxeSwapChain.ChooseSwapSurfaceFormat env.recreate.swapChain.support.formats).format =
          sc.swapChainImageFormat →
        env.recreate.swapChain.depthFormat = sc.swapChainDepthFormat →
        ∃ r', r.BeginFrame env = (r', .returned none)) := by
  have heq := BeginFrame_outOfDate r sc env hidle hsc hres
  have hfields := RecreateSwapChain_fields (r.acquired sc env.acquire) env.recreate
  refine ⟨heq, ?_, ?_, ?_, ?_, ?_⟩
  · rw [heq]
    have hacq : Appends (fun c => ∀ cb, c ≠ VkCall.vkBeginCommandBuffer cb) r.axeDevice
        (r.acquired sc env.acquire).axeDevice :=
      ⟨_, acquired_calls r sc env.acquire, by simp⟩
    have hreb := (RecreateSwapChain_appends (r.acquired sc env.acquire) env.recreate).mono
      (Q := fun c => ∀ cb, c ≠ VkCall.vkBeginCommandBuffer cb) (by
        intro c hc cb hcb
        subst hcb
        rcases hc with h | h | h <;> simp [VkCall.isLifetime] at h)
    exact (hacq.trans hreb).callsSince
  · rw [heq]
    exact hfields.2.2.2.trans hidle
  · rw [heq]
    exact hfields.2.2.1
  · intro r' hr'
    have hidle' : r'.isFrameStarted = false := by
      have := hfields.2.2.2
      rw [hr'] at this
      exact this.trans hidle
    refine ⟨?_, ?_, fun env' => EndFrame_idle r' env' hidle',
      fun env' assertion => BeginFrame_idle_not_aborted r' env' hidle' assertion⟩
    · rw [heq, hr']
      rfl
    · obtain ⟨_, q₁, c, q₂, _, _, _, hcalls, _, hc, _, _⟩ := RecreateSwapChain_returned hr'
      refine rebuilt_of_calls (acquired_calls r sc env.acquire)
        (hcalls.trans (List.append_assoc _ _ _)) ⟨c, ?_, hc⟩
      simp
  · intro hw hh hfail hf1 hf2
    obtain ⟨r', hr'⟩ := RecreateSwapChain_completes (r.acquired sc env.acquire) env.recreate
      hw hh hfail (by
        intro old hold
        have : old = sc := by
          have h : (r.acquired sc env.acquire).axeSwapChain = r.axeSwapChain := rfl
          rw [h, hsc] at hold
          exact (Option.some.inj hold).symm
        subst this
        exact ⟨hf1, hf2⟩)
    exact ⟨r', by rw [heq, hr']; rfl⟩

theorem BeginFrame_outOfDate_abandons_frame_witness :
    sampleRenderer.isFrameStarted = false ∧ sampleRenderer.axeSwapChain = some sampleSwapChain ∧
      (sampleBegin VK_ERROR_OUT_OF_DATE_KHR 0).acquire.result = VK_ERROR_OUT_OF_DATE_KHR ∧
      (sampleRenderer.BeginFrame (sampleBegin VK_ERROR_OUT_OF_DATE_KHR 0)).2 = .returned none ∧
      (sampleRenderer.BeginFrame (sampleBegin VK_ERROR_OUT_OF_DATE_KHR 0)).1.isFrameStarted =
        false :=
  ⟨by rfl, by rfl, by rfl, by rfl,
    (BeginFrame_outOfDate_abandons_frame sampleRenderer sampleSwapChain
      (sampleBegin VK_ERROR_OUT_OF_DATE_KHR 0) (by rfl) (by rfl) (by rfl)).2.2.1⟩

/-- C6: called while Idle with an acquire that returns `VK_SUCCESS` or `VK_SUBOPTIMAL_KHR`
and a `vkBeginCommandBuffer` that succeeds, `BeginFrame` returns exactly
`commandBuffers[currentFrameIndex]`, sets the frame in progress, stores the acquired image
index, keeps the frame index and the command buffers, and its calls are the fence wait, the
acquire and `vkBeginCommandBuffer` on that target. -/
theorem BeginFrame_starts_frame (r : AxeRenderer) (sc : AxeSwapChain) (env : BeginFrameEnv)
    (hidle : r.isFrameStarted = false) (hsc : r.axeSwapChain = some sc)
    (hres : env.acquire.result = VK_SUCCESS ∨ env.acquire.result = VK_SUBOPTIMAL_KHR)
    (hbegin : env.beginResult = VK_SUCCESS) :
    ∃ r', r.BeginFrame env =
        (r', .returned (some (r.commandBuffers.getD r.currentFrameIndex 0))) ∧
      r'.IsFrameInProgress = true ∧
      r'.currentImageIndex = env.acquire.imageIndex ∧
      r'.currentFrameIndex = r.currentFrameIndex ∧
      r'.commandBuffers = r.commandBuffers ∧
      r'.GetCurrentCommandBuffer = .returned (r.commandBuffers.getD r.currentFrameIndex 0) ∧
      r'.GetFrameIndex = .returned r.currentFrameIndex ∧
      callsSince r.axeDevice r'.axeDevice =
        [ VkCall.vkWaitForFences (sc.inFlightFences.getD sc.currentFrame 0),
          VkCall.vkAcquireNextImageKHR (sc.swapChain.getD 0)
            (sc.imageAvailableForRenderingSemaphores.getD sc.currentFrame 0),
          VkCall.vkBeginCommandBuffer (r.commandBuffers.getD r.currentFrameIndex 0) ] := by
  refine ⟨r.started sc env.acquire, ?_, rfl, ?_, rfl, rfl, rfl, rfl, ?_⟩
  · rw [BeginFrame_proceeds r sc env hidle hsc hres]
    simp [hbegin]
  · show (r.acquired sc env.acquire).currentImageIndex = _
    simp only [AxeRenderer.acquired, AxeSwapChain.AcquireNextImage]
    rw [if_pos hres]
  · apply callsSince_of_append
    show ((r.acquired sc env.acquire).axeDevice.record _).calls = _
    simp only [AxeDevice.record, acquired_calls, List.append_assoc]
    rfl

theorem BeginFrame_starts_frame_witness :
    sampleRenderer.isFrameStarted = false ∧ sampleRenderer.axeSwapChain = some sampleSwapChain ∧
      ∃ r', sampleRenderer.BeginFrame (sampleBegin VK_SUBOPTIMAL_KHR 2) =
          (r', .returned (some 27)) ∧
        r'.IsFrameInProgress = true ∧ r'.currentImageIndex = 2 ∧ r'.currentFrameIndex = 0 :=
  ⟨by rfl, by rfl,
    (BeginFrame_starts_frame sampleRenderer sampleSwapChain (sampleBegin VK_SUBOPTIMAL_KHR 2)
      (by rfl) (by rfl) (Or.inr (by rfl)) (by rfl)).imp
      (fun _ h => ⟨h.1, h.2.1, h.2.2.1, h.2.2.2.1⟩)⟩

/-- C7: an `EndFrame` called with a frame in progress that returns has built a swap chain if
and only if the present returned `VK_ERROR_OUT_OF_DATE_KHR` or `VK_SUBOPTIMAL_KHR` or the
window's resized flag was set; afterwards the renderer is Idle, the frame index is the old one
plus one modulo 2 and so below 2, and the resized flag is clear provided no resize callback
arrives during the rebuild (none is delivered, or the rebuild does not wait at all). -/
theorem EndFrame_rebuilds_iff_stale_or_resized (r r' : AxeRenderer) (env : EndFrameEnv)
    (hprog : r.isFrameStarted = true) (hret : r.EndFrame env = (r', .returned ())) :
    (rebuilt r.axeDevice r'.axeDevice = true ↔
      (env.submit.presentResult = VK_ERROR_OUT_OF_DATE_KHR ∨
        env.submit.presentResult = VK_SUBOPTIMAL_KHR ∨ r.axeWindow.WasWindowResized = true)) ∧
      r'.IsFrameInProgress = false ∧
      r'.currentFrameIndex = (r.currentFrameIndex + 1) % 2 ∧
      r'.currentFrameIndex < 2 ∧
      (((∀ callbacks ∈ env.recreate.events, callbacks = []) ∨
          (r.axeWindow.GetExtent.width ≠ 0 ∧ r.axeWindow.GetExtent.height ≠ 0)) →
        r'.axeWindow.WasWindowResized = false) := by
  have hproto := (EndFrame_protocol r env hprog).2.1 (by rw [hret])
  rw [hret] at hproto
  have hret' := EndFrame_returned r r' env hprog hret
  refine ⟨hret'.1, hproto.1, hproto.2, ?_, hret'.2⟩
  rw [hproto.2]
  exact Nat.mod_lt _ (by decide)

theorem EndFrame_rebuilds_iff_stale_or_resized_witness :
    sampleInProgress.isFrameStarted = true ∧
      (sampleInProgress.EndFrame (sampleEnd VK_SUBOPTIMAL_KHR)).2 = .returned () ∧
      rebuilt sampleInProgress.axeDevice
        (sampleInProgress.EndFrame (sampleEnd VK_SUBOPTIMAL_KHR)).1.axeDevice = true ∧
      (sampleInProgress.EndFrame (sampleEnd VK_SUBOPTIMAL_KHR)).1.currentFrameIndex = 1 :=
  ⟨by rfl, by rfl,
    (EndFrame_rebuilds_iff_stale_or_resized sampleInProgress _ (sampleEnd VK_SUBOPTIMAL_KHR)
      (by rfl) (by rfl)).1.mpr (Or.inr (Or.inl (by rfl))),
    (EndFrame_rebuilds_iff_stale_or_resized sampleInProgress _ (sampleEnd VK_SUBOPTIMAL_KHR)
      (by rfl) (by rfl)).2.2.1⟩

/-- C8 fails on the code: with the window flagged resized, a present that returns
`VK_ERROR_DEVICE_LOST` is not raised and a swap chain is built: `EndFrame` takes the rebuild
branch, returns normally and closes the frame. -/
theorem EndFrame_drops_present_error_when_resized :
    sampleResizedInProgress.isFrameStarted = true ∧
      sampleResizedInProgress.axeWindow.WasWindowResized = true ∧
      (sampleEnd VK_ERROR_DEVICE_LOST).submit.presentResult ≠ VK_SUCCESS ∧
      (sampleEnd VK_ERROR_DEVICE_LOST).submit.presentResult ≠ VK_ERROR_OUT_OF_DATE_KHR ∧
      (sampleEnd VK_ERROR_DEVICE_LOST).submit.presentResult ≠ VK_SUBOPTIMAL_KHR ∧
      (sampleResizedInProgress.EndFrame (sampleEnd VK_ERROR_DEVICE_LOST)).2 = .returned () ∧
      rebuilt sampleResizedInProgress.axeDevice
        (sampleResizedInProgress.EndFrame (sampleEnd VK_ERROR_DEVICE_LOST)).1.axeDevice = true ∧
      (sampleResizedInProgress.EndFrame (sampleEnd VK_ERROR_DEVICE_LOST)).1.isFrameStarted =
        false := by
  refine ⟨by rfl, by rfl, by decide, by decide, by decide, by rfl, by rfl, by rfl⟩

/-- C8 as amended: with the window's resized flag clear, every present status other than
`VK_SUCCESS`, `VK_ERROR_OUT_OF_DATE_KHR` and `VK_SUBOPTIMAL_KHR` makes `EndFrame` throw
"Failed to present swap chain image" without building a swap chain, and the frame stays in
progress. -/
theorem EndFrame_raises_present_error_when_not_resized (r : AxeRenderer) (sc : AxeSwapChain)
    (env : EndFrameEnv) (hprog : r.isFrameStarted = true) (hsc : r.axeSwapChain = some sc)
    (hend : env.endResult = VK_SUCCESS) (hsub : env.submit.submitResult = VK_SUCCESS)
    (h₀ : env.submit.presentResult ≠ VK_SUCCESS)
    (h₁ : env.submit.presentResult ≠ VK_ERROR_OUT_OF_DATE_KHR)
    (h₂ : env.submit.presentResult ≠ VK_SUBOPTIMAL_KHR)
    (hflag : r.axeWindow.WasWindowResized = false) :
    (r.EndFrame env).2 = .failed (.threw "Failed to present swap chain image") ∧
      rebuilt r.axeDevice (r.EndFrame env).1.axeDevice = false ∧
      (r.EndFrame env).1.IsFrameInProgress = true := by
  rw [EndFrame_keeps r sc env hprog hsc hend hsub h₁ h₂ hflag, if_pos h₀]
  refine ⟨rfl, ?_, hprog⟩
  unfold rebuilt
  rw [Bool.eq_false_iff]
  intro hreb
  rw [List.any_eq_true] at hreb
  obtain ⟨c, hc, hcreate⟩ := hreb
  rw [submitted_not_rebuilt r sc env.submit c hc] at hcreate
  cases hcreate

theorem EndFrame_raises_present_error_when_not_resized_witness :
    sampleInProgress.isFrameStarted = true ∧
      sampleInProgress.axeSwapChain = some sampleSwapChain ∧
      sampleInProgress.axeWindow.WasWindowResized = false ∧
      (sampleInProgress.EndFrame (sampleEnd VK_ERROR_DEVICE_LOST)).2 =
        .failed (.threw "Failed to present swap chain image") ∧
      rebuilt sampleInProgress.axeDevice
        (sampleInProgress.EndFrame (sampleEnd VK_ERROR_DEVICE_LOST)).1.axeDevice = false ∧
      (sampleInProgress.EndFrame (sampleEnd VK_ERROR_DEVICE_LOST)).1.IsFrameInProgress = true :=
  ⟨by rfl, by rfl, by rfl,
    EndFrame_raises_present_error_when_not_resized sampleInProgress sampleSwapChain
      (sampleEnd VK_ERROR_DEVICE_LOST) (by rfl) (by rfl) (by rfl) (by rfl) (by decide)
      (by decide) (by decide) (by rfl)⟩

/-- C9 fails on the code: after an acquire that returned `VK_SUBOPTIMAL_KHR` the frame
proceeds, but with a present that returns `VK_SUCCESS` and no resize flag the matching
`EndFrame` returns without building a swap chain. -/
theorem EndFrame_forgets_suboptimal_acquire :
    sampleRenderer.BeginFrame (sampleBegin VK_SUBOPTIMAL_KHR 0) =
        (sampleSuboptimalInProgress, .returned (some 27)) ∧
      (sampleSuboptimalInProgress.EndFrame (sampleEnd VK_SUCCESS)).2 = .returned () ∧
      sampleSuboptimalInProgress.axeWindow.WasWindowResized = false ∧
      rebuilt sampleSuboptimalInProgress.axeDevice
        (sampleSuboptimalInProgress.EndFrame (sampleEnd VK_SUCCESS)).1.axeDevice = false := by
  refine ⟨by rfl, by rfl, by rfl, by rfl⟩

/-- C9 as amended: after an acquire that returned `VK_SUBOPTIMAL_KHR` (and a recording that
starts) `BeginFrame` returns the command target, and the matching `EndFrame`, when it returns,
has built a swap chain exactly when the present returned `VK_ERROR_OUT_OF_DATE_KHR` or
`VK_SUBOPTIMAL_KHR` or the window was flagged resized. -/
theorem suboptimal_acquire_proceeds_rebuild_decided_by_present (r : AxeRenderer)
    (sc : AxeSwapChain) (env : BeginFrameEnv) (hidle : r.isFrameStarted = false)
    (hsc : r.axeSwapChain = some sc) (hres : env.acquire.result = VK_SUBOPTIMAL_KHR)
    (hbegin : env.beginResult = VK_SUCCESS) :
    ∃ r₁, r.BeginFrame env =
        (r₁, .returned (some (r.commandBuffers.getD r.currentFrameIndex 0))) ∧
      ∀ env₂ r₂, r₁.EndFrame env₂ = (r₂, .returned ()) →
        (rebuilt r₁.axeDevice r₂.axeDevice = true ↔
          (env₂.submit.presentResult = VK_ERROR_OUT_OF_DATE_KHR ∨
            env₂.submit.presentResult = VK_SUBOPTIMAL_KHR ∨
            r₁.axeWindow.WasWindowResized = true)) := by
  refine ⟨r.started sc env.acquire, ?_, ?_⟩
  · rw [BeginFrame_proceeds r sc env hidle hsc (Or.inr hres)]
    simp [hbegin]
  · intro env₂ r₂ hret
    exact (EndFrame_returned _ r₂ env₂ rfl hret).1

theorem suboptimal_acquire_proceeds_rebuild_decided_by_present_witness :
    sampleRenderer.isFrameStarted = false ∧ sampleRenderer.axeSwapChain = some sampleSwapChain ∧
      ∃ r₁, sampleRenderer.BeginFrame (sampleBegin VK_SUBOPTIMAL_KHR 0) =
          (r₁, .returned (some 27)) ∧
        ∀ env₂ r₂, r₁.EndFrame env₂ = (r₂, .returned ()) →
          (rebuilt r₁.axeDevice r₂.axeDevice = true ↔
            (env₂.submit.presentResult = VK_ERROR_OUT_OF_DATE_KHR ∨
              env₂.submit.presentResult = VK_SUBOPTIMAL_KHR ∨
              r₁.axeWindow.WasWindowResized = true)) :=
  ⟨by rfl, by rfl,
    suboptimal_acquire_proceeds_rebuild_decided_by_present sampleRenderer sampleSwapChain
      (sampleBegin VK_SUBOPTIMAL_KHR 0) (by rfl) (by rfl) (by rfl) (by rfl)⟩

/-! ## The frame index cycles (C3) -/

theorem construct_swapChain {window : AxeWindow} {device : AxeDevice} {env : ConstructEnv}
    {r : AxeRenderer} (h : AxeRenderer.construct window device env = (r, .returned ())) :
    ∃ sc, r.axeSwapChain = some sc ∧ sc.currentFrame = 0 ∧
      r.commandBuffers = [r.axeDevice.nextHandle - 2, r.axeDevice.nextHandle - 2 + 1] := by
  unfold AxeRenderer.construct at h
  dsimp only at h
  split at h
  · simp at h
  · rename_i r₁ heq
    obtain ⟨sc, _, _, _, hsc, hcf, _⟩ := RecreateSwapChain_returned heq
    unfold AxeRenderer.CreateCommandBuffers at h
    split at h
    · simp at h
    · simp only [Prod.mk.injEq, and_true] at h
      rw [← h]
      exact ⟨sc, hsc, hcf, by simp [AxeDevice.record, AxeDevice.reserve, List.range_succ]⟩

theorem SubmitCommandBuffers_currentFrame (sc : AxeSwapChain) (d : AxeDevice)
    (cb : VkCommandBuffer) (i : Nat) (env : AxeSwapChain.SubmitEnv) :
    (sc.SubmitCommandBuffers d cb i env).1.currentFrame =
      if env.submitResult = VK_SUCCESS then (sc.currentFrame + 1) % MAX_FRAMES_IN_FLIGHT
      else sc.currentFrame := by
  unfold AxeSwapChain.SubmitCommandBuffers
  by_cases hs : env.submitResult = VK_SUCCESS <;> simp [hs]

/-- One frame of a run without resize in which every call succeeds. -/
theorem InStep_frame {r : AxeRenderer} {j : Nat} (h : InStep r j)
    (frame : BeginFrameEnv × EndFrameEnv) (hok : FrameOk frame) :
    ∃ r₁ r₂ target sc, r.BeginFrame frame.1 = (r₁, .returned (some target)) ∧
      r₁.GetFrameIndex = .returned (j % 2) ∧ r₁.axeSwapChain = some sc ∧
      sc.currentFrame = j % 2 ∧
      r₁.EndFrame frame.2 = (r₂, .returned ()) ∧ InStep r₂ (j + 1) := by
  obtain ⟨hidle, hidx, hflag, sc, hsc, hcf⟩ := h
  obtain ⟨ha, hb, he, hs, hp⟩ := hok
  have hbegin := BeginFrame_proceeds r sc frame.1 hidle hsc (Or.inl ha)
  rw [if_neg (by simp [hb])] at hbegin
  have hend := EndFrame_keeps (r.started sc frame.1.acquire) sc frame.2 rfl hsc he hs
    (by rw [hp]; decide) (by rw [hp]; decide) hflag
  rw [if_neg (by simp [hp])] at hend
  refine ⟨_, _, _, sc, hbegin, ?_, hsc, hcf, hend, rfl, ?_, hflag, _, rfl, ?_⟩
  · show Outcome.returned r.currentFrameIndex = _
    rw [hidx]
  · show (r.currentFrameIndex + 1) % 2 = (j + 1) % 2
    rw [hidx]
    omega
  · show (sc.SubmitCommandBuffers _ _ _ _).1.currentFrame = _
    rw [SubmitCommandBuffers_currentFrame, if_pos hs, hcf]
    show (j % 2 + 1) % 2 = (j + 1) % 2
    omega

theorem InStep_run {r : AxeRenderer} {j : Nat} (h : InStep r j)
    (frames : List (BeginFrameEnv × EndFrameEnv)) (hok : ∀ frame ∈ frames, FrameOk frame) :
    ∃ r', run r (framePairs frames) = (r', .returned ()) ∧ InStep r' (j + frames.length) := by
  induction frames generalizing r j with
  | nil => exact ⟨r, rfl, h⟩
  | cons frame later ih =>
    obtain ⟨r₁, r₂, target, sc, hb, _, _, _, he, hnext⟩ :=
      InStep_frame h frame (hok frame (List.mem_cons_self _ _))
    obtain ⟨r', hrun, hstep⟩ := ih hnext (fun f hf => hok f (List.mem_cons_of_mem _ hf))
    refine ⟨r', ?_, ?_⟩
    · show run r (Call.BeginFrame frame.1 :: Call.EndFrame frame.2 :: framePairs later) = _
      simp only [run, Call.make, hb, he]
      exact hrun
    · rw [List.length_cons, show j + (later.length + 1) = j + 1 + later.length by omega]
      exact hstep

/-- C3: on a freshly constructed renderer whose window is not flagged resized, in a run of
frames in which every acquire and present (and every other Vulkan call) returns `VK_SUCCESS`,
the first `k` `BeginFrame` / `EndFrame` pairs return, the `BeginFrame` of frame `k` returns a
command target, and during that frame `GetFrameIndex` reports `k % 2`, which is also the
`currentFrame` of the swap chain. -/
theorem frame_index_cycles (window : AxeWindow) (device : AxeDevice) (env : ConstructEnv)
    (r₀ : AxeRenderer) (hnew : AxeRenderer.construct window device env = (r₀, .returned ()))
    (hflag : r₀.axeWindow.WasWindowResized = false)
    (frames : List (BeginFrameEnv × EndFrameEnv)) (hok : ∀ frame ∈ frames, FrameOk frame)
    (k : Nat) (hk : k < frames.length) :
    ∃ rk r' target sc, run r₀ (framePairs (frames.take k)) = (rk, .returned ()) ∧
      rk.BeginFrame (frames.get ⟨k, hk⟩).1 = (r', .returned (some target)) ∧
      r'.GetFrameIndex = .returned (k % 2) ∧
      r'.axeSwapChain = some sc ∧ sc.currentFrame = k % 2 := by
  obtain ⟨sc₀, hsc₀, hcf₀, _⟩ := construct_swapChain hnew
  obtain ⟨hidle₀, hidx₀⟩ := construct_returned hnew
  have h₀ : InStep r₀ 0 := ⟨hidle₀, hidx₀, hflag, sc₀, hsc₀, hcf₀⟩
  obtain ⟨rk, hrun, hstep⟩ := InStep_run h₀ (frames.take k)
    (fun f hf => hok f (List.mem_of_mem_take hf))
  rw [List.length_take, Nat.min_eq_left (Nat.le_of_lt hk), Nat.zero_add] at hstep
  obtain ⟨r₁, _, target, sc, hb, hidx, hsc, hcf, _, _⟩ :=
    InStep_frame hstep (frames.get ⟨k, hk⟩) (hok _ (List.get_mem _ _ _))
  exact ⟨rk, r₁, target, sc, hrun, hb, hidx, hsc, hcf⟩

theorem frame_index_cycles_witness :
    AxeRenderer.construct sampleWindow { nextHandle := 1, calls := [] } sampleConstruct =
        (sampleRenderer, .returned ()) ∧
      ∃ rk r' target sc,
        run sampleRenderer (framePairs
          ([(sampleBegin VK_SUCCESS 0, sampleEnd VK_SUCCESS),
            (sampleBegin VK_SUCCESS 1, sampleEnd VK_SUCCESS),
            (sampleBegin VK_SUCCESS 2, sampleEnd VK_SUCCESS),
            (sampleBegin VK_SUCCESS 0, sampleEnd VK_SUCCESS)].take 3)) = (rk, .returned ()) ∧
        rk.BeginFrame (sampleBegin VK_SUCCESS 0) = (r', .returned (some target)) ∧
        r'.GetFrameIndex = .returned (3 % 2) ∧
        r'.axeSwapChain = some sc ∧ sc.currentFrame = 3 % 2 :=
  ⟨by rfl,
    frame_index_cycles sampleWindow { nextHandle := 1, calls := [] } sampleConstruct
      sampleRenderer (by rfl) (by rfl)
      [(sampleBegin VK_SUCCESS 0, sampleEnd VK_SUCCESS),
        (sampleBegin VK_SUCCESS 1, sampleEnd VK_SUCCESS),
        (sampleBegin VK_SUCCESS 2, sampleEnd VK_SUCCESS),
        (sampleBegin VK_SUCCESS 0, sampleEnd VK_SUCCESS)]
      (by
        intro frame hframe
        simp only [List.mem_cons, List.mem_singleton, List.not_mem_nil, or_false] at hframe
        rcases hframe with rfl | rfl | rfl | rfl <;>
          exact ⟨rfl, rfl, rfl, rfl, rfl⟩)
      3 (by decide)⟩

/-! ## In-flight markers (C2) -/

theorem getD_set_self {α : Type} (l : List α) (i : Nat) (x d : α) (hi : i < l.length) :
    (l.set i x).getD i d = x := by
  simp [List.getD_eq_getElem?_getD, List.getElem?_set, hi]

theorem getD_set_other {α : Type} (l : List α) (i j : Nat) (x d : α) (hij : j ≠ i) :
    (l.set i x).getD j d = l.getD j d := by
  simp [List.getD_eq_getElem?_getD, List.getElem?_set, Ne.symm hij]

theorem SubmitCommandBuffers_markers (sc : AxeSwapChain) (d : AxeDevice) (cb : VkCommandBuffer)
    (i : Nat) (env : AxeSwapChain.SubmitEnv) :
    (sc.SubmitCommandBuffers d cb i env).1.imagesInFlight =
      sc.imagesInFlight.set i (some (sc.inFlightFences.getD sc.currentFrame 0)) := by
  unfold AxeSwapChain.SubmitCommandBuffers
  by_cases hs : env.submitResult = VK_SUCCESS <;> simp [hs]

theorem SwapChainCall.make_markers (s : AxeSwapChain × AxeDevice) (call : SwapChainCall)
    (i : Nat) :
    (call.make s).1.1.imagesInFlight.length = s.1.imagesInFlight.length ∧
      (call.writes i = false →
        (call.make s).1.1.imagesInFlight.getD i none = s.1.imagesInFlight.getD i none) := by
  cases call with
  | AcquireNextImage env => exact ⟨rfl, fun _ => rfl⟩
  | SubmitCommandBuffers cb j env =>
    have hm := SubmitCommandBuffers_markers s.1 s.2 cb j env
    have : (SwapChainCall.make s (.SubmitCommandBuffers cb j env)).1.1 =
        (s.1.SubmitCommandBuffers s.2 cb j env).1 := by
      simp only [SwapChainCall.make]
      split <;> rename_i heq <;> rw [heq]
    rw [this, hm]
    refine ⟨by simp, fun hw => ?_⟩
    have hne : i ≠ j := by
      intro hij
      simp [SwapChainCall.writes, hij] at hw
    exact getD_set_other _ _ _ _ _ hne

theorem runSwapChain_markers (s : AxeSwapChain × AxeDevice) (calls : List SwapChainCall)
    (i : Nat) (hw : ∀ call ∈ calls, call.writes i = false) :
    (runSwapChain s calls).1.1.imagesInFlight.length = s.1.imagesInFlight.length ∧
      (runSwapChain s calls).1.1.imagesInFlight.getD i none = s.1.imagesInFlight.getD i none := by
  induction calls generalizing s with
  | nil => exact ⟨rfl, rfl⟩
  | cons call later ih =>
    have hm := SwapChainCall.make_markers s call i
    unfold runSwapChain
    rcases hmk : call.make s with ⟨s', _ | f⟩
    · rw [hmk] at hm
      have := ih s' (fun c hc => hw c (List.mem_cons_of_mem _ hc))
      exact ⟨this.1.trans hm.1, this.2.trans (hm.2 (hw call (List.mem_cons_self _ _)))⟩
    · rw [hmk] at hm
      exact ⟨hm.1, hm.2 (hw call (List.mem_cons_self _ _))⟩

theorem runSwapChain_length (s : AxeSwapChain × AxeDevice) (calls : List SwapChainCall) :
    (runSwapChain s calls).1.1.imagesInFlight.length = s.1.imagesInFlight.length := by
  induction calls generalizing s with
  | nil => rfl
  | cons call later ih =>
    have hm := (SwapChainCall.make_markers s call 0).1
    unfold runSwapChain
    rcases hmk : call.make s with ⟨s', _ | f⟩
    · rw [hmk] at hm
      exact (ih s').trans hm
    · rw [hmk] at hm
      exact hm

theorem runSwapChain_append (s : AxeSwapChain × AxeDevice) (a b : List SwapChainCall)
    (s' : AxeSwapChain × AxeDevice) (h : runSwapChain s a = (s', .returned ())) :
    runSwapChain s (a ++ b) = runSwapChain s' b := by
  induction a generalizing s with
  | nil =>
    simp only [runSwapChain, Prod.mk.injEq, and_true] at h
    subst h
    rfl
  | cons call later ih =>
    have hstep : ∀ l, runSwapChain s (call :: l) =
        match call.make s with
        | (s', .returned ()) => runSwapChain s' l
        | (s', .failed fault) => (s', .failed fault) := fun _ => rfl
    rw [List.cons_append, hstep]
    rw [hstep] at h
    rcases hmk : call.make s with ⟨s₁, _ | f⟩
    · rw [hmk] at h
      exact ih s₁ h
    · rw [hmk] at h
      simp at h

/-- The calls of a submission for an image that carries a marker start with the wait on the
marker, followed by the fence reset and the queue submission. -/
theorem SubmitCommandBuffers_waits (sc : AxeSwapChain) (d : AxeDevice) (cb : VkCommandBuffer)
    (i : Nat) (env : AxeSwapChain.SubmitEnv) (marker : VkFence)
    (hm : sc.imagesInFlight.getD i none = some marker) :
    ∃ rest, callsSince d (sc.SubmitCommandBuffers d cb i env).2.1 =
      VkCall.vkWaitForFences marker ::
        VkCall.vkResetFences (sc.inFlightFences.getD sc.currentFrame 0) ::
        VkCall.vkQueueSubmit cb (sc.imageAvailableForRenderingSemaphores.getD sc.currentFrame 0)
          (sc.renderFinishedSemaphores.getD sc.currentFrame 0)
          (sc.inFlightFences.getD sc.currentFrame 0) :: rest := by
  rw [callsSince_of_append (SubmitCommandBuffers_calls sc d cb i env), hm]
  exact ⟨_, rfl⟩

/-- C2: a `SubmitCommandBuffers` for a valid image index first waits on the marker of that
image, if it has one, and only then resets the slot fence and submits; afterwards the marker of
that image is the fence of the submitting slot and every other marker is unchanged. Hence in
every sequence of acquire and submit calls, a submission for an image whose previous
submission was made by some slot starts by waiting on the fence that slot passed to
`vkQueueSubmit`. -/
theorem SubmitCommandBuffers_serializes_image_writes (sc : AxeSwapChain) (device : AxeDevice)
    (buffer : VkCommandBuffer) (imageIndex : Nat) (env : AxeSwapChain.SubmitEnv)
    (hindex : imageIndex < sc.imagesInFlight.length) :
    (∀ marker, sc.imagesInFlight.getD imageIndex none = some marker →
      ∃ rest, callsSince device (sc.SubmitCommandBuffers device buffer imageIndex env).2.1 =
        VkCall.vkWaitForFences marker ::
          VkCall.vkResetFences (sc.inFlightFences.getD sc.currentFrame 0) ::
          VkCall.vkQueueSubmit buffer
            (sc.imageAvailableForRenderingSemaphores.getD sc.currentFrame 0)
            (sc.renderFinishedSemaphores.getD sc.currentFrame 0)
            (sc.inFlightFences.getD sc.currentFrame 0) :: rest) ∧
      (sc.SubmitCommandBuffers device buffer imageIndex env).1.imagesInFlight.getD imageIndex
          none = some (sc.inFlightFences.getD sc.currentFrame 0) ∧
      (∀ other, other ≠ imageIndex →
        (sc.SubmitCommandBuffers device buffer imageIndex env).1.imagesInFlight.getD other none =
          sc.imagesInFlight.getD other none) ∧
      ∀ (s₀ sp : AxeSwapChain × AxeDevice) (before between : List SwapChainCall)
        (earlier : VkCommandBuffer) (earlierEnv : AxeSwapChain.SubmitEnv),
        runSwapChain s₀ before = (sp, .returned ()) →
        runSwapChain s₀ (before ++ .SubmitCommandBuffers earlier imageIndex earlierEnv :: between)
          = ((sc, device), .returned ()) →
        (∀ call ∈ between, call.writes imageIndex = false) →
        VkCall.vkQueueSubmit earlier
            (sp.1.imageAvailableForRenderingSemaphores.getD sp.1.currentFrame 0)
            (sp.1.renderFinishedSemaphores.getD sp.1.currentFrame 0)
            (sp.1.inFlightFences.getD sp.1.currentFrame 0) ∈
          callsSince sp.2 (sp.1.SubmitCommandBuffers sp.2 earlier imageIndex earlierEnv).2.1 ∧
        ∃ rest, callsSince device (sc.SubmitCommandBuffers device buffer imageIndex env).2.1 =
          VkCall.vkWaitForFences (sp.1.inFlightFences.getD sp.1.currentFrame 0) ::
            VkCall.vkResetFences (sc.inFlightFences.getD sc.currentFrame 0) ::
            VkCall.vkQueueSubmit buffer
              (sc.imageAvailableForRenderingSemaphores.getD sc.currentFrame 0)
              (sc.renderFinishedSemaphores.getD sc.currentFrame 0)
              (sc.inFlightFences.getD sc.currentFrame 0) :: rest := by
  refine ⟨fun marker hm => SubmitCommandBuffers_waits sc device buffer imageIndex env marker hm,
    ?_, ?_, ?_⟩
  · rw [SubmitCommandBuffers_markers]
    exact getD_set_self _ _ _ _ hindex
  · intro other hne
    rw [SubmitCommandBuffers_markers]
    exact getD_set_other _ _ _ _ _ hne
  · intro s₀ sp before between earlier earlierEnv hbefore hrun hbetween
    refine ⟨?_, ?_⟩
    · rw [callsSince_of_append (SubmitCommandBuffers_calls sp.1 sp.2 earlier imageIndex
        earlierEnv)]
      simp
    · rw [runSwapChain_append s₀ before _ sp hbefore] at hrun
      unfold runSwapChain at hrun
      rcases hmk : (SwapChainCall.SubmitCommandBuffers earlier imageIndex earlierEnv).make sp
        with ⟨s₁, _ | f⟩
      swap
      · rw [hmk] at hrun
        cases hrun
      rw [hmk] at hrun
      have hrun : runSwapChain s₁ between = ((sc, device), .returned ()) := hrun
      have hs₁ : s₁.1 = (sp.1.SubmitCommandBuffers sp.2 earlier imageIndex earlierEnv).1 := by
        simp only [SwapChainCall.make] at hmk
        split at hmk <;> rename_i heq
        · simp only [Prod.mk.injEq, and_true] at hmk
          rw [← hmk, heq]
        · simp at hmk
      have hbt := runSwapChain_markers s₁ between imageIndex hbetween
      rw [hrun] at hbt
      have hlen : imageIndex < sp.1.imagesInFlight.length := by
        have h1 : s₁.1.imagesInFlight.length = sp.1.imagesInFlight.length := by
          rw [hs₁, SubmitCommandBuffers_markers]
          simp
        rw [← h1, ← hbt.1]
        exact hindex
      have hmarker : sc.imagesInFlight.getD imageIndex none =
          some (sp.1.inFlightFences.getD sp.1.currentFrame 0) := by
        rw [hbt.2, hs₁, SubmitCommandBuffers_markers]
        exact getD_set_self _ _ _ _ hlen
      exact SubmitCommandBuffers_waits sc device buffer imageIndex env _ hmarker

theorem SubmitCommandBuffers_serializes_image_writes_witness :
    sampleMarked.1.imagesInFlight = [none, some 23, none] ∧
      (sampleMarked.1.inFlightFences, sampleMarked.1.currentFrame) = ([23, 26], 1) ∧
      (∃ rest, callsSince sampleMarked.2
          (sampleMarked.1.SubmitCommandBuffers sampleMarked.2 28 1 sampleSubmitOk).2.1 =
        VkCall.vkWaitForFences 23 :: VkCall.vkResetFences 26 ::
          VkCall.vkQueueSubmit 28 24 25 26 :: rest) ∧
      (sampleMarked.1.SubmitCommandBuffers sampleMarked.2 28 1
        sampleSubmitOk).1.imagesInFlight.getD 1 none = some 26 ∧
      (sampleMarked.1.SubmitCommandBuffers sampleMarked.2 28 1
        sampleSubmitOk).1.imagesInFlight.getD 2 none = none ∧
      (VkCall.vkQueueSubmit 27 21 22 23 ∈ callsSince sampleRenderer.axeDevice
          (sampleSwapChain.SubmitCommandBuffers sampleRenderer.axeDevice 27 1
            sampleSubmitOk).2.1 ∧
        ∃ rest, callsSince sampleMarked.2
            (sampleMarked.1.SubmitCommandBuffers sampleMarked.2 28 1 sampleSubmitOk).2.1 =
          VkCall.vkWaitForFences 23 :: VkCall.vkResetFences 26 ::
            VkCall.vkQueueSubmit 28 24 25 26 :: rest) :=
  ⟨by rfl, by rfl,
    (SubmitCommandBuffers_serializes_image_writes sampleMarked.1 sampleMarked.2 28 1
      sampleSubmitOk (by decide)).1 23 (by rfl),
    (SubmitCommandBuffers_serializes_image_writes sampleMarked.1 sampleMarked.2 28 1
      sampleSubmitOk (by decide)).2.1,
    (SubmitCommandBuffers_serializes_image_writes sampleMarked.1 sampleMarked.2 28 1
      sampleSubmitOk (by decide)).2.2.1 2 (by decide),
    (SubmitCommandBuffers_serializes_image_writes sampleMarked.1 sampleMarked.2 28 1
      sampleSubmitOk (by decide)).2.2.2 (sampleSwapChain, sampleRenderer.axeDevice)
      (sampleSwapChain, sampleRenderer.axeDevice) []
      [.AcquireNextImage { result := VK_SUCCESS, imageIndex := 2 }] 27 sampleSubmitOk
      (by rfl) (by rfl) (by decide)⟩

/-! ## Recording waits for the last submission (C1) -/

theorem owed_append (cb : VkCommandBuffer) (a b : List VkCall) :
    owed cb (a ++ b) = b.foldl (owedStep cb) (owed cb a) := by
  simp [owed, List.foldl_append]

/-- Calls other than a submission of `cb` can only clear what is owed on `cb`. -/
theorem foldl_owedStep_some (cb : VkCommandBuffer) (es : List VkCall)
    (hes : ∀ w s f, VkCall.vkQueueSubmit cb w s f ∉ es) (st : Option VkFence) (g : VkFence)
    (h : es.foldl (owedStep cb) st = some g) : st = some g := by
  induction es generalizing st with
  | nil => exact h
  | cons e later ih =>
    have hstep := ih (fun w s f hm => hes w s f (List.mem_cons_of_mem _ hm)) _ h
    cases e with
    | vkQueueSubmit b w s f =>
      have hb : b ≠ cb := by
        intro hb
        subst hb
        exact hes w s f (List.mem_cons_self _ _)
      simpa [owedStep, hb] using hstep
    | vkWaitForFences f =>
      simp only [owedStep] at hstep
      split at hstep
      · cases hstep
      · exact hstep
    | vkDeviceWaitIdle => simp [owedStep] at hstep
    | _ => exact hstep

theorem owed_append_some (cb : VkCommandBuffer) (l es : List VkCall)
    (hes : ∀ w s f, VkCall.vkQueueSubmit cb w s f ∉ es) (g : VkFence)
    (h : owed cb (l ++ es) = some g) : owed cb l = some g := by
  rw [owed_append] at h
  exact foldl_owedStep_some cb es hes _ g h

/-- What is owed stays owed across calls that neither submit the buffer again nor wait on
the fence or for the device. -/
theorem foldl_owedStep_keeps (cb : VkCommandBuffer) (fence : VkFence) (es : List VkCall)
    (hsubmit : ∀ w s f, VkCall.vkQueueSubmit cb w s f ∉ es)
    (hwait : VkCall.vkWaitForFences fence ∉ es) (hidle : VkCall.vkDeviceWaitIdle ∉ es) :
    es.foldl (owedStep cb) (some fence) = some fence := by
  induction es with
  | nil => rfl
  | cons e later ih =>
    have hlater := ih (fun w s f hm => hsubmit w s f (List.mem_cons_of_mem _ hm))
      (fun hm => hwait (List.mem_cons_of_mem _ hm)) (fun hm => hidle (List.mem_cons_of_mem _ hm))
    have hhead : owedStep cb (some fence) e = some fence := by
      cases e with
      | vkQueueSubmit b w s f =>
        have hb : b ≠ cb := by
          intro hb
          subst hb
          exact hsubmit w s f (List.mem_cons_self _ _)
        simp [owedStep, hb]
      | vkWaitForFences f =>
        have hf : fence ≠ f := by
          intro hf
          subst hf
          exact hwait (List.mem_cons_self _ _)
        simp [owedStep, hf]
      | vkDeviceWaitIdle => exact absurd (List.mem_cons_self _ _) hidle
      | _ => rfl
    rw [List.foldl_cons, hhead]
    exact hlater

/-- In a safe record, between a submission of a command buffer and the next
`vkBeginCommandBuffer` on it there is a wait on the fence of that submission or a wait for
the device. -/
theorem RecordsSafely.waited {calls : List VkCall} (hsafe : RecordsSafely calls)
    (before between after : List VkCall) (cb : VkCommandBuffer) (w s : VkSemaphore)
    (fence : VkFence)
    (hcalls : calls = (before ++ VkCall.vkQueueSubmit cb w s fence :: between) ++
      VkCall.vkBeginCommandBuffer cb :: after)
    (hlatest : ∀ w' s' f', VkCall.vkQueueSubmit cb w' s' f' ∉ between) :
    VkCall.vkWaitForFences fence ∈ between ∨ VkCall.vkDeviceWaitIdle ∈ between := by
  by_contra hnot
  simp only [not_or] at hnot
  have hnone := hsafe _ _ _ hcalls
  have hsome : owed cb (before ++ VkCall.vkQueueSubmit cb w s fence :: between) = some fence := by
    rw [owed_append, List.foldl_cons]
    have : owedStep cb (owed cb before) (VkCall.vkQueueSubmit cb w s fence) = some fence := by
      simp [owedStep]
    rw [this]
    exact foldl_owedStep_keeps cb fence between hlatest hnot.1 hnot.2
  rw [hnone] at hsome
  cases hsome

theorem RecordsSafely.nil : RecordsSafely [] := by
  intro before after cb h
  cases before <;> cases h

/-- Appending calls none of which begins a recording keeps a record safe. -/
theorem RecordsSafely.append_quiet {l es : List VkCall} (h : RecordsSafely l)
    (hes : ∀ c ∈ es, ∀ cb, c ≠ VkCall.vkBeginCommandBuffer cb) : RecordsSafely (l ++ es) := by
  intro before after cb hcalls
  rcases List.append_eq_append_iff.mp hcalls with ⟨a', _, hes'⟩ | ⟨c', hl, hc'⟩
  · exact absurd rfl (hes _ (by rw [hes']; simp) cb)
  · cases c' with
    | nil =>
      simp only [List.nil_append] at hc'
      exact absurd rfl (hes _ (by rw [← hc']; simp) cb)
    | cons x rest =>
      simp only [List.cons_append, List.cons.injEq] at hc'
      rw [← hc'.1] at hl
      exact h before rest cb hl

/-- Appending one `vkBeginCommandBuffer` on a target on which nothing is owed keeps a record
safe. -/
theorem RecordsSafely.append_begin {l : List VkCall} (h : RecordsSafely l)
    (cb : VkCommandBuffer) (hcb : owed cb l = none) :
    RecordsSafely (l ++ [VkCall.vkBeginCommandBuffer cb]) := by
  intro before after cb' hcalls
  rcases List.append_eq_append_iff.mp hcalls with ⟨a', hb, hes'⟩ | ⟨c', hl, hc'⟩
  · cases a' with
    | nil =>
      simp only [List.nil_append, List.cons.injEq, VkCall.vkBeginCommandBuffer.injEq] at hes'
      simp only [List.append_nil] at hb
      rw [hb, ← hes'.1]
      exact hcb
    | cons x rest =>
      simp only [List.cons_append, List.cons.injEq] at hes'
      have := hes'.2
      cases rest <;> simp at this
  · cases c' with
    | nil =>
      simp only [List.nil_append, List.cons.injEq, VkCall.vkBeginCommandBuffer.injEq] at hc'
      simp only [List.append_nil] at hl
      rw [← hl, hc'.1]
      exact hcb
    | cons x rest =>
      simp only [List.cons_append, List.cons.injEq] at hc'
      rw [← hc'.1] at hl
      exact h before rest cb' hl

theorem RecordsSafely.appends {d d' : AxeDevice} (h : RecordsSafely d.calls)
    (happ : Appends (fun c => ∀ cb, c ≠ VkCall.vkBeginCommandBuffer cb) d d') :
    RecordsSafely d'.calls := by
  obtain ⟨es, hes, hP⟩ := happ
  rw [hes]
  exact h.append_quiet hP

theorem isRebuild_not_begin (c : VkCall) (h : c.isRebuild) :
    ∀ cb, c ≠ VkCall.vkBeginCommandBuffer cb := by
  intro cb hcb
  subst hcb
  rcases h with h | h | h <;> simp [VkCall.isLifetime] at h

theorem isRebuild_not_submit (c : VkCall) (h : c.isRebuild) :
    ∀ cb w s f, c ≠ VkCall.vkQueueSubmit cb w s f := by
  intro cb w s f hcb
  subst hcb
  rcases h with h | h | h <;> simp [VkCall.isLifetime] at h

/-- After a wait for the device, calls that submit nothing leave nothing owed. -/
theorem owed_after_idle (cb : VkCommandBuffer) (l es : List VkCall)
    (hes : ∀ c ∈ es, ∀ b w s f, c ≠ VkCall.vkQueueSubmit b w s f) :
    owed cb (l ++ VkCall.vkDeviceWaitIdle :: es) = none := by
  rw [owed_append, List.foldl_cons]
  show es.foldl (owedStep cb) none = none
  cases h : es.foldl (owedStep cb) none with
  | none => rfl
  | some g =>
    have := foldl_owedStep_some cb es (fun w s f hm => hes _ hm cb w s f rfl) none g h
    cases this

/-- A record without submission owes nothing. -/
theorem owed_of_no_submit (cb : VkCommandBuffer) (l : List VkCall)
    (hl : ∀ c ∈ l, ∀ b w s f, c ≠ VkCall.vkQueueSubmit b w s f) : owed cb l = none := by
  cases h : owed cb l with
  | none => rfl
  | some g =>
    have := owed_append_some cb [] l (fun w s f hm => hl _ hm cb w s f rfl) g
      (by simpa using h)
    cases this

theorem submitted_calls_mem (r : AxeRenderer) (sc : AxeSwapChain)
    (env : AxeSwapChain.SubmitEnv) (c : VkCall)
    (hc : c ∈ callsSince r.axeDevice (r.submitted sc env).axeDevice) :
    c = VkCall.vkEndCommandBuffer (r.commandBuffers.getD r.currentFrameIndex 0) ∨
      (∃ m, c = VkCall.vkWaitForFences m) ∨
      c = VkCall.vkResetFences (sc.inFlightFences.getD sc.currentFrame 0) ∨
      c = VkCall.vkQueueSubmit (r.commandBuffers.getD r.currentFrameIndex 0)
        (sc.imageAvailableForRenderingSemaphores.getD sc.currentFrame 0)
        (sc.renderFinishedSemaphores.getD sc.currentFrame 0)
        (sc.inFlightFences.getD sc.currentFrame 0) ∨
      c = VkCall.vkQueuePresentKHR (sc.swapChain.getD 0) r.currentImageIndex
        (sc.renderFinishedSemaphores.getD sc.currentFrame 0) := by
  rw [callsSince_of_append (submitted_calls r sc env)] at hc
  simp only [List.mem_cons, List.mem_append, List.mem_map, Option.mem_toList,
    List.not_mem_nil, or_false] at hc
  rcases hc with rfl | (⟨m, _, rfl⟩ | rfl | rfl) | h
  · exact Or.inl rfl
  · exact Or.inr (Or.inl ⟨m, rfl⟩)
  · exact Or.inr (Or.inr (Or.inl rfl))
  · exact Or.inr (Or.inr (Or.inr (Or.inl rfl)))
  · split at h
    · simp only [List.mem_singleton] at h
      exact Or.inr (Or.inr (Or.inr (Or.inr h)))
    · simp at h

theorem submitted_appends (r : AxeRenderer) (sc : AxeSwapChain)
    (env : AxeSwapChain.SubmitEnv) :
    Appends (fun c => ∀ cb, c ≠ VkCall.vkBeginCommandBuffer cb) r.axeDevice
      (r.submitted sc env).axeDevice := by
  refine ⟨_, submitted_calls r sc env, ?_⟩
  intro c hc cb hcb
  have hmem : c ∈ callsSince r.axeDevice (r.submitted sc env).axeDevice := by
    rw [callsSince_of_append (submitted_calls r sc env)]
    exact hc
  subst hcb
  rcases submitted_calls_mem r sc env _ hmem with h | ⟨m, h⟩ | h | h | h <;> cases h

theorem acquired_appends (r : AxeRenderer) (sc : AxeSwapChain)
    (env : AxeSwapChain.AcquireEnv) :
    Appends (fun c => ∀ cb, c ≠ VkCall.vkBeginCommandBuffer cb) r.axeDevice
      (r.acquired sc env).axeDevice :=
  ⟨_, acquired_calls r sc env, by simp⟩

/-- What is owed on the command buffer of the current frame index is the fence of the
current slot. -/
theorem Paired.current {r : AxeRenderer} (h : Paired r) :
    ∃ sc, r.axeSwapChain = some sc ∧ ∀ fence,
      owed (r.commandBuffers.getD r.currentFrameIndex 0) r.axeDevice.calls = some fence →
      fence = sc.inFlightFences.getD sc.currentFrame 0 := by
  obtain ⟨_, sc, a, b, hsc, hcbs, _, hidx, hcf, ha, hb⟩ := h
  refine ⟨sc, hsc, fun fence hf => ?_⟩
  rw [hcbs] at hf
  have hcases : r.currentFrameIndex = 0 ∨ r.currentFrameIndex = 1 := by omega
  rcases hcases with h0 | h1
  · rw [h0] at hf
    have := ha fence hf
    rw [h0] at this
    rw [this]
    congr 1
    omega
  · rw [h1] at hf
    have := hb fence hf
    rw [h1] at this
    rw [this]
    congr 1
    omega

/-- After the fence wait of `AcquireNextImage` nothing is owed on the command buffer of the
current frame index. -/
theorem Paired.acquired_owed {r : AxeRenderer} (h : Paired r) (sc : AxeSwapChain)
    (hsc : r.axeSwapChain = some sc) (env : AxeSwapChain.AcquireEnv) :
    owed (r.commandBuffers.getD r.currentFrameIndex 0) (r.acquired sc env).axeDevice.calls =
      none := by
  obtain ⟨sc', hsc', hcur⟩ := h.current
  rw [hsc] at hsc'
  cases hsc'
  rw [acquired_calls, owed_append]
  cases ho : owed (r.commandBuffers.getD r.currentFrameIndex 0) r.axeDevice.calls with
  | none => simp [List.foldl, owedStep]
  | some g =>
    have := hcur g ho
    subst this
    simp [List.foldl, owedStep]

theorem SubmitCommandBuffers_fences (sc : AxeSwapChain) (d : AxeDevice) (cb : VkCommandBuffer)
    (i : Nat) (env : AxeSwapChain.SubmitEnv) :
    (sc.SubmitCommandBuffers d cb i env).1.inFlightFences = sc.inFlightFences := by
  unfold AxeSwapChain.SubmitCommandBuffers
  by_cases hs : env.submitResult = VK_SUCCESS <;> simp [hs]

/-- After `SubmitCommandBuffers` the fence of the submitting slot is owed on the submitted
command buffer. -/
theorem owed_submitted (r : AxeRenderer) (sc : AxeSwapChain) (env : AxeSwapChain.SubmitEnv) :
    owed (r.commandBuffers.getD r.currentFrameIndex 0) (r.submitted sc env).axeDevice.calls =
      some (sc.inFlightFences.getD sc.currentFrame 0) := by
  rw [submitted_calls, owed_append]
  by_cases hs : env.submitResult = VK_SUCCESS <;>
    simp [List.foldl_append, owedStep, hs]

theorem owed_submitted_other (r : AxeRenderer) (sc : AxeSwapChain)
    (env : AxeSwapChain.SubmitEnv) (y : VkCommandBuffer)
    (hy : y ≠ r.commandBuffers.getD r.currentFrameIndex 0) (g : VkFence)
    (h : owed y (r.submitted sc env).axeDevice.calls = some g) :
    owed y r.axeDevice.calls = some g := by
  rw [submitted_calls] at h
  refine owed_append_some y _ _ ?_ g h
  intro w s f hm
  have hmem : VkCall.vkQueueSubmit y w s f ∈
      callsSince r.axeDevice (r.submitted sc env).axeDevice := by
    rw [callsSince_of_append (submitted_calls r sc env)]
    exact hm
  rcases submitted_calls_mem r sc env _ hmem with h | ⟨m, h⟩ | h | h | h
  · cases h
  · cases h
  · cases h
  · simp only [VkCall.vkQueueSubmit.injEq] at h
    exact hy h.1
  · cases h

/-- A rebuild that returned leaves a paired renderer, whatever the frame index below 2. -/
theorem Paired_of_rebuilt {r r₂ : AxeRenderer} {env : RecreateEnv} (a b : VkCommandBuffer)
    (hrr : r.RecreateSwapChain env = (r₂, .returned ()))
    (hsafe : RecordsSafely r₂.axeDevice.calls) (hcbs : r.commandBuffers = [a, b])
    (hab : a ≠ b) (r₃ : AxeRenderer) (hsc₃ : r₃.axeSwapChain = r₂.axeSwapChain)
    (hcalls₃ : r₃.axeDevice = r₂.axeDevice) (hcbs₃ : r₃.commandBuffers = r₂.commandBuffers)
    (hidx₃ : r₃.currentFrameIndex < 2) : Paired r₃ := by
  obtain ⟨sc', q₁, c, q₂, hsc', hcf', _, hcalls, _, hc, hq₂, _⟩ := RecreateSwapChain_returned hrr
  obtain ⟨hcb₂, _, _, _⟩ := RecreateSwapChain_fields_of_eq hrr
  have hnone : ∀ x, owed x r₃.axeDevice.calls = none := by
    intro x
    rw [hcalls₃, hcalls]
    refine owed_after_idle x _ _ ?_
    intro e he b' w s f hsub
    subst hsub
    rcases List.mem_cons.mp he with h | h
    · rw [← h] at hc
      cases hc
    · have := hq₂ _ h
      cases this
  refine ⟨by rw [hcalls₃]; exact hsafe, sc', a, b, hsc₃.trans hsc', ?_, hab, hidx₃, ?_, ?_, ?_⟩
  · rw [hcbs₃, hcb₂, hcbs]
  · rw [hcf']
    decide
  · intro fence hf
    rw [hnone] at hf
    cases hf
  · intro fence hf
    rw [hnone] at hf
    cases hf

theorem started_calls (r : AxeRenderer) (sc : AxeSwapChain) (env : AxeSwapChain.AcquireEnv) :
    (r.started sc env).axeDevice.calls = r.axeDevice.calls ++
      [ VkCall.vkWaitForFences (sc.inFlightFences.getD sc.currentFrame 0),
        VkCall.vkAcquireNextImageKHR (sc.swapChain.getD 0)
          (sc.imageAvailableForRenderingSemaphores.getD sc.currentFrame 0),
        VkCall.vkBeginCommandBuffer (r.commandBuffers.getD r.currentFrameIndex 0) ] := by
  show (r.acquired sc env).axeDevice.calls ++ _ = _
  rw [acquired_calls, List.append_assoc]
  rfl

theorem owed_started (r : AxeRenderer) (sc : AxeSwapChain) (env : AxeSwapChain.AcquireEnv)
    (x : VkCommandBuffer) (g : VkFence)
    (h : owed x (r.started sc env).axeDevice.calls = some g) :
    owed x r.axeDevice.calls = some g := by
  rw [started_calls] at h
  exact owed_append_some x _ _ (by simp) g h

theorem Paired_BeginFrame {r : AxeRenderer} (h : Paired r) (env : BeginFrameEnv) :
    RecordsSafely (r.BeginFrame env).1.axeDevice.calls ∧
      ∀ v, (r.BeginFrame env).2 = .returned v → Paired (r.BeginFrame env).1 := by
  by_cases hprog : r.isFrameStarted = true
  · rw [BeginFrame_in_progress r env hprog]
    exact ⟨h.1, fun v hv => by simp at hv⟩
  have hidle : r.isFrameStarted = false := by simpa using hprog
  obtain ⟨hsafe, sc, a, b, hsc, hcbs, hab, hidx, hcf, ha, hb⟩ := h
  have h : Paired r := ⟨hsafe, sc, a, b, hsc, hcbs, hab, hidx, hcf, ha, hb⟩
  by_cases h₁ : env.acquire.result = VK_ERROR_OUT_OF_DATE_KHR
  · rw [BeginFrame_outOfDate r sc env hidle hsc h₁]
    have hsafe' : RecordsSafely
        ((r.acquired sc env.acquire).RecreateSwapChain env.recreate).1.axeDevice.calls :=
      hsafe.appends ((acquired_appends r sc env.acquire).trans
        ((RecreateSwapChain_appends _ _).mono isRebuild_not_begin))
    refine ⟨hsafe', ?_⟩
    intro v hv
    rcases hrr : (r.acquired sc env.acquire).RecreateSwapChain env.recreate with ⟨r₂, _ | f⟩
    · rw [hrr] at hsafe'
      have hidx₂ := (RecreateSwapChain_fields_of_eq hrr).2.2.1
      exact Paired_of_rebuilt a b hrr hsafe' hcbs hab r₂ rfl rfl rfl
        (by rw [hidx₂]; exact hidx)
    · rw [hrr] at hv
      simp [Outcome.asNone] at hv
  by_cases h₂ : env.acquire.result = VK_SUCCESS ∨ env.acquire.result = VK_SUBOPTIMAL_KHR
  · rw [BeginFrame_proceeds r sc env hidle hsc h₂]
    have hsafe' : RecordsSafely (r.started sc env.acquire).axeDevice.calls :=
      (hsafe.appends (acquired_appends r sc env.acquire)).append_begin _
        (h.acquired_owed sc hsc env.acquire)
    exact ⟨hsafe', fun _ _ => ⟨hsafe', sc, a, b, hsc, hcbs, hab, hidx, hcf,
      fun fence hf => ha fence (owed_started r sc env.acquire a fence hf),
      fun fence hf => hb fence (owed_started r sc env.acquire b fence hf)⟩⟩
  · simp only [not_or] at h₂
    rw [BeginFrame_acquire_error r sc env hidle hsc h₁ h₂.1 h₂.2]
    exact ⟨hsafe.appends (acquired_appends r sc env.acquire), fun v hv => by simp at hv⟩

theorem Paired_EndFrame {r : AxeRenderer} (h : Paired r) (env : EndFrameEnv) :
    RecordsSafely (r.EndFrame env).1.axeDevice.calls ∧
      ((r.EndFrame env).2 = .returned () → Paired (r.EndFrame env).1) := by
  by_cases hidle : r.isFrameStarted = false
  · rw [EndFrame_idle r env hidle]
    exact ⟨h.1, fun hv => by simp at hv⟩
  have hprog : r.isFrameStarted = true := by simpa using hidle
  obtain ⟨hsafe, sc, a, b, hsc, hcbs, hab, hidx, hcf, ha, hb⟩ := h
  by_cases hend : env.endResult = VK_SUCCESS
  swap
  · rw [EndFrame_end_failed r env hprog hend]
    exact ⟨hsafe.append_quiet (by simp), fun hv => by simp at hv⟩
  by_cases hsub : env.submit.submitResult = VK_SUCCESS
  swap
  · rw [EndFrame_submit_failed r sc env hprog hsc hend hsub]
    exact ⟨hsafe.appends (submitted_appends r sc env.submit), fun hv => by simp at hv⟩
  by_cases hcond : env.submit.presentResult = VK_ERROR_OUT_OF_DATE_KHR ∨
      env.submit.presentResult = VK_SUBOPTIMAL_KHR ∨ r.axeWindow.framebufferResized = true
  · rw [EndFrame_rebuilds r sc env hprog hsc hend hsub hcond]
    have hsafe' : RecordsSafely
        ((r.presentedStale sc env.submit).RecreateSwapChain env.recreate).1.axeDevice.calls :=
      hsafe.appends ((submitted_appends r sc env.submit).trans
        ((RecreateSwapChain_appends (r.presentedStale sc env.submit) env.recreate).mono
          isRebuild_not_begin))
    rcases hrr : (r.presentedStale sc env.submit).RecreateSwapChain env.recreate with ⟨r₂, _ | f⟩
    · rw [hrr] at hsafe'
      refine ⟨hsafe', fun _ => ?_⟩
      exact Paired_of_rebuilt a b hrr hsafe' hcbs hab r₂.closed rfl rfl rfl
        (Nat.mod_lt _ (by decide))
    · rw [hrr] at hsafe'
      exact ⟨hsafe', fun hv => by simp at hv⟩
  · simp only [not_or] at hcond
    rw [EndFrame_keeps r sc env hprog hsc hend hsub hcond.1 hcond.2.1
      (by simpa using hcond.2.2)]
    have hsafe' : RecordsSafely (r.submitted sc env.submit).axeDevice.calls :=
      hsafe.appends (submitted_appends r sc env.submit)
    split
    · exact ⟨hsafe', fun hv => by simp at hv⟩
    · refine ⟨hsafe', fun _ => ⟨hsafe', _, a, b, rfl, hcbs, hab, Nat.mod_lt _ (by decide), ?_,
        ?_, ?_⟩⟩
      · rw [SubmitCommandBuffers_currentFrame, if_pos hsub]
        exact Nat.mod_lt _ (by decide)
      · intro fence hf
        rw [SubmitCommandBuffers_fences, SubmitCommandBuffers_currentFrame, if_pos hsub]
        show fence = sc.inFlightFences.getD
          (((sc.currentFrame + 1) % 2 + (r.currentFrameIndex + 1) % 2) % 2) 0
        have hf : owed a (r.submitted sc env.submit).axeDevice.calls = some fence := hf
        have hcases : r.currentFrameIndex = 0 ∨ r.currentFrameIndex = 1 := by omega
        rcases hcases with h0 | h1
        · have hcur : r.commandBuffers.getD r.currentFrameIndex 0 = a := by
            rw [hcbs, h0]
            rfl
          have := owed_submitted r sc env.submit
          rw [hcur, hf] at this
          rw [Option.some.inj this]
          congr 1
          omega
        · have hcur : a ≠ r.commandBuffers.getD r.currentFrameIndex 0 := by
            rw [hcbs, h1]
            exact hab
          rw [ha fence (owed_submitted_other r sc env.submit a hcur fence hf)]
          congr 1
          omega
      · intro fence hf
        rw [SubmitCommandBuffers_fences, SubmitCommandBuffers_currentFrame, if_pos hsub]
        show fence = sc.inFlightFences.getD
          (((sc.currentFrame + 1) % 2 + (r.currentFrameIndex + 1) % 2 + 1) % 2) 0
        have hf : owed b (r.submitted sc env.submit).axeDevice.calls = some fence := hf
        have hcases : r.currentFrameIndex = 0 ∨ r.currentFrameIndex = 1 := by omega
        rcases hcases with h0 | h1
        · have hcur : b ≠ r.commandBuffers.getD r.currentFrameIndex 0 := by
            rw [hcbs, h0]
            exact fun hba => hab hba.symm
          rw [hb fence (owed_submitted_other r sc env.submit b hcur fence hf)]
          congr 1
          omega
        · have hcur : r.commandBuffers.getD r.currentFrameIndex 0 = b := by
            rw [hcbs, h1]
            rfl
          have := owed_submitted r sc env.submit
          rw [hcur, hf] at this
          rw [Option.some.inj this]
          congr 1
          omega

theorem BeginSwapChainRenderPass_appends (r : AxeRenderer) (cb : VkCommandBuffer) :
    Appends (fun c => (∀ x, c ≠ VkCall.vkBeginCommandBuffer x) ∧
        ∀ x w s f, c ≠ VkCall.vkQueueSubmit x w s f) r.axeDevice
      (r.BeginSwapChainRenderPass cb).1.axeDevice := by
  unfold AxeRenderer.BeginSwapChainRenderPass
  repeat' first | split | dsimp only
  all_goals
    first
    | exact Appends.refl _ _
    | exact Appends.recordAll _ _ (by simp)

theorem EndSwapChainRenderPass_appends (r : AxeRenderer) (cb : VkCommandBuffer) :
    Appends (fun c => (∀ x, c ≠ VkCall.vkBeginCommandBuffer x) ∧
        ∀ x w s f, c ≠ VkCall.vkQueueSubmit x w s f) r.axeDevice
      (r.EndSwapChainRenderPass cb).1.axeDevice := by
  unfold AxeRenderer.EndSwapChainRenderPass
  repeat' first | split | dsimp only
  all_goals
    first
    | exact Appends.refl _ _
    | exact Appends.record _ _ (by simp)

/-- Calls that neither begin a recording nor submit keep a renderer paired. -/
theorem Paired_of_appends {r r' : AxeRenderer} (h : Paired r)
    (happ : Appends (fun c => (∀ x, c ≠ VkCall.vkBeginCommandBuffer x) ∧
      ∀ x w s f, c ≠ VkCall.vkQueueSubmit x w s f) r.axeDevice r'.axeDevice)
    (hsc : r'.axeSwapChain = r.axeSwapChain) (hcbs : r'.commandBuffers = r.commandBuffers)
    (hidx : r'.currentFrameIndex = r.currentFrameIndex) : Paired r' := by
  obtain ⟨hsafe, sc, a, b, hsc₀, hcbs₀, hab, hidx₀, hcf, ha, hb⟩ := h
  obtain ⟨es, hes, hP⟩ := happ
  refine ⟨?_, sc, a, b, hsc.trans hsc₀, hcbs.trans hcbs₀, hab, by rw [hidx]; exact hidx₀, hcf,
    ?_, ?_⟩
  · rw [hes]
    exact hsafe.append_quiet (fun c hc => (hP c hc).1)
  · intro fence hf
    rw [hes] at hf
    rw [hidx]
    exact ha fence (owed_append_some a _ es (fun w s f hm => (hP _ hm).2 a w s f rfl) fence hf)
  · intro fence hf
    rw [hes] at hf
    rw [hidx]
    exact hb fence (owed_append_some b _ es (fun w s f hm => (hP _ hm).2 b w s f rfl) fence hf)

theorem Paired_make {r : AxeRenderer} (h : Paired r) (call : Call) :
    RecordsSafely (call.make r).1.axeDevice.calls ∧
      ((call.make r).2 = .returned () → Paired (call.make r).1) := by
  cases call with
  | glfwPollEvents callbacks =>
    exact ⟨h.1, fun _ => Paired_of_appends h (Appends.refl _ _) rfl rfl rfl⟩
  | BeginFrame env =>
    have hb := Paired_BeginFrame h env
    simp only [Call.make]
    rcases hbf : r.BeginFrame env with ⟨r', v | f⟩
    · rw [hbf] at hb
      exact ⟨hb.1, fun _ => hb.2 v rfl⟩
    · rw [hbf] at hb
      exact ⟨hb.1, fun hv => by simp at hv⟩
  | EndFrame env => exact Paired_EndFrame h env
  | BeginSwapChainRenderPass cb =>
    have happ := BeginSwapChainRenderPass_appends r cb
    obtain ⟨_, h2, h3, h4⟩ := BeginSwapChainRenderPass_protocol r cb
    exact ⟨h.1.appends (happ.mono (fun c hc => hc.1)),
      fun _ => Paired_of_appends h happ h4 h3 h2⟩
  | EndSwapChainRenderPass cb =>
    have happ := EndSwapChainRenderPass_appends r cb
    obtain ⟨_, h2, h3, h4⟩ := EndSwapChainRenderPass_protocol r cb
    exact ⟨h.1.appends (happ.mono (fun c hc => hc.1)),
      fun _ => Paired_of_appends h happ h4 h3 h2⟩

theorem Paired_run {r : AxeRenderer} (h : Paired r) (calls : List Call) :
    RecordsSafely (run r calls).1.axeDevice.calls := by
  induction calls generalizing r with
  | nil => exact h.1
  | cons call later ih =>
    have hm := Paired_make h call
    have hstep : run r (call :: later) =
        match call.make r with
        | (r', .returned ()) => run r' later
        | (r', .failed fault) => (r', .failed fault) := rfl
    rw [hstep]
    rcases hmk : call.make r with ⟨r', _ | f⟩
    · rw [hmk] at hm
      exact ih (hm.2 rfl)
    · rw [hmk] at hm
      exact hm.1

theorem RecreateSwapChain_appends_of_eq {r r' : AxeRenderer} {env : RecreateEnv}
    {out : Outcome Unit} (h : r.RecreateSwapChain env = (r', out)) :
    Appends VkCall.isRebuild r.axeDevice r'.axeDevice := by
  have := RecreateSwapChain_appends r env
  rw [h] at this
  exact this

/-- A renderer constructed over a device with an empty record is paired. -/
theorem Paired_construct {window : AxeWindow} {n : Nat} {env : ConstructEnv} {r : AxeRenderer}
    (h : AxeRenderer.construct window { nextHandle := n, calls := [] } env = (r, .returned ())) :
    Paired r := by
  unfold AxeRenderer.construct at h
  dsimp only at h
  split at h
  · simp at h
  · rename_i r₁ heq
    have happ := (RecreateSwapChain_appends_of_eq heq).mono
      (Q := fun c => (∀ x, c ≠ VkCall.vkBeginCommandBuffer x) ∧
        ∀ x w s f, c ≠ VkCall.vkQueueSubmit x w s f)
      (fun c hc => ⟨isRebuild_not_begin c hc, isRebuild_not_submit c hc⟩)
    obtain ⟨sc, _, _, _, hsc, hcf, _⟩ := RecreateSwapChain_returned heq
    unfold AxeRenderer.CreateCommandBuffers at h
    split at h
    · simp at h
    · simp only [Prod.mk.injEq, and_true] at h
      subst h
      have happ' := happ.trans ((Appends.reserve (P := fun c =>
        (∀ x, c ≠ VkCall.vkBeginCommandBuffer x) ∧ ∀ x w s f, c ≠ VkCall.vkQueueSubmit x w s f)
        r₁.axeDevice MAX_FRAMES_IN_FLIGHT).trans (Appends.record _
          (VkCall.vkAllocateCommandBuffers
            ((List.range MAX_FRAMES_IN_FLIGHT).map (fun i => r₁.axeDevice.nextHandle + i)))
          (by simp)))
      obtain ⟨es, hes, hP⟩ := happ'
      simp only [List.nil_append] at hes
      have hidx : r₁.currentFrameIndex = 0 := (RecreateSwapChain_fields_of_eq heq).2.2.1
      have hnone : ∀ x, owed x es = none :=
        fun x => owed_of_no_submit x es (fun c hc => (hP c hc).2)
      refine ⟨?_, sc, r₁.axeDevice.nextHandle + 0, r₁.axeDevice.nextHandle + 1, hsc, ?_,
        Nat.ne_of_lt (Nat.add_lt_add_left Nat.zero_lt_one _), ?_, ?_, ?_, ?_⟩
      · show RecordsSafely _
        rw [hes]
        have hquiet : RecordsSafely ([] ++ es) :=
          RecordsSafely.nil.append_quiet (fun c hc => (hP c hc).1)
        simpa using hquiet
      · simp [List.range_succ]
      · show r₁.currentFrameIndex < 2
        rw [hidx]
        decide
      · rw [hcf]
        decide
      · intro fence hf
        rw [hes, hnone] at hf
        cases hf
      · intro fence hf
        rw [hes, hnone] at hf
        cases hf

/-- C1: in every run of calls on a renderer constructed over a device with an empty record
(frames that are skipped, swap chain rebuilds and runs that end in a fault included), whenever
the record holds a `vkQueueSubmit` of a command buffer and later a `vkBeginCommandBuffer` on
the same command buffer with no submission of it in between, the calls in between contain a
`vkWaitForFences` on the fence that was passed to that submission, or a `vkDeviceWaitIdle`. -/
theorem recording_waits_for_last_submission (window : AxeWindow) (n : Nat) (env : ConstructEnv)
    (r₀ : AxeRenderer)
    (hnew : AxeRenderer.construct window { nextHandle := n, calls := [] } env =
      (r₀, .returned ()))
    (calls : List Call) (before between after : List VkCall) (target : VkCommandBuffer)
    (waitSemaphore signalSemaphore : VkSemaphore) (fence : VkFence)
    (hrecord : (run r₀ calls).1.axeDevice.calls =
      (before ++ VkCall.vkQueueSubmit target waitSemaphore signalSemaphore fence :: between) ++
        VkCall.vkBeginCommandBuffer target :: after)
    (hlatest : ∀ w s f, VkCall.vkQueueSubmit target w s f ∉ between) :
    VkCall.vkWaitForFences fence ∈ between ∨ VkCall.vkDeviceWaitIdle ∈ between :=
  (Paired_run (Paired_construct hnew) calls).waited before between after target waitSemaphore
    signalSemaphore fence hrecord hlatest

theorem recording_waits_for_last_submission_witness :
    (run sampleRenderer sampleThreeFrames).1.axeDevice.calls =
        ((sampleRenderer.axeDevice.calls ++
          [ VkCall.vkWaitForFences 23, VkCall.vkAcquireNextImageKHR 1 21,
            VkCall.vkBeginCommandBuffer 27, VkCall.vkEndCommandBuffer 27,
            VkCall.vkResetFences 23 ]) ++
          VkCall.vkQueueSubmit 27 21 22 23 :: sampleBetween) ++
          VkCall.vkBeginCommandBuffer 27 :: [] ∧
      (VkCall.vkWaitForFences 23 ∈ sampleBetween ∨ VkCall.vkDeviceWaitIdle ∈ sampleBetween) :=
  ⟨by rfl,
    recording_waits_for_last_submission sampleWindow 1 sampleConstruct sampleRenderer (by rfl)
      sampleThreeFrames
      (sampleRenderer.axeDevice.calls ++
        [ VkCall.vkWaitForFences 23, VkCall.vkAcquireNextImageKHR 1 21,
          VkCall.vkBeginCommandBuffer 27, VkCall.vkEndCommandBuffer 27,
          VkCall.vkResetFences 23 ])
      sampleBetween [] 27 21 22 23 (by rfl)
      (by
        intro w s f h
        simp [sampleBetween] at h)⟩

/-! ## The render pass calls take the target of the frame (C11) -/

/-- While no `EndFrame` returns, a frame in progress keeps its command buffers and its frame
index. -/
theorem run_keeps_target (r : AxeRenderer) (calls : List Call)
    (hprog : r.isFrameStarted = true) (hno : endFrameCompleted r calls = false) :
    (run r calls).1.commandBuffers = r.commandBuffers ∧
      (run r calls).1.currentFrameIndex = r.currentFrameIndex := by
  induction calls generalizing r with
  | nil => exact ⟨rfl, rfl⟩
  | cons call later ih =>
    unfold run
    unfold endFrameCompleted at hno
    rcases hmk : call.make r with ⟨r', _ | f⟩
    · rw [hmk] at hno
      simp only [Bool.or_eq_false_iff] at hno
      have hr' : r'.isFrameStarted = true ∧ r'.commandBuffers = r.commandBuffers ∧
          r'.currentFrameIndex = r.currentFrameIndex := by
        cases call with
        | glfwPollEvents callbacks =>
          simp only [Call.make, Prod.mk.injEq] at hmk
          rw [← hmk.1]
          exact ⟨hprog, rfl, rfl⟩
        | BeginFrame env =>
          simp [Call.make, BeginFrame_in_progress r env hprog] at hmk
        | EndFrame env => simp [Call.isEndFrame] at hno
        | BeginSwapChainRenderPass cb =>
          have := BeginSwapChainRenderPass_protocol r cb
          simp only [Call.make] at hmk
          rw [hmk] at this
          exact ⟨this.1.trans hprog, this.2.2.1, this.2.1⟩
        | EndSwapChainRenderPass cb =>
          have := EndSwapChainRenderPass_protocol r cb
          simp only [Call.make] at hmk
          rw [hmk] at this
          exact ⟨this.1.trans hprog, this.2.2.1, this.2.1⟩
      have := ih r' hr'.1 hno.2
      exact ⟨this.1.trans hr'.2.1, this.2.trans hr'.2.2⟩
    · show r'.commandBuffers = r.commandBuffers ∧ r'.currentFrameIndex = r.currentFrameIndex
      cases call with
      | glfwPollEvents callbacks => simp [Call.make] at hmk
      | BeginFrame env =>
        simp only [Call.make, BeginFrame_in_progress r env hprog, Prod.mk.injEq] at hmk
        rw [← hmk.1]
        exact ⟨rfl, rfl⟩
      | EndFrame env =>
        simp only [Call.make] at hmk
        have h₁ := (EndFrame_protocol r env hprog).1
        have h₂ := (EndFrame_protocol r env hprog).2.2 f (by rw [hmk])
        rw [hmk] at h₁ h₂
        exact ⟨h₁, h₂.2⟩
      | BeginSwapChainRenderPass cb =>
        have := BeginSwapChainRenderPass_protocol r cb
        simp only [Call.make] at hmk
        rw [hmk] at this
        exact ⟨this.2.2.1, this.2.1⟩
      | EndSwapChainRenderPass cb =>
        have := EndSwapChainRenderPass_protocol r cb
        simp only [Call.make] at hmk
        rw [hmk] at this
        exact ⟨this.2.2.1, this.2.1⟩

/-- The target a `BeginFrame` returns is the command buffer of the frame index. -/
theorem BeginFrame_returned_current {r r₁ : AxeRenderer} {env : BeginFrameEnv}
    {target : VkCommandBuffer} (h : r.BeginFrame env = (r₁, .returned (some target))) :
    r₁.commandBuffers.getD r₁.currentFrameIndex 0 = target ∧
      ∃ sc, r₁.axeSwapChain = some sc := by
  by_cases hidle : r.isFrameStarted = true
  · rw [BeginFrame_in_progress r env hidle] at h
    simp at h
  have hidle' : r.isFrameStarted = false := by simpa using hidle
  rcases hsc : r.axeSwapChain with _ | sc
  · simp [AxeRenderer.BeginFrame, hidle', hsc] at h
  by_cases h₁ : env.acquire.result = VK_ERROR_OUT_OF_DATE_KHR
  · rw [BeginFrame_outOfDate r sc env hidle' hsc h₁] at h
    rcases hrr : ((r.acquired sc env.acquire).RecreateSwapChain env.recreate).2 with _ | f
    · simp [hrr, Outcome.asNone] at h
    · simp [hrr, Outcome.asNone] at h
  by_cases h₂ : env.acquire.result = VK_SUCCESS ∨ env.acquire.result = VK_SUBOPTIMAL_KHR
  · rw [BeginFrame_proceeds r sc env hidle' hsc h₂] at h
    split at h
    · simp at h
    · simp only [Prod.mk.injEq, Outcome.returned.injEq, Option.some.injEq] at h
      rw [← h.1, ← h.2]
      exact ⟨rfl, sc, hsc⟩
  · simp only [not_or] at h₂
    rw [BeginFrame_acquire_error r sc env hidle' hsc h₁ h₂.1 h₂.2] at h
    simp at h

theorem BeginSwapChainRenderPass_current (r : AxeRenderer) (sc : AxeSwapChain)
    (hprog : r.isFrameStarted = true) (hsc : r.axeSwapChain = some sc) :
    r.BeginSwapChainRenderPass (r.commandBuffers.getD r.currentFrameIndex 0) =
      ({ r with axeDevice := (r.axeDevice.recordAll
          [ .vkCmdBeginRenderPass (r.commandBuffers.getD r.currentFrameIndex 0) sc.GetRenderPass
              (sc.GetFrameBuffer r.currentImageIndex) sc.GetSwapChainExtent,
            .vkCmdSetViewport (r.commandBuffers.getD r.currentFrameIndex 0)
              sc.GetSwapChainExtent,
            .vkCmdSetScissor (r.commandBuffers.getD r.currentFrameIndex 0)
              sc.GetSwapChainExtent ]) }, .returned ()) := by
  simp only [AxeRenderer.BeginSwapChainRenderPass, AxeRenderer.GetCurrentCommandBuffer, hprog,
    hsc, Bool.not_true, Bool.false_eq_true, ↓reduceIte, ne_eq, not_true_eq_false]

theorem BeginSwapChainRenderPass_other (r : AxeRenderer) (cb : VkCommandBuffer)
    (hprog : r.isFrameStarted = true) (hcb : cb ≠ r.commandBuffers.getD r.currentFrameIndex 0) :
    r.BeginSwapChainRenderPass cb = (r, .failed (.aborted
      "Cannot begin render pass on a command buffer from a different frame")) := by
  simp only [AxeRenderer.BeginSwapChainRenderPass, AxeRenderer.GetCurrentCommandBuffer, hprog,
    Bool.not_true, Bool.false_eq_true, ↓reduceIte, ne_eq, hcb, not_false_eq_true]

theorem EndSwapChainRenderPass_current (r : AxeRenderer) (hprog : r.isFrameStarted = true) :
    r.EndSwapChainRenderPass (r.commandBuffers.getD r.currentFrameIndex 0) =
      ({ r with axeDevice := (r.axeDevice.record
          (.vkCmdEndRenderPass (r.commandBuffers.getD r.currentFrameIndex 0))) },
        .returned ()) := by
  simp only [AxeRenderer.EndSwapChainRenderPass, AxeRenderer.GetCurrentCommandBuffer, hprog,
    Bool.not_true, Bool.false_eq_true, ↓reduceIte, ne_eq, not_true_eq_false]

theorem EndSwapChainRenderPass_other (r : AxeRenderer) (cb : VkCommandBuffer)
    (hprog : r.isFrameStarted = true) (hcb : cb ≠ r.commandBuffers.getD r.currentFrameIndex 0) :
    r.EndSwapChainRenderPass cb = (r, .failed (.aborted
      "Cannot end render pass on a command buffer from a different frame")) := by
  simp only [AxeRenderer.EndSwapChainRenderPass, AxeRenderer.GetCurrentCommandBuffer, hprog,
    Bool.not_true, Bool.false_eq_true, ↓reduceIte, ne_eq, hcb, not_false_eq_true]

/-- While no `EndFrame` returns, a run that meets no fault keeps the swap chain. -/
theorem run_keeps_swapChain (r : AxeRenderer) (calls : List Call)
    (hprog : r.isFrameStarted = true) (hno : endFrameCompleted r calls = false)
    (hret : (run r calls).2 = .returned ()) :
    (run r calls).1.axeSwapChain = r.axeSwapChain := by
  induction calls generalizing r with
  | nil => rfl
  | cons call later ih =>
    unfold run at hret ⊢
    unfold endFrameCompleted at hno
    rcases hmk : call.make r with ⟨r', _ | f⟩
    · rw [hmk] at hno
      simp only [hmk] at hret
      simp only [Bool.or_eq_false_iff] at hno
      have hr' : r'.isFrameStarted = true ∧ r'.axeSwapChain = r.axeSwapChain := by
        cases call with
        | glfwPollEvents callbacks =>
          simp only [Call.make, Prod.mk.injEq] at hmk
          rw [← hmk.1]
          exact ⟨hprog, rfl⟩
        | BeginFrame env =>
          simp [Call.make, BeginFrame_in_progress r env hprog] at hmk
        | EndFrame env => simp [Call.isEndFrame] at hno
        | BeginSwapChainRenderPass cb =>
          have := BeginSwapChainRenderPass_protocol r cb
          simp only [Call.make] at hmk
          rw [hmk] at this
          exact ⟨this.1.trans hprog, this.2.2.2⟩
        | EndSwapChainRenderPass cb =>
          have := EndSwapChainRenderPass_protocol r cb
          simp only [Call.make] at hmk
          rw [hmk] at this
          exact ⟨this.1.trans hprog, this.2.2.2⟩
      exact (ih r' hr'.1 hno.2 hret).trans hr'.2
    · simp [hmk] at hret

/-- C11: in every state reached from a `BeginFrame` that returned `target` by calls that
met no fault and among which no `EndFrame` returned, the frame is in progress, `target` is
`commandBuffers[currentFrameIndex]`, and `BeginSwapChainRenderPass` and
`EndSwapChainRenderPass` each accept a command buffer exactly when it is `target`: every
other command buffer fails the second assertion of the call, which leaves the whole state,
call record included, as it was, and an accepted one is the command buffer the recorded
commands name. -/
theorem render_pass_accepts_only_current_target (r₀ r₁ : AxeRenderer)
    (env : BeginFrameEnv) (target commandBuffer : VkCommandBuffer) (calls : List Call)
    (hbegin : r₀.BeginFrame env = (r₁, .returned (some target)))
    (hnoEnd : endFrameCompleted r₁ calls = false)
    (hrun : (run r₁ calls).2 = .returned ()) :
    (run r₁ calls).1.isFrameStarted = true ∧
    (run r₁ calls).1.commandBuffers.getD (run r₁ calls).1.currentFrameIndex 0 = target ∧
    (((run r₁ calls).1.BeginSwapChainRenderPass commandBuffer).2 = .returned () ↔
      commandBuffer = target) ∧
    (((run r₁ calls).1.EndSwapChainRenderPass commandBuffer).2 = .returned () ↔
      commandBuffer = target) ∧
    (commandBuffer ≠ target →
      (run r₁ calls).1.BeginSwapChainRenderPass commandBuffer = ((run r₁ calls).1,
        .failed (.aborted
          "Cannot begin render pass on a command buffer from a different frame")) ∧
      (run r₁ calls).1.EndSwapChainRenderPass commandBuffer = ((run r₁ calls).1,
        .failed (.aborted
          "Cannot end render pass on a command buffer from a different frame"))) ∧
    (commandBuffer = target →
      (∃ renderPass framebuffer extent,
        callsSince (run r₁ calls).1.axeDevice
            ((run r₁ calls).1.BeginSwapChainRenderPass commandBuffer).1.axeDevice =
          [ .vkCmdBeginRenderPass target renderPass framebuffer extent,
            .vkCmdSetViewport target extent, .vkCmdSetScissor target extent ]) ∧
      callsSince (run r₁ calls).1.axeDevice
          ((run r₁ calls).1.EndSwapChainRenderPass commandBuffer).1.axeDevice =
        [.vkCmdEndRenderPass target]) := by
  have hstart := BeginFrame_returned_target hbegin
  have hkeep := run_keeps_target r₁ calls hstart hnoEnd
  have hprog := run_stays_in_progress r₁ calls hstart hnoEnd
  obtain ⟨htarget, sc, hsc₁⟩ := BeginFrame_returned_current hbegin
  have hsc : (run r₁ calls).1.axeSwapChain = some sc :=
    (run_keeps_swapChain r₁ calls hstart hnoEnd hrun).trans hsc₁
  have hcur : (run r₁ calls).1.commandBuffers.getD (run r₁ calls).1.currentFrameIndex 0 =
      target := by
    rw [hkeep.1, hkeep.2]
    exact htarget
  generalize (run r₁ calls).1 = r at hprog hsc hcur
  subst hcur
  refine ⟨hprog, rfl, ?_, ?_, ?_, ?_⟩
  · constructor
    · intro h
      by_contra hne
      rw [BeginSwapChainRenderPass_other r commandBuffer hprog hne] at h
      simp at h
    · intro h
      rw [h, BeginSwapChainRenderPass_current r sc hprog hsc]
  · constructor
    · intro h
      by_contra hne
      rw [EndSwapChainRenderPass_other r commandBuffer hprog hne] at h
      simp at h
    · intro h
      rw [h, EndSwapChainRenderPass_current r hprog]
  · intro hne
    exact ⟨BeginSwapChainRenderPass_other r commandBuffer hprog hne,
      EndSwapChainRenderPass_other r commandBuffer hprog hne⟩
  · intro h
    subst h
    rw [BeginSwapChainRenderPass_current r sc hprog hsc, EndSwapChainRenderPass_current r hprog]
    exact ⟨⟨_, _, _, callsSince_of_append rfl⟩, callsSince_of_append rfl⟩

theorem render_pass_accepts_only_current_target_witness :
    sampleRenderer.BeginFrame (sampleBegin VK_SUCCESS 0) =
        (sampleInProgress, .returned (some 27)) ∧
      ((run sampleInProgress [.BeginSwapChainRenderPass 27]).1.EndSwapChainRenderPass 28 =
        ((run sampleInProgress [.BeginSwapChainRenderPass 27]).1, .failed (.aborted
          "Cannot end render pass on a command buffer from a different frame"))) ∧
      ((run sampleInProgress [.BeginSwapChainRenderPass 27]).1.EndSwapChainRenderPass 27).2 =
        .returned () :=
  ⟨by rfl,
    ((render_pass_accepts_only_current_target sampleRenderer sampleInProgress
      (sampleBegin VK_SUCCESS 0) 27 28 [.BeginSwapChainRenderPass 27] (by rfl) (by rfl)
      (by rfl)).2.2.2.2.1 (by decide)).2,
    (render_pass_accepts_only_current_target sampleRenderer sampleInProgress
      (sampleBegin VK_SUCCESS 0) 27 27 [.BeginSwapChainRenderPass 27] (by rfl) (by rfl)
      (by rfl)).2.2.2.1.2 (by rfl)⟩

/-! ## One submission (C12, C13) -/

theorem SubmitCommandBuffers_outcome (sc : AxeSwapChain) (d : AxeDevice) (cb : VkCommandBuffer)
    (i : Nat) (env : AxeSwapChain.SubmitEnv) :
    (sc.SubmitCommandBuffers d cb i env).2.2 =
      if env.submitResult = VK_SUCCESS then .returned env.presentResult
      else .failed (.threw "Failed to submit draw command buffer") := by
  unfold AxeSwapChain.SubmitCommandBuffers
  by_cases hs : env.submitResult = VK_SUCCESS <;> simp [hs]

theorem AcquireNextImage_calls (sc : AxeSwapChain) (d : AxeDevice) (i : Nat)
    (env : AxeSwapChain.AcquireEnv) :
    callsSince d (sc.AcquireNextImage d i env).1 =
      [ VkCall.vkWaitForFences (sc.inFlightFences.getD sc.currentFrame 0),
        VkCall.vkAcquireNextImageKHR (sc.swapChain.getD 0)
          (sc.imageAvailableForRenderingSemaphores.getD sc.currentFrame 0) ] := by
  apply callsSince_of_append
  simp [AxeSwapChain.AcquireNextImage, AxeDevice.record]

/-- C12: a `SubmitCommandBuffers` call with current slot `s = currentFrame` makes, after the
wait on the marker of the image if it has one, these calls in this order: `vkResetFences` on
the fence of slot `s`; one `vkQueueSubmit` of the given command buffer that waits on the
image-available semaphore of slot `s` (the semaphore `AcquireNextImage` passes to
`vkAcquireNextImageKHR` at slot `s`), signals the render-finished semaphore of slot `s` and
is given the fence of slot `s`; and then, the queue submission having succeeded, one
`vkQueuePresentKHR` for the given image index that waits on the render-finished semaphore of
slot `s`. A queue submission that fails makes the call throw in place of presenting. -/
theorem SubmitCommandBuffers_resets_submits_presents (sc : AxeSwapChain)
    (device acquireDevice : AxeDevice) (buffer : VkCommandBuffer) (imageIndex staleIndex : Nat)
    (env : AxeSwapChain.SubmitEnv) (acquireEnv : AxeSwapChain.AcquireEnv) :
    callsSince device (sc.SubmitCommandBuffers device buffer imageIndex env).2.1 =
      (sc.imagesInFlight.getD imageIndex none).toList.map VkCall.vkWaitForFences ++
        [ VkCall.vkResetFences (sc.inFlightFences.getD sc.currentFrame 0),
          VkCall.vkQueueSubmit buffer
            (sc.imageAvailableForRenderingSemaphores.getD sc.currentFrame 0)
            (sc.renderFinishedSemaphores.getD sc.currentFrame 0)
            (sc.inFlightFences.getD sc.currentFrame 0) ] ++
        (if env.submitResult = VK_SUCCESS then
          [VkCall.vkQueuePresentKHR (sc.swapChain.getD 0) imageIndex
            (sc.renderFinishedSemaphores.getD sc.currentFrame 0)]
        else []) ∧
    (sc.SubmitCommandBuffers device buffer imageIndex env).2.2 =
      (if env.submitResult = VK_SUCCESS then .returned env.presentResult
        else .failed (.threw "Failed to submit draw command buffer")) ∧
    callsSince acquireDevice (sc.AcquireNextImage acquireDevice staleIndex acquireEnv).1 =
      [ VkCall.vkWaitForFences (sc.inFlightFences.getD sc.currentFrame 0),
        VkCall.vkAcquireNextImageKHR (sc.swapChain.getD 0)
          (sc.imageAvailableForRenderingSemaphores.getD sc.currentFrame 0) ] :=
  ⟨callsSince_of_append (SubmitCommandBuffers_calls sc device buffer imageIndex env),
    SubmitCommandBuffers_outcome sc device buffer imageIndex env,
    AcquireNextImage_calls sc acquireDevice staleIndex acquireEnv⟩

theorem SubmitCommandBuffers_resets_submits_presents_witness :
    callsSince sampleInProgress.axeDevice
        (sampleSwapChain.SubmitCommandBuffers sampleInProgress.axeDevice 27 0
          { submitResult := VK_SUCCESS, presentResult := VK_SUCCESS }).2.1 =
      [.vkResetFences 23, .vkQueueSubmit 27 21 22 23, .vkQueuePresentKHR 1 0 22] ∧
    callsSince sampleRenderer.axeDevice
        (sampleSwapChain.AcquireNextImage sampleRenderer.axeDevice 0
          { result := VK_SUCCESS, imageIndex := 0 }).1 =
      [.vkWaitForFences 23, .vkAcquireNextImageKHR 1 21] :=
  ⟨(SubmitCommandBuffers_resets_submits_presents sampleSwapChain sampleInProgress.axeDevice
      sampleRenderer.axeDevice 27 0 0 { submitResult := VK_SUCCESS, presentResult := VK_SUCCESS }
      { result := VK_SUCCESS, imageIndex := 0 }).1,
    (SubmitCommandBuffers_resets_submits_presents sampleSwapChain sampleInProgress.axeDevice
      sampleRenderer.axeDevice 27 0 0 { submitResult := VK_SUCCESS, presentResult := VK_SUCCESS }
      { result := VK_SUCCESS, imageIndex := 0 }).2.2⟩

/-- C13: a `SubmitCommandBuffers` whose queue submission succeeds returns whatever status the
present request returned and leaves the slot index at `(currentFrame + 1) mod 2`, which is
below 2; one whose queue submission fails throws and leaves the slot index as it was.
`AcquireNextImage` leaves the swap chain, and with it the slot index, as it was. -/
theorem SubmitCommandBuffers_advances_slot (sc : AxeSwapChain) (device : AxeDevice)
    (buffer : VkCommandBuffer) (imageIndex : Nat) (env : AxeSwapChain.SubmitEnv)
    (acquireEnv : AxeSwapChain.AcquireEnv) :
    (sc.SubmitCommandBuffers device buffer imageIndex env).1.currentFrame =
      (if env.submitResult = VK_SUCCESS then (sc.currentFrame + 1) % 2 else sc.currentFrame) ∧
    (sc.SubmitCommandBuffers device buffer imageIndex env).2.2 =
      (if env.submitResult = VK_SUCCESS then .returned env.presentResult
        else .failed (.threw "Failed to submit draw command buffer")) ∧
    (sc.currentFrame + 1) % 2 < 2 ∧
    ((SwapChainCall.AcquireNextImage acquireEnv).make (sc, device)).1.1 = sc ∧
    ((SwapChainCall.AcquireNextImage acquireEnv).make (sc, device)).2 = .returned () :=
  ⟨SubmitCommandBuffers_currentFrame sc device buffer imageIndex env,
    SubmitCommandBuffers_outcome sc device buffer imageIndex env,
    Nat.mod_lt _ (by decide), rfl, rfl⟩

theorem SubmitCommandBuffers_advances_slot_witness :
    (sampleSwapChain.SubmitCommandBuffers sampleInProgress.axeDevice 27 0
        { submitResult := VK_SUCCESS, presentResult := VK_ERROR_OUT_OF_DATE_KHR }).1.currentFrame =
      1 ∧
    (sampleSwapChain.SubmitCommandBuffers sampleInProgress.axeDevice 27 0
        { submitResult := VK_ERROR_DEVICE_LOST, presentResult := VK_SUCCESS }).1.currentFrame =
      0 :=
  ⟨(SubmitCommandBuffers_advances_slot sampleSwapChain sampleInProgress.axeDevice 27 0
      { submitResult := VK_SUCCESS, presentResult := VK_ERROR_OUT_OF_DATE_KHR }
      { result := VK_SUCCESS, imageIndex := 0 }).1,
    (SubmitCommandBuffers_advances_slot sampleSwapChain sampleInProgress.axeDevice 27 0
      { submitResult := VK_ERROR_DEVICE_LOST, presentResult := VK_SUCCESS }
      { result := VK_SUCCESS, imageIndex := 0 }).1⟩

/-! ## Choices made by `CreateSwapChain` (C19, C20) -/

/-- The entry `ChooseSwapSurfaceFormat` prefers. -/
theorem ChooseSwapSurfaceFormat_of_find {formats : List VkSurfaceFormatKHR}
    {x : VkSurfaceFormatKHR}
    (h : formats.find? (fun f => f.format == VK_FORMAT_B8G8R8A8_SRGB &&
      f.colorSpace == VK_COLOR_SPACE_SRGB_NONLINEAR_KHR) = some x) :
    AxeSwapChain.ChooseSwapSurfaceFormat formats = x := by
  simp only [AxeSwapChain.ChooseSwapSurfaceFormat, h]

theorem ChooseSwapSurfaceFormat_of_none {formats : List VkSurfaceFormatKHR}
    (h : formats.find? (fun f => f.format == VK_FORMAT_B8G8R8A8_SRGB &&
      f.colorSpace == VK_COLOR_SPACE_SRGB_NONLINEAR_KHR) = none) :
    AxeSwapChain.ChooseSwapSurfaceFormat formats =
      formats.headD { format := 0, colorSpace := 0 } := by
  simp only [AxeSwapChain.ChooseSwapSurfaceFormat, h]

/-- C20: for every non-empty list of available surface formats, `ChooseSwapSurfaceFormat`
returns the first entry whose format is `B8G8R8A8_SRGB` and whose color space is
`SRGB_NONLINEAR` when there is one (the entry `x` with no such entry before it), and the
first entry of the list when there is none; either way the result is a member of the list. -/
theorem ChooseSwapSurfaceFormat_prefers_srgb (formats : List VkSurfaceFormatKHR)
    (hne : formats ≠ []) :
    (∀ before x after, formats = before ++ x :: after →
      (x.format = VK_FORMAT_B8G8R8A8_SRGB ∧ x.colorSpace = VK_COLOR_SPACE_SRGB_NONLINEAR_KHR) →
      (∀ y ∈ before, ¬ (y.format = VK_FORMAT_B8G8R8A8_SRGB ∧
        y.colorSpace = VK_COLOR_SPACE_SRGB_NONLINEAR_KHR)) →
      AxeSwapChain.ChooseSwapSurfaceFormat formats = x) ∧
    ((∀ y ∈ formats, ¬ (y.format = VK_FORMAT_B8G8R8A8_SRGB ∧
        y.colorSpace = VK_COLOR_SPACE_SRGB_NONLINEAR_KHR)) →
      AxeSwapChain.ChooseSwapSurfaceFormat formats = formats.head hne) ∧
    AxeSwapChain.ChooseSwapSurfaceFormat formats ∈ formats := by
  refine ⟨?_, ?_, ?_⟩
  · intro before x after hsplit hx hbefore
    apply ChooseSwapSurfaceFormat_of_find
    subst hsplit
    rw [List.find?_append]
    have h₁ : before.find? (fun f => f.format == VK_FORMAT_B8G8R8A8_SRGB &&
        f.colorSpace == VK_COLOR_SPACE_SRGB_NONLINEAR_KHR) = none := by
      rw [List.find?_eq_none]
      intro y hy hp
      apply hbefore y hy
      simpa using hp
    rw [h₁]
    simp [List.find?_cons, hx.1, hx.2]
  · intro hnone
    have h₁ : formats.find? (fun f => f.format == VK_FORMAT_B8G8R8A8_SRGB &&
        f.colorSpace == VK_COLOR_SPACE_SRGB_NONLINEAR_KHR) = none := by
      rw [List.find?_eq_none]
      intro y hy hp
      apply hnone y hy
      simpa using hp
    rw [ChooseSwapSurfaceFormat_of_none h₁]
    cases formats with
    | nil => exact absurd rfl hne
    | cons a l => rfl
  · cases hfind : formats.find? (fun f => f.format == VK_FORMAT_B8G8R8A8_SRGB &&
        f.colorSpace == VK_COLOR_SPACE_SRGB_NONLINEAR_KHR) with
    | some x =>
      rw [ChooseSwapSurfaceFormat_of_find hfind]
      exact List.mem_of_find?_eq_some hfind
    | none =>
      rw [ChooseSwapSurfaceFormat_of_none hfind]
      cases formats with
      | nil => exact absurd rfl hne
      | cons a l => exact List.mem_cons_self _ _

theorem ChooseSwapSurfaceFormat_prefers_srgb_witness :
    ([⟨44, 0⟩, ⟨VK_FORMAT_B8G8R8A8_SRGB, VK_COLOR_SPACE_SRGB_NONLINEAR_KHR⟩, ⟨50, 0⟩] :
        List VkSurfaceFormatKHR) ≠ [] ∧
      AxeSwapChain.ChooseSwapSurfaceFormat
        [⟨44, 0⟩, ⟨VK_FORMAT_B8G8R8A8_SRGB, VK_COLOR_SPACE_SRGB_NONLINEAR_KHR⟩, ⟨50, 0⟩] =
        ⟨50, 0⟩ ∧
      AxeSwapChain.ChooseSwapSurfaceFormat [⟨44, 0⟩, ⟨50, 7⟩] = ⟨44, 0⟩ :=
  ⟨by decide,
    (ChooseSwapSurfaceFormat_prefers_srgb
      [⟨44, 0⟩, ⟨VK_FORMAT_B8G8R8A8_SRGB, VK_COLOR_SPACE_SRGB_NONLINEAR_KHR⟩, ⟨50, 0⟩]
      (by decide)).1 [⟨44, 0⟩] ⟨50, 0⟩ [⟨50, 0⟩] rfl ⟨rfl, rfl⟩ (by decide),
    (ChooseSwapSurfaceFormat_prefers_srgb [⟨44, 0⟩, ⟨50, 7⟩] (by decide)).2.1 (by decide)⟩

/-- C19: the image count `CreateSwapChain` requests (the `minImageCount` of its
`vkCreateSwapchainKHR` call) is `minImageCount + 1`, lowered to `maxImageCount` when
`maxImageCount > 0` and `minImageCount + 1` exceeds it. For capabilities with
`minImageCount < 2^32 - 1` and with `maxImageCount = 0` or `minImageCount ≤ maxImageCount`
it is at least `minImageCount` and, when `maxImageCount > 0`, at most `maxImageCount`. -/
theorem requestedImageCount_within_limits (sc : AxeSwapChain) (device : AxeDevice)
    (oldSwapChain : Option AxeSwapChain) (env : SwapChainEnv)
    (hmin : env.support.capabilities.minImageCount < 2 ^ 32 - 1)
    (hmax : env.support.capabilities.maxImageCount = 0 ∨
      env.support.capabilities.minImageCount ≤ env.support.capabilities.maxImageCount) :
    (∃ handle surfaceFormat extent presentMode oldHandle,
      callsSince device (sc.CreateSwapChain device oldSwapChain env).2 =
        [.vkCreateSwapchainKHR handle (AxeSwapChain.requestedImageCount env.support.capabilities)
          surfaceFormat extent presentMode oldHandle]) ∧
    AxeSwapChain.requestedImageCount env.support.capabilities =
      (if env.support.capabilities.maxImageCount > 0 ∧
          env.support.capabilities.minImageCount + 1 > env.support.capabilities.maxImageCount
        then env.support.capabilities.maxImageCount
        else env.support.capabilities.minImageCount + 1) ∧
    env.support.capabilities.minImageCount ≤
      AxeSwapChain.requestedImageCount env.support.capabilities ∧
    (env.support.capabilities.maxImageCount > 0 →
      AxeSwapChain.requestedImageCount env.support.capabilities ≤
        env.support.capabilities.maxImageCount) := by
  have hmod : (env.support.capabilities.minImageCount + 1) % 2 ^ 32 =
      env.support.capabilities.minImageCount + 1 := by
    apply Nat.mod_eq_of_lt
    omega
  have heq : AxeSwapChain.requestedImageCount env.support.capabilities =
      (if env.support.capabilities.maxImageCount > 0 ∧
          env.support.capabilities.minImageCount + 1 > env.support.capabilities.maxImageCount
        then env.support.capabilities.maxImageCount
        else env.support.capabilities.minImageCount + 1) := by
    simp only [AxeSwapChain.requestedImageCount, hmod]
  refine ⟨⟨device.nextHandle, _, _, _, _, callsSince_of_append rfl⟩, heq, ?_, ?_⟩
  · rw [heq]
    split <;> omega
  · intro hpos
    rw [heq]
    split <;> omega

theorem requestedImageCount_within_limits_witness :
    AxeSwapChain.requestedImageCount
        { sampleSupport.capabilities with minImageCount := 2, maxImageCount := 2 } = 2 ∧
      2 ≤ AxeSwapChain.requestedImageCount sampleSupport.capabilities :=
  ⟨(requestedImageCount_within_limits (AxeSwapChain.blank ⟨800, 600⟩)
      { nextHandle := 1, calls := [] } none
      { sampleSwapChainEnv with
        support := { sampleSupport with
          capabilities :=
            { sampleSupport.capabilities with minImageCount := 2, maxImageCount := 2 } } }
      (by decide) (Or.inr (by decide))).2.1,
    (requestedImageCount_within_limits (AxeSwapChain.blank ⟨800, 600⟩)
      { nextHandle := 1, calls := [] } none sampleSwapChainEnv (by decide)
      (Or.inl rfl)).2.2.1⟩

/-! ## `RecreateSwapChain`, case by case -/

theorem RecreateSwapChain_hung (r : AxeRenderer) (env : RecreateEnv) (window : AxeWindow)
    (device : AxeDevice)
    (hwait : AxeRenderer.waitForExtent r.axeWindow r.axeDevice r.axeWindow.GetExtent env.events =
      (window, device, none)) :
    r.RecreateSwapChain env =
      ({ r with axeWindow := window, axeDevice := device }, .failed .hung) := by
  simp only [AxeRenderer.RecreateSwapChain, hwait]

theorem RecreateSwapChain_first_failed (r : AxeRenderer) (env : RecreateEnv)
    (window : AxeWindow) (device device' : AxeDevice) (extent : VkExtent2D) (fault : Fault)
    (hwait : AxeRenderer.waitForExtent r.axeWindow r.axeDevice r.axeWindow.GetExtent env.events =
      (window, device, some extent))
    (hsc : r.axeSwapChain = none)
    (hinit : AxeSwapChain.Init (device.record .vkDeviceWaitIdle) extent none env.swapChain =
      (device', .failed fault)) :
    r.RecreateSwapChain env =
      ({ r with axeWindow := window, axeDevice := device' }, .failed fault) := by
  simp only [AxeRenderer.RecreateSwapChain, hwait, hsc, hinit]

theorem RecreateSwapChain_first_created (r : AxeRenderer) (env : RecreateEnv)
    (window : AxeWindow) (device device' : AxeDevice) (extent : VkExtent2D)
    (new : AxeSwapChain)
    (hwait : AxeRenderer.waitForExtent r.axeWindow r.axeDevice r.axeWindow.GetExtent env.events =
      (window, device, some extent))
    (hsc : r.axeSwapChain = none)
    (hinit : AxeSwapChain.Init (device.record .vkDeviceWaitIdle) extent none env.swapChain =
      (device', .returned new)) :
    r.RecreateSwapChain env =
      ({ r with axeWindow := window, axeDevice := device', axeSwapChain := some new },
        .returned ()) := by
  simp only [AxeRenderer.RecreateSwapChain, hwait, hsc, hinit]

theorem RecreateSwapChain_replace_failed (r : AxeRenderer) (env : RecreateEnv)
    (window : AxeWindow) (device device' : AxeDevice) (extent : VkExtent2D)
    (old : AxeSwapChain) (fault : Fault)
    (hwait : AxeRenderer.waitForExtent r.axeWindow r.axeDevice r.axeWindow.GetExtent env.events =
      (window, device, some extent))
    (hsc : r.axeSwapChain = some old)
    (hinit : AxeSwapChain.Init (device.record .vkDeviceWaitIdle) extent (some old)
      env.swapChain = (device', .failed fault)) :
    r.RecreateSwapChain env =
      ({ r with
          axeWindow := window
          axeDevice := device'.recordAll old.destroyCalls
          axeSwapChain := none }, .failed fault) := by
  simp only [AxeRenderer.RecreateSwapChain, hwait, hsc, hinit]

theorem RecreateSwapChain_replaced (r : AxeRenderer) (env : RecreateEnv)
    (window : AxeWindow) (device device' : AxeDevice) (extent : VkExtent2D)
    (old new : AxeSwapChain)
    (hwait : AxeRenderer.waitForExtent r.axeWindow r.axeDevice r.axeWindow.GetExtent env.events =
      (window, device, some extent))
    (hsc : r.axeSwapChain = some old)
    (hinit : AxeSwapChain.Init (device.record .vkDeviceWaitIdle) extent (some old)
      env.swapChain = (device', .returned new)) :
    r.RecreateSwapChain env =
      ({ r with
          axeWindow := window
          axeDevice := device'.recordAll old.destroyCalls
          axeSwapChain := some new },
        if old.AreSwapChainFormatsEqual new = true then .returned ()
        else .failed (.threw "Swap chain image (or depth) format has changed")) := by
  simp only [AxeRenderer.RecreateSwapChain, hwait, hsc, hinit]
  cases old.AreSwapChainFormatsEqual new <;> rfl

/-- A `RecreateSwapChain` that returns has left the loop with an extent and built the swap
chain it installs from that extent. -/
theorem RecreateSwapChain_returned_init {r r' : AxeRenderer} {env : RecreateEnv}
    (h : r.RecreateSwapChain env = (r', .returned ())) :
    ∃ window device extent device' sc,
      AxeRenderer.waitForExtent r.axeWindow r.axeDevice r.axeWindow.GetExtent env.events =
        (window, device, some extent) ∧
      AxeSwapChain.Init (device.record .vkDeviceWaitIdle) extent r.axeSwapChain env.swapChain =
        (device', .returned sc) ∧
      r'.axeSwapChain = some sc ∧ r'.axeWindow = window ∧
      r'.axeDevice.calls = device'.calls ++
        (match r.axeSwapChain with
          | none => []
          | some old => old.destroyCalls) := by
  rcases hwait : AxeRenderer.waitForExtent r.axeWindow r.axeDevice r.axeWindow.GetExtent
    env.events with ⟨window, device, _ | extent⟩
  · rw [RecreateSwapChain_hung r env window device hwait] at h
    simp at h
  rcases hsc : r.axeSwapChain with _ | old
  · rcases hinit : AxeSwapChain.Init (device.record .vkDeviceWaitIdle) extent none
      env.swapChain with ⟨device', sc | fault⟩
    · rw [RecreateSwapChain_first_created r env window device device' extent sc hwait hsc
        hinit] at h
      simp only [Prod.mk.injEq, and_true] at h
      subst h
      exact ⟨window, device, extent, device', sc, rfl, hinit, rfl, rfl, by simp⟩
    · rw [RecreateSwapChain_first_failed r env window device device' extent fault hwait hsc
        hinit] at h
      simp at h
  · rcases hinit : AxeSwapChain.Init (device.record .vkDeviceWaitIdle) extent (some old)
      env.swapChain with ⟨device', sc | fault⟩
    · rw [RecreateSwapChain_replaced r env window device device' extent old sc hwait hsc
        hinit] at h
      simp only [Prod.mk.injEq] at h
      obtain ⟨h₁, _⟩ := h
      subst h₁
      exact ⟨window, device, extent, device', sc, rfl, hinit, rfl, rfl, rfl⟩
    · rw [RecreateSwapChain_replace_failed r env window device device' extent old fault hwait
        hsc hinit] at h
      simp at h
/-! ## What a constructed swap chain holds (C18) -/

theorem mem_callsSince_of_appends {P Q R : VkCall → Prop} {a b c d : AxeDevice} {x : VkCall}
    (h₁ : Appends P a b) (h₂ : Appends Q b c) (h₃ : Appends R c d)
    (hx : x ∈ callsSince b c) : x ∈ callsSince a d := by
  obtain ⟨e₁, he₁, _⟩ := h₁
  obtain ⟨e₂, he₂, _⟩ := h₂
  obtain ⟨e₃, he₃, _⟩ := h₃
  rw [callsSince_of_append he₂] at hx
  have : d.calls = a.calls ++ (e₁ ++ e₂ ++ e₃) := by
    rw [he₃, he₂, he₁]
    simp only [List.append_assoc]
  rw [callsSince_of_append this]
  simp only [List.mem_append]
  exact Or.inl (Or.inr hx)

/-- Framebuffer `i` is created over image view `i` and depth view `i`. -/
theorem CreateFramebuffers_binds (sc : AxeSwapChain) (d : AxeDevice) (i : Nat)
    (hi : i < sc.ImageCount) :
    VkCall.vkCreateFramebuffer ((sc.CreateFramebuffers d).1.swapChainFramebuffers.getD i 0)
        sc.renderPass (sc.swapChainImageViews.getD i 0) (sc.depthImageViews.getD i 0) ∈
      callsSince d (sc.CreateFramebuffers d).2 := by
  have hcalls : (sc.CreateFramebuffers d).2.calls = d.calls ++
      (List.range sc.ImageCount).map (fun i =>
        VkCall.vkCreateFramebuffer (d.nextHandle + i) sc.renderPass
          (sc.swapChainImageViews.getD i 0) (sc.depthImageViews.getD i 0)) := rfl
  have hfb : (sc.CreateFramebuffers d).1.swapChainFramebuffers.getD i 0 = d.nextHandle + i := by
    show ((List.range sc.ImageCount).map (fun i => d.nextHandle + i)).getD i 0 = _
    rw [List.getD_eq_getElem _ _ (by simpa using hi)]
    simp
  rw [callsSince_of_append hcalls, hfb, List.mem_map]
  exact ⟨i, List.mem_range.mpr hi, rfl⟩

theorem Init_returned_lengths {device device' : AxeDevice} {extent : VkExtent2D}
    {old : Option AxeSwapChain} {env : SwapChainEnv} {sc : AxeSwapChain}
    (h : AxeSwapChain.Init device extent old env = (device', .returned sc)) :
    sc.swapChainImageViews.length = sc.ImageCount ∧
      sc.depthImages.length = sc.ImageCount ∧
      sc.depthImageViews.length = sc.ImageCount ∧
      sc.depthImageMemoryHandles.length = sc.ImageCount ∧
      sc.swapChainFramebuffers.length = sc.ImageCount ∧
      sc.imagesInFlight.length = sc.ImageCount := by
  unfold AxeSwapChain.Init at h
  repeat' split at h
  all_goals first | (simp at h; done) | skip
  simp only [Prod.mk.injEq, Outcome.returned.injEq] at h
  obtain ⟨hd, hs⟩ := h
  subst hd hs
  simp only [AxeSwapChain.CreateSyncObjects, AxeSwapChain.CreateFramebuffers,
    AxeSwapChain.CreateDepthResources, AxeSwapChain.CreateRenderPass,
    AxeSwapChain.CreateImageViews, AxeSwapChain.CreateSwapChain, AxeSwapChain.ImageCount,
    List.length_map, List.length_range, List.length_replicate, and_self]

theorem Init_returned_binds {device device' : AxeDevice} {extent : VkExtent2D}
    {old : Option AxeSwapChain} {env : SwapChainEnv} {sc : AxeSwapChain}
    (h : AxeSwapChain.Init device extent old env = (device', .returned sc)) (i : Nat)
    (hi : i < sc.ImageCount) :
    VkCall.vkCreateFramebuffer (sc.swapChainFramebuffers.getD i 0) sc.renderPass
        (sc.swapChainImageViews.getD i 0) (sc.depthImageViews.getD i 0) ∈
      callsSince device device' := by
  unfold AxeSwapChain.Init at h
  repeat' split at h
  all_goals first | (simp at h; done) | skip
  simp only [Prod.mk.injEq, Outcome.returned.injEq] at h
  obtain ⟨hd, hs⟩ := h
  subst hd hs
  rw [ImageCount_CreateSyncObjects, ImageCount_CreateFramebuffers] at hi
  refine mem_callsSince_of_appends (P := fun c => c.isLifetime = true)
    (Q := fun c => c.isLifetime = true) (R := fun c => c.isLifetime = true) ?_
    (CreateFramebuffers_appends _ _) (CreateSyncObjects_appends _ _)
    (CreateFramebuffers_binds _ _ i hi)
  refine Appends.trans ?_ (CreateDepthResources_appends _ _ _)
  refine Appends.trans ?_ (CreateRenderPass_appends _ _ _)
  refine Appends.trans ?_ (CreateImageViews_appends _ _)
  exact CreateSwapChain_appends _ _ _ _
/-- C18: after every construction of a swap chain that returns (`oldSwapChain` is `none` on
the first creation and the previous swap chain on a rebuild), the image views, depth images,
depth image views, depth memory handles, framebuffers and in-flight markers each have exactly
`ImageCount` entries, framebuffer `i` was created over image view `i` and depth view `i`,
and every in-flight marker is `none`. -/
theorem constructed_swap_chain_sized_by_image_count (device device' : AxeDevice)
    (extent : VkExtent2D) (oldSwapChain : Option AxeSwapChain) (env : SwapChainEnv)
    (sc : AxeSwapChain)
    (h : AxeSwapChain.Init device extent oldSwapChain env = (device', .returned sc)) :
    (sc.swapChainImageViews.length = sc.ImageCount ∧
      sc.depthImages.length = sc.ImageCount ∧
      sc.depthImageViews.length = sc.ImageCount ∧
      sc.depthImageMemoryHandles.length = sc.ImageCount ∧
      sc.swapChainFramebuffers.length = sc.ImageCount ∧
      sc.imagesInFlight.length = sc.ImageCount) ∧
    (∀ i, i < sc.ImageCount →
      VkCall.vkCreateFramebuffer (sc.GetFrameBuffer i) sc.renderPass
          (sc.swapChainImageViews.getD i 0) (sc.depthImageViews.getD i 0) ∈
        callsSince device device') ∧
    (∀ marker ∈ sc.imagesInFlight, marker = none) := by
  refine ⟨Init_returned_lengths h, fun i hi => Init_returned_binds h i hi, ?_⟩
  intro marker hm
  rw [(Init_returned h).2.1] at hm
  exact (List.mem_replicate.mp hm).2

theorem constructed_swap_chain_sized_by_image_count_witness :
    AxeSwapChain.Init { nextHandle := 1, calls := [.vkDeviceWaitIdle] } ⟨800, 600⟩ none
        sampleSwapChainEnv =
      ((AxeSwapChain.Init { nextHandle := 1, calls := [.vkDeviceWaitIdle] } ⟨800, 600⟩ none
        sampleSwapChainEnv).1, .returned sampleSwapChain) ∧
    sampleSwapChain.ImageCount = 3 ∧
    sampleSwapChain.swapChainFramebuffers.length = sampleSwapChain.ImageCount ∧
    VkCall.vkCreateFramebuffer 20 8 7 17 ∈
      callsSince { nextHandle := 1, calls := [.vkDeviceWaitIdle] }
        (AxeSwapChain.Init { nextHandle := 1, calls := [.vkDeviceWaitIdle] } ⟨800, 600⟩ none
          sampleSwapChainEnv).1 :=
  ⟨by rfl, by rfl,
    (constructed_swap_chain_sized_by_image_count
      { nextHandle := 1, calls := [.vkDeviceWaitIdle] } _ ⟨800, 600⟩ none
      sampleSwapChainEnv sampleSwapChain (by rfl)).1.2.2.2.2.1,
    (constructed_swap_chain_sized_by_image_count
      { nextHandle := 1, calls := [.vkDeviceWaitIdle] } _ ⟨800, 600⟩ none
      sampleSwapChainEnv sampleSwapChain (by rfl)).2.1 2 (by decide)⟩

/-! ## The format check of a rebuild (C15) -/

theorem Init_fault_site (device : AxeDevice) (extent : VkExtent2D) (old : Option AxeSwapChain)
    (env : SwapChainEnv) (fault : Fault)
    (h : (AxeSwapChain.Init device extent old env).2 = .failed fault) :
    ∃ site : ThrowSite, fault = .threw site.what := by
  unfold AxeSwapChain.Init at h
  repeat' first | split at h | dsimp only at h
  all_goals
    first
    | exact ⟨_, (Outcome.failed.inj h).symm⟩
    | cases h

theorem ThrowSite.what_ne_format (site : ThrowSite) :
    site.what ≠ "Swap chain image (or depth) format has changed" := by
  cases site <;> decide

theorem AreSwapChainFormatsEqual_iff (a b : AxeSwapChain) :
    a.AreSwapChainFormatsEqual b = true ↔
      b.swapChainImageFormat = a.swapChainImageFormat ∧
        b.swapChainDepthFormat = a.swapChainDepthFormat := by
  simp [AxeSwapChain.AreSwapChainFormatsEqual]

/-- On the first creation `RecreateSwapChain` never raises the format error. -/
theorem RecreateSwapChain_first_no_format_error (r : AxeRenderer) (env : RecreateEnv)
    (hsc : r.axeSwapChain = none) :
    (r.RecreateSwapChain env).2 ≠
      .failed (.threw "Swap chain image (or depth) format has changed") := by
  intro h
  rcases hwait : AxeRenderer.waitForExtent r.axeWindow r.axeDevice r.axeWindow.GetExtent
    env.events with ⟨window, device, _ | extent⟩
  · rw [RecreateSwapChain_hung r env window device hwait] at h
    simp at h
  rcases hinit : AxeSwapChain.Init (device.record .vkDeviceWaitIdle) extent none
    env.swapChain with ⟨device', sc | fault⟩
  · rw [RecreateSwapChain_first_created r env window device device' extent sc hwait hsc
      hinit] at h
    simp at h
  · rw [RecreateSwapChain_first_failed r env window device device' extent fault hwait hsc
      hinit] at h
    obtain ⟨site, hsite⟩ := Init_fault_site _ _ _ _ fault (by rw [hinit])
    simp only [Outcome.failed.injEq] at h
    rw [hsite] at h
    exact ThrowSite.what_ne_format site (Fault.threw.inj h)

/-- C15: when `RecreateSwapChain` replaces an existing swap chain `old` by the swap chain
`new` it has constructed, it throws "Swap chain image (or depth) format has changed" exactly
when the image format or the depth format of `new` differs from that of `old`, and returns
exactly when both are equal; either way `new` is the swap chain the renderer then holds.
`AreSwapChainFormatsEqual` is reflexive and symmetric. On the first creation (no previous
swap chain) the formats are not compared: the call returns with the constructed swap chain
installed whatever its formats, and never raises the format error. -/
theorem RecreateSwapChain_throws_iff_format_changed (r : AxeRenderer) (env : RecreateEnv)
    (old new : AxeSwapChain) (window : AxeWindow) (device device' : AxeDevice)
    (extent : VkExtent2D)
    (hold : r.axeSwapChain = some old)
    (hwait : AxeRenderer.waitForExtent r.axeWindow r.axeDevice r.axeWindow.GetExtent env.events =
      (window, device, some extent))
    (hinit : AxeSwapChain.Init (device.record .vkDeviceWaitIdle) extent (some old)
      env.swapChain = (device', .returned new)) :
    ((r.RecreateSwapChain env).2 =
        .failed (.threw "Swap chain image (or depth) format has changed") ↔
      (new.swapChainImageFormat ≠ old.swapChainImageFormat ∨
        new.swapChainDepthFormat ≠ old.swapChainDepthFormat)) ∧
    ((r.RecreateSwapChain env).2 = .returned () ↔
      (new.swapChainImageFormat = old.swapChainImageFormat ∧
        new.swapChainDepthFormat = old.swapChainDepthFormat)) ∧
    (r.RecreateSwapChain env).1.axeSwapChain = some new ∧
    (∀ a : AxeSwapChain, a.AreSwapChainFormatsEqual a = true) ∧
    (∀ a b : AxeSwapChain, a.AreSwapChainFormatsEqual b = b.AreSwapChainFormatsEqual a) ∧
    (∀ (r₀ : AxeRenderer) (env₀ : RecreateEnv), r₀.axeSwapChain = none →
      (r₀.RecreateSwapChain env₀).2 ≠
        .failed (.threw "Swap chain image (or depth) format has changed") ∧
      ∀ window₀ device₀ device₁ extent₀ new₀,
        AxeRenderer.waitForExtent r₀.axeWindow r₀.axeDevice r₀.axeWindow.GetExtent
          env₀.events = (window₀, device₀, some extent₀) →
        AxeSwapChain.Init (device₀.record .vkDeviceWaitIdle) extent₀ none env₀.swapChain =
          (device₁, .returned new₀) →
        (r₀.RecreateSwapChain env₀).2 = .returned () ∧
          (r₀.RecreateSwapChain env₀).1.axeSwapChain = some new₀) := by
  rw [RecreateSwapChain_replaced r env window device device' extent old new hwait hold hinit]
  refine ⟨?_, ?_, rfl, ?_, ?_, ?_⟩
  · by_cases heq : old.AreSwapChainFormatsEqual new = true
    · have := (AreSwapChainFormatsEqual_iff old new).mp heq
      simp only [heq, ↓reduceIte]
      constructor
      · intro h
        cases h
      · rintro (h | h)
        · exact absurd this.1 h
        · exact absurd this.2 h
    · have hne := fun h => heq ((AreSwapChainFormatsEqual_iff old new).mpr h)
      have hf : old.AreSwapChainFormatsEqual new = false := by simpa using heq
      simp only [hf, Bool.false_eq_true, ↓reduceIte, true_iff]
      by_contra hcon
      simp only [not_or, not_not] at hcon
      exact hne hcon
  · by_cases heq : old.AreSwapChainFormatsEqual new = true
    · simp only [heq, ↓reduceIte, true_iff]
      exact (AreSwapChainFormatsEqual_iff old new).mp heq
    · have hf : old.AreSwapChainFormatsEqual new = false := by simpa using heq
      simp only [hf, Bool.false_eq_true, ↓reduceIte]
      constructor
      · intro h
        cases h
      · intro h
        exact absurd ((AreSwapChainFormatsEqual_iff old new).mpr h) heq
  · intro a
    simp [AxeSwapChain.AreSwapChainFormatsEqual]
  · intro a b
    simp only [AxeSwapChain.AreSwapChainFormatsEqual]
    rw [Bool.eq_iff_iff]
    simp only [Bool.and_eq_true, beq_iff_eq]
    constructor <;> rintro ⟨h₁, h₂⟩ <;> exact ⟨h₁.symm, h₂.symm⟩
  · intro r₀ env₀ hnone
    refine ⟨RecreateSwapChain_first_no_format_error r₀ env₀ hnone, ?_⟩
    intro window₀ device₀ device₁ extent₀ new₀ hw hi
    rw [RecreateSwapChain_first_created r₀ env₀ window₀ device₀ device₁ extent₀ new₀ hw hnone
      hi]
    exact ⟨rfl, rfl⟩
theorem RecreateSwapChain_throws_iff_format_changed_witness :
    sampleRenderer.axeSwapChain = some sampleSwapChain ∧
      (sampleRenderer.RecreateSwapChain sampleFormatChange).2 =
        .failed (.threw "Swap chain image (or depth) format has changed") ∧
      (sampleRenderer.RecreateSwapChain sampleRecreate).2 = .returned () :=
  ⟨by rfl,
    (RecreateSwapChain_throws_iff_format_changed sampleRenderer sampleFormatChange
      sampleSwapChain (sampleRebuilt sampleFormatChange) sampleWindow sampleRenderer.axeDevice
      (AxeSwapChain.Init (sampleRenderer.axeDevice.record .vkDeviceWaitIdle) ⟨800, 600⟩
        (some sampleSwapChain) sampleFormatChange.swapChain).1
      ⟨800, 600⟩ (by rfl) (by rfl) (by rfl)).1.mpr (Or.inr (by decide)),
    (RecreateSwapChain_throws_iff_format_changed sampleRenderer sampleRecreate
      sampleSwapChain (sampleRebuilt sampleRecreate) sampleWindow sampleRenderer.axeDevice
      (AxeSwapChain.Init (sampleRenderer.axeDevice.record .vkDeviceWaitIdle) ⟨800, 600⟩
        (some sampleSwapChain) sampleRecreate.swapChain).1
      ⟨800, 600⟩ (by rfl) (by rfl) (by rfl)).2.1.mpr ⟨by decide, by decide⟩⟩

/-! ## A rebuild and the frame slots (C14) -/

theorem waitForExtent_nextHandle (window : AxeWindow) (device : AxeDevice) (extent : VkExtent2D)
    (events : List (List (Int × Int))) :
    (AxeRenderer.waitForExtent window device extent events).2.1.nextHandle =
      device.nextHandle := by
  induction events generalizing window device extent with
  | nil =>
    unfold AxeRenderer.waitForExtent
    split <;> rfl
  | cons callbacks later ih =>
    unfold AxeRenderer.waitForExtent
    split
    · rw [ih]
      rfl
    · rfl

theorem CreateSyncObjects_tail {P : VkCall → Prop} {device d : AxeDevice} (sc : AxeSwapChain)
    (happ : Appends P device d) :
    ∃ before, callsSince device (sc.CreateSyncObjects d).2 = before ++
      [ .vkCreateSemaphore d.nextHandle, .vkCreateSemaphore (d.nextHandle + 1),
        .vkCreateFence (d.nextHandle + 2) true, .vkCreateSemaphore (d.nextHandle + 3),
        .vkCreateSemaphore (d.nextHandle + 4), .vkCreateFence (d.nextHandle + 5) true ] := by
  obtain ⟨before, hbefore, _⟩ := happ
  refine ⟨before, callsSince_of_append ?_⟩
  show d.calls ++ _ = _
  rw [hbefore, List.append_assoc]
  rfl

/-- The sync objects of a constructed swap chain: six handles reserved by `CreateSyncObjects`,
none of which had been handed out before, the fences created signaled. -/
theorem Init_returned_sync {device device' : AxeDevice} {extent : VkExtent2D}
    {old : Option AxeSwapChain} {env : SwapChainEnv} {sc : AxeSwapChain}
    (h : AxeSwapChain.Init device extent old env = (device', .returned sc)) :
    ∃ base, device.nextHandle ≤ base ∧ device'.nextHandle = base + 6 ∧
      sc.imageAvailableForRenderingSemaphores = [base, base + 3] ∧
      sc.renderFinishedSemaphores = [base + 1, base + 4] ∧
      sc.inFlightFences = [base + 2, base + 5] ∧
      ∃ before, callsSince device device' = before ++
        [ .vkCreateSemaphore base, .vkCreateSemaphore (base + 1), .vkCreateFence (base + 2) true,
          .vkCreateSemaphore (base + 3), .vkCreateSemaphore (base + 4),
          .vkCreateFence (base + 5) true ] := by
  unfold AxeSwapChain.Init at h
  repeat' split at h
  all_goals first | (simp at h; done) | skip
  simp only [Prod.mk.injEq, Outcome.returned.injEq] at h
  obtain ⟨hd, hs⟩ := h
  subst hd hs
  refine ⟨_, ?_, rfl, rfl, rfl, rfl, ?_⟩
  · simp only [AxeSwapChain.CreateFramebuffers, AxeSwapChain.CreateDepthResources,
      AxeSwapChain.CreateRenderPass, AxeSwapChain.CreateImageViews,
      AxeSwapChain.CreateSwapChain, AxeDevice.reserve, AxeDevice.record, AxeDevice.recordAll]
    omega
  · apply CreateSyncObjects_tail (P := fun c => c.isLifetime = true)
    refine Appends.trans ?_ (CreateFramebuffers_appends _ _)
    refine Appends.trans ?_ (CreateDepthResources_appends _ _ _)
    refine Appends.trans ?_ (CreateRenderPass_appends _ _ _)
    refine Appends.trans ?_ (CreateImageViews_appends _ _)
    exact CreateSwapChain_appends _ _ _ _
theorem destroyCalls_sync (sc : AxeSwapChain) (i : Nat) (hi : i < 2) :
    VkCall.vkDestroySemaphore (sc.renderFinishedSemaphores.getD i 0) ∈ sc.destroyCalls ∧
      VkCall.vkDestroySemaphore (sc.imageAvailableForRenderingSemaphores.getD i 0) ∈
        sc.destroyCalls ∧
      VkCall.vkDestroyFence (sc.inFlightFences.getD i 0) ∈ sc.destroyCalls := by
  have hmem : ∀ c ∈ [ VkCall.vkDestroySemaphore (sc.renderFinishedSemaphores.getD i 0),
      VkCall.vkDestroySemaphore (sc.imageAvailableForRenderingSemaphores.getD i 0),
      VkCall.vkDestroyFence (sc.inFlightFences.getD i 0) ], c ∈ sc.destroyCalls := by
    intro c hc
    unfold AxeSwapChain.destroyCalls
    apply List.mem_append_right
    rw [List.mem_flatMap]
    exact ⟨i, List.mem_range.mpr hi, hc⟩
  exact ⟨hmem _ (by simp), hmem _ (by simp), hmem _ (by simp)⟩

/-- C14 as amended: a rebuild that replaces a swap chain replaces the frame slots with it.
The swap chain the renderer holds afterwards has its own two image-available
semaphores, two render-finished semaphores and two fences, created during the rebuild under
handles that had not been handed out before; the semaphores and fences of the old swap chain
are destroyed during the rebuild; and the slot index starts again at 0. -/
theorem RecreateSwapChain_renews_frame_slots (r r' : AxeRenderer) (env : RecreateEnv)
    (old : AxeSwapChain) (hold : r.axeSwapChain = some old)
    (h : r.RecreateSwapChain env = (r', .returned ())) :
    ∃ new base, r'.axeSwapChain = some new ∧ new.currentFrame = 0 ∧
      r.axeDevice.nextHandle ≤ base ∧
      new.imageAvailableForRenderingSemaphores = [base, base + 3] ∧
      new.renderFinishedSemaphores = [base + 1, base + 4] ∧
      new.inFlightFences = [base + 2, base + 5] ∧
      (∀ c ∈ [ VkCall.vkCreateSemaphore base, .vkCreateSemaphore (base + 1),
          .vkCreateFence (base + 2) true, .vkCreateSemaphore (base + 3),
          .vkCreateSemaphore (base + 4), .vkCreateFence (base + 5) true ],
        c ∈ callsSince r.axeDevice r'.axeDevice) ∧
      (∀ i, i < 2 →
        VkCall.vkDestroySemaphore (old.renderFinishedSemaphores.getD i 0) ∈
          callsSince r.axeDevice r'.axeDevice ∧
        VkCall.vkDestroySemaphore (old.imageAvailableForRenderingSemaphores.getD i 0) ∈
          callsSince r.axeDevice r'.axeDevice ∧
        VkCall.vkDestroyFence (old.inFlightFences.getD i 0) ∈
          callsSince r.axeDevice r'.axeDevice) := by
  obtain ⟨window, device, extent, device', new, hwait, hinit, hnew, _, hcalls⟩ :=
    RecreateSwapChain_returned_init h
  rw [hold] at hinit hcalls
  obtain ⟨base, hbase, _, ha, hr, hf, before, hsync⟩ := Init_returned_sync hinit
  have hnext := waitForExtent_nextHandle r.axeWindow r.axeDevice r.axeWindow.GetExtent
    env.events
  have hw := waitForExtent_appends r.axeWindow r.axeDevice r.axeWindow.GetExtent env.events
  rw [hwait] at hnext hw
  obtain ⟨q, hq, _⟩ := hw
  obtain ⟨es, hes, _⟩ := Init_appends (device.record .vkDeviceWaitIdle) extent (some old)
    env.swapChain
  rw [hinit] at hes
  rw [callsSince_of_append hes] at hsync
  have hall : r'.axeDevice.calls = r.axeDevice.calls ++
      (q ++ [VkCall.vkDeviceWaitIdle] ++ (before ++
        [ VkCall.vkCreateSemaphore base, .vkCreateSemaphore (base + 1),
          .vkCreateFence (base + 2) true, .vkCreateSemaphore (base + 3),
          .vkCreateSemaphore (base + 4), .vkCreateFence (base + 5) true ]) ++
        old.destroyCalls) := by
    rw [hcalls, hes, hsync]
    show (device.calls ++ [VkCall.vkDeviceWaitIdle]) ++ _ ++ _ = _
    rw [hq]
    simp only [List.append_assoc]
  refine ⟨new, base, hnew, (Init_returned hinit).1, ?_, ha, hr, hf, ?_, ?_⟩
  · exact hnext ▸ hbase
  · intro c hc
    rw [callsSince_of_append hall]
    simp only [List.mem_append]
    exact Or.inl (Or.inr (Or.inr hc))
  · intro i hi
    rw [callsSince_of_append hall]
    obtain ⟨h₁, h₂, h₃⟩ := destroyCalls_sync old i hi
    exact ⟨List.mem_append_right _ h₁, List.mem_append_right _ h₂, List.mem_append_right _ h₃⟩

theorem RecreateSwapChain_renews_frame_slots_witness :
    sampleStale.axeSwapChain.map (fun sc => (sc.inFlightFences, sc.currentFrame)) =
        some ([23, 26], 1) ∧
      ∃ new base, (sampleStale.RecreateSwapChain sampleRecreate).1.axeSwapChain = some new ∧
        new.currentFrame = 0 ∧ 29 ≤ base ∧ new.inFlightFences = [base + 2, base + 5] :=
  ⟨by rfl,
    match RecreateSwapChain_renews_frame_slots sampleStale
      (sampleStale.RecreateSwapChain sampleRecreate).1 sampleRecreate
      (sampleStale.axeSwapChain.getD (AxeSwapChain.blank ⟨0, 0⟩)) (by rfl) (by rfl) with
    | ⟨new, base, h₁, h₂, h₃, _, _, h₆, _⟩ => ⟨new, base, h₁, h₂, h₃, h₆⟩⟩

/-- C14 fails on the code: handed the renderer `sampleStale` (semaphores 21, 24 and 22, 25,
fences 23, 26, slot index 1) by the `EndFrame` of the first frame, `RecreateSwapChain` returns
and leaves semaphores 49, 52 and 50, 53, fences 51, 54 and slot index 0. -/
theorem RecreateSwapChain_changes_frame_slots :
    sampleInProgress.EndFrame (sampleEnd VK_SUBOPTIMAL_KHR) =
        ((sampleStale.RecreateSwapChain sampleRecreate).1.closed, .returned ()) ∧
      sampleStale.axeSwapChain.map (fun sc => (sc.imageAvailableForRenderingSemaphores,
          sc.renderFinishedSemaphores, sc.inFlightFences, sc.currentFrame)) =
        some ([21, 24], [22, 25], [23, 26], 1) ∧
      (sampleStale.RecreateSwapChain sampleRecreate).2 = .returned () ∧
      (sampleStale.RecreateSwapChain sampleRecreate).1.axeSwapChain.map
          (fun sc => (sc.imageAvailableForRenderingSemaphores, sc.renderFinishedSemaphores,
            sc.inFlightFences, sc.currentFrame)) =
        some ([49, 52], [50, 53], [51, 54], 0) :=
  ⟨by rfl, by rfl, by rfl, by rfl⟩

/-! ## The wait for a nonzero extent (C16) -/

/-- The loop leaves with the first extent it tests that has no zero dimension, and blocks
when it gets to test none. -/
theorem waitForExtent_extent (window : AxeWindow) (device : AxeDevice) (extent : VkExtent2D)
    (events : List (List (Int × Int))) :
    (AxeRenderer.waitForExtent window device extent events).2.2 =
      (extent :: testedInLoop window events).find? (fun e => !e.isZero) := by
  induction events generalizing window device extent with
  | nil =>
    unfold AxeRenderer.waitForExtent
    by_cases hz : extent.width = 0 ∨ extent.height = 0
    · have : extent.isZero = true := by simpa [VkExtent2D.isZero] using hz
      simp [hz, testedInLoop, List.find?, this]
    · have : extent.isZero = false := by simpa [VkExtent2D.isZero] using hz
      simp [hz, List.find?, this]
  | cons callbacks later ih =>
    unfold AxeRenderer.waitForExtent
    by_cases hz : extent.width = 0 ∨ extent.height = 0
    · have : extent.isZero = true := by simpa [VkExtent2D.isZero] using hz
      simp only [hz, ↓reduceIte, ih, testedInLoop]
      simp [List.find?, this]
    · have : extent.isZero = false := by simpa [VkExtent2D.isZero] using hz
      simp [hz, List.find?, this]

theorem waitForExtent_tested (r : AxeRenderer) (env : RecreateEnv) :
    (AxeRenderer.waitForExtent r.axeWindow r.axeDevice r.axeWindow.GetExtent env.events).2.2 =
      (testedExtents r.axeWindow env.events).find? (fun e => !e.isZero) :=
  waitForExtent_extent _ _ _ _

theorem Init_returned_windowExtent {device device' : AxeDevice} {extent : VkExtent2D}
    {old : Option AxeSwapChain} {env : SwapChainEnv} {sc : AxeSwapChain}
    (h : AxeSwapChain.Init device extent old env = (device', .returned sc)) :
    sc.windowExtent = extent := by
  unfold AxeSwapChain.Init at h
  repeat' split at h
  all_goals first | (simp at h; done) | skip
  simp only [Prod.mk.injEq, Outcome.returned.injEq] at h
  obtain ⟨_, hs⟩ := h
  subst hs
  rfl

/-- Once the loop has left with `extent`: the device is waited for, then come creation and
destruction calls only, and a swap chain held afterwards was constructed from `extent`. -/
theorem RecreateSwapChain_after_wait (r : AxeRenderer) (env : RecreateEnv) (window : AxeWindow)
    (device : AxeDevice) (extent : VkExtent2D)
    (hwait : AxeRenderer.waitForExtent r.axeWindow r.axeDevice r.axeWindow.GetExtent env.events =
      (window, device, some extent)) :
    (r.RecreateSwapChain env).2 ≠ .failed .hung ∧
    (∃ rest, (r.RecreateSwapChain env).1.axeDevice.calls =
        device.calls ++ VkCall.vkDeviceWaitIdle :: rest ∧ ∀ c ∈ rest, c.isLifetime = true) ∧
    ∀ sc, (r.RecreateSwapChain env).1.axeSwapChain = some sc → sc.windowExtent = extent := by
  rcases hsc : r.axeSwapChain with _ | old
  · rcases hinit : AxeSwapChain.Init (device.record .vkDeviceWaitIdle) extent none
      env.swapChain with ⟨device', sc | fault⟩
    · rw [RecreateSwapChain_first_created r env window device device' extent sc hwait hsc hinit]
      obtain ⟨es, hes, hP⟩ := Init_appends (device.record .vkDeviceWaitIdle) extent none
        env.swapChain
      rw [hinit] at hes
      refine ⟨by simp, ⟨es, ?_, hP⟩, ?_⟩
      · show device'.calls = _
        rw [hes]
        simp [AxeDevice.record]
      · intro sc' hsc'
        simp only [Option.some.injEq] at hsc'
        subst hsc'
        exact Init_returned_windowExtent hinit
    · rw [RecreateSwapChain_first_failed r env window device device' extent fault hwait hsc
        hinit]
      obtain ⟨es, hes, hP⟩ := Init_appends (device.record .vkDeviceWaitIdle) extent none
        env.swapChain
      rw [hinit] at hes
      obtain ⟨site, hsite⟩ := Init_fault_site _ _ _ _ fault (by rw [hinit])
      refine ⟨by simp [hsite], ⟨es, ?_, hP⟩, ?_⟩
      · show device'.calls = _
        rw [hes]
        simp [AxeDevice.record]
      · intro sc' hsc'
        simp [hsc] at hsc'
  · rcases hinit : AxeSwapChain.Init (device.record .vkDeviceWaitIdle) extent (some old)
      env.swapChain with ⟨device', sc | fault⟩
    · rw [RecreateSwapChain_replaced r env window device device' extent old sc hwait hsc hinit]
      obtain ⟨es, hes, hP⟩ := Init_appends (device.record .vkDeviceWaitIdle) extent (some old)
        env.swapChain
      rw [hinit] at hes
      refine ⟨?_, ⟨es ++ old.destroyCalls, ?_, ?_⟩, ?_⟩
      · split <;> simp
      · show device'.calls ++ old.destroyCalls = _
        rw [hes]
        simp [AxeDevice.record]
      · intro c hc
        rcases List.mem_append.mp hc with h | h
        · exact hP c h
        · exact destroyCalls_lifetime old c h
      · intro sc' hsc'
        simp only [Option.some.injEq] at hsc'
        subst hsc'
        exact Init_returned_windowExtent hinit
    · rw [RecreateSwapChain_replace_failed r env window device device' extent old fault hwait
        hsc hinit]
      obtain ⟨es, hes, hP⟩ := Init_appends (device.record .vkDeviceWaitIdle) extent (some old)
        env.swapChain
      rw [hinit] at hes
      obtain ⟨site, hsite⟩ := Init_fault_site _ _ _ _ fault (by rw [hinit])
      refine ⟨by simp [hsite], ⟨es ++ old.destroyCalls, ?_, ?_⟩, ?_⟩
      · show device'.calls ++ old.destroyCalls = _
        rw [hes]
        simp [AxeDevice.record]
      · intro c hc
        rcases List.mem_append.mp hc with h | h
        · exact hP c h
        · exact destroyCalls_lifetime old c h
      · intro sc' hsc'
        simp at hsc'
theorem isZero_false_iff (extent : VkExtent2D) :
    (!extent.isZero) = true ↔ extent.width ≠ 0 ∧ extent.height ≠ 0 := by
  simp [VkExtent2D.isZero]

/-- A rebuild that creates a swap chain has read and tested an extent without zero
dimension. -/
theorem RecreateSwapChain_rebuilt_tested (r : AxeRenderer) (env : RecreateEnv)
    (h : rebuilt r.axeDevice (r.RecreateSwapChain env).1.axeDevice = true) :
    ∃ extent, (testedExtents r.axeWindow env.events).find? (fun e => !e.isZero) = some extent ∧
      extent.width ≠ 0 ∧ extent.height ≠ 0 := by
  have hw := waitForExtent_tested r env
  rcases hwait : AxeRenderer.waitForExtent r.axeWindow r.axeDevice r.axeWindow.GetExtent
    env.events with ⟨window, device, _ | extent⟩
  · have happ := waitForExtent_appends r.axeWindow r.axeDevice r.axeWindow.GetExtent env.events
    rw [hwait] at happ
    rw [RecreateSwapChain_hung r env window device hwait] at h
    obtain ⟨c, hc, hcreate⟩ := List.any_eq_true.mp h
    have := happ.callsSince c hc
    subst this
    cases hcreate
  · rw [hwait] at hw
    dsimp only at hw
    exact ⟨extent, hw.symm, (isZero_false_iff extent).mp
      (List.find?_some (p := fun e : VkExtent2D => !e.isZero) hw.symm)⟩

/-- Whenever the extents that `RecreateSwapChain` reads and gets to test (the read before the
loop, and one read per round whose `glfwWaitEvents()` returns) contain an extent with nonzero
width and nonzero height, `RecreateSwapChain` leaves the loop: it does not block, it calls
`vkDeviceWaitIdle` after its waits for events and before every creation and destruction call,
and the swap chain it then holds was constructed from the first such extent; it returns when
the device rejects nothing and the formats are those of the old swap chain. No
`RecreateSwapChain` creates a swap chain without having tested such an extent. When the
rebuild returns in an Idle renderer, the next `BeginFrame` whose acquire and
`vkBeginCommandBuffer` return `VK_SUCCESS` returns a command target. A rebuild that returns
has created a swap chain, and its last calls are the release of the old swap chain. -/
theorem RecreateSwapChain_leaves_with_first_tested_extent (r : AxeRenderer)
    (env : RecreateEnv) (extent : VkExtent2D)
    (htested : (testedExtents r.axeWindow env.events).find? (fun e => !e.isZero) =
      some extent) :
    (r.RecreateSwapChain env).2 ≠ .failed .hung ∧
    (extent.width ≠ 0 ∧ extent.height ≠ 0) ∧
    (∃ waits rest,
      callsSince r.axeDevice (r.RecreateSwapChain env).1.axeDevice =
        waits ++ VkCall.vkDeviceWaitIdle :: rest ∧
      (∀ c ∈ waits, c = VkCall.glfwWaitEvents) ∧ ∀ c ∈ rest, c.isLifetime = true) ∧
    (∀ sc, (r.RecreateSwapChain env).1.axeSwapChain = some sc → sc.windowExtent = extent) ∧
    (env.swapChain.failure = none →
      (∀ old, r.axeSwapChain = some old →
        (AxeSwapChain.ChooseSwapSurfaceFormat env.swapChain.support.formats).format =
          old.swapChainImageFormat ∧ env.swapChain.depthFormat = old.swapChainDepthFormat) →
      (r.RecreateSwapChain env).2 = .returned () ∧
        ∃ sc, (r.RecreateSwapChain env).1.axeSwapChain = some sc) ∧
    (∀ (r₀ : AxeRenderer) (env₀ : RecreateEnv),
      rebuilt r₀.axeDevice (r₀.RecreateSwapChain env₀).1.axeDevice = true →
      ∃ tested, (testedExtents r₀.axeWindow env₀.events).find? (fun e => !e.isZero) =
          some tested ∧ tested.width ≠ 0 ∧ tested.height ≠ 0) ∧
    (r.isFrameStarted = false → (r.RecreateSwapChain env).2 = .returned () →
      ∀ next : BeginFrameEnv, next.acquire.result = VK_SUCCESS →
        next.beginResult = VK_SUCCESS →
        ∃ r₂ target,
          (r.RecreateSwapChain env).1.BeginFrame next = (r₂, .returned (some target))) ∧
    ((r.RecreateSwapChain env).2 = .returned () →
      rebuilt r.axeDevice (r.RecreateSwapChain env).1.axeDevice = true ∧
      ∀ old, r.axeSwapChain = some old →
        ∃ before, callsSince r.axeDevice (r.RecreateSwapChain env).1.axeDevice =
          before ++ old.destroyCalls) := by
  have hw := waitForExtent_tested r env
  rw [htested] at hw
  rcases hwait : AxeRenderer.waitForExtent r.axeWindow r.axeDevice r.axeWindow.GetExtent
    env.events with ⟨window, device, found⟩
  rw [hwait] at hw
  dsimp only at hw
  subst hw
  obtain ⟨hhung, ⟨rest, hrest, hlife⟩, hext⟩ :=
    RecreateSwapChain_after_wait r env window device extent hwait
  have happ := waitForExtent_appends r.axeWindow r.axeDevice r.axeWindow.GetExtent env.events
  rw [hwait] at happ
  obtain ⟨waits, hwaits, hglfw⟩ := happ
  refine ⟨hhung, (isZero_false_iff extent).mp
      (List.find?_some (p := fun e : VkExtent2D => !e.isZero) htested),
    ⟨waits, rest, ?_, hglfw, hlife⟩, hext, ?_,
    fun r₀ env₀ h => RecreateSwapChain_rebuilt_tested r₀ env₀ h, ?_, ?_⟩
  · apply callsSince_of_append
    rw [hrest]
    show device.calls ++ _ = _
    rw [hwaits, List.append_assoc]
  · intro hfail hfmt
    rcases hsc : r.axeSwapChain with _ | old
    · obtain ⟨d', sc, hinit, _, _⟩ := Init_of_no_failure
        (device.record .vkDeviceWaitIdle) extent none env.swapChain hfail
      rw [RecreateSwapChain_first_created r env window device d' extent sc hwait hsc hinit]
      exact ⟨rfl, sc, rfl⟩
    · obtain ⟨d', sc, hinit, h1, h2⟩ := Init_of_no_failure
        (device.record .vkDeviceWaitIdle) extent (some old) env.swapChain hfail
      obtain ⟨f1, f2⟩ := hfmt old hsc
      have heq : old.AreSwapChainFormatsEqual sc = true := by
        simp [AxeSwapChain.AreSwapChainFormatsEqual, h1, h2, f1, f2]
      rw [RecreateSwapChain_replaced r env window device d' extent old sc hwait hsc hinit]
      exact ⟨by simp [heq], sc, rfl⟩
  · intro hidle hret next hacq hbegin
    rcases hrr : r.RecreateSwapChain env with ⟨r', out⟩
    rw [hrr] at hret
    dsimp only at hret
    subst hret
    obtain ⟨_, _, _, _, sc, _, _, hsc, _, _⟩ := RecreateSwapChain_returned_init hrr
    have hidle' : r'.isFrameStarted = false :=
      (RecreateSwapChain_fields_of_eq hrr).2.2.2.trans hidle
    have hb := BeginFrame_proceeds r' sc next hidle' hsc (Or.inl hacq)
    rw [if_neg (by simp [hbegin])] at hb
    exact ⟨_, _, hb⟩
  · intro hret
    rcases hrr : r.RecreateSwapChain env with ⟨r', out⟩
    rw [hrr] at hret
    dsimp only at hret
    subst hret
    obtain ⟨_, q₁, c, q₂, _, _, _, hcalls, _, hc, _, _⟩ := RecreateSwapChain_returned hrr
    obtain ⟨window', device₀, extent', device', sc, hwait', hinit, _, _, hall⟩ :=
      RecreateSwapChain_returned_init hrr
    refine ⟨rebuilt_of_calls (List.append_nil _).symm
      (hcalls.trans (List.append_assoc _ _ _)) ⟨c, by simp, hc⟩, ?_⟩
    intro old hold
    rw [hold] at hall hinit
    have hw := waitForExtent_appends r.axeWindow r.axeDevice r.axeWindow.GetExtent env.events
    rw [hwait'] at hw
    obtain ⟨q, hq, _⟩ := hw
    obtain ⟨es, hes, _⟩ := Init_appends (device₀.record .vkDeviceWaitIdle) extent' (some old)
      env.swapChain
    rw [hinit] at hes
    refine ⟨q ++ [VkCall.vkDeviceWaitIdle] ++ es, callsSince_of_append ?_⟩
    show r'.axeDevice.calls = _
    rw [hall, hes]
    show (device₀.calls ++ [VkCall.vkDeviceWaitIdle]) ++ es ++ old.destroyCalls = _
    rw [hq]
    simp only [List.append_assoc]
theorem RecreateSwapChain_leaves_with_first_tested_extent_witness :
    testedExtents sampleMinimized.axeWindow sampleRestore.events =
        [⟨0, 0⟩, ⟨0, 0⟩, ⟨800, 600⟩] ∧
      ((sampleMinimized.RecreateSwapChain sampleRestore).2 = .returned () ∧
        ∃ sc, (sampleMinimized.RecreateSwapChain sampleRestore).1.axeSwapChain = some sc) ∧
      (∀ sc, (sampleMinimized.RecreateSwapChain sampleRestore).1.axeSwapChain = some sc →
        sc.windowExtent = ⟨800, 600⟩) ∧
      ∃ r₂ target, (sampleMinimized.RecreateSwapChain sampleRestore).1.BeginFrame
        (sampleBegin VK_SUCCESS 0) = (r₂, .returned (some target)) :=
  ⟨by rfl,
    (RecreateSwapChain_leaves_with_first_tested_extent sampleMinimized sampleRestore
      ⟨800, 600⟩ (by rfl)).2.2.2.2.1 rfl
      (fun old hold => by
        have h : some sampleSwapChain = some old := hold
        cases h
        exact ⟨rfl, rfl⟩),
    (RecreateSwapChain_leaves_with_first_tested_extent sampleMinimized sampleRestore
      ⟨800, 600⟩ (by rfl)).2.2.2.1,
    (RecreateSwapChain_leaves_with_first_tested_extent sampleMinimized sampleRestore
      ⟨800, 600⟩ (by rfl)).2.2.2.2.2.2.1 (by rfl) (by rfl) (sampleBegin VK_SUCCESS 0) rfl
      rfl⟩

/-- When the loop blocks, it has read one extent more than it has tested, and every extent
it has tested has a zero dimension. -/
theorem extentsReadInLoop_of_hung (window : AxeWindow) (device : AxeDevice)
    (extent : VkExtent2D) (events : List (List (Int × Int)))
    (h : (AxeRenderer.waitForExtent window device extent events).2.2 = none) :
    extentsReadInLoop window extent events =
        testedInLoop window events ++
          [(AxeRenderer.waitForExtent window device extent events).1.GetExtent] ∧
      (extent.width = 0 ∨ extent.height = 0) ∧
      ∀ e ∈ testedInLoop window events, e.width = 0 ∨ e.height = 0 := by
  induction events generalizing window device extent with
  | nil =>
    unfold AxeRenderer.waitForExtent at h ⊢
    unfold extentsReadInLoop
    by_cases hz : extent.width = 0 ∨ extent.height = 0
    · simp only [hz, ↓reduceIte, testedInLoop, List.nil_append, true_and]
      exact fun e he => by cases he
    · simp [hz] at h
  | cons callbacks later ih =>
    unfold AxeRenderer.waitForExtent at h ⊢
    unfold extentsReadInLoop
    by_cases hz : extent.width = 0 ∨ extent.height = 0
    · simp only [hz, ↓reduceIte] at h ⊢
      obtain ⟨h₁, h₂, h₃⟩ := ih _ _ _ h
      refine ⟨?_, trivial, ?_⟩
      · rw [h₁]
        rfl
      · intro e he
        simp only [testedInLoop, List.mem_cons] at he
        rcases he with he | he
        · rw [he]
          exact h₂
        · exact h₃ e he
    · simp [hz] at h

/-- C16 fails on the code: each round of the loop in `RecreateSwapChain` reads the extent and
then waits for events, and only then is the extent tested. For the minimised window of
`sampleMinimized`, restored to 800 x 600 by the only batch of events that ever arrives, the
extents the call reads are (0,0), (0,0) and (800,600): it has read an extent with nonzero
width and height, and yet it does not terminate. It blocks in the `glfwWaitEvents()` of the
round that read 800 x 600, having made two `glfwWaitEvents()` calls and no other
(no `vkDeviceWaitIdle`, no creation, no release), and the renderer still holds its old swap
chain. When one more batch of events follows (`sampleRestore`) the call reads the same three
extents and returns: after the two waits it calls `vkDeviceWaitIdle`, then creates the new
swap chain from 800 x 600 with the old one as `oldSwapchain`, creates its other resources and
releases the old swap chain, and the next `BeginFrame` returns command buffer 27. In general,
a `RecreateSwapChain` that blocks has made no call but `glfwWaitEvents()`, and among the
extents it has read all but the last have a zero dimension: the last one is read and never
tested. -/
theorem RecreateSwapChain_blocks_after_reading_nonzero_extent :
    (sampleMinimized.axeWindow.GetExtent = ⟨0, 0⟩ ∧
      sampleRestoreThenSilence.events = [[(800, 600)]] ∧
      extentsRead sampleMinimized.axeWindow sampleRestoreThenSilence.events =
        [⟨0, 0⟩, ⟨0, 0⟩, ⟨800, 600⟩] ∧
      (sampleMinimized.RecreateSwapChain sampleRestoreThenSilence).2 = .failed .hung ∧
      callsSince sampleMinimized.axeDevice
          (sampleMinimized.RecreateSwapChain sampleRestoreThenSilence).1.axeDevice =
        [.glfwWaitEvents, .glfwWaitEvents] ∧
      (sampleMinimized.RecreateSwapChain sampleRestoreThenSilence).1.axeWindow.GetExtent =
        ⟨800, 600⟩ ∧
      (sampleMinimized.RecreateSwapChain sampleRestoreThenSilence).1.axeSwapChain =
        some sampleSwapChain) ∧
    (sampleRestore.events = [[(800, 600)], []] ∧
      extentsRead sampleMinimized.axeWindow sampleRestore.events =
        [⟨0, 0⟩, ⟨0, 0⟩, ⟨800, 600⟩] ∧
      (sampleMinimized.RecreateSwapChain sampleRestore).2 = .returned () ∧
      (callsSince sampleMinimized.axeDevice
          (sampleMinimized.RecreateSwapChain sampleRestore).1.axeDevice).take 4 =
        [ .glfwWaitEvents, .glfwWaitEvents, .vkDeviceWaitIdle,
          .vkCreateSwapchainKHR 29 3
            ⟨VK_FORMAT_B8G8R8A8_SRGB, VK_COLOR_SPACE_SRGB_NONLINEAR_KHR⟩ ⟨800, 600⟩
            VK_PRESENT_MODE_FIFO_KHR (some 1) ] ∧
      (callsSince sampleMinimized.axeDevice
          (sampleMinimized.RecreateSwapChain sampleRestore).1.axeDevice).drop 29 =
        [ .vkDestroyImageView 5, .vkDestroyImageView 6, .vkDestroyImageView 7,
          .vkDestroySwapchainKHR 1,
          .vkDestroyImageView 11, .vkDestroyImage 9, .vkFreeMemory 10,
          .vkDestroyImageView 14, .vkDestroyImage 12, .vkFreeMemory 13,
          .vkDestroyImageView 17, .vkDestroyImage 15, .vkFreeMemory 16,
          .vkDestroyFramebuffer 18, .vkDestroyFramebuffer 19, .vkDestroyFramebuffer 20,
          .vkDestroyRenderPass 8,
          .vkDestroySemaphore 22, .vkDestroySemaphore 21, .vkDestroyFence 23,
          .vkDestroySemaphore 25, .vkDestroySemaphore 24, .vkDestroyFence 26 ] ∧
      (sampleMinimized.RecreateSwapChain sampleRestore).1.axeSwapChain.map
          (fun sc => (sc.swapChain, sc.windowExtent)) = some (some 29, ⟨800, 600⟩) ∧
      ((sampleMinimized.RecreateSwapChain sampleRestore).1.BeginFrame
        (sampleBegin VK_SUCCESS 0)).2 = .returned (some 27)) ∧
    (∀ (r : AxeRenderer) (env : RecreateEnv),
      (r.RecreateSwapChain env).2 = .failed .hung →
      (∀ c ∈ callsSince r.axeDevice (r.RecreateSwapChain env).1.axeDevice,
        c = VkCall.glfwWaitEvents) ∧
      (r.RecreateSwapChain env).1.axeSwapChain = r.axeSwapChain ∧
      extentsRead r.axeWindow env.events =
        testedExtents r.axeWindow env.events ++
          [(r.RecreateSwapChain env).1.axeWindow.GetExtent] ∧
      ∀ e ∈ testedExtents r.axeWindow env.events, e.width = 0 ∨ e.height = 0) := by
  refine ⟨⟨by rfl, by rfl, by rfl, by rfl, by rfl, by rfl, by rfl⟩,
    ⟨by rfl, by rfl, by rfl, by rfl, by rfl, by rfl, by rfl⟩, ?_⟩
  intro r env h
  rcases hwait : AxeRenderer.waitForExtent r.axeWindow r.axeDevice r.axeWindow.GetExtent
    env.events with ⟨window, device, _ | extent⟩
  · have hloop := extentsReadInLoop_of_hung r.axeWindow r.axeDevice r.axeWindow.GetExtent
      env.events (by rw [hwait])
    rw [hwait] at hloop
    have happ := waitForExtent_appends r.axeWindow r.axeDevice r.axeWindow.GetExtent env.events
    rw [hwait] at happ
    rw [RecreateSwapChain_hung r env window device hwait]
    refine ⟨happ.callsSince, rfl, ?_, ?_⟩
    · show r.axeWindow.GetExtent :: extentsReadInLoop _ _ _ = _
      rw [hloop.1]
      rfl
    · intro e he
      simp only [testedExtents, List.mem_cons] at he
      rcases he with he | he
      · rw [he]
        exact hloop.2.1
      · exact hloop.2.2 e he
  · exact absurd h (RecreateSwapChain_after_wait r env window device extent hwait).1

theorem RecreateSwapChain_blocks_after_reading_nonzero_extent_witness :
    (sampleMinimized.RecreateSwapChain sampleRestoreThenSilence).2 = .failed .hung ∧
      extentsRead sampleMinimized.axeWindow sampleRestoreThenSilence.events =
        testedExtents sampleMinimized.axeWindow sampleRestoreThenSilence.events ++
          [⟨800, 600⟩] ∧
      ∀ e ∈ testedExtents sampleMinimized.axeWindow sampleRestoreThenSilence.events,
        e.width = 0 ∨ e.height = 0 :=
  ⟨by rfl,
    (RecreateSwapChain_blocks_after_reading_nonzero_extent.2.2 sampleMinimized
      sampleRestoreThenSilence (by rfl)).2.2.1,
    (RecreateSwapChain_blocks_after_reading_nonzero_extent.2.2 sampleMinimized
      sampleRestoreThenSilence (by rfl)).2.2.2⟩

/-! ## Ten frames without resize (C17) -/

theorem initiallySignaled_append (fence : VkFence) (l es : List VkCall)
    (h : initiallySignaled fence l = true) (hes : es.any (VkCall.unsignals fence) = false) :
    initiallySignaled fence (l ++ es) = true := by
  simp only [initiallySignaled, Bool.and_eq_true, decide_eq_true_eq, Bool.not_eq_true',
    List.any_append, Bool.or_eq_false_iff, List.mem_append] at h ⊢
  exact ⟨Or.inl h.1, h.2, hes⟩

theorem Steady.inStep {fences : List VkFence} {images : Nat} {r : AxeRenderer} {j : Nat}
    (h : Steady fences images r j) : InStep r j := by
  obtain ⟨h₁, h₂, h₃, _, sc, hsc, hcf, _⟩ := h
  exact ⟨h₁, h₂, h₃, sc, hsc, hcf⟩

theorem started_currentImageIndex (r : AxeRenderer) (sc : AxeSwapChain)
    (env : AxeSwapChain.AcquireEnv) (h : env.result = VK_SUCCESS) :
    (r.started sc env).currentImageIndex = env.imageIndex := by
  simp [AxeRenderer.started, AxeRenderer.acquired, AxeSwapChain.AcquireNextImage, h]

/-- One frame of a steady run: what it returns, what it calls, and where it leaves the
renderer. -/
theorem Steady_frame {fences : List VkFence} {images : Nat} {r : AxeRenderer} {j : Nat}
    (hdistinct : fences.getD 0 0 ≠ fences.getD 1 0)
    (h : Steady fences images r j) (frame : BeginFrameEnv × EndFrameEnv) (hok : FrameOk frame)
    (hindex : frame.1.acquire.imageIndex < images) :
    ∃ sc, r.axeSwapChain = some sc ∧
      r.BeginFrame frame.1 = (r.started sc frame.1.acquire,
        .returned (some (r.commandBuffers.getD r.currentFrameIndex 0))) ∧
      (r.started sc frame.1.acquire).EndFrame frame.2 =
        (((r.started sc frame.1.acquire).submitted sc frame.2.submit).closed, .returned ()) ∧
      callsSince r.axeDevice (r.started sc frame.1.acquire).axeDevice =
        [ VkCall.vkWaitForFences (fences.getD (j % 2) 0),
          VkCall.vkAcquireNextImageKHR (sc.swapChain.getD 0)
            (sc.imageAvailableForRenderingSemaphores.getD sc.currentFrame 0),
          VkCall.vkBeginCommandBuffer (r.commandBuffers.getD r.currentFrameIndex 0) ] ∧
      callsSince (r.started sc frame.1.acquire).axeDevice
          ((r.started sc frame.1.acquire).submitted sc frame.2.submit).closed.axeDevice =
        VkCall.vkEndCommandBuffer (r.commandBuffers.getD r.currentFrameIndex 0) ::
          ((sc.imagesInFlight.getD frame.1.acquire.imageIndex none).toList.map
              VkCall.vkWaitForFences ++
            [ VkCall.vkResetFences (fences.getD (j % 2) 0),
              VkCall.vkQueueSubmit (r.commandBuffers.getD r.currentFrameIndex 0)
                (sc.imageAvailableForRenderingSemaphores.getD sc.currentFrame 0)
                (sc.renderFinishedSemaphores.getD sc.currentFrame 0)
                (fences.getD (j % 2) 0),
              VkCall.vkQueuePresentKHR (sc.swapChain.getD 0) frame.1.acquire.imageIndex
                (sc.renderFinishedSemaphores.getD sc.currentFrame 0) ]) ∧
      (∃ sc₂, ((r.started sc frame.1.acquire).submitted sc frame.2.submit).closed.axeSwapChain =
          some sc₂ ∧
        sc₂.imagesInFlight.getD frame.1.acquire.imageIndex none =
          some (fences.getD (j % 2) 0)) ∧
      Steady fences images
        ((r.started sc frame.1.acquire).submitted sc frame.2.submit).closed (j + 1) := by
  obtain ⟨hidle, hidx, hflag, hfresh, sc, hsc, hcf, hfences, hmarkers⟩ := h
  obtain ⟨ha, hb, he, hs, hp⟩ := hok
  have hbegin := BeginFrame_proceeds r sc frame.1 hidle hsc (Or.inl ha)
  rw [if_neg (by simp [hb])] at hbegin
  have hend := EndFrame_keeps (r.started sc frame.1.acquire) sc frame.2 rfl hsc he hs
    (by rw [hp]; decide) (by rw [hp]; decide) hflag
  rw [if_neg (by simp [hp])] at hend
  have himg := started_currentImageIndex r sc frame.1.acquire ha
  have hslot : sc.inFlightFences.getD sc.currentFrame 0 = fences.getD (j % 2) 0 := by
    rw [hfences, hcf]
  have hcalls₁ : callsSince r.axeDevice (r.started sc frame.1.acquire).axeDevice = _ :=
    callsSince_of_append (started_calls r sc frame.1.acquire)
  have hcalls₂ := submitted_calls (r.started sc frame.1.acquire) sc frame.2.submit
  rw [if_pos hs, himg, hslot] at hcalls₂
  rw [hslot] at hcalls₁
  have hcalls₃ : ((r.started sc frame.1.acquire).submitted sc frame.2.submit).closed.axeDevice.calls =
      (r.started sc frame.1.acquire).axeDevice.calls ++
        (VkCall.vkEndCommandBuffer (r.commandBuffers.getD r.currentFrameIndex 0) ::
          ((sc.imagesInFlight.getD frame.1.acquire.imageIndex none).toList.map
              VkCall.vkWaitForFences ++
            [ VkCall.vkResetFences (fences.getD (j % 2) 0),
              VkCall.vkQueueSubmit (r.commandBuffers.getD r.currentFrameIndex 0)
                (sc.imageAvailableForRenderingSemaphores.getD sc.currentFrame 0)
                (sc.renderFinishedSemaphores.getD sc.currentFrame 0)
                (fences.getD (j % 2) 0),
              VkCall.vkQueuePresentKHR (sc.swapChain.getD 0) frame.1.acquire.imageIndex
                (sc.renderFinishedSemaphores.getD sc.currentFrame 0) ])) := by
    show ((r.started sc frame.1.acquire).submitted sc frame.2.submit).axeDevice.calls = _
    rw [hcalls₂]
    simp only [List.append_assoc, List.cons_append, List.nil_append]
    rfl
  refine ⟨sc, hsc, hbegin, hend, hcalls₁, callsSince_of_append hcalls₃, ?_, ?_⟩
  · refine ⟨_, rfl, ?_⟩
    show (sc.SubmitCommandBuffers _ _ _ _).1.imagesInFlight.getD _ none = _
    rw [SubmitCommandBuffers_markers, himg, hslot]
    exact getD_set_self _ _ _ _ (by rw [hmarkers]; exact hindex)
  · refine ⟨rfl, ?_, hflag, ?_, _, rfl, ?_, ?_, ?_⟩
    · show (r.currentFrameIndex + 1) % 2 = (j + 1) % 2
      rw [hidx]
      omega
    · intro i hji hi
      have hi1 : i = 1 := by omega
      have hj0 : j = 0 := by omega
      subst hi1 hj0
      show initiallySignaled _ ((r.started sc frame.1.acquire).submitted sc
        frame.2.submit).closed.axeDevice.calls = true
      rw [hcalls₃, started_calls, List.append_assoc]
      apply initiallySignaled_append _ _ _ (hfresh 1 (by omega) (by omega))
      rcases hm : sc.imagesInFlight.getD frame.1.acquire.imageIndex none with _ | m <;>
        simp [VkCall.unsignals] <;> simpa using hdistinct
    · show (sc.SubmitCommandBuffers _ _ _ _).1.currentFrame = _
      rw [SubmitCommandBuffers_currentFrame, if_pos hs, hcf]
      show (j % 2 + 1) % 2 = (j + 1) % 2
      omega
    · show (sc.SubmitCommandBuffers _ _ _ _).1.inFlightFences = _
      rw [SubmitCommandBuffers_fences, hfences]
    · show (sc.SubmitCommandBuffers _ _ _ _).1.imagesInFlight.length = _
      rw [SubmitCommandBuffers_markers, List.length_set, hmarkers]
theorem run_append_returned {r r' : AxeRenderer} {a : List Call} (b : List Call)
    (h : run r a = (r', .returned ())) : run r (a ++ b) = run r' b := by
  induction a generalizing r with
  | nil =>
    simp only [run, Prod.mk.injEq, and_true] at h
    subst h
    rfl
  | cons call later ih =>
    have hstep : ∀ l, run r (call :: l) =
        match call.make r with
        | (r₁, .returned ()) => run r₁ l
        | (r₁, .failed fault) => (r₁, .failed fault) := fun _ => rfl
    rw [List.cons_append, hstep]
    rw [hstep] at h
    rcases hmk : call.make r with ⟨r₁, _ | f⟩
    · simp only [hmk] at h ⊢
      exact ih h
    · simp [hmk] at h

theorem Steady_run {fences : List VkFence} {images : Nat} {r : AxeRenderer} {j : Nat}
    (hdistinct : fences.getD 0 0 ≠ fences.getD 1 0) (h : Steady fences images r j)
    (frames : List (BeginFrameEnv × EndFrameEnv))
    (hok : ∀ frame ∈ frames, FrameOk frame ∧ frame.1.acquire.imageIndex < images) :
    ∃ r', run r (framePairs frames) = (r', .returned ()) ∧
      Steady fences images r' (j + frames.length) := by
  induction frames generalizing r j with
  | nil => exact ⟨r, rfl, h⟩
  | cons frame later ih =>
    obtain ⟨hframe, hindex⟩ := hok frame (List.mem_cons_self _ _)
    obtain ⟨sc, _, hb, he, _, _, _, hnext⟩ := Steady_frame hdistinct h frame hframe hindex
    obtain ⟨r', hrun, hstep⟩ := ih hnext (fun f hf => hok f (List.mem_cons_of_mem _ hf))
    refine ⟨r', ?_, ?_⟩
    · show run r (Call.BeginFrame frame.1 :: Call.EndFrame frame.2 :: framePairs later) = _
      simp only [run, Call.make, hb, he]
      exact hrun
    · rw [List.length_cons, show j + (later.length + 1) = j + 1 + later.length by omega]
      exact hstep

/-- A renderer constructed over a device with an empty record is steady at frame 0: its two
fences are distinct and in their initial signaled state. -/
theorem Steady_construct {window : AxeWindow} {n : Nat} {env : ConstructEnv} {r : AxeRenderer}
    (h : AxeRenderer.construct window { nextHandle := n, calls := [] } env = (r, .returned ()))
    (hflag : r.axeWindow.framebufferResized = false) :
    ∃ fences, fences.getD 0 0 ≠ fences.getD 1 0 ∧
      Steady fences env.recreate.swapChain.imageCount r 0 := by
  obtain ⟨hidle, hidx⟩ := construct_returned h
  unfold AxeRenderer.construct at h
  dsimp only at h
  split at h
  · simp at h
  · rename_i r₁ heq
    obtain ⟨window', device, extent, device', sc, hwait, hinit, hsc, _, hcalls⟩ :=
      RecreateSwapChain_returned_init heq
    dsimp only at hinit hcalls
    obtain ⟨base, _, _, _, _, hf, before, hsync⟩ := Init_returned_sync hinit
    obtain ⟨hcf, hmark, hcount, _⟩ := Init_returned hinit
    have happ := RecreateSwapChain_appends_of_eq heq
    obtain ⟨es, hes, hP⟩ := happ
    dsimp only at hes
    simp only [List.nil_append] at hes
    obtain ⟨es', hes', _⟩ := Init_appends (device.record .vkDeviceWaitIdle) extent none
      env.recreate.swapChain
    rw [hinit] at hes'
    rw [callsSince_of_append hes'] at hsync
    have hcreated : ∀ c ∈ [VkCall.vkCreateFence (base + 2) true,
        VkCall.vkCreateFence (base + 5) true], c ∈ r₁.axeDevice.calls := by
      intro c hc
      rw [hcalls, hes', hsync]
      simp only [List.append_nil, List.mem_append]
      refine Or.inr (Or.inr ?_)
      simp only [List.mem_cons, List.mem_singleton, List.not_mem_nil, or_false] at hc ⊢
      rcases hc with rfl | rfl <;> simp
    have hquiet : ∀ fence, r₁.axeDevice.calls.any (VkCall.unsignals fence) = false := by
      intro fence
      rw [List.any_eq_false]
      intro c hc
      rw [hes] at hc
      rcases hP c hc with rfl | rfl | hl
      · simp [VkCall.unsignals]
      · simp [VkCall.unsignals]
      · cases c <;> first | (cases hl; done) | simp [VkCall.unsignals]
    unfold AxeRenderer.CreateCommandBuffers at h
    split at h
    · simp at h
    · simp only [Prod.mk.injEq, and_true] at h
      subst h
      refine ⟨[base + 2, base + 5], by simp, hidle, hidx, hflag, ?_, sc, hsc, hcf, hf, ?_⟩
      · intro i _ hi
        have hfence : VkCall.vkCreateFence ([base + 2, base + 5].getD i 0) true ∈
            r₁.axeDevice.calls := by
          apply hcreated
          rcases i with _ | _ | i
          · simp
          · simp
          · omega
        show initiallySignaled _ (r₁.axeDevice.calls ++ _) = true
        apply initiallySignaled_append
        · simp only [initiallySignaled, Bool.and_eq_true, decide_eq_true_eq,
            Bool.not_eq_true']
          exact ⟨hfence, hquiet _⟩
        · simp [VkCall.unsignals]
      · rw [hmark, List.length_replicate, hcount]
theorem submittedFence_of_end (cb : VkCommandBuffer) (marker : Option VkFence)
    (fence : VkFence) (w s : VkSemaphore) (rest : List VkCall) :
    submittedFence (VkCall.vkEndCommandBuffer cb ::
      (marker.toList.map VkCall.vkWaitForFences ++
        VkCall.vkResetFences fence :: VkCall.vkQueueSubmit cb w s fence :: rest)) =
      some fence := by
  cases marker <;> rfl

/-- Frame `k` of a steady run that started at frame 0. -/
theorem Steady_at {fences : List VkFence} {images : Nat} {r₀ : AxeRenderer}
    (hdistinct : fences.getD 0 0 ≠ fences.getD 1 0) (h₀ : Steady fences images r₀ 0)
    (frames : List (BeginFrameEnv × EndFrameEnv))
    (hok : ∀ frame ∈ frames, FrameOk frame ∧ frame.1.acquire.imageIndex < images)
    (k : Nat) (frame : BeginFrameEnv × EndFrameEnv) (hk : frames[k]? = some frame) :
    Steady fences images (beforeFrame r₀ frames k) k ∧ FrameOk frame ∧
      frame.1.acquire.imageIndex < images := by
  have hklt : k < frames.length := by
    rcases Nat.lt_or_ge k frames.length with h | h
    · exact h
    · rw [List.getElem?_eq_none h] at hk
      cases hk
  have hmem : frame ∈ frames := List.getElem?_mem hk
  obtain ⟨rk, hrun, hsteady⟩ := Steady_run hdistinct h₀ (frames.take k)
    (fun f hf => hok f (List.mem_of_mem_take hf))
  rw [List.length_take, Nat.min_eq_left (Nat.le_of_lt hklt), Nat.zero_add] at hsteady
  have hbefore : beforeFrame r₀ frames k = rk := by
    simp only [beforeFrame, hrun]
  rw [hbefore]
  exact ⟨hsteady, hok frame hmem⟩

/-- C17: a renderer constructed over a device with an empty record, with 3 presentable
images and a window not flagged resized, runs 10 frames in which every Vulkan call (every
acquire and present among them) returns `VK_SUCCESS` and every acquired image index is below
3. Then the whole run returns: each of the 10 `BeginFrame` calls returns a command target
and each of the 10 `EndFrame` calls returns. Counting frames from 0: in frames 0 and 1 the
fence that `AcquireNextImage` waits on was created signaled and has been neither reset nor
handed to a submission; in each frame `k = 2..9` it is the fence that was handed to the
`vkQueueSubmit` of frame `k - 2`. In every frame the marker fence of the acquired image, if
it has one, is waited on before the `vkQueueSubmit` of the frame, and the fence handed to
that submission becomes the marker of the image. -/
theorem ten_frames_wait_on_fence_of_frame_before_last (window : AxeWindow) (n : Nat)
    (env : ConstructEnv) (r₀ : AxeRenderer)
    (hnew : AxeRenderer.construct window { nextHandle := n, calls := [] } env =
      (r₀, .returned ()))
    (hflag : r₀.axeWindow.WasWindowResized = false)
    (himages : env.recreate.swapChain.imageCount = 3)
    (frames : List (BeginFrameEnv × EndFrameEnv)) (hlen : frames.length = 10)
    (hok : ∀ frame ∈ frames, FrameOk frame ∧ frame.1.acquire.imageIndex < 3) :
    (∃ r', run r₀ (framePairs frames) = (r', .returned ())) ∧
    (∀ k, k < 10 → ∃ frame r₁ r₂ target sc,
      frames[k]? = some frame ∧
      (beforeFrame r₀ frames k).BeginFrame frame.1 = (r₁, .returned (some target)) ∧
      r₁.EndFrame frame.2 = (r₂, .returned ()) ∧
      r₁.axeSwapChain = some sc ∧
      ∃ before w s fence after,
        endCalls r₀ frames k = before ++ VkCall.vkQueueSubmit target w s fence :: after ∧
        (∀ marker, sc.imagesInFlight.getD r₁.currentImageIndex none = some marker →
          VkCall.vkWaitForFences marker ∈ before) ∧
        ∃ sc₂, r₂.axeSwapChain = some sc₂ ∧
          sc₂.imagesInFlight.getD r₁.currentImageIndex none = some fence) ∧
    (∀ k, k < 2 → ∃ fence, firstWait (beginCalls r₀ frames k) = some fence ∧
      initiallySignaled fence (beforeFrame r₀ frames k).axeDevice.calls = true) ∧
    (∀ k, 2 ≤ k → k < 10 → ∃ fence, firstWait (beginCalls r₀ frames k) = some fence ∧
      submittedFence (endCalls r₀ frames (k - 2)) = some fence) := by
  obtain ⟨fences, hdistinct, h₀⟩ := Steady_construct hnew hflag
  rw [himages] at h₀
  have hframe : ∀ k, k < 10 → ∃ frame, frames[k]? = some frame := by
    intro k hk
    exact ⟨frames[k], List.getElem?_eq_getElem (by omega)⟩
  -- the calls of frame `k`
  have hcalls : ∀ k frame, frames[k]? = some frame →
      firstWait (beginCalls r₀ frames k) = some (fences.getD (k % 2) 0) ∧
      submittedFence (endCalls r₀ frames k) = some (fences.getD (k % 2) 0) := by
    intro k frame hk
    obtain ⟨hsteady, hfok, hindex⟩ := Steady_at hdistinct h₀ frames hok k frame hk
    obtain ⟨sc, _, hb, he, hc₁, hc₂, _, _⟩ := Steady_frame hdistinct hsteady frame hfok hindex
    constructor
    · simp only [beginCalls, hk, hb, hc₁]
      rfl
    · simp only [endCalls, hk, hb, he, hc₂]
      exact submittedFence_of_end _ _ _ _ _ _
  refine ⟨?_, ?_, ?_, ?_⟩
  · obtain ⟨r', hrun, _⟩ := Steady_run hdistinct h₀ frames hok
    exact ⟨r', hrun⟩
  · intro k hk
    obtain ⟨frame, hfr⟩ := hframe k hk
    obtain ⟨hsteady, hfok, hindex⟩ := Steady_at hdistinct h₀ frames hok k frame hfr
    obtain ⟨sc, hsc, hb, he, _, hc₂, ⟨sc₂, hsc₂, hmarker⟩, _⟩ :=
      Steady_frame hdistinct hsteady frame hfok hindex
    have himg := started_currentImageIndex (beforeFrame r₀ frames k) sc frame.1.acquire hfok.1
    refine ⟨frame, _, _, _, sc, hfr, hb, he, hsc, ?_⟩
    refine ⟨VkCall.vkEndCommandBuffer ((beforeFrame r₀ frames k).commandBuffers.getD
          (beforeFrame r₀ frames k).currentFrameIndex 0) ::
        ((sc.imagesInFlight.getD frame.1.acquire.imageIndex none).toList.map
          VkCall.vkWaitForFences ++ [VkCall.vkResetFences (fences.getD (k % 2) 0)]),
      sc.imageAvailableForRenderingSemaphores.getD sc.currentFrame 0,
      sc.renderFinishedSemaphores.getD sc.currentFrame 0, fences.getD (k % 2) 0,
      [VkCall.vkQueuePresentKHR (sc.swapChain.getD 0) frame.1.acquire.imageIndex
        (sc.renderFinishedSemaphores.getD sc.currentFrame 0)], ?_, ?_, sc₂, hsc₂, ?_⟩
    · simp only [endCalls, hfr, hb, he, hc₂]
      simp
    · intro marker hm
      rw [himg] at hm
      rw [hm]
      simp
    · rw [himg]
      exact hmarker
  · intro k hk
    obtain ⟨frame, hfr⟩ := hframe k (by omega)
    obtain ⟨hsteady, _, _⟩ := Steady_at hdistinct h₀ frames hok k frame hfr
    refine ⟨_, (hcalls k frame hfr).1, ?_⟩
    have := hsteady.2.2.2.1 k (Nat.le_refl k) hk
    rw [Nat.mod_eq_of_lt hk]
    exact this
  · intro k hk2 hk
    obtain ⟨frame, hfr⟩ := hframe k hk
    obtain ⟨frame', hfr'⟩ := hframe (k - 2) (by omega)
    refine ⟨_, (hcalls k frame hfr).1, ?_⟩
    rw [(hcalls (k - 2) frame' hfr').2]
    congr 2
    omega
theorem sampleTenFrames_ok :
    ∀ frame ∈ sampleTenFrames, FrameOk frame ∧ frame.1.acquire.imageIndex < 3 := by
  intro frame hframe
  simp only [sampleTenFrames, List.mem_map, List.mem_range] at hframe
  obtain ⟨k, _, rfl⟩ := hframe
  exact ⟨⟨rfl, rfl, rfl, rfl, rfl⟩, Nat.mod_lt _ (by decide)⟩

theorem ten_frames_wait_on_fence_of_frame_before_last_witness :
    AxeRenderer.construct sampleWindow { nextHandle := 1, calls := [] } sampleConstruct =
        (sampleRenderer, .returned ()) ∧
      sampleTenFrames.length = 10 ∧
      (∃ r', run sampleRenderer (framePairs sampleTenFrames) = (r', .returned ())) ∧
      (∃ fence, firstWait (beginCalls sampleRenderer sampleTenFrames 1) = some fence ∧
        initiallySignaled fence (beforeFrame sampleRenderer sampleTenFrames 1).axeDevice.calls =
          true) ∧
      firstWait (beginCalls sampleRenderer sampleTenFrames 9) = some 26 ∧
      ∃ fence, firstWait (beginCalls sampleRenderer sampleTenFrames 9) = some fence ∧
        submittedFence (endCalls sampleRenderer sampleTenFrames (9 - 2)) = some fence :=
  ⟨by rfl, by rfl,
    (ten_frames_wait_on_fence_of_frame_before_last sampleWindow 1 sampleConstruct
      sampleRenderer (by rfl) (by rfl) (by rfl) sampleTenFrames (by rfl)
      sampleTenFrames_ok).1,
    (ten_frames_wait_on_fence_of_frame_before_last sampleWindow 1 sampleConstruct
      sampleRenderer (by rfl) (by rfl) (by rfl) sampleTenFrames (by rfl)
      sampleTenFrames_ok).2.2.1 1 (by decide),
    by rfl,
    (ten_frames_wait_on_fence_of_frame_before_last sampleWindow 1 sampleConstruct
      sampleRenderer (by rfl) (by rfl) (by rfl) sampleTenFrames (by rfl)
      sampleTenFrames_ok).2.2.2 9 (by decide) (by decide)⟩

/-! ## The present mode and the extent `CreateSwapChain` chooses (C21, C22, C24) -/

theorem ChooseSwapPresentMode_of_mem {modes : List VkPresentModeKHR}
    (h : VK_PRESENT_MODE_MAILBOX_KHR ∈ modes) :
    AxeSwapChain.ChooseSwapPresentMode modes = VK_PRESENT_MODE_MAILBOX_KHR := by
  unfold AxeSwapChain.ChooseSwapPresentMode
  cases hfind : modes.find? (fun m => m == VK_PRESENT_MODE_MAILBOX_KHR) with
  | some m =>
    have := List.find?_some (p := fun m : VkPresentModeKHR => m == VK_PRESENT_MODE_MAILBOX_KHR)
      hfind
    simpa using this
  | none =>
    rw [List.find?_eq_none] at hfind
    exact absurd (by simp) (hfind _ h)

theorem ChooseSwapPresentMode_of_not_mem {modes : List VkPresentModeKHR}
    (h : VK_PRESENT_MODE_MAILBOX_KHR ∉ modes) :
    AxeSwapChain.ChooseSwapPresentMode modes = VK_PRESENT_MODE_FIFO_KHR := by
  unfold AxeSwapChain.ChooseSwapPresentMode
  cases hfind : modes.find? (fun m => m == VK_PRESENT_MODE_MAILBOX_KHR) with
  | some m =>
    have hm := List.find?_some (p := fun m : VkPresentModeKHR => m == VK_PRESENT_MODE_MAILBOX_KHR)
      hfind
    have hmem := List.mem_of_find?_eq_some hfind
    simp only [beq_iff_eq] at hm
    exact absurd (hm ▸ hmem) h
  | none => rfl

/-- C21: for every list of available present modes, `ChooseSwapPresentMode` returns
`VK_PRESENT_MODE_MAILBOX_KHR` if the list contains it and `VK_PRESENT_MODE_FIFO_KHR`
otherwise, also for the empty list and for a list without FIFO; it never returns
`VK_PRESENT_MODE_IMMEDIATE_KHR` or any mode other than these two. -/
theorem ChooseSwapPresentMode_mailbox_else_fifo (modes : List VkPresentModeKHR) :
    AxeSwapChain.ChooseSwapPresentMode modes =
      (if VK_PRESENT_MODE_MAILBOX_KHR ∈ modes then VK_PRESENT_MODE_MAILBOX_KHR
        else VK_PRESENT_MODE_FIFO_KHR) ∧
    AxeSwapChain.ChooseSwapPresentMode modes ≠ VK_PRESENT_MODE_IMMEDIATE_KHR ∧
    (AxeSwapChain.ChooseSwapPresentMode modes = VK_PRESENT_MODE_MAILBOX_KHR ∨
      AxeSwapChain.ChooseSwapPresentMode modes = VK_PRESENT_MODE_FIFO_KHR) ∧
    AxeSwapChain.ChooseSwapPresentMode [] = VK_PRESENT_MODE_FIFO_KHR ∧
    AxeSwapChain.ChooseSwapPresentMode [VK_PRESENT_MODE_IMMEDIATE_KHR] =
      VK_PRESENT_MODE_FIFO_KHR := by
  by_cases h : VK_PRESENT_MODE_MAILBOX_KHR ∈ modes
  · rw [ChooseSwapPresentMode_of_mem h, if_pos h]
    exact ⟨rfl, by decide, Or.inl rfl, rfl, rfl⟩
  · rw [ChooseSwapPresentMode_of_not_mem h, if_neg h]
    exact ⟨rfl, by decide, Or.inr rfl, rfl, rfl⟩

theorem ChooseSwapPresentMode_mailbox_else_fifo_witness :
    AxeSwapChain.ChooseSwapPresentMode
        [VK_PRESENT_MODE_IMMEDIATE_KHR, VK_PRESENT_MODE_FIFO_KHR, VK_PRESENT_MODE_MAILBOX_KHR] =
      VK_PRESENT_MODE_MAILBOX_KHR ∧
    AxeSwapChain.ChooseSwapPresentMode [VK_PRESENT_MODE_IMMEDIATE_KHR, 3] ≠
      VK_PRESENT_MODE_IMMEDIATE_KHR :=
  ⟨(ChooseSwapPresentMode_mailbox_else_fifo
      [VK_PRESENT_MODE_IMMEDIATE_KHR, VK_PRESENT_MODE_FIFO_KHR, VK_PRESENT_MODE_MAILBOX_KHR]).1,
    (ChooseSwapPresentMode_mailbox_else_fifo [VK_PRESENT_MODE_IMMEDIATE_KHR, 3]).2.1⟩

theorem clamp_mem (v lo hi : Nat) (h : lo ≤ hi) :
    lo ≤ AxeSwapChain.clamp v lo hi ∧ AxeSwapChain.clamp v lo hi ≤ hi := by
  unfold AxeSwapChain.clamp
  split
  · exact ⟨Nat.le_refl _, h⟩
  · split <;> omega

theorem clamp_of_mem (v lo hi : Nat) (h₁ : lo ≤ v) (h₂ : v ≤ hi) :
    AxeSwapChain.clamp v lo hi = v := by
  unfold AxeSwapChain.clamp
  rw [if_neg (by omega), if_neg (by omega)]

theorem clamp_of_lt (v lo hi : Nat) (h : v < lo) : AxeSwapChain.clamp v lo hi = lo := by
  unfold AxeSwapChain.clamp
  rw [if_pos h]

theorem clamp_of_gt (v lo hi : Nat) (h₁ : lo ≤ hi) (h₂ : hi < v) :
    AxeSwapChain.clamp v lo hi = hi := by
  unfold AxeSwapChain.clamp
  rw [if_neg (by omega), if_pos h₂]

theorem ChooseSwapExtent_current (sc : AxeSwapChain) (capabilities : VkSurfaceCapabilitiesKHR)
    (h : capabilities.currentExtent.width ≠ UINT32_MAX) :
    sc.ChooseSwapExtent capabilities = capabilities.currentExtent := by
  unfold AxeSwapChain.ChooseSwapExtent
  rw [if_pos h]

theorem ChooseSwapExtent_sentinel (sc : AxeSwapChain) (capabilities : VkSurfaceCapabilitiesKHR)
    (h : capabilities.currentExtent.width = UINT32_MAX) :
    sc.ChooseSwapExtent capabilities =
      { width := AxeSwapChain.clamp sc.windowExtent.width capabilities.minImageExtent.width
          capabilities.maxImageExtent.width
        height := AxeSwapChain.clamp sc.windowExtent.height capabilities.minImageExtent.height
          capabilities.maxImageExtent.height } := by
  unfold AxeSwapChain.ChooseSwapExtent
  rw [if_neg (by simp [h])]
/-- C24: `ChooseSwapExtent` decides on the width of the current extent alone. Whenever that
width is not `2^32 - 1` the current extent is returned unchanged, whatever its height, the
min/max range and the window extent are. Whenever it is `2^32 - 1` the result is the window
extent with each dimension clamped: for `min ≤ max` the dimension lies in `[min, max]`, is
`min` for a window dimension below `min`, `max` for one above `max`, and the window dimension
itself when that lies in the range; so a window extent inside the range is returned as it
is. -/
theorem ChooseSwapExtent_decides_on_width (sc : AxeSwapChain)
    (capabilities : VkSurfaceCapabilitiesKHR) :
    (capabilities.currentExtent.width ≠ UINT32_MAX →
      sc.ChooseSwapExtent capabilities = capabilities.currentExtent) ∧
    (capabilities.currentExtent.width = UINT32_MAX →
      (capabilities.minImageExtent.width ≤ capabilities.maxImageExtent.width →
        (capabilities.minImageExtent.width ≤ (sc.ChooseSwapExtent capabilities).width ∧
          (sc.ChooseSwapExtent capabilities).width ≤ capabilities.maxImageExtent.width) ∧
        (sc.windowExtent.width < capabilities.minImageExtent.width →
          (sc.ChooseSwapExtent capabilities).width = capabilities.minImageExtent.width) ∧
        (capabilities.maxImageExtent.width < sc.windowExtent.width →
          (sc.ChooseSwapExtent capabilities).width = capabilities.maxImageExtent.width)) ∧
      (capabilities.minImageExtent.height ≤ capabilities.maxImageExtent.height →
        (capabilities.minImageExtent.height ≤ (sc.ChooseSwapExtent capabilities).height ∧
          (sc.ChooseSwapExtent capabilities).height ≤ capabilities.maxImageExtent.height) ∧
        (sc.windowExtent.height < capabilities.minImageExtent.height →
          (sc.ChooseSwapExtent capabilities).height = capabilities.minImageExtent.height) ∧
        (capabilities.maxImageExtent.height < sc.windowExtent.height →
          (sc.ChooseSwapExtent capabilities).height = capabilities.maxImageExtent.height)) ∧
      (capabilities.minImageExtent.width ≤ sc.windowExtent.width →
        sc.windowExtent.width ≤ capabilities.maxImageExtent.width →
        (sc.ChooseSwapExtent capabilities).width = sc.windowExtent.width) ∧
      (capabilities.minImageExtent.height ≤ sc.windowExtent.height →
        sc.windowExtent.height ≤ capabilities.maxImageExtent.height →
        (sc.ChooseSwapExtent capabilities).height = sc.windowExtent.height) ∧
      (capabilities.minImageExtent.width ≤ sc.windowExtent.width →
        sc.windowExtent.width ≤ capabilities.maxImageExtent.width →
        capabilities.minImageExtent.height ≤ sc.windowExtent.height →
        sc.windowExtent.height ≤ capabilities.maxImageExtent.height →
        sc.ChooseSwapExtent capabilities = sc.windowExtent)) := by
  refine ⟨ChooseSwapExtent_current sc capabilities, fun h => ?_⟩
  rw [ChooseSwapExtent_sentinel sc capabilities h]
  refine ⟨fun hr => ⟨clamp_mem _ _ _ hr, clamp_of_lt _ _ _, clamp_of_gt _ _ _ hr⟩,
    fun hr => ⟨clamp_mem _ _ _ hr, clamp_of_lt _ _ _, clamp_of_gt _ _ _ hr⟩,
    clamp_of_mem _ _ _, clamp_of_mem _ _ _, ?_⟩
  intro h₁ h₂ h₃ h₄
  rw [clamp_of_mem _ _ _ h₁ h₂, clamp_of_mem _ _ _ h₃ h₄]

theorem ChooseSwapExtent_decides_on_width_witness :
    (AxeSwapChain.blank ⟨800, 600⟩).ChooseSwapExtent
        { sampleSentinelCapabilities with currentExtent := ⟨8000, UINT32_MAX⟩ } =
      ⟨8000, UINT32_MAX⟩ ∧
    (AxeSwapChain.blank ⟨800, 600⟩).ChooseSwapExtent sampleSentinelCapabilities = ⟨800, 600⟩ :=
  ⟨(ChooseSwapExtent_decides_on_width (AxeSwapChain.blank ⟨800, 600⟩)
      { sampleSentinelCapabilities with currentExtent := ⟨8000, UINT32_MAX⟩ }).1 (by decide),
    (ChooseSwapExtent_decides_on_width (AxeSwapChain.blank ⟨800, 600⟩)
      sampleSentinelCapabilities).2 rfl |>.2.2.2.2 (by decide) (by decide) (by decide)
      (by decide)⟩

/-- C22 fails on the code: with the sentinel current extent reported, a requested window
extent of 5000 x 300 is not taken verbatim but clamped to 4096 x 300; and with a current
extent reported (here 1024 x 768) that extent is returned, not the requested 800 x 600. -/
theorem ChooseSwapExtent_clamps_under_sentinel :
    sampleSentinelCapabilities.currentExtent.width = UINT32_MAX ∧
      (AxeSwapChain.blank ⟨5000, 300⟩).ChooseSwapExtent sampleSentinelCapabilities =
        ⟨4096, 300⟩ ∧
      (AxeSwapChain.blank ⟨800, 600⟩).ChooseSwapExtent
          { sampleSentinelCapabilities with currentExtent := ⟨1024, 768⟩ } = ⟨1024, 768⟩ :=
  ⟨rfl, by decide, by decide⟩

/-- C22 as amended: the extent `ChooseSwapExtent` chooses is the current extent the device
reports, taken verbatim, unless the device reports the sentinel width `2^32 - 1`; in that case
it is the requested window extent clamped, per dimension, into the reported
`[minImageExtent, maxImageExtent]` range. -/
theorem ChooseSwapExtent_current_else_clamped_window (sc : AxeSwapChain)
    (capabilities : VkSurfaceCapabilitiesKHR)
    (hwidth : capabilities.minImageExtent.width ≤ capabilities.maxImageExtent.width)
    (hheight : capabilities.minImageExtent.height ≤ capabilities.maxImageExtent.height) :
    sc.ChooseSwapExtent capabilities =
      (if capabilities.currentExtent.width ≠ UINT32_MAX then capabilities.currentExtent
        else
          { width := max capabilities.minImageExtent.width
              (min sc.windowExtent.width capabilities.maxImageExtent.width)
            height := max capabilities.minImageExtent.height
              (min sc.windowExtent.height capabilities.maxImageExtent.height) }) := by
  have hclamp : ∀ v lo hi, lo ≤ hi → AxeSwapChain.clamp v lo hi = max lo (min v hi) := by
    intro v lo hi h
    unfold AxeSwapChain.clamp
    split
    · omega
    · split <;> omega
  by_cases h : capabilities.currentExtent.width ≠ UINT32_MAX
  · rw [ChooseSwapExtent_current sc capabilities h, if_pos h]
  · rw [ChooseSwapExtent_sentinel sc capabilities (by simpa using h), if_neg h,
      hclamp _ _ _ hwidth, hclamp _ _ _ hheight]

theorem ChooseSwapExtent_current_else_clamped_window_witness :
    (AxeSwapChain.blank ⟨5000, 0⟩).ChooseSwapExtent sampleSentinelCapabilities = ⟨4096, 1⟩ :=
  ChooseSwapExtent_current_else_clamped_window (AxeSwapChain.blank ⟨5000, 0⟩)
    sampleSentinelCapabilities (by decide) (by decide)

/-! ## The destructor of the swap chain (C23) -/

theorem Precedes.of_mem {l₁ l₂ : List VkCall} {a b : VkCall} (ha : a ∈ l₁) (hb : b ∈ l₂) :
    Precedes (l₁ ++ l₂) a b := by
  obtain ⟨p, q, rfl⟩ := List.append_of_mem ha
  obtain ⟨s, t, rfl⟩ := List.append_of_mem hb
  exact ⟨p, q ++ s, t, by simp⟩

theorem Precedes.append_right {l : List VkCall} {a b : VkCall} (h : Precedes l a b)
    (s : List VkCall) : Precedes (l ++ s) a b := by
  obtain ⟨l₁, l₂, l₃, rfl⟩ := h
  exact ⟨l₁, l₂, l₃ ++ s, by simp⟩

theorem destroyCalls_eq (sc : AxeSwapChain) :
    sc.destroyCalls =
      ((((sc.swapChainImageViews.map (fun imageView => VkCall.vkDestroyImageView imageView) ++
        (match sc.swapChain with
          | some handle => [VkCall.vkDestroySwapchainKHR handle]
          | none => [])) ++
        (List.range sc.depthImages.length).flatMap (fun i =>
          [ VkCall.vkDestroyImageView (sc.depthImageViews.getD i 0),
            VkCall.vkDestroyImage (sc.depthImages.getD i 0),
            VkCall.vkFreeMemory (sc.depthImageMemoryHandles.getD i 0) ])) ++
        sc.swapChainFramebuffers.map (fun framebuffer =>
          VkCall.vkDestroyFramebuffer framebuffer)) ++
        [VkCall.vkDestroyRenderPass sc.renderPass]) ++
        (List.range MAX_FRAMES_IN_FLIGHT).flatMap (fun i =>
          [ VkCall.vkDestroySemaphore (sc.renderFinishedSemaphores.getD i 0),
            VkCall.vkDestroySemaphore (sc.imageAvailableForRenderingSemaphores.getD i 0),
            VkCall.vkDestroyFence (sc.inFlightFences.getD i 0) ]) := rfl

/-- In the destructor, for every image `i`: the image view, then the depth view, then the
framebuffer, then the render pass. -/
theorem destroyCalls_order (sc : AxeSwapChain) (i : Nat)
    (hviews : i < sc.swapChainImageViews.length) (hdepth : i < sc.depthImages.length)
    (hframebuffers : i < sc.swapChainFramebuffers.length) :
    Precedes sc.destroyCalls (.vkDestroyImageView (sc.swapChainImageViews.getD i 0))
        (.vkDestroyImageView (sc.depthImageViews.getD i 0)) ∧
      Precedes sc.destroyCalls (.vkDestroyImageView (sc.depthImageViews.getD i 0))
        (.vkDestroyFramebuffer (sc.GetFrameBuffer i)) ∧
      Precedes sc.destroyCalls (.vkDestroyFramebuffer (sc.GetFrameBuffer i))
        (.vkDestroyRenderPass sc.renderPass) := by
  have hview : VkCall.vkDestroyImageView (sc.swapChainImageViews.getD i 0) ∈
      sc.swapChainImageViews.map (fun imageView => VkCall.vkDestroyImageView imageView) := by
    rw [List.mem_map]
    refine ⟨_, ?_, rfl⟩
    rw [List.getD_eq_getElem _ _ hviews]
    exact List.getElem_mem _
  have hdview : VkCall.vkDestroyImageView (sc.depthImageViews.getD i 0) ∈
      (List.range sc.depthImages.length).flatMap (fun i =>
        [ VkCall.vkDestroyImageView (sc.depthImageViews.getD i 0),
          VkCall.vkDestroyImage (sc.depthImages.getD i 0),
          VkCall.vkFreeMemory (sc.depthImageMemoryHandles.getD i 0) ]) := by
    rw [List.mem_flatMap]
    exact ⟨i, List.mem_range.mpr hdepth, by simp⟩
  have hfb : VkCall.vkDestroyFramebuffer (sc.GetFrameBuffer i) ∈
      sc.swapChainFramebuffers.map (fun framebuffer =>
        VkCall.vkDestroyFramebuffer framebuffer) := by
    rw [List.mem_map]
    refine ⟨_, ?_, rfl⟩
    unfold AxeSwapChain.GetFrameBuffer
    rw [List.getD_eq_getElem _ _ hframebuffers]
    exact List.getElem_mem _
  rw [destroyCalls_eq]
  refine ⟨?_, ?_, ?_⟩
  · exact (((Precedes.of_mem (List.mem_append_left _ hview) hdview).append_right _).append_right
      _).append_right _
  · exact ((Precedes.of_mem (List.mem_append_right _ hdview) hfb).append_right _).append_right _
  · exact (Precedes.of_mem (List.mem_append_right _ hfb) (List.mem_singleton_self _)).append_right
      _

/-- C23 fails on the code: the destructor of `sampleSwapChain` does not release in the
reverse of the creation order (it starts with the image views, which were created second,
and ends with the sync objects, which were created last), and it releases image view 5 and
depth view 11 before framebuffer 18, which was created over them. -/
theorem destroyCalls_not_reverse_of_creation :
    AxeSwapChain.Init { nextHandle := 1, calls := [] } ⟨800, 600⟩ none sampleSwapChainEnv =
        ((AxeSwapChain.Init { nextHandle := 1, calls := [] } ⟨800, 600⟩ none
          sampleSwapChainEnv).1, .returned sampleSwapChain) ∧
      sampleSwapChain.destroyCalls =
        [ .vkDestroyImageView 5, .vkDestroyImageView 6, .vkDestroyImageView 7,
          .vkDestroySwapchainKHR 1,
          .vkDestroyImageView 11, .vkDestroyImage 9, .vkFreeMemory 10,
          .vkDestroyImageView 14, .vkDestroyImage 12, .vkFreeMemory 13,
          .vkDestroyImageView 17, .vkDestroyImage 15, .vkFreeMemory 16,
          .vkDestroyFramebuffer 18, .vkDestroyFramebuffer 19, .vkDestroyFramebuffer 20,
          .vkDestroyRenderPass 8,
          .vkDestroySemaphore 22, .vkDestroySemaphore 21, .vkDestroyFence 23,
          .vkDestroySemaphore 25, .vkDestroySemaphore 24, .vkDestroyFence 26 ] ∧
      reverseOfCreation sampleCreated =
        [ .vkDestroyFence 26, .vkDestroySemaphore 25, .vkDestroySemaphore 24,
          .vkDestroyFence 23, .vkDestroySemaphore 22, .vkDestroySemaphore 21,
          .vkDestroyFramebuffer 20, .vkDestroyFramebuffer 19, .vkDestroyFramebuffer 18,
          .vkDestroyImageView 17, .vkFreeMemory 16, .vkDestroyImage 15,
          .vkDestroyImageView 14, .vkFreeMemory 13, .vkDestroyImage 12,
          .vkDestroyImageView 11, .vkFreeMemory 10, .vkDestroyImage 9,
          .vkDestroyRenderPass 8,
          .vkDestroyImageView 7, .vkDestroyImageView 6, .vkDestroyImageView 5,
          .vkDestroySwapchainKHR 1 ] ∧
      sampleSwapChain.destroyCalls ≠ reverseOfCreation sampleCreated ∧
      VkCall.vkCreateFramebuffer 18 8 5 11 ∈ sampleCreated ∧
      Precedes sampleSwapChain.destroyCalls (.vkDestroyImageView 5) (.vkDestroyFramebuffer 18) ∧
      Precedes sampleSwapChain.destroyCalls (.vkDestroyImageView 11)
        (.vkDestroyFramebuffer 18) :=
  ⟨by rfl, by decide, by decide, by decide, by decide,
    ⟨[], [ .vkDestroyImageView 6, .vkDestroyImageView 7, .vkDestroySwapchainKHR 1,
        .vkDestroyImageView 11, .vkDestroyImage 9, .vkFreeMemory 10,
        .vkDestroyImageView 14, .vkDestroyImage 12, .vkFreeMemory 13,
        .vkDestroyImageView 17, .vkDestroyImage 15, .vkFreeMemory 16 ],
      [ .vkDestroyFramebuffer 19, .vkDestroyFramebuffer 20, .vkDestroyRenderPass 8,
        .vkDestroySemaphore 22, .vkDestroySemaphore 21, .vkDestroyFence 23,
        .vkDestroySemaphore 25, .vkDestroySemaphore 24, .vkDestroyFence 26 ], by decide⟩,
    ⟨[ .vkDestroyImageView 5, .vkDestroyImageView 6, .vkDestroyImageView 7,
        .vkDestroySwapchainKHR 1 ],
      [ .vkDestroyImage 9, .vkFreeMemory 10,
        .vkDestroyImageView 14, .vkDestroyImage 12, .vkFreeMemory 13,
        .vkDestroyImageView 17, .vkDestroyImage 15, .vkFreeMemory 16 ],
      [ .vkDestroyFramebuffer 19, .vkDestroyFramebuffer 20, .vkDestroyRenderPass 8,
        .vkDestroySemaphore 22, .vkDestroySemaphore 21, .vkDestroyFence 23,
        .vkDestroySemaphore 25, .vkDestroySemaphore 24, .vkDestroyFence 26 ], by decide⟩⟩

/-- C23 as amended: the destructor of a constructed swap chain releases, in this order, the
image views, the raw swap chain, per image the depth view, the depth image and the depth
memory, the framebuffers, the render pass, and per slot the render-finished semaphore, the
image-available semaphore and the fence. So every framebuffer is released before the render
pass it was created against, and after the image view and the depth view it binds. -/
theorem destructor_releases_views_then_framebuffers_then_render_pass (device device' : AxeDevice)
    (extent : VkExtent2D) (oldSwapChain : Option AxeSwapChain) (env : SwapChainEnv)
    (sc : AxeSwapChain) (i : Nat)
    (h : AxeSwapChain.Init device extent oldSwapChain env = (device', .returned sc))
    (hi : i < sc.ImageCount) :
    VkCall.vkCreateFramebuffer (sc.GetFrameBuffer i) sc.renderPass
        (sc.swapChainImageViews.getD i 0) (sc.depthImageViews.getD i 0) ∈
      callsSince device device' ∧
    Precedes sc.destroyCalls (.vkDestroyImageView (sc.swapChainImageViews.getD i 0))
      (.vkDestroyImageView (sc.depthImageViews.getD i 0)) ∧
    Precedes sc.destroyCalls (.vkDestroyImageView (sc.depthImageViews.getD i 0))
      (.vkDestroyFramebuffer (sc.GetFrameBuffer i)) ∧
    Precedes sc.destroyCalls (.vkDestroyFramebuffer (sc.GetFrameBuffer i))
      (.vkDestroyRenderPass sc.renderPass) ∧
    ∃ handle, sc.swapChain = some handle ∧
      sc.destroyCalls =
        sc.swapChainImageViews.map (fun imageView => VkCall.vkDestroyImageView imageView) ++
        VkCall.vkDestroySwapchainKHR handle ::
        ((List.range sc.ImageCount).flatMap (fun i =>
          [ VkCall.vkDestroyImageView (sc.depthImageViews.getD i 0),
            VkCall.vkDestroyImage (sc.depthImages.getD i 0),
            VkCall.vkFreeMemory (sc.depthImageMemoryHandles.getD i 0) ]) ++
        (sc.swapChainFramebuffers.map (fun framebuffer =>
          VkCall.vkDestroyFramebuffer framebuffer) ++
        VkCall.vkDestroyRenderPass sc.renderPass ::
        (List.range MAX_FRAMES_IN_FLIGHT).flatMap (fun i =>
          [ VkCall.vkDestroySemaphore (sc.renderFinishedSemaphores.getD i 0),
            VkCall.vkDestroySemaphore (sc.imageAvailableForRenderingSemaphores.getD i 0),
            VkCall.vkDestroyFence (sc.inFlightFences.getD i 0) ]))) := by
  obtain ⟨h₁, h₂, _, _, h₅, _⟩ := Init_returned_lengths h
  obtain ⟨p₁, p₂, p₃⟩ := destroyCalls_order sc i (by omega) (by omega) (by omega)
  refine ⟨Init_returned_binds h i hi, p₁, p₂, p₃, ?_⟩
  have hsome : ∃ handle, sc.swapChain = some handle := by
    unfold AxeSwapChain.Init at h
    repeat' split at h
    all_goals first | (simp at h; done) | skip
    simp only [Prod.mk.injEq, Outcome.returned.injEq] at h
    obtain ⟨_, hs⟩ := h
    subst hs
    exact ⟨_, rfl⟩
  obtain ⟨handle, hhandle⟩ := hsome
  refine ⟨handle, hhandle, ?_⟩
  rw [destroyCalls_eq, hhandle, h₂]
  simp only [List.append_assoc, List.singleton_append, List.cons_append, List.nil_append]

theorem destructor_releases_views_then_framebuffers_then_render_pass_witness :
    sampleSwapChain.ImageCount = 3 ∧
      Precedes sampleSwapChain.destroyCalls (.vkDestroyImageView 17)
        (.vkDestroyFramebuffer 20) ∧
      Precedes sampleSwapChain.destroyCalls (.vkDestroyFramebuffer 20)
        (.vkDestroyRenderPass 8) :=
  ⟨by rfl,
    (destructor_releases_views_then_framebuffers_then_render_pass
      { nextHandle := 1, calls := [] } _ ⟨800, 600⟩ none sampleSwapChainEnv sampleSwapChain 2
      (by rfl) (by decide)).2.2.1,
    (destructor_releases_views_then_framebuffers_then_render_pass
      { nextHandle := 1, calls := [] } _ ⟨800, 600⟩ none sampleSwapChainEnv sampleSwapChain 2
      (by rfl) (by decide)).2.2.2.1⟩

/-! ## The aligned instance size of a buffer (C28) -/

/-- Clearing the low `k` bits of a 64-bit value rounds it down to a multiple of `2^k`. -/
theorem land_mask_eq (x k : Nat) (hx : x < 2 ^ 64) (hk : k ≤ 64) :
    x &&& (2 ^ 64 - 1 - (2 ^ k - 1)) = 2 ^ k * (x / 2 ^ k) := by
  have hlt : 2 ^ k - 1 < 2 ^ 64 := by
    have : 2 ^ k ≤ 2 ^ 64 := Nat.pow_le_pow_right (by decide) hk
    have : 0 < 2 ^ k := Nat.two_pow_pos k
    omega
  have hmask : 2 ^ 64 - 1 - (2 ^ k - 1) = 2 ^ 64 - (2 ^ k - 1 + 1) := by omega
  apply Nat.eq_of_testBit_eq
  intro i
  rw [Nat.testBit_and, hmask, Nat.testBit_two_pow_sub_succ hlt, Nat.testBit_two_pow_sub_one,
    Nat.testBit_mul_pow_two, ← Nat.shiftRight_eq_div_pow, Nat.testBit_shiftRight]
  by_cases hik : i < k
  · simp [hik, Nat.not_le.mpr hik]
  · have hki : k ≤ i := Nat.le_of_not_lt hik
    rw [Nat.add_sub_cancel' hki]
    by_cases hi : i < 64
    · simp [hik, hi, hki]
    · have hx' : x.testBit i = false :=
        Nat.testBit_lt_two_pow (Nat.lt_of_lt_of_le hx
          (Nat.pow_le_pow_right (by decide) (Nat.le_of_not_lt hi)))
      simp [hx']

theorem GetAlignment_pow_two (instanceSize k : Nat)
    (hbound : instanceSize + 2 ^ k - 1 < 2 ^ 64) :
    AxeBuffer.GetAlignment instanceSize (2 ^ k) =
      2 ^ k * ((instanceSize + 2 ^ k - 1) / 2 ^ k) := by
  have hpos : 0 < 2 ^ k := Nat.two_pow_pos k
  have hk : k ≤ 64 := by
    by_contra hcon
    have : 2 ^ 65 ≤ 2 ^ k := Nat.pow_le_pow_right (by decide) (by omega)
    omega
  have hlt : 2 ^ k - 1 < 2 ^ 64 := by omega
  unfold AxeBuffer.GetAlignment
  rw [if_pos hpos, Nat.mod_eq_of_lt hbound, Nat.mod_eq_of_lt hlt]
  exact land_mask_eq _ k hbound hk
/-- C28: for a `minOffsetAlignment` that is a power of two, with
`instanceSize + minOffsetAlignment - 1 < 2^64`, `GetAlignment` returns the smallest multiple
of `minOffsetAlignment` that is at least `instanceSize`: it is a multiple, it is at least
`instanceSize`, no multiple that is at least `instanceSize` is smaller, and it is
`instanceSize` itself when that is a multiple. For `minOffsetAlignment = 0` it returns
`instanceSize`. The constructor stores that value as the aligned size and the `uint64_t`
product of it and the instance count as the buffer size, which is the product itself
whenever the product is below `2^64`. -/
theorem GetAlignment_smallest_multiple (instanceSize minOffsetAlignment instanceCount k : Nat)
    (hpow : minOffsetAlignment = 2 ^ k)
    (hbound : instanceSize + minOffsetAlignment - 1 < 2 ^ 64) :
    minOffsetAlignment ∣ AxeBuffer.GetAlignment instanceSize minOffsetAlignment ∧
    instanceSize ≤ AxeBuffer.GetAlignment instanceSize minOffsetAlignment ∧
    (∀ n, minOffsetAlignment ∣ n → instanceSize ≤ n →
      AxeBuffer.GetAlignment instanceSize minOffsetAlignment ≤ n) ∧
    (minOffsetAlignment ∣ instanceSize →
      AxeBuffer.GetAlignment instanceSize minOffsetAlignment = instanceSize) ∧
    AxeBuffer.GetAlignment instanceSize 0 = instanceSize ∧
    (AxeBuffer.construct instanceSize instanceCount minOffsetAlignment).alignmentSize =
      AxeBuffer.GetAlignment instanceSize minOffsetAlignment ∧
    (AxeBuffer.construct instanceSize instanceCount minOffsetAlignment).bufferSize =
      (AxeBuffer.GetAlignment instanceSize minOffsetAlignment * instanceCount) % 2 ^ 64 ∧
    (AxeBuffer.GetAlignment instanceSize minOffsetAlignment * instanceCount < 2 ^ 64 →
      (AxeBuffer.construct instanceSize instanceCount minOffsetAlignment).bufferSize =
        AxeBuffer.GetAlignment instanceSize minOffsetAlignment * instanceCount) := by
  subst hpow
  have hpos : 0 < 2 ^ k := Nat.two_pow_pos k
  have heq := GetAlignment_pow_two instanceSize k hbound
  have hdm := Nat.div_add_mod (instanceSize + 2 ^ k - 1) (2 ^ k)
  have hmod := Nat.mod_lt (instanceSize + 2 ^ k - 1) hpos
  have hmin : ∀ n, 2 ^ k ∣ n → instanceSize ≤ n →
      AxeBuffer.GetAlignment instanceSize (2 ^ k) ≤ n := by
    rintro n ⟨t, rfl⟩ hle
    rw [heq]
    apply Nat.mul_le_mul_left
    have hlt : instanceSize + 2 ^ k - 1 < 2 ^ k * (t + 1) := by
      rw [Nat.mul_add, Nat.mul_one]
      omega
    have := (Nat.div_lt_iff_lt_mul hpos).mpr (by rwa [Nat.mul_comm] at hlt)
    omega
  have hle : instanceSize ≤ AxeBuffer.GetAlignment instanceSize (2 ^ k) := by
    rw [heq]
    omega
  refine ⟨by rw [heq]; exact Nat.dvd_mul_right _ _, hle, hmin, ?_, rfl, rfl, rfl, ?_⟩
  · intro hdvd
    exact Nat.le_antisymm (hmin _ hdvd (Nat.le_refl _)) hle
  · intro hsmall
    exact Nat.mod_eq_of_lt hsmall

theorem GetAlignment_smallest_multiple_witness :
    AxeBuffer.GetAlignment 100 64 = 128 ∧ AxeBuffer.GetAlignment 256 64 = 256 ∧
      (AxeBuffer.construct 100 3 64).bufferSize = 384 :=
  ⟨Nat.le_antisymm
      ((GetAlignment_smallest_multiple 100 64 3 6 (by decide) (by decide)).2.2.1 128
        (by decide) (by decide))
      (by decide),
    (GetAlignment_smallest_multiple 256 64 3 6 (by decide) (by decide)).2.2.2.1 (by decide),
    (GetAlignment_smallest_multiple 100 64 3 6 (by decide) (by decide)).2.2.2.2.2.2.2
      (by decide)⟩

/-! ## What one call of a run changes (C25, C26, C27) -/

/-- The branch `BeginFrame` takes and the renderer it leaves. -/
theorem BeginFrame_cases (r : AxeRenderer) (env : BeginFrameEnv) :
    ((r.BeginFrame env).1 = r ∧ ∃ f, (r.BeginFrame env).2 = .failed f) ∨
    ∃ sc, r.isFrameStarted = false ∧ r.axeSwapChain = some sc ∧
      ((env.acquire.result = VK_ERROR_OUT_OF_DATE_KHR ∧
          r.BeginFrame env = (((r.acquired sc env.acquire).RecreateSwapChain env.recreate).1,
            ((r.acquired sc env.acquire).RecreateSwapChain env.recreate).2.asNone)) ∨
        ((r.BeginFrame env).1 = r.acquired sc env.acquire ∧
          ∃ f, (r.BeginFrame env).2 = .failed f) ∨
        ((env.acquire.result = VK_SUCCESS ∨ env.acquire.result = VK_SUBOPTIMAL_KHR) ∧
          (r.BeginFrame env).1 = r.started sc env.acquire ∧
          ((r.BeginFrame env).2 =
              .returned (some (r.commandBuffers.getD r.currentFrameIndex 0)) ∨
            ∃ f, (r.BeginFrame env).2 = .failed f))) := by
  by_cases hidle : r.isFrameStarted = true
  · rw [BeginFrame_in_progress r env hidle]
    exact Or.inl ⟨rfl, _, rfl⟩
  have hidle' : r.isFrameStarted = false := by simpa using hidle
  rcases Option.eq_none_or_eq_some r.axeSwapChain with hsc | ⟨sc, hsc⟩
  · refine Or.inl ?_
    simp [AxeRenderer.BeginFrame, hidle', hsc]
  refine Or.inr ⟨sc, hidle', hsc, ?_⟩
  by_cases h₁ : env.acquire.result = VK_ERROR_OUT_OF_DATE_KHR
  · exact Or.inl ⟨h₁, BeginFrame_outOfDate r sc env hidle' hsc h₁⟩
  by_cases h₂ : env.acquire.result = VK_SUCCESS ∨ env.acquire.result = VK_SUBOPTIMAL_KHR
  · rw [BeginFrame_proceeds r sc env hidle' hsc h₂]
    refine Or.inr (Or.inr ⟨h₂, rfl, ?_⟩)
    by_cases hb : env.beginResult = VK_SUCCESS
    · exact Or.inl (by simp [hb])
    · exact Or.inr ⟨.threw "Failed to begin recording command buffer", by simp [hb]⟩
  · simp only [not_or] at h₂
    rw [BeginFrame_acquire_error r sc env hidle' hsc h₁ h₂.1 h₂.2]
    exact Or.inr (Or.inl ⟨rfl, _, rfl⟩)

/-- The branch `EndFrame` takes and the renderer it leaves. -/
theorem EndFrame_cases (r : AxeRenderer) (env : EndFrameEnv) :
    ((r.EndFrame env).1 = r ∧ ∃ f, (r.EndFrame env).2 = .failed f) ∨
    ((r.EndFrame env).1 =
        { r with axeDevice := (r.axeDevice.record
          (.vkEndCommandBuffer (r.commandBuffers.getD r.currentFrameIndex 0))) } ∧
      ∃ f, (r.EndFrame env).2 = .failed f) ∨
    ∃ sc, r.isFrameStarted = true ∧ r.axeSwapChain = some sc ∧
      (((r.EndFrame env).1 = r.submitted sc env.submit ∧
          ∃ f, (r.EndFrame env).2 = .failed f) ∨
        (env.submit.submitResult = VK_SUCCESS ∧
          (env.submit.presentResult = VK_ERROR_OUT_OF_DATE_KHR ∨
            env.submit.presentResult = VK_SUBOPTIMAL_KHR ∨
            r.axeWindow.framebufferResized = true) ∧
          ∃ r₂, ((∃ f, (r.presentedStale sc env.submit).RecreateSwapChain env.recreate =
                (r₂, .failed f) ∧ r.EndFrame env = (r₂, .failed f)) ∨
            ((r.presentedStale sc env.submit).RecreateSwapChain env.recreate =
                (r₂, .returned ()) ∧ r.EndFrame env = (r₂.closed, .returned ())))) ∨
        (env.submit.submitResult = VK_SUCCESS ∧ ¬ (env.submit.presentResult = VK_ERROR_OUT_OF_DATE_KHR ∨
            env.submit.presentResult = VK_SUBOPTIMAL_KHR ∨
            r.axeWindow.framebufferResized = true) ∧
          r.EndFrame env = ((r.submitted sc env.submit).closed, .returned ()))) := by
  by_cases hprog : r.isFrameStarted = true
  swap
  · rw [EndFrame_idle r env (by simpa using hprog)]
    exact Or.inl ⟨rfl, _, rfl⟩
  by_cases hend : env.endResult = VK_SUCCESS
  swap
  · rw [EndFrame_end_failed r env hprog hend]
    exact Or.inr (Or.inl ⟨rfl, _, rfl⟩)
  rcases Option.eq_none_or_eq_some r.axeSwapChain with hsc | ⟨sc, hsc⟩
  · rw [EndFrame_null r env hprog hsc hend]
    exact Or.inr (Or.inl ⟨rfl, _, rfl⟩)
  refine Or.inr (Or.inr ⟨sc, hprog, hsc, ?_⟩)
  by_cases hsub : env.submit.submitResult = VK_SUCCESS
  swap
  · rw [EndFrame_submit_failed r sc env hprog hsc hend hsub]
    exact Or.inl ⟨rfl, _, rfl⟩
  by_cases hcond : env.submit.presentResult = VK_ERROR_OUT_OF_DATE_KHR ∨
      env.submit.presentResult = VK_SUBOPTIMAL_KHR ∨ r.axeWindow.framebufferResized = true
  · rw [EndFrame_rebuilds r sc env hprog hsc hend hsub hcond]
    refine Or.inr (Or.inl ⟨hsub, hcond, ?_⟩)
    rcases hrr : (r.presentedStale sc env.submit).RecreateSwapChain env.recreate with
      ⟨r₂, _ | f⟩
    · exact ⟨r₂, Or.inr ⟨rfl, rfl⟩⟩
    · exact ⟨r₂, Or.inl ⟨f, rfl, rfl⟩⟩
  · have hcond' := hcond
    simp only [not_or] at hcond
    rw [EndFrame_keeps r sc env hprog hsc hend hsub hcond.1 hcond.2.1
      (by simpa using hcond.2.2)]
    by_cases hp : env.submit.presentResult = VK_SUCCESS
    · rw [if_neg (by simp [hp])]
      exact Or.inr (Or.inr ⟨hsub, hcond', rfl⟩)
    · rw [if_pos hp]
      exact Or.inl ⟨rfl, _, rfl⟩

/-- No call but a returning `EndFrame` changes the command buffers or the frame index. -/
theorem BeginFrame_fields (r : AxeRenderer) (env : BeginFrameEnv) :
    (r.BeginFrame env).1.commandBuffers = r.commandBuffers ∧
      (r.BeginFrame env).1.currentFrameIndex = r.currentFrameIndex := by
  rcases BeginFrame_cases r env with ⟨h, _⟩ | ⟨sc, _, _, ⟨_, h⟩ | ⟨h, _⟩ | ⟨_, h, _⟩⟩
  · rw [h]
    exact ⟨rfl, rfl⟩
  · rw [h]
    have := RecreateSwapChain_fields (r.acquired sc env.acquire) env.recreate
    exact ⟨this.1, this.2.2.1⟩
  · rw [h]
    exact ⟨rfl, rfl⟩
  · rw [h]
    exact ⟨rfl, rfl⟩

theorem EndFrame_fields (r : AxeRenderer) (env : EndFrameEnv) :
    (r.EndFrame env).1.commandBuffers = r.commandBuffers ∧
      (r.EndFrame env).1.currentFrameIndex =
        if (r.EndFrame env).2 = .returned () then (r.currentFrameIndex + 1) % 2
        else r.currentFrameIndex := by
  rcases EndFrame_cases r env with ⟨h, f, hf⟩ | ⟨h, f, hf⟩ |
    ⟨sc, _, _, ⟨h, f, hf⟩ | ⟨_, _, r₂, ⟨f, hrr, h⟩ | ⟨hrr, h⟩⟩ | ⟨_, _, h⟩⟩
  · rw [h, hf]
    exact ⟨rfl, by rw [if_neg (by simp)]; try rfl⟩
  · rw [h, hf]
    exact ⟨rfl, by rw [if_neg (by simp)]; try rfl⟩
  · rw [h, hf]
    exact ⟨rfl, by rw [if_neg (by simp)]; try rfl⟩
  · have := RecreateSwapChain_fields (r.presentedStale sc env.submit) env.recreate
    rw [hrr] at this
    rw [h]
    exact ⟨this.1, by simpa using this.2.2.1⟩
  · have := RecreateSwapChain_fields (r.presentedStale sc env.submit) env.recreate
    rw [hrr] at this
    rw [h]
    refine ⟨this.1, ?_⟩
    show (r₂.currentFrameIndex + 1) % MAX_FRAMES_IN_FLIGHT = _
    rw [this.2.2.1]
    simp [AxeRenderer.presentedStale, AxeRenderer.submitted, MAX_FRAMES_IN_FLIGHT]
  · rw [h]
    exact ⟨rfl, by simp [AxeRenderer.closed, AxeRenderer.submitted, MAX_FRAMES_IN_FLIGHT]⟩

/-- Every call only adds to the call record. -/
theorem BeginFrame_grows (r : AxeRenderer) (env : BeginFrameEnv) :
    Appends (fun _ => True) r.axeDevice (r.BeginFrame env).1.axeDevice := by
  rcases BeginFrame_cases r env with ⟨h, _⟩ | ⟨sc, _, _, ⟨_, h⟩ | ⟨h, _⟩ | ⟨_, h, _⟩⟩
  · rw [h]
    exact Appends.refl _ _
  · rw [h]
    exact ((acquired_appends r sc env.acquire).mono (fun _ _ => trivial)).trans
      ((RecreateSwapChain_appends _ _).mono (fun _ _ => trivial))
  · rw [h]
    exact (acquired_appends r sc env.acquire).mono (fun _ _ => trivial)
  · rw [h]
    exact ⟨_, started_calls r sc env.acquire, fun _ _ => trivial⟩

theorem EndFrame_grows (r : AxeRenderer) (env : EndFrameEnv) :
    Appends (fun _ => True) r.axeDevice (r.EndFrame env).1.axeDevice := by
  have hsub : ∀ sc, Appends (fun _ => True) r.axeDevice (r.submitted sc env.submit).axeDevice :=
    fun sc => ⟨_, submitted_calls r sc env.submit, fun _ _ => trivial⟩
  rcases EndFrame_cases r env with ⟨h, _⟩ | ⟨h, _⟩ |
    ⟨sc, _, _, ⟨h, _⟩ | ⟨_, _, r₂, ⟨f, hrr, h⟩ | ⟨hrr, h⟩⟩ | ⟨_, _, h⟩⟩
  · rw [h]
    exact Appends.refl _ _
  · rw [h]
    exact Appends.record _ _ trivial
  · rw [h]
    exact hsub sc
  · have := (RecreateSwapChain_appends (r.presentedStale sc env.submit) env.recreate).mono
      (Q := fun _ => True) (fun _ _ => trivial)
    rw [hrr] at this
    rw [h]
    exact (hsub sc).trans this
  · have := (RecreateSwapChain_appends (r.presentedStale sc env.submit) env.recreate).mono
      (Q := fun _ => True) (fun _ _ => trivial)
    rw [hrr] at this
    rw [h]
    exact (hsub sc).trans this
  · rw [h]
    exact hsub sc

theorem Call.make_BeginFrame (r : AxeRenderer) (env : BeginFrameEnv) :
    (Call.make r (.BeginFrame env)).1 = (r.BeginFrame env).1 ∧
      ((Call.make r (.BeginFrame env)).2 = .returned () ↔
        ∃ v, (r.BeginFrame env).2 = .returned v) := by
  simp only [Call.make]
  rcases r.BeginFrame env with ⟨r', v | f⟩ <;> simp

theorem Call.make_grows (r : AxeRenderer) (call : Call) :
    Appends (fun _ => True) r.axeDevice (call.make r).1.axeDevice := by
  cases call with
  | glfwPollEvents callbacks => exact Appends.refl _ _
  | BeginFrame env =>
    rw [(Call.make_BeginFrame r env).1]
    exact BeginFrame_grows r env
  | EndFrame env => exact EndFrame_grows r env
  | BeginSwapChainRenderPass cb =>
    exact (BeginSwapChainRenderPass_appends r cb).mono (fun _ _ => trivial)
  | EndSwapChainRenderPass cb =>
    exact (EndSwapChainRenderPass_appends r cb).mono (fun _ _ => trivial)

theorem run_cons (r : AxeRenderer) (call : Call) (later : List Call) :
    run r (call :: later) =
      match call.make r with
      | (r₁, .returned ()) => run r₁ later
      | (r₁, .failed fault) => (r₁, .failed fault) := rfl

theorem run_grows (r : AxeRenderer) (calls : List Call) :
    Appends (fun _ => True) r.axeDevice (run r calls).1.axeDevice := by
  induction calls generalizing r with
  | nil => exact Appends.refl _ _
  | cons call later ih =>
    have hm := Call.make_grows r call
    rw [run_cons]
    rcases hmk : call.make r with ⟨r₁, _ | f⟩
    · rw [hmk] at hm
      exact hm.trans (ih r₁)
    · rw [hmk] at hm
      exact hm

/-- A stretch of the record without a rebuild has none in either part. -/
theorem rebuilt_split {a b c : AxeDevice} (h₁ : Appends (fun _ => True) a b)
    (h₂ : Appends (fun _ => True) b c) :
    rebuilt a c = (rebuilt a b || rebuilt b c) := by
  obtain ⟨e₁, he₁, _⟩ := h₁
  obtain ⟨e₂, he₂, _⟩ := h₂
  have : c.calls = a.calls ++ (e₁ ++ e₂) := by rw [he₂, he₁, List.append_assoc]
  unfold rebuilt
  rw [callsSince_of_append this, callsSince_of_append he₁, callsSince_of_append he₂,
    List.any_append]

/-! ## The frame index and the slot index (C25) -/

theorem rebuilt_of_RecreateSwapChain {b : AxeDevice} {r r' : AxeRenderer}
    {env : RecreateEnv} (hbefore : Appends (fun _ => True) b r.axeDevice)
    (h : r.RecreateSwapChain env = (r', .returned ())) : rebuilt b r'.axeDevice = true := by
  obtain ⟨e₁, he₁, _⟩ := hbefore
  obtain ⟨_, q₁, c, q₂, _, _, _, hcalls, _, hc, _, _⟩ := RecreateSwapChain_returned h
  refine rebuilt_of_calls he₁ (hcalls.trans (List.append_assoc _ _ _)) ⟨c, ?_, hc⟩
  simp

/-- An `EndFrame` that returns has submitted, and a rebuild is all it may do after that. -/
theorem EndFrame_returned_submitted {r r' : AxeRenderer} {env : EndFrameEnv}
    (h : r.EndFrame env = (r', .returned ())) :
    ∃ sc, r.isFrameStarted = true ∧ r.axeSwapChain = some sc ∧
      env.submit.submitResult = VK_SUCCESS ∧
      Appends (fun _ => True) (r.submitted sc env.submit).axeDevice r'.axeDevice ∧
      ((rebuilt r.axeDevice r'.axeDevice = true ∧
          ∃ r₂, (r.presentedStale sc env.submit).RecreateSwapChain env.recreate =
            (r₂, .returned ()) ∧ r' = r₂.closed) ∨
        (rebuilt r.axeDevice r'.axeDevice = false ∧ r' = (r.submitted sc env.submit).closed)) := by
  rcases EndFrame_cases r env with ⟨_, f, hf⟩ | ⟨_, f, hf⟩ |
    ⟨sc, hprog, hsc, ⟨_, f, hf⟩ | ⟨hsub, _, r₂, ⟨f, hrr, h'⟩ | ⟨hrr, h'⟩⟩ | ⟨hsub, _, h'⟩⟩
  · rw [h] at hf
    cases hf
  · rw [h] at hf
    cases hf
  · rw [h] at hf
    cases hf
  · rw [h] at h'
    cases h'
  · rw [h] at h'
    simp only [Prod.mk.injEq, and_true] at h'
    subst h'
    have happ := (RecreateSwapChain_appends (r.presentedStale sc env.submit) env.recreate).mono
      (Q := fun _ => True) (fun _ _ => trivial)
    rw [hrr] at happ
    refine ⟨sc, hprog, hsc, hsub, happ, Or.inl ⟨?_, r₂, hrr, rfl⟩⟩
    show rebuilt r.axeDevice r₂.axeDevice = true
    exact rebuilt_of_RecreateSwapChain (r := r.presentedStale sc env.submit)
      ⟨_, submitted_calls r sc env.submit, fun _ _ => trivial⟩ hrr
  · rw [h] at h'
    simp only [Prod.mk.injEq, and_true] at h'
    subst h'
    refine ⟨sc, hprog, hsc, hsub, Appends.refl _ _, Or.inr ⟨?_, rfl⟩⟩
    rw [Bool.eq_false_iff]
    intro hreb
    unfold rebuilt at hreb
    rw [List.any_eq_true] at hreb
    obtain ⟨c, hc, hcreate⟩ := hreb
    have := submitted_not_rebuilt r sc env.submit c hc
    rw [this] at hcreate
    cases hcreate

/-- A call that returns without a rebuild keeps the frame index equal to the slot index. -/
theorem Call.make_keeps_in_step {r r' : AxeRenderer} {call : Call}
    (hsync : ∃ sc, r.axeSwapChain = some sc ∧ r.currentFrameIndex = sc.currentFrame)
    (h : call.make r = (r', .returned ()))
    (hreb : rebuilt r.axeDevice r'.axeDevice = false) :
    ∃ sc, r'.axeSwapChain = some sc ∧ r'.currentFrameIndex = sc.currentFrame := by
  obtain ⟨sc, hsc, hidx⟩ := hsync
  cases call with
  | glfwPollEvents callbacks =>
    simp only [Call.make, Prod.mk.injEq, and_true] at h
    subst h
    exact ⟨sc, hsc, hidx⟩
  | BeginFrame env =>
    have h₁ := (Call.make_BeginFrame r env).1
    have h₂ := (Call.make_BeginFrame r env).2.1 (by rw [h])
    rw [h] at h₁
    change r' = _ at h₁
    obtain ⟨v, hv⟩ := h₂
    rcases BeginFrame_cases r env with ⟨_, f, hf⟩ |
      ⟨sc', _, hsc', ⟨_, hb⟩ | ⟨_, f, hf⟩ | ⟨_, hb, _⟩⟩
    · rw [hv] at hf
      cases hf
    · exfalso
      rcases hrr : (r.acquired sc' env.acquire).RecreateSwapChain env.recreate with ⟨r₂, _ | f⟩
      · have hr' : r' = r₂ := by rw [h₁, hb, hrr]
        subst hr'
        have := rebuilt_of_RecreateSwapChain (b := r.axeDevice)
          ((acquired_appends r sc' env.acquire).mono (fun _ _ => trivial)) hrr
        rw [hreb] at this
        cases this
      · rw [hb, hrr] at hv
        cases hv
    · rw [hv] at hf
      cases hf
    · rw [h₁, hb]
      exact ⟨sc, hsc, hidx⟩
  | EndFrame env =>
    obtain ⟨sc', _, hsc', hsub, _, ⟨hr, _⟩ | ⟨_, hr'⟩⟩ :=
      EndFrame_returned_submitted (show r.EndFrame env = (r', .returned ()) from h)
    · rw [hreb] at hr
      cases hr
    · rw [hsc] at hsc'
      cases hsc'
      subst hr'
      refine ⟨_, rfl, ?_⟩
      rw [SubmitCommandBuffers_currentFrame, if_pos hsub, ← hidx]
      rfl
  | BeginSwapChainRenderPass cb =>
    obtain ⟨_, h2, _, h4⟩ := BeginSwapChainRenderPass_protocol r cb
    simp only [Call.make] at h
    rw [h] at h2 h4
    exact ⟨sc, h4.trans hsc, h2.trans hidx⟩
  | EndSwapChainRenderPass cb =>
    obtain ⟨_, h2, _, h4⟩ := EndSwapChainRenderPass_protocol r cb
    simp only [Call.make] at h
    rw [h] at h2 h4
    exact ⟨sc, h4.trans hsc, h2.trans hidx⟩

theorem run_keeps_in_step {r r' : AxeRenderer} {calls : List Call}
    (hsync : ∃ sc, r.axeSwapChain = some sc ∧ r.currentFrameIndex = sc.currentFrame)
    (h : run r calls = (r', .returned ()))
    (hreb : rebuilt r.axeDevice r'.axeDevice = false) :
    ∃ sc, r'.axeSwapChain = some sc ∧ r'.currentFrameIndex = sc.currentFrame := by
  induction calls generalizing r with
  | nil =>
    simp only [run, Prod.mk.injEq, and_true] at h
    subst h
    exact hsync
  | cons call later ih =>
    rw [run_cons] at h
    have hg₁ := Call.make_grows r call
    rcases hmk : call.make r with ⟨r₁, _ | f⟩
    · simp only [hmk] at h
      rw [hmk] at hg₁
      have hg₂ := run_grows r₁ later
      rw [h] at hg₂
      have hs := rebuilt_split hg₁ hg₂
      rw [hreb] at hs
      have hs' := hs.symm
      rw [Bool.or_eq_false_iff] at hs'
      exact ih (Call.make_keeps_in_step hsync hmk hs'.1) h hs'.2
    · simp [hmk] at h

/-- C25: the frame index of the renderer and the slot index (`currentFrame`) of the swap chain
can differ during a frame. In the run `sampleRebuildRun` on `sampleRenderer` (command buffers
27 and 28) the `EndFrame` of the first frame rebuilds the swap chain; during the next frame
`GetFrameIndex` reports 1 and the command buffer is 28, while the swap chain is at slot 0 and
the frame waits on fence 51, acquires with semaphore 49 and submits with semaphores 49, 50 and
fence 51, the entries of slot 0. In general a `RecreateSwapChain` that returns leaves a swap
chain at slot 0 and the frame index as it was, so after an `EndFrame` that rebuilds at frame
index 0 the renderer is at frame index 1 over a swap chain at slot 0: a `BeginFrame` whose
calls succeed then records on `commandBuffers[1]`, `GetFrameIndex` reports 1, it waits on
`inFlightFences[0]` and acquires with `imageAvailableForRenderingSemaphores[0]`, and the
`EndFrame` of that frame submits `commandBuffers[1]` with the semaphores and the fence of
slot 0. In a run from a constructed renderer, at every point reached without a rebuild since
construction the frame index equals the slot index. -/
theorem frame_index_leaves_slot_index_after_rebuild :
    (∃ r sc, run sampleRenderer sampleRebuildRun = (r, .returned ()) ∧
      sampleRenderer.commandBuffers = [27, 28] ∧
      r.isFrameStarted = true ∧ r.GetFrameIndex = .returned 1 ∧
      r.GetCurrentCommandBuffer = .returned 28 ∧
      r.axeSwapChain = some sc ∧ sc.currentFrame = 0 ∧
      sc.inFlightFences = [51, 54] ∧ sc.imageAvailableForRenderingSemaphores = [49, 52] ∧
      sc.renderFinishedSemaphores = [50, 53] ∧
      callsSince (run sampleRenderer (sampleRebuildRun.take 2)).1.axeDevice r.axeDevice =
        [.vkWaitForFences 51, .vkAcquireNextImageKHR 29 49, .vkBeginCommandBuffer 28] ∧
      callsSince r.axeDevice (r.EndFrame (sampleEnd VK_SUCCESS)).1.axeDevice =
        [.vkEndCommandBuffer 28, .vkResetFences 51, .vkQueueSubmit 28 49 50 51,
          .vkQueuePresentKHR 29 0 50]) ∧
    (∀ (r r' : AxeRenderer) (env : RecreateEnv), r.RecreateSwapChain env = (r', .returned ()) →
      r'.currentFrameIndex = r.currentFrameIndex ∧
        ∃ sc, r'.axeSwapChain = some sc ∧ sc.currentFrame = 0) ∧
    (∀ (r r' : AxeRenderer) (env : EndFrameEnv), r.currentFrameIndex = 0 →
      r.EndFrame env = (r', .returned ()) → rebuilt r.axeDevice r'.axeDevice = true →
      r'.isFrameStarted = false ∧ r'.currentFrameIndex = 1 ∧
        ∃ sc, r'.axeSwapChain = some sc ∧ sc.currentFrame = 0 ∧
          ∀ b : BeginFrameEnv,
            (b.acquire.result = VK_SUCCESS ∨ b.acquire.result = VK_SUBOPTIMAL_KHR) →
            b.beginResult = VK_SUCCESS →
            ∃ r₁, r'.BeginFrame b = (r₁, .returned (some (r'.commandBuffers.getD 1 0))) ∧
              r₁.GetFrameIndex = .returned 1 ∧ r₁.axeSwapChain = some sc ∧
              callsSince r'.axeDevice r₁.axeDevice =
                [ .vkWaitForFences (sc.inFlightFences.getD 0 0),
                  .vkAcquireNextImageKHR (sc.swapChain.getD 0)
                    (sc.imageAvailableForRenderingSemaphores.getD 0 0),
                  .vkBeginCommandBuffer (r'.commandBuffers.getD 1 0) ] ∧
              ∀ (e : EndFrameEnv) (r₂ : AxeRenderer), r₁.EndFrame e = (r₂, .returned ()) →
                VkCall.vkQueueSubmit (r'.commandBuffers.getD 1 0)
                    (sc.imageAvailableForRenderingSemaphores.getD 0 0)
                    (sc.renderFinishedSemaphores.getD 0 0) (sc.inFlightFences.getD 0 0) ∈
                  callsSince r₁.axeDevice r₂.axeDevice) ∧
    (∀ (window : AxeWindow) (device : AxeDevice) (env : ConstructEnv) (r₀ r : AxeRenderer)
        (calls : List Call),
      AxeRenderer.construct window device env = (r₀, .returned ()) →
      run r₀ calls = (r, .returned ()) → rebuilt r₀.axeDevice r.axeDevice = false →
      ∃ sc, r.axeSwapChain = some sc ∧ r.currentFrameIndex = sc.currentFrame) := by
  refine ⟨⟨(run sampleRenderer sampleRebuildRun).1,
    (run sampleRenderer sampleRebuildRun).1.axeSwapChain.getD (AxeSwapChain.blank ⟨0, 0⟩),
    by rfl, by rfl, by rfl, by rfl, by rfl, by rfl, by rfl, by rfl, by rfl, by rfl, by rfl,
    by rfl⟩, ?_, ?_, ?_⟩
  · intro r r' env h
    obtain ⟨sc, _, _, _, hsc, hcf, _⟩ := RecreateSwapChain_returned h
    have hf := (RecreateSwapChain_fields r env).2.2.1
    rw [h] at hf
    exact ⟨hf, sc, hsc, hcf⟩
  · intro r r' env hidx h hreb
    obtain ⟨sc₀, hprog, hsc₀, hsub, _, ⟨_, r₂, hrr, hr'⟩ | ⟨hno, _⟩⟩ :=
      EndFrame_returned_submitted h
    swap
    · rw [hno] at hreb
      cases hreb
    obtain ⟨sc, _, _, _, hsc, hcf, _⟩ := RecreateSwapChain_returned hrr
    have hf := RecreateSwapChain_fields (r.presentedStale sc₀ env.submit) env.recreate
    rw [hrr] at hf
    have hidx₂ : r₂.currentFrameIndex = 0 := hf.2.2.1.trans hidx
    subst hr'
    have hidx' : r₂.closed.currentFrameIndex = 1 := by
      show (r₂.currentFrameIndex + 1) % MAX_FRAMES_IN_FLIGHT = 1
      rw [hidx₂]
      rfl
    have hsc' : r₂.closed.axeSwapChain = some sc := hsc
    refine ⟨rfl, hidx', sc, hsc', hcf, ?_⟩
    intro b hres hbegin
    have hb := BeginFrame_proceeds r₂.closed sc b rfl hsc' hres
    rw [if_neg (by simp [hbegin]), hidx'] at hb
    refine ⟨_, hb, ?_, hsc', ?_, ?_⟩
    · show (if true = true then Outcome.returned r₂.closed.currentFrameIndex else _) = _
      rw [if_pos rfl, hidx']
    · have := started_calls r₂.closed sc b.acquire
      rw [hidx', hcf] at this
      exact callsSince_of_append this
    · intro e r₃ he
      obtain ⟨sc₁, _, hsc₁, hsub₁, ⟨more, hmore, _⟩, _⟩ := EndFrame_returned_submitted he
      have hsame : sc₁ = sc := by
        have : (r₂.closed.started sc b.acquire).axeSwapChain = some sc := hsc'
        rw [this] at hsc₁
        exact (Option.some.inj hsc₁).symm
      subst hsame
      have hcalls := submitted_calls (r₂.closed.started sc₁ b.acquire) sc₁ e.submit
      have hcb : (r₂.closed.started sc₁ b.acquire).commandBuffers.getD
          (r₂.closed.started sc₁ b.acquire).currentFrameIndex 0 =
          r₂.closed.commandBuffers.getD 1 0 := by
        show r₂.closed.commandBuffers.getD r₂.closed.currentFrameIndex 0 = _
        rw [hidx']
      rw [hcb, hcf] at hcalls
      rw [hcalls, List.append_assoc] at hmore
      rw [callsSince_of_append hmore]
      simp
  · intro window device env r₀ r calls hnew hrun hreb
    obtain ⟨sc, hsc, hcf, _⟩ := construct_swapChain hnew
    obtain ⟨_, hidx⟩ := construct_returned hnew
    exact run_keeps_in_step ⟨sc, hsc, by rw [hidx, hcf]⟩ hrun hreb

theorem frame_index_leaves_slot_index_after_rebuild_witness :
    (sampleInProgress.EndFrame (sampleEnd VK_SUBOPTIMAL_KHR)).1.currentFrameIndex = 1 ∧
      (∃ sc, (sampleInProgress.EndFrame (sampleEnd VK_SUBOPTIMAL_KHR)).1.axeSwapChain =
        some sc ∧ sc.currentFrame = 0) ∧
      ∃ sc, (run sampleRenderer (framePairs [(sampleBegin VK_SUCCESS 0, sampleEnd VK_SUCCESS)])
          ).1.axeSwapChain = some sc ∧
        (run sampleRenderer (framePairs [(sampleBegin VK_SUCCESS 0, sampleEnd VK_SUCCESS)])
          ).1.currentFrameIndex = sc.currentFrame :=
  ⟨(frame_index_leaves_slot_index_after_rebuild.2.2.1 sampleInProgress
      (sampleInProgress.EndFrame (sampleEnd VK_SUBOPTIMAL_KHR)).1 (sampleEnd VK_SUBOPTIMAL_KHR)
      (by rfl) (by rfl) (by rfl)).2.1,
    match (frame_index_leaves_slot_index_after_rebuild.2.2.1 sampleInProgress
      (sampleInProgress.EndFrame (sampleEnd VK_SUBOPTIMAL_KHR)).1 (sampleEnd VK_SUBOPTIMAL_KHR)
      (by rfl) (by rfl) (by rfl)).2.2 with
    | ⟨sc, h₁, h₂, _⟩ => ⟨sc, h₁, h₂⟩,
    frame_index_leaves_slot_index_after_rebuild.2.2.2 sampleWindow
      { nextHandle := 1, calls := [] } sampleConstruct sampleRenderer
      (run sampleRenderer (framePairs [(sampleBegin VK_SUCCESS 0, sampleEnd VK_SUCCESS)])).1
      (framePairs [(sampleBegin VK_SUCCESS 0, sampleEnd VK_SUCCESS)]) (by rfl) (by rfl)
      (by rfl)⟩

/-! ## The resized flag across a rebuild in `BeginFrame` (C26) -/

theorem deliver_flag (window : AxeWindow) (callbacks : List (Int × Int))
    (h : window.framebufferResized = true) :
    (window.deliver callbacks).framebufferResized = true := by
  induction callbacks generalizing window with
  | nil => exact h
  | cons callback rest ih =>
    obtain ⟨width, height⟩ := callback
    exact ih _ rfl

theorem waitForExtent_flag (window : AxeWindow) (device : AxeDevice) (extent : VkExtent2D)
    (events : List (List (Int × Int))) (h : window.framebufferResized = true) :
    (AxeRenderer.waitForExtent window device extent events).1.framebufferResized = true := by
  induction events generalizing window device extent with
  | nil =>
    unfold AxeRenderer.waitForExtent
    split <;> exact h
  | cons callbacks later ih =>
    unfold AxeRenderer.waitForExtent
    split
    · exact ih _ _ _ (deliver_flag window callbacks h)
    · exact h

theorem RecreateSwapChain_axeWindow (r : AxeRenderer) (env : RecreateEnv) :
    (r.RecreateSwapChain env).1.axeWindow =
      (AxeRenderer.waitForExtent r.axeWindow r.axeDevice r.axeWindow.GetExtent env.events).1 := by
  unfold AxeRenderer.RecreateSwapChain
  split
  · rename_i heq
    rw [heq]
  · rename_i heq
    rw [heq]
    repeat' first | split | dsimp only

/-- A rebuild never clears the resized flag. -/
theorem RecreateSwapChain_flag (r : AxeRenderer) (env : RecreateEnv)
    (h : r.axeWindow.framebufferResized = true) :
    (r.RecreateSwapChain env).1.axeWindow.framebufferResized = true := by
  rw [RecreateSwapChain_axeWindow]
  exact waitForExtent_flag _ _ _ _ h

/-- No call but `EndFrame` clears the resized flag. -/
theorem Call.make_keeps_flag (r : AxeRenderer) (call : Call) (hcall : call.isEndFrame = false)
    (h : r.axeWindow.framebufferResized = true) :
    (call.make r).1.axeWindow.framebufferResized = true := by
  cases call with
  | glfwPollEvents callbacks => exact deliver_flag _ _ h
  | BeginFrame env =>
    rw [(Call.make_BeginFrame r env).1]
    rcases BeginFrame_cases r env with ⟨hb, _⟩ | ⟨sc, _, _, ⟨_, hb⟩ | ⟨hb, _⟩ | ⟨_, hb, _⟩⟩
    · rw [hb]
      exact h
    · rw [hb]
      exact RecreateSwapChain_flag (r.acquired sc env.acquire) env.recreate h
    · rw [hb]
      exact h
    · rw [hb]
      exact h
  | EndFrame env => cases hcall
  | BeginSwapChainRenderPass cb =>
    show (r.BeginSwapChainRenderPass cb).1.axeWindow.framebufferResized = true
    unfold AxeRenderer.BeginSwapChainRenderPass
    repeat' first | split | dsimp only
    all_goals exact h
  | EndSwapChainRenderPass cb =>
    show (r.EndSwapChainRenderPass cb).1.axeWindow.framebufferResized = true
    unfold AxeRenderer.EndSwapChainRenderPass
    repeat' first | split | dsimp only
    all_goals exact h

/-- Until an `EndFrame` returns, a set resized flag stays set. -/
theorem run_keeps_flag {r r' : AxeRenderer} {calls : List Call}
    (h : r.axeWindow.framebufferResized = true) (hrun : run r calls = (r', .returned ()))
    (hno : endFrameCompleted r calls = false) : r'.axeWindow.framebufferResized = true := by
  induction calls generalizing r with
  | nil =>
    simp only [run, Prod.mk.injEq, and_true] at hrun
    subst hrun
    exact h
  | cons call later ih =>
    rw [run_cons] at hrun
    unfold endFrameCompleted at hno
    rcases hmk : call.make r with ⟨r₁, _ | f⟩
    · simp only [hmk] at hrun
      rw [hmk] at hno
      simp only [Bool.or_eq_false_iff] at hno
      have := Call.make_keeps_flag r call hno.1 h
      rw [hmk] at this
      exact ih this hrun hno.2
    · simp [hmk] at hrun

/-- C26: a `BeginFrame` whose acquire returned `VK_ERROR_OUT_OF_DATE_KHR` and that returns
(with no command buffer) has rebuilt the swap chain and has not cleared the resized flag of
the window: a flag that was set is still set, and when no framebuffer-size callback is
delivered during the rebuild (its events carry none, or the extent was nonzero so that it did
not wait) the window is unchanged. No call but `EndFrame` clears the flag. So if the flag is
set after that `BeginFrame`, then in the frame in progress reached by any further calls among
which no `EndFrame` returned (resize events or not) it is still set, the outcome of the
`EndFrame` of that frame whose end and submit succeed is the outcome of a `RecreateSwapChain`
whatever the present returned, and an `EndFrame` that returns has rebuilt the swap chain
again. -/
theorem BeginFrame_rebuild_keeps_resized_flag (r r' : AxeRenderer) (env : BeginFrameEnv)
    (hres : env.acquire.result = VK_ERROR_OUT_OF_DATE_KHR)
    (h : r.BeginFrame env = (r', .returned none)) :
    rebuilt r.axeDevice r'.axeDevice = true ∧
      (r.axeWindow.framebufferResized = true → r'.axeWindow.framebufferResized = true) ∧
      (((∀ callbacks ∈ env.recreate.events, callbacks = []) ∨
          (r.axeWindow.GetExtent.width ≠ 0 ∧ r.axeWindow.GetExtent.height ≠ 0)) →
        r'.axeWindow = r.axeWindow) ∧
      (∀ (x : AxeRenderer) (call : Call), call.isEndFrame = false →
        x.axeWindow.framebufferResized = true →
        (call.make x).1.axeWindow.framebufferResized = true) ∧
      (r'.axeWindow.framebufferResized = true →
        ∀ (calls : List Call) (r₁ : AxeRenderer), run r' calls = (r₁, .returned ()) →
          endFrameCompleted r' calls = false → r₁.isFrameStarted = true →
          r₁.axeWindow.framebufferResized = true ∧
            ∀ e : EndFrameEnv,
              (∀ sc, r₁.axeSwapChain = some sc → e.endResult = VK_SUCCESS →
                e.submit.submitResult = VK_SUCCESS →
                (r₁.EndFrame e).2 =
                  ((r₁.presentedStale sc e.submit).RecreateSwapChain e.recreate).2) ∧
              ∀ r₂, r₁.EndFrame e = (r₂, .returned ()) →
                rebuilt r₁.axeDevice r₂.axeDevice = true) := by
  have hcase : ∃ sc, r.isFrameStarted = false ∧ r.axeSwapChain = some sc ∧
      (r.acquired sc env.acquire).RecreateSwapChain env.recreate = (r', .returned ()) := by
    rcases BeginFrame_cases r env with ⟨_, f, hf⟩ |
      ⟨sc, hidle, hsc, ⟨_, hb⟩ | ⟨_, f, hf⟩ | ⟨hok, _, _⟩⟩
    · rw [h] at hf
      cases hf
    · refine ⟨sc, hidle, hsc, ?_⟩
      rw [h] at hb
      rcases hrr : (r.acquired sc env.acquire).RecreateSwapChain env.recreate with ⟨r₂, _ | f⟩
      · rw [hrr] at hb
        simp only [Prod.mk.injEq] at hb
        rw [hb.1]
      · rw [hrr] at hb
        simp [Outcome.asNone] at hb
    · rw [h] at hf
      cases hf
    · rw [hres] at hok
      rcases hok with hok | hok <;> exact absurd hok (by decide)
  obtain ⟨sc, hidle, hsc, hrr⟩ := hcase
  refine ⟨?_, ?_, ?_, Call.make_keeps_flag, ?_⟩
  · exact rebuilt_of_RecreateSwapChain (b := r.axeDevice)
      ((acquired_appends r sc env.acquire).mono (fun _ _ => trivial)) hrr
  · intro hflag
    have := RecreateSwapChain_flag (r.acquired sc env.acquire) env.recreate hflag
    rw [hrr] at this
    exact this
  · intro hq
    rcases hq with hq | hq
    · have := RecreateSwapChain_window (r.acquired sc env.acquire) env.recreate hq
      rw [hrr] at this
      exact this
    · have := RecreateSwapChain_window_nonzero (r.acquired sc env.acquire) env.recreate
        hq.1 hq.2
      rw [hrr] at this
      exact this
  · intro hflag calls r₁ hrun hno hprog
    have hflag₁ := run_keeps_flag hflag hrun hno
    refine ⟨hflag₁, fun e => ⟨?_, ?_⟩⟩
    · intro sc₁ hsc₁ hend hsub
      rw [EndFrame_rebuilds r₁ sc₁ e hprog hsc₁ hend hsub (Or.inr (Or.inr hflag₁))]
      rcases (r₁.presentedStale sc₁ e.submit).RecreateSwapChain e.recreate with ⟨r₂, _ | f⟩ <;>
        rfl
    · intro r₂ he
      exact ((EndFrame_returned r₁ r₂ e hprog he).1).2 (Or.inr (Or.inr hflag₁))

theorem BeginFrame_rebuild_keeps_resized_flag_witness :
    sampleResized.axeWindow.framebufferResized = true ∧
      sampleResizedRebuilt.axeWindow = sampleResized.axeWindow ∧
      (sampleEnd VK_SUCCESS).submit.presentResult = VK_SUCCESS ∧
      (run sampleResizedRebuilt [.BeginFrame (sampleBegin VK_SUCCESS 0),
        .EndFrame (sampleEnd VK_SUCCESS)]).2 = .returned () ∧
      rebuilt sampleResized.axeDevice sampleResizedRebuilt.axeDevice = true ∧
      rebuilt (run sampleResizedRebuilt [.BeginFrame (sampleBegin VK_SUCCESS 0)]).1.axeDevice
        (run sampleResizedRebuilt [.BeginFrame (sampleBegin VK_SUCCESS 0),
          .EndFrame (sampleEnd VK_SUCCESS)]).1.axeDevice = true :=
  ⟨by rfl,
    (BeginFrame_rebuild_keeps_resized_flag sampleResized sampleResizedRebuilt
      (sampleBegin VK_ERROR_OUT_OF_DATE_KHR 0) (by rfl) (by rfl)).2.2.1
      (Or.inl (fun _ hc => by cases hc)),
    by rfl, by rfl,
    (BeginFrame_rebuild_keeps_resized_flag sampleResized sampleResizedRebuilt
      (sampleBegin VK_ERROR_OUT_OF_DATE_KHR 0) (by rfl) (by rfl)).1,
    ((BeginFrame_rebuild_keeps_resized_flag sampleResized sampleResizedRebuilt
      (sampleBegin VK_ERROR_OUT_OF_DATE_KHR 0) (by rfl) (by rfl)).2.2.2.2 (by rfl)
      [.BeginFrame (sampleBegin VK_SUCCESS 0)]
      (run sampleResizedRebuilt [.BeginFrame (sampleBegin VK_SUCCESS 0)]).1 (by rfl) (by rfl)
      (by rfl)).2 (sampleEnd VK_SUCCESS) |>.2
      (run sampleResizedRebuilt [.BeginFrame (sampleBegin VK_SUCCESS 0),
          .EndFrame (sampleEnd VK_SUCCESS)]).1 (by rfl)⟩

/-! ## The command target from frame to frame (C27) -/

theorem Call.make_fields (r : AxeRenderer) (call : Call) :
    (call.make r).1.commandBuffers = r.commandBuffers ∧
      (call.make r).1.currentFrameIndex =
        if call.isEndFrame = true ∧ (call.make r).2 = .returned () then
          (r.currentFrameIndex + 1) % 2
        else r.currentFrameIndex := by
  cases call with
  | glfwPollEvents callbacks => exact ⟨rfl, by simp [Call.isEndFrame, Call.make]⟩
  | BeginFrame env =>
    rw [(Call.make_BeginFrame r env).1]
    exact ⟨(BeginFrame_fields r env).1, by simpa [Call.isEndFrame] using (BeginFrame_fields r env).2⟩
  | EndFrame env =>
    refine ⟨(EndFrame_fields r env).1, ?_⟩
    simpa [Call.isEndFrame, Call.make] using (EndFrame_fields r env).2
  | BeginSwapChainRenderPass cb =>
    obtain ⟨_, h2, h3, _⟩ := BeginSwapChainRenderPass_protocol r cb
    exact ⟨h3, by simpa [Call.isEndFrame] using h2⟩
  | EndSwapChainRenderPass cb =>
    obtain ⟨_, h2, h3, _⟩ := EndSwapChainRenderPass_protocol r cb
    exact ⟨h3, by simpa [Call.isEndFrame] using h2⟩

/-- The frame index after a run is the frame index before it plus the number of `EndFrame`
calls that returned, modulo 2; the command buffers stay. -/
theorem run_frame_index {r r' : AxeRenderer} {calls : List Call}
    (hidx : r.currentFrameIndex < 2) (hrun : run r calls = (r', .returned ())) :
    r'.commandBuffers = r.commandBuffers ∧
      r'.currentFrameIndex = (r.currentFrameIndex + framesEnded r calls) % 2 := by
  induction calls generalizing r with
  | nil =>
    simp only [run, Prod.mk.injEq, and_true] at hrun
    subst hrun
    exact ⟨rfl, by simp only [framesEnded]; omega⟩
  | cons call later ih =>
    rw [run_cons] at hrun
    have hf := Call.make_fields r call
    unfold framesEnded
    rcases hmk : call.make r with ⟨r₁, _ | f⟩
    · simp only [hmk] at hrun
      rw [hmk] at hf
      simp only [and_true] at hf
      have hidx₁ : r₁.currentFrameIndex < 2 := by
        rw [hf.2]
        split
        · exact Nat.mod_lt _ (by decide)
        · exact hidx
      obtain ⟨h₁, h₂⟩ := ih hidx₁ hrun
      refine ⟨h₁.trans hf.1, ?_⟩
      rw [h₂, hf.2]
      by_cases hc : call.isEndFrame = true
      · simp only [hc, ↓reduceIte]
        omega
      · simp only [hc, ↓reduceIte, Bool.false_eq_true]
        omega
    · simp [hmk] at hrun

theorem Call.make_has_swapChain {r r' : AxeRenderer} {call : Call}
    (hsc : ∃ sc, r.axeSwapChain = some sc) (h : call.make r = (r', .returned ())) :
    ∃ sc, r'.axeSwapChain = some sc := by
  obtain ⟨sc, hsc⟩ := hsc
  cases call with
  | glfwPollEvents callbacks =>
    simp only [Call.make, Prod.mk.injEq, and_true] at h
    subst h
    exact ⟨sc, hsc⟩
  | BeginFrame env =>
    have h₁ := (Call.make_BeginFrame r env).1
    have h₂ := (Call.make_BeginFrame r env).2.1 (by rw [h])
    rw [h] at h₁
    change r' = _ at h₁
    obtain ⟨v, hv⟩ := h₂
    rcases BeginFrame_cases r env with ⟨_, f, hf⟩ |
      ⟨sc', _, hsc', ⟨_, hb⟩ | ⟨_, f, hf⟩ | ⟨_, hb, _⟩⟩
    · rw [hv] at hf
      cases hf
    · rcases hrr : (r.acquired sc' env.acquire).RecreateSwapChain env.recreate with ⟨r₂, _ | f⟩
      · have hr' : r' = r₂ := by rw [h₁, hb, hrr]
        subst hr'
        obtain ⟨new, _, _, _, hnew, _⟩ := RecreateSwapChain_returned hrr
        exact ⟨new, hnew⟩
      · rw [hb, hrr] at hv
        cases hv
    · rw [hv] at hf
      cases hf
    · rw [h₁, hb]
      exact ⟨sc, hsc⟩
  | EndFrame env =>
    obtain ⟨sc', _, _, _, _, ⟨_, r₂, hrr, hr'⟩ | ⟨_, hr'⟩⟩ :=
      EndFrame_returned_submitted (show r.EndFrame env = (r', .returned ()) from h)
    · obtain ⟨new, _, _, _, hnew, _⟩ := RecreateSwapChain_returned hrr
      subst hr'
      exact ⟨new, hnew⟩
    · subst hr'
      exact ⟨_, rfl⟩
  | BeginSwapChainRenderPass cb =>
    obtain ⟨_, _, _, h4⟩ := BeginSwapChainRenderPass_protocol r cb
    simp only [Call.make] at h
    rw [h] at h4
    exact ⟨sc, h4.trans hsc⟩
  | EndSwapChainRenderPass cb =>
    obtain ⟨_, _, _, h4⟩ := EndSwapChainRenderPass_protocol r cb
    simp only [Call.make] at h
    rw [h] at h4
    exact ⟨sc, h4.trans hsc⟩

theorem run_has_swapChain {r r' : AxeRenderer} {calls : List Call}
    (hsc : ∃ sc, r.axeSwapChain = some sc) (hrun : run r calls = (r', .returned ())) :
    ∃ sc, r'.axeSwapChain = some sc := by
  induction calls generalizing r with
  | nil =>
    simp only [run, Prod.mk.injEq, and_true] at hrun
    subst hrun
    exact hsc
  | cons call later ih =>
    rw [run_cons] at hrun
    rcases hmk : call.make r with ⟨r₁, _ | f⟩
    · simp only [hmk] at hrun
      exact ih (Call.make_has_swapChain hsc hmk) hrun
    · simp [hmk] at hrun

/-- C27: let the renderer hold two distinct command buffers and let a `BeginFrame` return the
target `target`. Whatever calls follow without a fault, in a frame in progress after an odd
number of `EndFrame` calls have returned since then (one: the next rendered frame)
`BeginSwapChainRenderPass` and `EndSwapChainRenderPass` reject `target` with their
different-frame assertion, and after an even number (two: the rendered frame after that)
`target` is the current command buffer again and both calls return. A `BeginFrame` that
returns no target leaves the command buffers and the frame index as they were. -/
theorem target_alternates_between_rendered_frames (r r₁ : AxeRenderer) (a b : VkCommandBuffer)
    (env : BeginFrameEnv) (target : VkCommandBuffer)
    (hcbs : r.commandBuffers = [a, b]) (hab : a ≠ b) (hidx : r.currentFrameIndex < 2)
    (h : r.BeginFrame env = (r₁, .returned (some target))) :
    r₁.GetCurrentCommandBuffer = .returned target ∧
      (∀ (calls : List Call) (r₂ : AxeRenderer), run r₁ calls = (r₂, .returned ()) →
        r₂.isFrameStarted = true →
        r₂.currentFrameIndex = (r.currentFrameIndex + framesEnded r₁ calls) % 2 ∧
        (framesEnded r₁ calls % 2 = 1 →
          r₂.GetCurrentCommandBuffer ≠ .returned target ∧
          r₂.BeginSwapChainRenderPass target = (r₂, .failed (.aborted
            "Cannot begin render pass on a command buffer from a different frame")) ∧
          r₂.EndSwapChainRenderPass target = (r₂, .failed (.aborted
            "Cannot end render pass on a command buffer from a different frame"))) ∧
        (framesEnded r₁ calls % 2 = 0 →
          r₂.GetCurrentCommandBuffer = .returned target ∧
          (r₂.BeginSwapChainRenderPass target).2 = .returned () ∧
          (r₂.EndSwapChainRenderPass target).2 = .returned ())) ∧
      (∀ (x x' : AxeRenderer) (e : BeginFrameEnv), x.BeginFrame e = (x', .returned none) →
        x'.commandBuffers = x.commandBuffers ∧ x'.currentFrameIndex = x.currentFrameIndex ∧
        x'.isFrameStarted = false ∧ framesEnded x [.BeginFrame e] = 0) := by
  obtain ⟨htarget, hsc₁⟩ := BeginFrame_returned_current h
  have hprog₁ := BeginFrame_returned_target h
  have hf := BeginFrame_fields r env
  rw [h] at hf
  obtain ⟨hcb₁, hidx₁⟩ := hf
  change r₁.commandBuffers = _ at hcb₁
  change r₁.currentFrameIndex = _ at hidx₁
  refine ⟨?_, ?_, ?_⟩
  · simp only [AxeRenderer.GetCurrentCommandBuffer, hprog₁, ↓reduceIte, htarget]
  · intro calls r₂ hrun hprog₂
    obtain ⟨hcb₂, hidx₂⟩ := run_frame_index (by rw [hidx₁]; exact hidx) hrun
    obtain ⟨sc₂, hsc₂⟩ := run_has_swapChain hsc₁ hrun
    rw [hidx₁] at hidx₂
    rw [hcb₁, hidx₁, hcbs] at htarget
    rw [hcb₁, hcbs] at hcb₂
    refine ⟨hidx₂, ?_, ?_⟩
    · intro hodd
      have hcur : target ≠ r₂.commandBuffers.getD r₂.currentFrameIndex 0 := by
        rw [hcb₂, hidx₂, ← htarget]
        have : r.currentFrameIndex = 0 ∨ r.currentFrameIndex = 1 := by omega
        rcases this with h0 | h1
        · rw [h0, show (0 + framesEnded r₁ calls) % 2 = 1 by omega]
          exact hab
        · rw [h1, show (1 + framesEnded r₁ calls) % 2 = 0 by omega]
          exact fun h => hab h.symm
      refine ⟨?_, BeginSwapChainRenderPass_other r₂ target hprog₂ hcur,
        EndSwapChainRenderPass_other r₂ target hprog₂ hcur⟩
      simp only [AxeRenderer.GetCurrentCommandBuffer, hprog₂, ↓reduceIte, ne_eq,
        Outcome.returned.injEq]
      exact fun h => hcur h.symm
    · intro heven
      have hcur : r₂.commandBuffers.getD r₂.currentFrameIndex 0 = target := by
        rw [hcb₂, hidx₂, ← htarget]
        have : r.currentFrameIndex = 0 ∨ r.currentFrameIndex = 1 := by omega
        rcases this with h0 | h1
        · rw [h0, show (0 + framesEnded r₁ calls) % 2 = 0 by omega]
        · rw [h1, show (1 + framesEnded r₁ calls) % 2 = 1 by omega]
      refine ⟨?_, ?_, ?_⟩
      · simp only [AxeRenderer.GetCurrentCommandBuffer, hprog₂, ↓reduceIte, hcur]
      · rw [← hcur, BeginSwapChainRenderPass_current r₂ sc₂ hprog₂ hsc₂]
      · rw [← hcur, EndSwapChainRenderPass_current r₂ hprog₂]
  · intro x x' e he
    have hf := BeginFrame_fields x e
    rw [he] at hf
    refine ⟨hf.1, hf.2, BeginFrame_returned_none he, ?_⟩
    simp [framesEnded, Call.make, he, Call.isEndFrame]

theorem target_alternates_between_rendered_frames_witness :
    sampleRenderer.commandBuffers = [27, 28] ∧
      sampleInProgress.GetCurrentCommandBuffer = .returned 27 ∧
      (run sampleInProgress [.EndFrame (sampleEnd VK_SUCCESS),
        .BeginFrame (sampleBegin VK_SUCCESS 1)]).1.BeginSwapChainRenderPass 27 =
        ((run sampleInProgress [.EndFrame (sampleEnd VK_SUCCESS),
          .BeginFrame (sampleBegin VK_SUCCESS 1)]).1, .failed (.aborted
            "Cannot begin render pass on a command buffer from a different frame")) ∧
      ((run sampleInProgress [.EndFrame (sampleEnd VK_SUCCESS),
        .BeginFrame (sampleBegin VK_SUCCESS 1), .EndFrame (sampleEnd VK_SUCCESS),
        .BeginFrame (sampleBegin VK_ERROR_OUT_OF_DATE_KHR 0),
        .BeginFrame (sampleBegin VK_SUCCESS 2)]).1.BeginSwapChainRenderPass 27).2 =
        .returned () :=
  ⟨by rfl,
    (target_alternates_between_rendered_frames sampleRenderer sampleInProgress 27 28
      (sampleBegin VK_SUCCESS 0) 27 (by rfl) (by decide) (by decide) (by rfl)).1,
    ((target_alternates_between_rendered_frames sampleRenderer sampleInProgress 27 28
      (sampleBegin VK_SUCCESS 0) 27 (by rfl) (by decide) (by decide) (by rfl)).2.1
      [.EndFrame (sampleEnd VK_SUCCESS), .BeginFrame (sampleBegin VK_SUCCESS 1)] _ (by rfl)
      (by rfl)).2.1 (by rfl) |>.2.1,
    ((target_alternates_between_rendered_frames sampleRenderer sampleInProgress 27 28
      (sampleBegin VK_SUCCESS 0) 27 (by rfl) (by decide) (by decide) (by rfl)).2.1
      [.EndFrame (sampleEnd VK_SUCCESS), .BeginFrame (sampleBegin VK_SUCCESS 1),
        .EndFrame (sampleEnd VK_SUCCESS), .BeginFrame (sampleBegin VK_ERROR_OUT_OF_DATE_KHR 0),
        .BeginFrame (sampleBegin VK_SUCCESS 2)] _ (by rfl) (by rfl)).2.2 (by rfl) |>.2.1⟩

/-! ## The vertices and indices `LoadModel` leaves (C29) -/

theorem AxeModel.Vertex.eq_iff {F : Type} [DecidableEq F] (a b : Vertex F) : a.eq b = true ↔ a = b := by
  cases a
  cases b
  simp [Vertex.eq, and_assoc]

theorem AxeModel.UniqueVertices.contains_append {F : Type} [DecidableEq F] (m : UniqueVertices F)
    (w v : Vertex F) (n : Nat) :
    UniqueVertices.contains (m ++ [(w, n)]) v = (m.contains v || decide (w = v)) := by
  unfold UniqueVertices.contains
  rw [List.any_append]
  congr 1
  simp only [List.any_cons, List.any_nil, Bool.or_false]
  by_cases h : w = v
  · simp [h, (Vertex.eq_iff v v).2 rfl]
  · have : w.eq v = false := by
      rw [Bool.eq_false_iff]
      exact fun he => h ((Vertex.eq_iff w v).1 he)
    simp [h, this]

theorem AxeModel.UniqueVertices.get_append_of_contains {F : Type} [DecidableEq F] (m : UniqueVertices F)
    (w v : Vertex F) (n : Nat) (h : m.contains v = true) :
    UniqueVertices.get (m ++ [(w, n)]) v = m.get v := by
  unfold UniqueVertices.contains at h
  unfold UniqueVertices.get
  rw [List.find?_append]
  rw [List.any_eq_true] at h
  obtain ⟨e, he, hev⟩ := h
  rcases hf : List.find? (fun entry => entry.1.eq v) m with _ | found
  · rw [List.find?_eq_none] at hf
    exact absurd hev (hf e he)
  · rw [hf]
    rfl

theorem AxeModel.UniqueVertices.get_append_of_not_contains {F : Type} [DecidableEq F]
    (m : UniqueVertices F) (v : Vertex F) (n : Nat) (h : m.contains v = false) :
    UniqueVertices.get (m ++ [(v, n)]) v = n := by
  unfold UniqueVertices.contains at h
  unfold UniqueVertices.get
  rw [List.find?_append]
  have hf : List.find? (fun entry => entry.1.eq v) m = none := by
    rw [List.find?_eq_none]
    intro e he hev
    have : m.any (fun entry => entry.1.eq v) = true := List.any_eq_true.2 ⟨e, he, hev⟩
    rw [h] at this
    cases this
  rw [hf]
  simp [(Vertex.eq_iff v v).2 rfl]

theorem AxeModel.LoadInv.start {F : Type} [DecidableEq F] :
    LoadInv ([] : List (Vertex F)) ({ vertices := [], indices := [] }, []) :=
  ⟨List.nodup_nil, fun _ => Iff.rfl, List.Pairwise.nil,
    fun _ => (by simp [UniqueVertices.contains]), fun _ h => (by cases h), rfl⟩

theorem AxeModel.LoadInv.addVertex {F : Type} [DecidableEq F] {done : List (Vertex F)}
    {state : Data F × UniqueVertices F} (h : LoadInv done state) (w : Vertex F) :
    LoadInv (done ++ [w]) (addVertex state w) := by
  obtain ⟨data, m⟩ := state
  obtain ⟨hnodup, hmem, horder, hcontains, hget, hindices⟩ := h
  simp only at hnodup hmem horder hcontains hget hindices
  by_cases hw : w ∈ data.vertices
  · have hc : UniqueVertices.contains m w = true := by rw [hcontains]; simpa using hw
    have heq : AxeModel.addVertex (data, m) w =
        ({ data with indices := data.indices ++ [UniqueVertices.get m w] }, m) := by
      simp [AxeModel.addVertex, hc]
    rw [heq]
    refine ⟨hnodup, ?_, ?_, hcontains, hget, ?_⟩
    · intro v
      show v ∈ data.vertices ↔ v ∈ done ++ [w]
      rw [List.mem_append, hmem, List.mem_singleton]
      constructor
      · exact Or.inl
      · rintro (h | h)
        · exact h
        · rw [h]
          exact (hmem w).1 hw
    · show data.vertices.Pairwise _
      refine horder.imp_of_mem ?_
      intro a b ha hb hab
      rw [List.indexOf_append_of_mem ((hmem a).1 ha), List.indexOf_append_of_mem ((hmem b).1 hb)]
      exact hab
    · show data.indices ++ [UniqueVertices.get m w] = _
      rw [List.map_append, hindices, hget w hw]
      rfl
  · have hc : UniqueVertices.contains m w = false := by rw [hcontains]; simpa using hw
    have heq : AxeModel.addVertex (data, m) w =
        ({ vertices := data.vertices ++ [w],
           indices := data.indices ++
            [UniqueVertices.get (m ++ [(w, data.vertices.length % 2 ^ 32)]) w] },
          m ++ [(w, data.vertices.length % 2 ^ 32)]) := by
      simp [AxeModel.addVertex, hc]
    rw [heq]
    have hwdone : w ∉ done := fun h => hw ((hmem w).2 h)
    refine ⟨?_, ?_, ?_, ?_, ?_, ?_⟩
    · show (data.vertices ++ [w]).Nodup
      rw [List.nodup_append]
      refine ⟨hnodup, List.nodup_singleton w, ?_⟩
      intro a ha hb
      rw [List.mem_singleton] at hb
      exact hw (hb ▸ ha)
    · intro v
      show v ∈ data.vertices ++ [w] ↔ v ∈ done ++ [w]
      rw [List.mem_append, List.mem_append, hmem]
    · show (data.vertices ++ [w]).Pairwise _
      rw [List.pairwise_append]
      refine ⟨?_, List.pairwise_singleton _ _, ?_⟩
      · refine horder.imp_of_mem ?_
        intro a b ha hb hab
        rw [List.indexOf_append_of_mem ((hmem a).1 ha),
          List.indexOf_append_of_mem ((hmem b).1 hb)]
        exact hab
      · intro a ha b hb
        rw [List.mem_singleton] at hb
        subst hb
        rw [List.indexOf_append_of_mem ((hmem a).1 ha), List.indexOf_append_of_not_mem hwdone]
        have := List.indexOf_lt_length.2 ((hmem a).1 ha)
        omega
    · intro v
      show UniqueVertices.contains (m ++ [(w, data.vertices.length % 2 ^ 32)]) v =
        decide (v ∈ data.vertices ++ [w])
      rw [UniqueVertices.contains_append, hcontains]
      by_cases hv : v ∈ data.vertices <;> by_cases hvw : w = v <;>
        simp [hv, hvw, eq_comm]
    · intro v hv
      show UniqueVertices.get (m ++ [(w, data.vertices.length % 2 ^ 32)]) v =
        List.indexOf v (data.vertices ++ [w]) % 2 ^ 32
      by_cases hv' : v ∈ data.vertices
      · rw [UniqueVertices.get_append_of_contains _ _ _ _ (by rw [hcontains]; simpa using hv'),
          hget v hv', List.indexOf_append_of_mem hv']
      · have hvw : v = w := by
          rw [List.mem_append, List.mem_singleton] at hv
          exact hv.resolve_left hv'
        subst hvw
        rw [UniqueVertices.get_append_of_not_contains _ _ _ hc,
          List.indexOf_append_of_not_mem hv']
        simp
    · show data.indices ++ [UniqueVertices.get (m ++ [(w, data.vertices.length % 2 ^ 32)]) w] =
        (done ++ [w]).map (fun v => List.indexOf v (data.vertices ++ [w]) % 2 ^ 32)
      rw [List.map_append, hindices, UniqueVertices.get_append_of_not_contains _ _ _ hc]
      congr 1
      · apply List.map_congr_left
        intro v hv
        rw [List.indexOf_append_of_mem ((hmem v).2 hv)]
      · simp [List.indexOf_append_of_not_mem hw]

theorem AxeModel.LoadInv.foldl {F : Type} [DecidableEq F] (ws : List (Vertex F)) {done : List (Vertex F)}
    {state : Data F × UniqueVertices F} (h : LoadInv done state) :
    LoadInv (done ++ ws) (ws.foldl AxeModel.addVertex state) := by
  induction ws generalizing done state with
  | nil => simpa using h
  | cons w rest ih =>
    have := ih (h.addVertex w)
    rw [List.append_assoc] at this
    exact this

/-- The two nested loops of `LoadModel` visit the index entries of `entries` in order. -/
theorem AxeModel.LoadModel_loops {F : Type} [DecidableEq F] [Zero F] (attributes : tinyobj.attrib_t F)
    (shapes : List tinyobj.shape_t) (state : Data F × UniqueVertices F) :
    shapes.foldl (fun state shape =>
        shape.mesh.indices.foldl
          (fun state index => AxeModel.addVertex state (readVertex attributes index)) state)
      state =
    ((entries shapes).map (readVertex attributes)).foldl AxeModel.addVertex state := by
  induction shapes generalizing state with
  | nil => rfl
  | cons shape rest ih =>
    rw [List.foldl_cons, ih]
    simp only [entries, List.flatMap_cons, List.map_append, List.foldl_append, List.foldl_map]

/-- C29: when `tinyobj::LoadObj` succeeds, `LoadModel` returns, and with `built` the
vertices built from the index entries in the order the loops visit them, and at most `2 ^ 32`
vertices in the result, the vertex list holds no two vertices equal under `operator==`, holds
exactly the vertices that were built, and lists them in the order of their first occurrence
in `built`; the index list has one entry per index entry; every index is less than the number
of vertices; and `vertices[indices[k]]` is the vertex built from entry `k`, so that mapping
the indices through the vertex list gives `built` back. -/
theorem LoadModel_deduplicates {F : Type} [DecidableEq F] [Zero F] (data out : AxeModel.Data F)
    (attributes : tinyobj.attrib_t F) (shapes : List tinyobj.shape_t)
    (built : List (AxeModel.Vertex F))
    (hbuilt : built = (AxeModel.entries shapes).map (AxeModel.readVertex attributes))
    (hout : out = (data.LoadModel (.ok (attributes, shapes))).1)
    (hbound : out.vertices.length ≤ 2 ^ 32) :
    (data.LoadModel (.ok (attributes, shapes))).2 = .returned () ∧
      out.vertices.Pairwise (fun a b => a.eq b = false) ∧
      (∀ v, v ∈ out.vertices ↔ v ∈ built) ∧
      (∀ (i j : Nat) (hi : i < out.vertices.length) (hj : j < out.vertices.length), i < j →
        List.indexOf (out.vertices.get ⟨i, hi⟩) built <
          List.indexOf (out.vertices.get ⟨j, hj⟩) built) ∧
      out.indices.length = built.length ∧
      (∀ i ∈ out.indices, i < out.vertices.length) ∧
      (∀ k, k < built.length →
        ∃ i, out.indices[k]? = some i ∧ i < out.vertices.length ∧
          out.vertices[i]? = built[k]?) ∧
      out.indices.map (fun i => out.vertices[i]?) = built.map some := by
  have hinv : AxeModel.LoadInv built
      (((AxeModel.entries shapes).map (AxeModel.readVertex attributes)).foldl AxeModel.addVertex
        ({ vertices := [], indices := [] }, [])) := by
    have := AxeModel.LoadInv.foldl ((AxeModel.entries shapes).map (AxeModel.readVertex attributes))
      (AxeModel.LoadInv.start (F := F))
    rw [List.nil_append] at this
    rw [hbuilt]
    exact this
  have hfold : out = (((AxeModel.entries shapes).map (AxeModel.readVertex attributes)).foldl AxeModel.addVertex
      ({ vertices := [], indices := [] }, [])).1 := by
    rw [hout, ← AxeModel.LoadModel_loops]
    rfl
  obtain ⟨hnodup, hmem, horder, _, _, hindices⟩ := hinv
  rw [← hfold] at hnodup hmem horder hindices
  have hidx : ∀ v ∈ built, List.indexOf v out.vertices % 2 ^ 32 = List.indexOf v out.vertices ∧
      List.indexOf v out.vertices < out.vertices.length := by
    intro v hv
    have := List.indexOf_lt_length.2 ((hmem v).2 hv)
    exact ⟨Nat.mod_eq_of_lt (by omega), this⟩
  have hindices' : out.indices = built.map (fun v => List.indexOf v out.vertices) := by
    rw [hindices]
    exact List.map_congr_left (fun v hv => (hidx v hv).1)
  refine ⟨rfl, ?_, hmem, ?_, ?_, ?_, ?_, ?_⟩
  · refine hnodup.imp ?_
    intro a b hab
    rw [Bool.eq_false_iff]
    exact fun h => hab ((AxeModel.Vertex.eq_iff a b).1 h)
  · intro i j hi hj hij
    exact List.pairwise_iff_get.1 horder ⟨i, hi⟩ ⟨j, hj⟩ hij
  · rw [hindices', List.length_map]
  · intro i hi
    rw [hindices', List.mem_map] at hi
    obtain ⟨v, hv, rfl⟩ := hi
    exact (hidx v hv).2
  · intro k hk
    have hv : built[k] ∈ built := List.getElem_mem hk
    refine ⟨List.indexOf built[k] out.vertices, ?_, (hidx _ hv).2, ?_⟩
    · rw [hindices', List.getElem?_map, List.getElem?_eq_getElem hk]
      rfl
    · rw [List.getElem?_eq_getElem (hidx _ hv).2, List.getElem?_eq_getElem hk,
        List.getElem_indexOf]
  · rw [hindices', List.map_map]
    apply List.map_congr_left
    intro v hv
    show out.vertices[List.indexOf v out.vertices]? = some v
    rw [List.getElem?_eq_getElem (hidx v hv).2, List.getElem_indexOf]

theorem LoadModel_deduplicates_witness :
    ((AxeModel.Data.LoadModel ({ vertices := [], indices := [7] } : AxeModel.Data Int)
        (.ok (sampleAttributes, sampleShapes))).1.indices = [0, 1, 0, 2, 1]) ∧
      (AxeModel.Data.LoadModel ({ vertices := [], indices := [7] } : AxeModel.Data Int)
        (.ok (sampleAttributes, sampleShapes))).1.vertices.length = 3 ∧
      (AxeModel.Data.LoadModel ({ vertices := [], indices := [7] } : AxeModel.Data Int)
          (.ok (sampleAttributes, sampleShapes))).1.indices.length =
        ((AxeModel.entries sampleShapes).map (AxeModel.readVertex sampleAttributes)).length :=
  ⟨by rfl, by rfl,
    (LoadModel_deduplicates ({ vertices := [], indices := [7] } : AxeModel.Data Int) _ sampleAttributes
      sampleShapes _ rfl rfl (by decide)).2.2.2.2.1⟩

/-! ## The lights `PointLightSystem::Render` draws (C30) -/

theorem PointLightSystem.mem_assign {F : Type} [LinearOrder F] (key : F) (value : Nat)
    (m : List (F × Nat)) (hsorted : m.Pairwise (fun a b => a.1 < b.1)) (e : F × Nat) :
    e ∈ PointLightSystem.assign key value m ↔ e = (key, value) ∨ (e ∈ m ∧ e.1 ≠ key) := by
  induction m with
  | nil => simp [PointLightSystem.assign]
  | cons head rest ih =>
    obtain ⟨k, v⟩ := head
    rw [List.pairwise_cons] at hsorted
    obtain ⟨hhead, hrest⟩ := hsorted
    unfold PointLightSystem.assign
    by_cases h₁ : key < k
    · rw [if_pos h₁, List.mem_cons]
      constructor
      · rintro (h | h)
        · exact Or.inl h
        · refine Or.inr ⟨h, ?_⟩
          rw [List.mem_cons] at h
          rcases h with h | h
          · rw [h]
            exact ne_of_gt h₁
          · exact ne_of_gt (lt_trans h₁ (hhead e h))
      · rintro (h | ⟨h, _⟩)
        · exact Or.inl h
        · exact Or.inr h
    · rw [if_neg h₁]
      by_cases h₂ : k < key
      · rw [if_pos h₂, List.mem_cons, ih hrest, List.mem_cons]
        constructor
        · rintro (h | h | ⟨h, hne⟩)
          · refine Or.inr ⟨Or.inl h, ?_⟩
            rw [h]
            exact ne_of_lt h₂
          · exact Or.inl h
          · exact Or.inr ⟨Or.inr h, hne⟩
        · rintro (h | ⟨h | h, hne⟩)
          · exact Or.inr (Or.inl h)
          · exact Or.inl h
          · exact Or.inr (Or.inr ⟨h, hne⟩)
      · rw [if_neg h₂]
        have hk : k = key := le_antisymm (not_lt.1 h₁) (not_lt.1 h₂)
        subst hk
        rw [List.mem_cons, List.mem_cons]
        constructor
        · rintro (h | h)
          · exact Or.inl h
          · exact Or.inr ⟨Or.inr h, ne_of_gt (hhead e h)⟩
        · rintro (h | ⟨h | h, hne⟩)
          · exact Or.inl h
          · rw [h] at hne
            exact absurd rfl hne
          · exact Or.inr h

theorem PointLightSystem.assign_sorted {F : Type} [LinearOrder F] (key : F) (value : Nat)
    (m : List (F × Nat)) (hsorted : m.Pairwise (fun a b => a.1 < b.1)) :
    (PointLightSystem.assign key value m).Pairwise (fun a b => a.1 < b.1) := by
  induction m with
  | nil => simp [PointLightSystem.assign]
  | cons head rest ih =>
    obtain ⟨k, v⟩ := head
    have hsorted' := hsorted
    rw [List.pairwise_cons] at hsorted
    obtain ⟨hhead, hrest⟩ := hsorted
    unfold PointLightSystem.assign
    by_cases h₁ : key < k
    · rw [if_pos h₁, List.pairwise_cons]
      refine ⟨?_, hsorted'⟩
      intro e he
      rw [List.mem_cons] at he
      rcases he with he | he
      · rw [he]
        exact h₁
      · exact lt_trans h₁ (hhead e he)
    · rw [if_neg h₁]
      by_cases h₂ : k < key
      · rw [if_pos h₂, List.pairwise_cons]
        refine ⟨?_, ih hrest⟩
        intro e he
        rw [PointLightSystem.mem_assign key value rest hrest] at he
        rcases he with he | ⟨he, _⟩
        · rw [he]
          exact h₂
        · exact hhead e he
      · rw [if_neg h₂, List.pairwise_cons]
        exact ⟨hhead, hrest⟩

/-- What holds of `sortedLights` once the first loop has visited the entries `done`. -/
theorem PointLightSystem.sortLights_foldl {F : Type} [LinearOrder F] [Add F] [Sub F] [Mul F]
    (cameraPosition : Vec3 F) (todo done : AxeGameObject.Map F) (m : List (F × Nat))
    (hsorted : m.Pairwise (fun a b => a.1 < b.1))
    (hfrom : ∀ e ∈ m, ∃ entry ∈ done, entry.2.pointLight.isSome = true ∧
      PointLightSystem.distanceSquared cameraPosition entry.2 = e.1 ∧ entry.2.GetId = e.2)
    (hcover : ∀ entry ∈ done, entry.2.pointLight.isSome = true →
      ∃ e ∈ m, e.1 = PointLightSystem.distanceSquared cameraPosition entry.2) :
    (todo.foldl (fun sortedLights entry =>
        match entry.2.pointLight with
        | none => sortedLights
        | some _ =>
          PointLightSystem.assign (PointLightSystem.distanceSquared cameraPosition entry.2)
            entry.2.GetId sortedLights) m).Pairwise (fun a b => a.1 < b.1) ∧
      (∀ e ∈ todo.foldl (fun sortedLights entry =>
          match entry.2.pointLight with
          | none => sortedLights
          | some _ =>
            PointLightSystem.assign (PointLightSystem.distanceSquared cameraPosition entry.2)
              entry.2.GetId sortedLights) m,
        ∃ entry ∈ done ++ todo, entry.2.pointLight.isSome = true ∧
          PointLightSystem.distanceSquared cameraPosition entry.2 = e.1 ∧
          entry.2.GetId = e.2) ∧
      (∀ entry ∈ done ++ todo, entry.2.pointLight.isSome = true →
        ∃ e ∈ todo.foldl (fun sortedLights entry =>
          match entry.2.pointLight with
          | none => sortedLights
          | some _ =>
            PointLightSystem.assign (PointLightSystem.distanceSquared cameraPosition entry.2)
              entry.2.GetId sortedLights) m,
          e.1 = PointLightSystem.distanceSquared cameraPosition entry.2) := by
  induction todo generalizing done m with
  | nil =>
    simp only [List.foldl_nil, List.append_nil]
    exact ⟨hsorted, hfrom, hcover⟩
  | cons x rest ih =>
    rw [List.foldl_cons]
    have happ : done ++ x :: rest = (done ++ [x]) ++ rest := by simp
    rw [happ]
    rcases hx : x.2.pointLight with _ | light
    · refine ih (done ++ [x]) m hsorted ?_ ?_
      · intro e he
        obtain ⟨entry, hentry, h⟩ := hfrom e he
        exact ⟨entry, List.mem_append_left _ hentry, h⟩
      · intro entry hentry hlight
        rw [List.mem_append, List.mem_singleton] at hentry
        rcases hentry with hentry | hentry
        · exact hcover entry hentry hlight
        · rw [hentry, hx] at hlight
          cases hlight
    · refine ih (done ++ [x]) _ (PointLightSystem.assign_sorted _ _ m hsorted) ?_ ?_
      · intro e he
        rw [PointLightSystem.mem_assign _ _ m hsorted] at he
        rcases he with he | ⟨he, _⟩
        · refine ⟨x, by simp, by rw [hx]; rfl, ?_, ?_⟩
          · rw [he]
          · rw [he]
        · obtain ⟨entry, hentry, h⟩ := hfrom e he
          exact ⟨entry, List.mem_append_left _ hentry, h⟩
      · intro entry hentry hlight
        rw [List.mem_append, List.mem_singleton] at hentry
        have hnew : ((PointLightSystem.distanceSquared cameraPosition x.2, x.2.GetId) : F × Nat) ∈
            PointLightSystem.assign (PointLightSystem.distanceSquared cameraPosition x.2)
              x.2.GetId m :=
          (PointLightSystem.mem_assign _ _ m hsorted _).2 (Or.inl rfl)
        rcases hentry with hentry | hentry
        · obtain ⟨e, he, hd⟩ := hcover entry hentry hlight
          by_cases hsame : e.1 = PointLightSystem.distanceSquared cameraPosition x.2
          · exact ⟨_, hnew, by rw [← hd, hsame]⟩
          · exact ⟨e, (PointLightSystem.mem_assign _ _ m hsorted _).2 (Or.inr ⟨he, hsame⟩), hd⟩
        · rw [hentry]
          exact ⟨_, hnew, rfl⟩

theorem AxeGameObject.Map.at_of_mem {F : Type} (gameObjects : AxeGameObject.Map F)
    (hnodup : (gameObjects.map (fun entry => entry.1)).Nodup) (entry : Nat × AxeGameObject F)
    (hentry : entry ∈ gameObjects) : gameObjects.at entry.1 = some entry.2 := by
  induction gameObjects with
  | nil => cases hentry
  | cons head rest ih =>
    rw [List.map_cons, List.nodup_cons] at hnodup
    unfold AxeGameObject.Map.at
    rw [List.mem_cons] at hentry
    rcases hentry with hentry | hentry
    · subst hentry
      simp
    · have hne : head.1 ≠ entry.1 := by
        intro h
        exact hnodup.1 (h ▸ List.mem_map_of_mem (fun entry => entry.1) hentry)
      have := ih hnodup.2 hentry
      unfold AxeGameObject.Map.at at this
      rw [List.find?_cons_of_neg _ (by simpa using hne)]
      exact this

/-- The second loop draws every entry of the map whose id names a point light. -/
theorem PointLightSystem.drawLights_of_lights {F : Type} [LinearOrder F] [Add F] [Sub F]
    [Mul F] [One F] (frameInfo : FrameInfo F)
    (hkeys : ∀ entry ∈ frameInfo.gameObjects, entry.1 = entry.2.GetId)
    (hnodup : (frameInfo.gameObjects.map (fun entry => entry.1)).Nodup)
    (ms : List (F × Nat))
    (hms : ∀ e ∈ ms, ∃ entry ∈ frameInfo.gameObjects, entry.2.pointLight.isSome = true ∧
      PointLightSystem.distanceSquared frameInfo.cameraPosition entry.2 = e.1 ∧
      entry.2.GetId = e.2) :
    ∃ drawn : List (AxeGameObject F × PointLightComponent F),
      PointLightSystem.drawLights frameInfo ms =
        (drawn.flatMap (fun light =>
          [ RenderCall.vkCmdPushConstants frameInfo.commandBuffer
              (PointLightSystem.pushConstants light.1 light.2),
            RenderCall.vkCmdDraw frameInfo.commandBuffer 6 1 0 0 ]), .returned ()) ∧
      drawn.map (fun light =>
        PointLightSystem.distanceSquared frameInfo.cameraPosition light.1) =
          ms.map (fun e => e.1) ∧
      ∀ light ∈ drawn, light.1 ∈ frameInfo.gameObjects.map (fun entry => entry.2) ∧
        light.1.pointLight = some light.2 := by
  induction ms with
  | nil => exact ⟨[], rfl, rfl, fun _ h => by cases h⟩
  | cons e rest ih =>
    obtain ⟨drawn, hdraw, hdist, hmem⟩ := ih (fun e he => hms e (List.mem_cons_of_mem _ he))
    obtain ⟨entry, hentry, hlight, hd, hid⟩ := hms e (List.mem_cons_self _ _)
    obtain ⟨d, id⟩ := e
    simp only at hd hid
    have hat : frameInfo.gameObjects.at id = some entry.2 := by
      have := AxeGameObject.Map.at_of_mem frameInfo.gameObjects hnodup entry hentry
      rw [hkeys entry hentry, hid] at this
      exact this
    rcases hpl : entry.2.pointLight with _ | pointLight
    · rw [hpl] at hlight
      cases hlight
    refine ⟨(entry.2, pointLight) :: drawn, ?_, ?_, ?_⟩
    · simp only [PointLightSystem.drawLights, hat, hpl, hdraw, List.flatMap_cons]
    · rw [List.map_cons, List.map_cons, hdist, hd]
    · intro light hl
      rw [List.mem_cons] at hl
      rcases hl with hl | hl
      · rw [hl]
        exact ⟨List.mem_map_of_mem (fun entry => entry.2) hentry, hpl⟩
      · exact hmem light hl

theorem RenderCall.draws_flatMap {F : Type} {α : Type} (commandBuffer : VkCommandBuffer)
    (push : α → PointLightPushConstants F) (drawn : List α) :
    ((drawn.flatMap (fun light =>
      [ RenderCall.vkCmdPushConstants commandBuffer (push light),
        RenderCall.vkCmdDraw commandBuffer 6 1 0 0 ])).filter RenderCall.isDraw).length =
      drawn.length := by
  induction drawn with
  | nil => rfl
  | cons light rest ih =>
    rw [List.flatMap_cons, List.filter_append, List.length_append, ih]
    simp [RenderCall.isDraw, Nat.add_comm]

/-- C30: for a frame whose object map is keyed by the ids of its objects, `Render` returns,
and after binding the pipeline and the descriptor set it records one push-constants and
`vkCmdDraw( 6, 1, 0, 0 )` pair per entry of a list `drawn` of objects of the frame that all
have a point-light component, whose squared camera distances are strictly decreasing and are
exactly the squared camera distances of the point lights of the frame: the number of draws is
the number of distinct squared distances among the point lights. In `sampleFrame` the point
lights 1 and 3 are both at squared distance 4 and light 2 is at 9; `Render` draws twice, light
2 and then light 3, and records nothing for light 1. -/
theorem Render_draws_one_light_per_distance {F : Type} [LinearOrder F] [Add F] [Sub F]
    [Mul F] [One F] (frameInfo : FrameInfo F)
    (hkeys : ∀ entry ∈ frameInfo.gameObjects, entry.1 = entry.2.GetId)
    (hnodup : (frameInfo.gameObjects.map (fun entry => entry.1)).Nodup) :
    (PointLightSystem.Render frameInfo).2 = .returned () ∧
      (∃ drawn : List (AxeGameObject F × PointLightComponent F),
        (PointLightSystem.Render frameInfo).1 =
          [ RenderCall.vkCmdBindPipeline frameInfo.commandBuffer,
            RenderCall.vkCmdBindDescriptorSets frameInfo.commandBuffer
              frameInfo.globalDescriptorSet ] ++
            drawn.flatMap (fun light =>
              [ RenderCall.vkCmdPushConstants frameInfo.commandBuffer
                  (PointLightSystem.pushConstants light.1 light.2),
                RenderCall.vkCmdDraw frameInfo.commandBuffer 6 1 0 0 ]) ∧
        (∀ light ∈ drawn, light.1 ∈ frameInfo.gameObjects.map (fun entry => entry.2) ∧
          light.1.pointLight = some light.2) ∧
        (drawn.map (fun light =>
          PointLightSystem.distanceSquared frameInfo.cameraPosition light.1)).Pairwise
            (fun a b => b < a) ∧
        (∀ d, d ∈ drawn.map (fun light =>
            PointLightSystem.distanceSquared frameInfo.cameraPosition light.1) ↔
          ∃ gameObject ∈ PointLightSystem.lights frameInfo,
            PointLightSystem.distanceSquared frameInfo.cameraPosition gameObject = d) ∧
        drawn.length = ((PointLightSystem.lights frameInfo).map
          (PointLightSystem.distanceSquared frameInfo.cameraPosition)).toFinset.card) ∧
      ((PointLightSystem.Render frameInfo).1.filter RenderCall.isDraw).length =
        ((PointLightSystem.lights frameInfo).map
          (PointLightSystem.distanceSquared frameInfo.cameraPosition)).toFinset.card ∧
      (sampleObject 1 (2, 0, 0) true ∈ PointLightSystem.lights sampleFrame ∧
        sampleObject 3 (0, 0, 2) true ∈ PointLightSystem.lights sampleFrame ∧
        PointLightSystem.distanceSquared sampleFrame.cameraPosition
            (sampleObject 1 (2, 0, 0) true) = 4 ∧
        PointLightSystem.distanceSquared sampleFrame.cameraPosition
            (sampleObject 3 (0, 0, 2) true) = 4 ∧
        PointLightSystem.Render sampleFrame =
          ([ RenderCall.vkCmdBindPipeline 27, RenderCall.vkCmdBindDescriptorSets 27 40,
            RenderCall.vkCmdPushConstants 27
              (PointLightSystem.pushConstants (sampleObject 2 (0, 3, 0) true)
                { lightIntensity := 5 }),
            RenderCall.vkCmdDraw 27 6 1 0 0,
            RenderCall.vkCmdPushConstants 27
              (PointLightSystem.pushConstants (sampleObject 3 (0, 0, 2) true)
                { lightIntensity := 5 }),
            RenderCall.vkCmdDraw 27 6 1 0 0 ], .returned ()) ∧
        RenderCall.vkCmdPushConstants 27
            (PointLightSystem.pushConstants (sampleObject 1 (2, 0, 0) true)
              { lightIntensity := 5 }) ∉ (PointLightSystem.Render sampleFrame).1) := by
  obtain ⟨hsorted, hfrom, hcover⟩ := PointLightSystem.sortLights_foldl
    frameInfo.cameraPosition frameInfo.gameObjects [] [] List.Pairwise.nil
    (fun _ h => by cases h) (fun _ h => by cases h)
  rw [List.nil_append] at hfrom hcover
  change (PointLightSystem.sortLights frameInfo).Pairwise _ at hsorted
  change ∀ e ∈ PointLightSystem.sortLights frameInfo, _ at hfrom
  change ∀ entry ∈ frameInfo.gameObjects, entry.2.pointLight.isSome = true →
    ∃ e ∈ PointLightSystem.sortLights frameInfo, _ at hcover
  obtain ⟨drawn, hdraw, hdist, hmem⟩ := PointLightSystem.drawLights_of_lights frameInfo hkeys
    hnodup (PointLightSystem.sortLights frameInfo).reverse
    (fun e he => hfrom e (List.mem_reverse.1 he))
  have hdecr : (drawn.map (fun light =>
      PointLightSystem.distanceSquared frameInfo.cameraPosition light.1)).Pairwise
        (fun a b => b < a) := by
    rw [hdist, List.map_reverse, List.pairwise_reverse, List.pairwise_map]
    exact hsorted
  have hiff : ∀ d, d ∈ drawn.map (fun light =>
      PointLightSystem.distanceSquared frameInfo.cameraPosition light.1) ↔
      ∃ gameObject ∈ PointLightSystem.lights frameInfo,
        PointLightSystem.distanceSquared frameInfo.cameraPosition gameObject = d := by
    intro d
    rw [hdist, List.map_reverse, List.mem_reverse, List.mem_map]
    constructor
    · rintro ⟨e, he, rfl⟩
      obtain ⟨entry, hentry, hlight, hd, _⟩ := hfrom e he
      refine ⟨entry.2, ?_, hd⟩
      unfold PointLightSystem.lights
      rw [List.mem_filter]
      exact ⟨List.mem_map_of_mem (fun entry => entry.2) hentry, hlight⟩
    · rintro ⟨gameObject, hg, rfl⟩
      unfold PointLightSystem.lights at hg
      rw [List.mem_filter, List.mem_map] at hg
      obtain ⟨⟨entry, hentry, rfl⟩, hlight⟩ := hg
      obtain ⟨e, he, hd⟩ := hcover entry hentry hlight
      exact ⟨e, he, hd⟩
  have hcard : drawn.length = ((PointLightSystem.lights frameInfo).map
      (PointLightSystem.distanceSquared frameInfo.cameraPosition)).toFinset.card := by
    have hnd : (drawn.map (fun light =>
        PointLightSystem.distanceSquared frameInfo.cameraPosition light.1)).Nodup :=
      hdecr.imp (fun h => ne_of_gt h)
    rw [← List.length_map drawn (fun light =>
      PointLightSystem.distanceSquared frameInfo.cameraPosition light.1),
      ← List.toFinset_card_of_nodup hnd]
    congr 1
    ext d
    rw [List.mem_toFinset, List.mem_toFinset, hiff, List.mem_map]
  have hcalls : (PointLightSystem.Render frameInfo).1 =
      [ RenderCall.vkCmdBindPipeline frameInfo.commandBuffer,
        RenderCall.vkCmdBindDescriptorSets frameInfo.commandBuffer
          frameInfo.globalDescriptorSet ] ++
        drawn.flatMap (fun light =>
          [ RenderCall.vkCmdPushConstants frameInfo.commandBuffer
              (PointLightSystem.pushConstants light.1 light.2),
            RenderCall.vkCmdDraw frameInfo.commandBuffer 6 1 0 0 ]) := by
    unfold PointLightSystem.Render
    rw [hdraw]
  refine ⟨?_, ⟨drawn, hcalls, hmem, hdecr, hiff, hcard⟩, ?_, ?_⟩
  · unfold PointLightSystem.Render
    rw [hdraw]
  · rw [hcalls, List.filter_append, List.length_append, RenderCall.draws_flatMap, ← hcard]
    simp [RenderCall.isDraw]
  · exact ⟨by decide, by decide, by rfl, by rfl, by rfl, by decide⟩

theorem Render_draws_one_light_per_distance_witness :
    ((PointLightSystem.Render sampleFrame).1.filter RenderCall.isDraw).length = 2 ∧
      (PointLightSystem.lights sampleFrame).length = 3 ∧
      ((PointLightSystem.lights sampleFrame).map
        (PointLightSystem.distanceSquared sampleFrame.cameraPosition)).toFinset.card = 2 :=
  ⟨by rfl, by rfl,
    (Render_draws_one_light_per_distance sampleFrame (by decide) (by decide)).2.2.1.symm.trans
      (by rfl)⟩

end Axe
